import Mathlib

/-!
# SpatialGDK identity cache: a shallow embedding

Embedding of `FSpatialNetGUIDCache` / `USpatialPackageMapClient`
(`SpatialPackageMapClient.cpp`) and of `FUnrealObjectRef` (`UnrealObjectRef.h`).

Conventions.
* A `UObject*` is a value of `UObjectPtr`: either `nullptr` or an object with an
  address, a name, the engine's `IsDynamicObject` answer and its outer pointer.
  Outer chains are therefore finite.
* A `TMap` is an association list with `Find`, `Contains`, `Emplace`, `Remove`; keys
  are compared structurally, which for `FUnrealObjectRef` is what `operator==` decides.
* `check` is an assertion: a failed one ends the call with `Result.fatal`, carrying the
  cache as it was when the assertion fired. `checkSlow` is such an assertion only in a
  build that defines `DO_GUARD_SLOW`; in every other build the line is compiled out.
  Dereferencing a null pointer ends the call like a failed assertion.
* `uint32` / `int32` values are natural numbers reduced modulo `2 ^ 32`.
-/

namespace SpatialGDK

/-! ## Basic types -/

/-- The type `UObject*` (and `AActor*`): a null pointer or an object. -/
inductive UObjectPtr where
  | nullptr
  | obj (Addr : Nat) (FName : String) (bDynamic : Bool) (Outer : UObjectPtr)
deriving DecidableEq, Repr

namespace UObjectPtr

/-- The call `Object->GetOuter()`; the null pointer has no outer. -/
def GetOuter : UObjectPtr → UObjectPtr
  | nullptr => nullptr
  | obj _ _ _ o => o

/-- The call `Object->GetFName().ToString()`. -/
def GetFName : UObjectPtr → String
  | nullptr => ""
  | obj _ n _ _ => n

/-- The engine predicate `IsDynamicObject(Object)`. -/
def IsDynamicObject : UObjectPtr → Bool
  | nullptr => false
  | obj _ _ d _ => d

end UObjectPtr

/-- The engine handle `FNetworkGUID`, a `uint32` value. -/
structure FNetworkGUID where
  Value : Nat
deriving DecidableEq, Repr

namespace FNetworkGUID

/-- The engine test `IsValid()`: the value is positive. -/
def IsValid (g : FNetworkGUID) : Bool := decide (0 < g.Value)

/-- The engine test `IsDefault()`: the value is one. -/
def IsDefault (g : FNetworkGUID) : Bool := decide (g.Value = 1)

/-- The engine test `IsStatic()`: the low bit is set. -/
def IsStatic (g : FNetworkGUID) : Bool := decide (g.Value % 2 = 1)

/-- The engine test `IsDynamic()`: positive with the low bit clear. -/
def IsDynamic (g : FNetworkGUID) : Bool := decide (0 < g.Value) && decide (g.Value % 2 = 0)

/-- The engine constant `FNetworkGUID::GetDefault()`. -/
def GetDefault : FNetworkGUID := ⟨1⟩

end FNetworkGUID

/-- The alias `Worker_EntityId = std::int64_t`. -/
abbrev Worker_EntityId := Int

/-- The struct `FUnrealObjectRef` of `UnrealObjectRef.h`. -/
inductive FUnrealObjectRef where
  | mk (Entity : Worker_EntityId) (Offset : Nat) (Path : Option String)
      (Outer : Option FUnrealObjectRef)

namespace FUnrealObjectRef

/-- Field `Entity`. -/
def Entity : FUnrealObjectRef → Worker_EntityId
  | mk e _ _ _ => e

/-- Field `Offset`. -/
def Offset : FUnrealObjectRef → Nat
  | mk _ o _ _ => o

/-- Field `Path`. -/
def Path : FUnrealObjectRef → Option String
  | mk _ _ p _ => p

/-- Field `Outer`. -/
def Outer : FUnrealObjectRef → Option FUnrealObjectRef
  | mk _ _ _ u => u

/-- Value-initialised reference `FUnrealObjectRef()`: zero fields, no path, no outer. -/
def empty : FUnrealObjectRef := mk 0 0 none none

/-- Constructor `FUnrealObjectRef(Entity, Offset)`. -/
def ofEntity (Entity : Worker_EntityId) (Offset : Nat) : FUnrealObjectRef :=
  mk Entity Offset none none

/-- Constructor `FUnrealObjectRef(Entity, Offset, Path, Outer)`: both options are set. -/
def ofPath (Entity : Worker_EntityId) (Offset : Nat) (Path : String)
    (Outer : FUnrealObjectRef) : FUnrealObjectRef :=
  mk Entity Offset (some Path) (some Outer)

/-- Member `operator==`. -/
def eq : FUnrealObjectRef → FUnrealObjectRef → Bool
  | mk e1 o1 p1 u1, mk e2 o2 p2 u2 =>
    decide (e1 = e2) && decide (o1 = o2) &&
    (match p1, p2 with
      | none, none => true
      | some a, some b => decide (a = b)
      | _, _ => false) &&
    (match u1, u2 with
      | none, none => true
      | some a, some b => eq a b
      | _, _ => false)

/-- Member `operator!=`. -/
def ne (a b : FUnrealObjectRef) : Bool := !(eq a b)

/-- Number of `Outer` links below a reference. -/
def depth : FUnrealObjectRef → Nat
  | mk _ _ _ none => 0
  | mk _ _ _ (some u) => depth u + 1

/-- Structural equality of references is decidable. -/
def decEq : (a b : FUnrealObjectRef) → Decidable (a = b)
  | mk e1 o1 p1 u1, mk e2 o2 p2 u2 =>
    if he : e1 = e2 then
      if ho : o1 = o2 then
        if hp : p1 = p2 then
          match u1, u2 with
          | none, none => isTrue (by rw [he, ho, hp])
          | some a, some b =>
            match decEq a b with
            | isTrue h => isTrue (by rw [he, ho, hp, h])
            | isFalse h => isFalse (fun h2 => h (by injection h2 with _ _ _ h3; injection h3))
          | none, some _ => isFalse (fun h2 => by injection h2 with _ _ _ h3; cases h3)
          | some _, none => isFalse (fun h2 => by injection h2 with _ _ _ h3; cases h3)
        else isFalse (fun h2 => hp (by injection h2))
      else isFalse (fun h2 => ho (by injection h2))
    else isFalse (fun h2 => he (by injection h2))

instance : DecidableEq FUnrealObjectRef := decEq

end FUnrealObjectRef

/-! ## TMap -/

/-- The container `TMap<K, V>` as an association list. -/
abbrev TMap (K V : Type) := List (K × V)

namespace TMap

variable {K V : Type} [DecidableEq K]

/-- Member `Find`: the value stored under a key, if any. -/
def Find : TMap K V → K → Option V
  | [], _ => none
  | (k1, v) :: m, k => if k1 = k then some v else Find m k

/-- Member `Contains`. -/
def Contains (m : TMap K V) (k : K) : Bool := (Find m k).isSome

/-- Member `Emplace` (and `Add`): replace the pair stored under the key, or add one. -/
def Emplace : TMap K V → K → V → TMap K V
  | [], k, v => [(k, v)]
  | (k1, v1) :: m, k, v => if k1 = k then (k, v) :: m else (k1, v1) :: Emplace m k v

/-- Member `Remove`: drop every pair stored under the key. -/
def Remove : TMap K V → K → TMap K V
  | [], _ => []
  | (k1, v1) :: m, k => if k1 = k then Remove m k else (k1, v1) :: Remove m k

end TMap

/-! ## Results of calls -/

/-- Ways a call can end abnormally. -/
inductive Fault where
  | check
  | nullDeref
  | outOfFuel
  | outOfBounds
deriving DecidableEq, Repr

/-- Outcome of a call on state `σ`: a value and the new state, or a fault and the state
at the moment of the fault. -/
inductive Result (σ α : Type) where
  | ok (val : α) (s : σ)
  | fatal (f : Fault) (s : σ)
deriving DecidableEq

/-- Sequencing: continue with the value and state of a call that ended normally. -/
def Result.bind {σ α β : Type} (r : Result σ α) (f : α → σ → Result σ β) : Result σ β :=
  match r with
  | Result.ok v s => f v s
  | Result.fatal e s => Result.fatal e s

/-- Modelled from the spec: the engine assertion macro `check(expr)` is absent from src; a
violated assertion is a fatal invariant violation that ends the call. -/
def check {σ : Type} (expr : Bool) (s : σ) : Result σ Unit :=
  if expr then Result.ok () s else Result.fatal Fault.check s

/-- Modelled from the spec: the engine assertion macro `checkSlow(expr)` is absent from
src; it is `check(expr)` in a build that defines `DO_GUARD_SLOW` and expands to nothing
in every other build, where the expression is not evaluated. -/
def checkSlow {σ : Type} (DO_GUARD_SLOW : Bool) (expr : Bool) (s : σ) : Result σ Unit :=
  if DO_GUARD_SLOW then check expr s else Result.ok () s

/-! ## Engine base class -/

/-- The engine struct `FNetGuidCacheObject` (the fields this file uses). -/
structure FNetGuidCacheObject where
  Object : UObjectPtr
  OuterGUID : FNetworkGUID
  PathName : String
  bNoLoad : Bool
  bIgnoreWhenMissing : Bool
deriving DecidableEq, Repr

/-- The cache object `FSpatialNetGUIDCache`: the inherited engine members
(`ObjectLookup`, `NetGUIDLookup`, `UniqueNetIDs[2]`), the two maps of the class,
and the list of `Receiver->ResolvePendingOperations` calls made so far (oldest first). -/
structure FSpatialNetGUIDCache where
  ObjectLookup : TMap FNetworkGUID FNetGuidCacheObject
  NetGUIDLookup : TMap UObjectPtr FNetworkGUID
  UniqueNetIDs0 : Nat
  UniqueNetIDs1 : Nat
  NetGUIDToUnrealObjectRef : TMap FNetworkGUID FUnrealObjectRef
  UnrealObjectRefToNetGUID : TMap FUnrealObjectRef FNetworkGUID
  ResolveCalls : List (UObjectPtr × FUnrealObjectRef)
deriving DecidableEq

/-- A freshly constructed cache. -/
def FSpatialNetGUIDCache.empty : FSpatialNetGUIDCache :=
  { ObjectLookup := [], NetGUIDLookup := [], UniqueNetIDs0 := 0, UniqueNetIDs1 := 0,
    NetGUIDToUnrealObjectRef := [], UnrealObjectRefToNetGUID := [], ResolveCalls := [] }

/-- What the cache reads from its surroundings at the time of a call.
* `bNetGUIDAuthority`: the engine's `IsNetGUIDAuthority()`.
* `GetEntityIdFromActor`, `GetActorFromEntityId`: the entity registry.
* `SubobjectInfoKeys actor`: the keys of `Info->SubobjectInfo` in iteration order for
  `Info = TypebindingManager->FindClassInfoByClass(actor->GetClass())`, or `none`
  when that pointer is null.
* `NetworkRemapPath`: the engine's `GEngine->NetworkRemapPath(Driver, Path, true)`.
* `UNRESOLVED_OBJECT_REF`: the constant `SpatialConstants::UNRESOLVED_OBJECT_REF`.
* `WITH_EDITOR`, `bReceiver`: the build flag and whether `Receiver` is non-null.
* `DO_GUARD_SLOW`: the build flag that compiles the `checkSlow` lines in. -/
structure Env where
  bNetGUIDAuthority : Bool
  GetEntityIdFromActor : UObjectPtr → Worker_EntityId
  GetActorFromEntityId : Worker_EntityId → UObjectPtr
  SubobjectInfoKeys : UObjectPtr → Option (List Nat)
  NetworkRemapPath : String → String
  UNRESOLVED_OBJECT_REF : FUnrealObjectRef
  WITH_EDITOR : Bool
  bReceiver : Bool
  DO_GUARD_SLOW : Bool

/-- Outcome of a cache call. -/
abbrev CacheResult (α : Type) := Result FSpatialNetGUIDCache α

open Result

/-! ### Allocation of handles -/

/-- Member `FSpatialNetGUIDCache::GenerateNewNetGUID` with its macros
`COMPOSE_NET_GUID` and `ALLOC_NEW_NET_GUID`: pre-increment `UniqueNetIDs[IsStatic]`
and return `(counter << 1) | IsStatic` as a `uint32`. `UniqueNetIDs` has two
entries, so `IsStatic` is `0` or `1`. -/
def GenerateNewNetGUID (c : FSpatialNetGUIDCache) (IsStatic : Fin 2) :
    FNetworkGUID × FSpatialNetGUIDCache :=
  if IsStatic = 0 then
    let Index := (c.UniqueNetIDs0 + 1) % 2 ^ 32
    (⟨((Index <<< 1) ||| IsStatic.val) % 2 ^ 32⟩, { c with UniqueNetIDs0 := Index })
  else
    let Index := (c.UniqueNetIDs1 + 1) % 2 ^ 32
    (⟨((Index <<< 1) ||| IsStatic.val) % 2 ^ 32⟩, { c with UniqueNetIDs1 := Index })

/-! ### Engine members (not part of this repository) -/

/-- Modelled from the spec: the engine member `FNetGUIDCache::RegisterNetGUID_Internal`
is absent from src. It records the handle in `ObjectLookup` and, when the cache object
carries an object, associates that object with the handle in `NetGUIDLookup`; it
asserts that neither key is present yet. -/
def RegisterNetGUID_Internal (c : FSpatialNetGUIDCache) (NetGUID : FNetworkGUID)
    (CacheObject : FNetGuidCacheObject) : CacheResult Unit :=
  (check (!TMap.Contains c.ObjectLookup NetGUID) c).bind fun _ c =>
  let c1 := { c with ObjectLookup := TMap.Emplace c.ObjectLookup NetGUID CacheObject }
  if CacheObject.Object = UObjectPtr.nullptr then ok () c1
  else
    (check (!TMap.Contains c1.NetGUIDLookup CacheObject.Object) c1).bind fun _ c1 =>
    ok () { c1 with NetGUIDLookup := TMap.Emplace c1.NetGUIDLookup CacheObject.Object NetGUID }

/-- Modelled from the spec: the engine member `FNetGUIDCache::GetOrAssignNetGUID` is
absent from src. A null object gets the invalid handle `0`; an object that already has
a valid handle in `NetGUIDLookup` gets that handle; otherwise a process that is not the
handle authority answers with the default handle, and the authority allocates a handle
in the object's namespace (`AssignNewNetGUID_Server`) and registers it together with
the handle of the outer (`RegisterNetGUID_Server`). Every object is taken to be
supported for networking. -/
def GetOrAssignNetGUID (env : Env) : UObjectPtr → FSpatialNetGUIDCache → CacheResult FNetworkGUID
  | UObjectPtr.nullptr, c => ok ⟨0⟩ c
  | UObjectPtr.obj a n d Outer, c =>
    let NetGUID := (TMap.Find c.NetGUIDLookup (UObjectPtr.obj a n d Outer)).getD ⟨0⟩
    if NetGUID.IsValid then ok NetGUID c
    else if !env.bNetGUIDAuthority then ok FNetworkGUID.GetDefault c
    else
      let alloc := GenerateNewNetGUID c (if d then 0 else 1)
      (check (!alloc.1.IsDefault) alloc.2).bind fun _ c1 =>
      (check (!TMap.Contains c1.ObjectLookup alloc.1) c1).bind fun _ c1 =>
      (GetOrAssignNetGUID env Outer c1).bind fun OuterGUID c2 =>
      (RegisterNetGUID_Internal c2 alloc.1
          { Object := UObjectPtr.obj a n d Outer, OuterGUID := OuterGUID, PathName := n,
            bNoLoad := false, bIgnoreWhenMissing := false }).bind fun _ c3 =>
      ok alloc.1 c3

/-! ### Members of `FSpatialNetGUIDCache` -/

/-- Member `FSpatialNetGUIDCache::GetOrAssignNetGUID_SpatialGDK`. -/
def GetOrAssignNetGUID_SpatialGDK (env : Env) :
    UObjectPtr → FSpatialNetGUIDCache → CacheResult FNetworkGUID
  | UObjectPtr.nullptr, c =>
    (GetOrAssignNetGUID env UObjectPtr.nullptr c).bind fun NetGUID c1 =>
    (check ((NetGUID.IsValid && !NetGUID.IsDefault) || true) c1).bind fun _ c2 =>
    ok NetGUID c2
  | UObjectPtr.obj a n d Outer, c =>
    (GetOrAssignNetGUID env (UObjectPtr.obj a n d Outer) c).bind fun NetGUID c1 =>
    (if NetGUID = FNetworkGUID.GetDefault ∧ env.bNetGUIDAuthority = false then
      let gen := GenerateNewNetGUID c1 (if d then 0 else 1)
      (GetOrAssignNetGUID_SpatialGDK env Outer gen.2).bind fun OuterGUID c2 =>
      (RegisterNetGUID_Internal c2 gen.1
          { Object := UObjectPtr.obj a n d Outer, OuterGUID := OuterGUID, PathName := n,
            bNoLoad := false, bIgnoreWhenMissing := false }).bind fun _ c3 =>
      ok gen.1 c3
    else ok NetGUID c1).bind fun NetGUID c4 =>
    (check ((NetGUID.IsValid && !NetGUID.IsDefault) || false) c4).bind fun _ c5 =>
    ok NetGUID c5

/-- Member `FSpatialNetGUIDCache::RegisterObjectRef`. -/
def RegisterObjectRef (env : Env) (c : FSpatialNetGUIDCache) (NetGUID : FNetworkGUID)
    (ObjectRef : FUnrealObjectRef) : CacheResult Unit :=
  (checkSlow env.DO_GUARD_SLOW (!TMap.Contains c.NetGUIDToUnrealObjectRef NetGUID ||
      (TMap.Contains c.NetGUIDToUnrealObjectRef NetGUID &&
        (match TMap.Find c.NetGUIDToUnrealObjectRef NetGUID with
          | some Found => FUnrealObjectRef.eq Found ObjectRef
          | none => false))) c).bind fun _ c =>
  (checkSlow env.DO_GUARD_SLOW (!TMap.Contains c.UnrealObjectRefToNetGUID ObjectRef ||
      (TMap.Contains c.UnrealObjectRefToNetGUID ObjectRef &&
        (match TMap.Find c.UnrealObjectRefToNetGUID ObjectRef with
          | some Found => decide (Found = NetGUID)
          | none => false))) c).bind fun _ c =>
  ok () { c with
    NetGUIDToUnrealObjectRef := TMap.Emplace c.NetGUIDToUnrealObjectRef NetGUID ObjectRef
    UnrealObjectRefToNetGUID := TMap.Emplace c.UnrealObjectRefToNetGUID ObjectRef NetGUID }

/-- Member `FSpatialNetGUIDCache::GetUnrealObjectRefFromNetGUID`. -/
def GetUnrealObjectRefFromNetGUID (env : Env) (c : FSpatialNetGUIDCache)
    (NetGUID : FNetworkGUID) : FUnrealObjectRef :=
  match TMap.Find c.NetGUIDToUnrealObjectRef NetGUID with
  | some ObjRef => ObjRef
  | none => env.UNRESOLVED_OBJECT_REF

/-- Member `FSpatialNetGUIDCache::GetNetGUIDFromEntityId`. -/
def GetNetGUIDFromEntityId (c : FSpatialNetGUIDCache) (EntityId : Worker_EntityId) :
    FNetworkGUID :=
  match TMap.Find c.UnrealObjectRefToNetGUID (FUnrealObjectRef.ofEntity EntityId 0) with
  | none => ⟨0⟩
  | some NetGUID => NetGUID

/-- The guarded call `Receiver->ResolvePendingOperations(Object, ObjectRef)`: under
`WITH_EDITOR` a null receiver is skipped, otherwise the receiver is dereferenced. The
call is recorded in `ResolveCalls`. -/
def ResolvePendingOperations (env : Env) (c : FSpatialNetGUIDCache) (Object : UObjectPtr)
    (ObjectRef : FUnrealObjectRef) : CacheResult Unit :=
  if env.bReceiver then ok () { c with ResolveCalls := c.ResolveCalls ++ [(Object, ObjectRef)] }
  else if env.WITH_EDITOR then ok () c
  else fatal Fault.nullDeref c

/-- The loop over `SubobjectToOffset` in `AssignNewEntityActorNetGUID`. -/
def AssignNewEntityActorNetGUID.loop (env : Env) (EntityId : Worker_EntityId) :
    List (UObjectPtr × Nat) → FSpatialNetGUIDCache → CacheResult Unit
  | [], c => ok () c
  | (Subobject, Offset) :: rest, c =>
    (GetOrAssignNetGUID_SpatialGDK env Subobject c).bind fun SubobjectNetGUID c1 =>
    (RegisterObjectRef env c1 SubobjectNetGUID
        (FUnrealObjectRef.ofEntity EntityId Offset)).bind fun _ c2 =>
    (ResolvePendingOperations env c2 Subobject
        (FUnrealObjectRef.ofEntity EntityId Offset)).bind fun _ c3 =>
    AssignNewEntityActorNetGUID.loop env EntityId rest c3

/-- Member `FSpatialNetGUIDCache::AssignNewEntityActorNetGUID`. -/
def AssignNewEntityActorNetGUID (env : Env) (Actor : UObjectPtr)
    (SubobjectToOffset : List (UObjectPtr × Nat)) (c : FSpatialNetGUIDCache) :
    CacheResult FNetworkGUID :=
  let EntityId := env.GetEntityIdFromActor Actor
  (check (decide (EntityId > 0)) c).bind fun _ c =>
  (GetOrAssignNetGUID_SpatialGDK env Actor c).bind fun NetGUID c1 =>
  (RegisterObjectRef env c1 NetGUID (FUnrealObjectRef.ofEntity EntityId 0)).bind fun _ c2 =>
  (ResolvePendingOperations env c2 Actor (FUnrealObjectRef.ofEntity EntityId 0)).bind fun _ c3 =>
  (AssignNewEntityActorNetGUID.loop env EntityId SubobjectToOffset c3).bind fun _ c4 =>
  ok NetGUID c4

/-- Member `FSpatialNetGUIDCache::AssignNewStablyNamedObjectNetGUID`. -/
def AssignNewStablyNamedObjectNetGUID (env : Env) :
    UObjectPtr → FSpatialNetGUIDCache → CacheResult FNetworkGUID
  | UObjectPtr.nullptr, c =>
    (GetOrAssignNetGUID_SpatialGDK env UObjectPtr.nullptr c).bind fun NetGUID c1 =>
    if FUnrealObjectRef.ne (GetUnrealObjectRefFromNetGUID env c1 NetGUID)
        env.UNRESOLVED_OBJECT_REF then ok NetGUID c1
    else fatal Fault.nullDeref c1
  | UObjectPtr.obj a n d OuterObject, c =>
    (GetOrAssignNetGUID_SpatialGDK env (UObjectPtr.obj a n d OuterObject) c).bind
    fun NetGUID c1 =>
    if FUnrealObjectRef.ne (GetUnrealObjectRefFromNetGUID env c1 NetGUID)
        env.UNRESOLVED_OBJECT_REF then ok NetGUID c1
    else
      (match OuterObject with
        | UObjectPtr.nullptr => ok (FNetworkGUID.mk 0) c1
        | UObjectPtr.obj _ _ _ _ =>
          AssignNewStablyNamedObjectNetGUID env OuterObject c1).bind fun OuterGUID c2 =>
      (RegisterObjectRef env c2 NetGUID
        (FUnrealObjectRef.ofPath 0 0 n
          (if OuterGUID.IsValid && !OuterGUID.IsDefault
            then GetUnrealObjectRefFromNetGUID env c2 OuterGUID
            else FUnrealObjectRef.empty))).bind fun _ c3 =>
      ok NetGUID c3

/-- The loop over `Info->SubobjectInfo` in `RemoveEntityNetGUID`. -/
def RemoveEntityNetGUID.loop (EntityId : Worker_EntityId) :
    List Nat → FSpatialNetGUIDCache → FSpatialNetGUIDCache
  | [], c => c
  | Key :: rest, c =>
    match TMap.Find c.UnrealObjectRefToNetGUID (FUnrealObjectRef.ofEntity EntityId Key) with
    | some SubobjectNetGUID =>
      RemoveEntityNetGUID.loop EntityId rest { c with
        NetGUIDToUnrealObjectRef := TMap.Remove c.NetGUIDToUnrealObjectRef SubobjectNetGUID
        UnrealObjectRefToNetGUID :=
          TMap.Remove c.UnrealObjectRefToNetGUID (FUnrealObjectRef.ofEntity EntityId Key) }
    | none => RemoveEntityNetGUID.loop EntityId rest c

/-- Member `FSpatialNetGUIDCache::RemoveEntityNetGUID`. The registry's null answer ends
the call early; a null class info or a missing root record is a null dereference. -/
def RemoveEntityNetGUID (env : Env) (EntityId : Worker_EntityId) (c : FSpatialNetGUIDCache) :
    CacheResult Unit :=
  if env.GetActorFromEntityId EntityId = UObjectPtr.nullptr then ok () c
  else
    match env.SubobjectInfoKeys (env.GetActorFromEntityId EntityId) with
    | none => fatal Fault.nullDeref c
    | some Keys =>
      let c1 := RemoveEntityNetGUID.loop EntityId Keys c
      let EntityNetGUID := GetNetGUIDFromEntityId c1 EntityId
      match TMap.Find c1.NetGUIDToUnrealObjectRef EntityNetGUID with
      | none =>
        fatal Fault.nullDeref { c1 with
          NetGUIDToUnrealObjectRef := TMap.Remove c1.NetGUIDToUnrealObjectRef EntityNetGUID }
      | some ActorRef =>
        ok () { c1 with
          NetGUIDToUnrealObjectRef := TMap.Remove c1.NetGUIDToUnrealObjectRef EntityNetGUID
          UnrealObjectRefToNetGUID := TMap.Remove c1.UnrealObjectRefToNetGUID ActorRef }

/-- The `while (true)` loop of `NetworkRemapObjectRefPaths`, started at `Iterator`. -/
def NetworkRemapObjectRefPaths.loop (env : Env) : FUnrealObjectRef → FUnrealObjectRef
  | FUnrealObjectRef.mk e o p none =>
    FUnrealObjectRef.mk e o (p.map env.NetworkRemapPath) none
  | FUnrealObjectRef.mk e o p (some u) =>
    FUnrealObjectRef.mk e o (p.map env.NetworkRemapPath)
      (some (NetworkRemapObjectRefPaths.loop env u))

/-- Member `FSpatialNetGUIDCache::NetworkRemapObjectRefPaths`. -/
def NetworkRemapObjectRefPaths (env : Env) (ObjectRef : FUnrealObjectRef) : FUnrealObjectRef :=
  if ObjectRef.Path.isNone then ObjectRef else NetworkRemapObjectRefPaths.loop env ObjectRef

/-- Member `FSpatialNetGUIDCache::RegisterNetGUIDFromPathForStaticObject`. -/
def RegisterNetGUIDFromPathForStaticObject (c : FSpatialNetGUIDCache) (PathName : String)
    (OuterGUID : FNetworkGUID) : CacheResult FNetworkGUID :=
  let gen := GenerateNewNetGUID c 0
  (RegisterNetGUID_Internal gen.2 gen.1
      { Object := UObjectPtr.nullptr, OuterGUID := OuterGUID, PathName := PathName,
        bNoLoad := false, bIgnoreWhenMissing := true }).bind fun _ c1 =>
  ok gen.1 c1

/-- Member `FSpatialNetGUIDCache::GetNetGUIDFromUnrealObjectRefInternal`, with the
mutually recursive call to `GetNetGUIDFromUnrealObjectRef` passed in as `recurse`. -/
def GetNetGUIDFromUnrealObjectRefInternal (env : Env)
    (recurse : FUnrealObjectRef → FSpatialNetGUIDCache → CacheResult FNetworkGUID)
    (ObjectRef : FUnrealObjectRef) (c : FSpatialNetGUIDCache) : CacheResult FNetworkGUID :=
  let NetGUID := (TMap.Find c.UnrealObjectRefToNetGUID ObjectRef).getD ⟨0⟩
  if !NetGUID.IsValid && ObjectRef.Path.isSome then
    (match ObjectRef.Outer with
      | some Outer => recurse Outer c
      | none => ok (FNetworkGUID.mk 0) c).bind fun OuterGUID c1 =>
    (RegisterNetGUIDFromPathForStaticObject c1 (ObjectRef.Path.getD "") OuterGUID).bind
    fun NewGUID c2 =>
    (RegisterObjectRef env c2 NewGUID ObjectRef).bind fun _ c3 =>
    ok NewGUID c3
  else ok NetGUID c

/-- Member `FSpatialNetGUIDCache::GetNetGUIDFromUnrealObjectRef` with a bound on the
depth of the mutual recursion. -/
def GetNetGUIDFromUnrealObjectRefFuel (env : Env) :
    Nat → FUnrealObjectRef → FSpatialNetGUIDCache → CacheResult FNetworkGUID
  | 0, _, c => fatal Fault.outOfFuel c
  | fuel + 1, ObjectRef, c =>
    GetNetGUIDFromUnrealObjectRefInternal env (GetNetGUIDFromUnrealObjectRefFuel env fuel)
      (NetworkRemapObjectRefPaths env ObjectRef) c

/-- Member `FSpatialNetGUIDCache::GetNetGUIDFromUnrealObjectRef`: the recursion follows
the `Outer` chain, so one more step than the chain is long is always enough. -/
def GetNetGUIDFromUnrealObjectRef (env : Env) (ObjectRef : FUnrealObjectRef)
    (c : FSpatialNetGUIDCache) : CacheResult FNetworkGUID :=
  GetNetGUIDFromUnrealObjectRefFuel env (ObjectRef.depth + 1) ObjectRef c

/-! ### Members of `USpatialPackageMapClient` -/

/-- Member `USpatialPackageMapClient::ResolveEntityActor`. -/
def ResolveEntityActor (env : Env) (Actor : UObjectPtr) (EntityId : Worker_EntityId)
    (SubobjectToOffset : List (UObjectPtr × Nat)) (c : FSpatialNetGUIDCache) :
    CacheResult FNetworkGUID :=
  let NetGUID := GetNetGUIDFromEntityId c EntityId
  if !NetGUID.IsValid then AssignNewEntityActorNetGUID env Actor SubobjectToOffset c
  else ok NetGUID c

/-- Member `USpatialPackageMapClient::RemoveEntityActor`. -/
def RemoveEntityActor (env : Env) (EntityId : Worker_EntityId) (c : FSpatialNetGUIDCache) :
    CacheResult Unit :=
  if (GetNetGUIDFromEntityId c EntityId).IsValid then RemoveEntityNetGUID env EntityId c
  else ok () c

/-- Member `USpatialPackageMapClient::ResolveStablyNamedObject`. -/
def ResolveStablyNamedObject (env : Env) (Object : UObjectPtr) (c : FSpatialNetGUIDCache) :
    CacheResult FNetworkGUID :=
  AssignNewStablyNamedObjectNetGUID env Object c

/-! ## `USpatialPlayerSpawner` -/

/-- Severity of a `UE_LOG` line. -/
inductive ELogVerbosity where
  | Error
  | Warning
  | Display
  | Log
  deriving DecidableEq, Repr

/-- What the player spawner reads from `SpatialConstants` and from the worker SDK, neither
of which is part of the sources: the attempt limit `MAX_NUMBER_COMMAND_ATTEMPTS`
(unsigned, printed with `%u`), the wait `GetCommandRetryWaitTimeSeconds(attempt)` in
seconds, and the status code `WORKER_STATUS_CODE_SUCCESS`. -/
structure SpawnerEnv where
  MAX_NUMBER_COMMAND_ATTEMPTS : Nat
  GetCommandRetryWaitTimeSeconds : Int → ℚ
  WORKER_STATUS_CODE_SUCCESS : Nat

/-- The state of a `USpatialPlayerSpawner` and what it has done so far: the member
`int NumberOfAttempts`, the number of `SendEntityQueryRequest` calls made (each with its
delegate registered on the receiver), the delays of the one-shot timers set with
`TimerManager->SetTimer` that have not fired yet, and the severities of the lines
logged. -/
structure USpatialPlayerSpawner where
  NumberOfAttempts : Int
  EntityQueries : Nat
  RetryTimers : List ℚ
  LogLines : List ELogVerbosity
  deriving DecidableEq

namespace USpatialPlayerSpawner

/-- A freshly constructed spawner. -/
def fresh : USpatialPlayerSpawner :=
  { NumberOfAttempts := 0, EntityQueries := 0, RetryTimers := [], LogLines := [] }

/-- Member `USpatialPlayerSpawner::Init`. -/
def Init (s : USpatialPlayerSpawner) : USpatialPlayerSpawner :=
  { s with NumberOfAttempts := 0 }

/-- Member `USpatialPlayerSpawner::SendPlayerSpawnRequest`: one entity query is sent and
its delegate registered, one line is logged, and `++NumberOfAttempts`. -/
def SendPlayerSpawnRequest (s : USpatialPlayerSpawner) : USpatialPlayerSpawner :=
  { s with
    EntityQueries := s.EntityQueries + 1
    LogLines := s.LogLines ++ [ELogVerbosity.Log]
    NumberOfAttempts := s.NumberOfAttempts + 1 }

/-- Member `USpatialPlayerSpawner::ReceivePlayerSpawnResponse` for a response with
`Op.status_code = status_code`. The comparison of the `int` counter with the unsigned
limit converts the counter to 32 bits unsigned. -/
def ReceivePlayerSpawnResponse (env : SpawnerEnv) (status_code : Nat)
    (s : USpatialPlayerSpawner) : USpatialPlayerSpawner :=
  if status_code = env.WORKER_STATUS_CODE_SUCCESS then
    { s with LogLines := s.LogLines ++ [ELogVerbosity.Display] }
  else if (s.NumberOfAttempts % 4294967296).toNat < env.MAX_NUMBER_COMMAND_ATTEMPTS then
    { s with
      LogLines := s.LogLines ++ [ELogVerbosity.Warning]
      RetryTimers :=
        s.RetryTimers ++ [env.GetCommandRetryWaitTimeSeconds s.NumberOfAttempts] }
  else
    { s with LogLines := s.LogLines ++ [ELogVerbosity.Error] }

end USpatialPlayerSpawner

/-- Modelled from the spec: the surroundings of the spawner. Requests carry a correlation
id and each is answered at most once, so the world keeps the number of requests sent
and not yet answered. -/
structure SpawnerWorld where
  Spawner : USpatialPlayerSpawner
  Outstanding : Nat
  deriving DecidableEq

/-- What can happen to a spawner after its first request: the response to an outstanding
request arrives with some status code, or a pending retry timer fires. -/
inductive SpawnerEvent where
  | response (status_code : Nat)
  | timer
  deriving DecidableEq, Repr

namespace SpawnerWorld

/-- The world after `Init` and the one initial `SendPlayerSpawnRequest`. -/
def start : SpawnerWorld :=
  { Spawner := USpatialPlayerSpawner.fresh.Init.SendPlayerSpawnRequest, Outstanding := 1 }

/-- One event. A response is delivered to `ReceivePlayerSpawnResponse` only while a
request is outstanding; a firing timer runs its lambda, `SendPlayerSpawnRequest`. -/
def step (env : SpawnerEnv) (w : SpawnerWorld) : SpawnerEvent → SpawnerWorld
  | SpawnerEvent.response status_code =>
    if w.Outstanding = 0 then w
    else
      { Spawner := w.Spawner.ReceivePlayerSpawnResponse env status_code
        Outstanding := w.Outstanding - 1 }
  | SpawnerEvent.timer =>
    match w.Spawner.RetryTimers with
    | [] => w
    | _ :: rest =>
      { Spawner := USpatialPlayerSpawner.SendPlayerSpawnRequest
          { w.Spawner with RetryTimers := rest }
        Outstanding := w.Outstanding + 1 }

/-- The world after a sequence of events, oldest first. -/
def run (env : SpawnerEnv) (events : List SpawnerEvent) (w : SpawnerWorld) : SpawnerWorld :=
  events.foldl (step env) w

end SpawnerWorld

/-! ## `USpatialReceiver`: the critical section

Only the header of the receiver is part of the sources; the members below follow the
description of the critical section in the specification. -/

/-- Component ids of the worker SDK. -/
abbrev Worker_ComponentId := Nat

/-- Struct `PendingAddComponentWrapper`; `Data` stands for the shared pointer to the
component data. -/
structure PendingAddComponentWrapper where
  EntityId : Worker_EntityId
  ComponentId : Worker_ComponentId
  Data : Nat
  deriving DecidableEq, Repr

/-- Struct `Worker_AuthorityChangeOp` of the worker SDK. -/
structure Worker_AuthorityChangeOp where
  entity_id : Worker_EntityId
  component_id : Worker_ComponentId
  authority : Nat
  deriving DecidableEq, Repr

/-- A lifecycle event, as delivered by the dispatcher and as handed to its handler. -/
inductive LifecycleOp where
  | RemoveEntity (EntityId : Worker_EntityId)
  | AddEntity (EntityId : Worker_EntityId)
  | AddComponent (Op : PendingAddComponentWrapper)
  | AuthorityChange (Op : Worker_AuthorityChangeOp)
  deriving DecidableEq, Repr

/-- The members of `USpatialReceiver` that make up the critical section, and the
lifecycle events applied so far (oldest first). -/
structure USpatialReceiver where
  bInCriticalSection : Bool
  PendingAddEntities : List Worker_EntityId
  PendingAuthorityChanges : List Worker_AuthorityChangeOp
  PendingAddComponents : List PendingAddComponentWrapper
  PendingRemoveEntities : List Worker_EntityId
  Applied : List LifecycleOp
  deriving DecidableEq

namespace USpatialReceiver

/-- Modelled from the spec: `EnterCriticalSection` marks the start of the span. -/
def EnterCriticalSection (s : USpatialReceiver) : USpatialReceiver :=
  { s with bInCriticalSection := true }

/-- Modelled from the spec: `LeaveCriticalSection` applies the buffered events in the
fixed order RemoveEntity, AddEntity, AddComponent by increasing component id,
AuthorityChange, and empties the buffers. -/
def LeaveCriticalSection (s : USpatialReceiver) : USpatialReceiver :=
  { bInCriticalSection := false
    PendingAddEntities := []
    PendingAuthorityChanges := []
    PendingAddComponents := []
    PendingRemoveEntities := []
    Applied := s.Applied ++
      (s.PendingRemoveEntities.map LifecycleOp.RemoveEntity ++
        (s.PendingAddEntities.map LifecycleOp.AddEntity ++
          ((s.PendingAddComponents.insertionSort
              fun a b => a.ComponentId ≤ b.ComponentId).map LifecycleOp.AddComponent ++
            s.PendingAuthorityChanges.map LifecycleOp.AuthorityChange))) }

/-- Modelled from the spec: `OnCriticalSection` enters or leaves the span. -/
def OnCriticalSection (InCriticalSection : Bool) (s : USpatialReceiver) : USpatialReceiver :=
  if InCriticalSection then s.EnterCriticalSection else s.LeaveCriticalSection

/-- Modelled from the spec: `OnAddEntity` buffers the event inside the span and applies
it outside. -/
def OnAddEntity (EntityId : Worker_EntityId) (s : USpatialReceiver) : USpatialReceiver :=
  if s.bInCriticalSection then
    { s with PendingAddEntities := s.PendingAddEntities ++ [EntityId] }
  else { s with Applied := s.Applied ++ [LifecycleOp.AddEntity EntityId] }

/-- Modelled from the spec: `OnAddComponent` buffers the event inside the span and
applies it outside. -/
def OnAddComponent (Op : PendingAddComponentWrapper) (s : USpatialReceiver) :
    USpatialReceiver :=
  if s.bInCriticalSection then
    { s with PendingAddComponents := s.PendingAddComponents ++ [Op] }
  else { s with Applied := s.Applied ++ [LifecycleOp.AddComponent Op] }

/-- Modelled from the spec: `OnRemoveEntity` buffers the event inside the span and
applies it outside. -/
def OnRemoveEntity (EntityId : Worker_EntityId) (s : USpatialReceiver) : USpatialReceiver :=
  if s.bInCriticalSection then
    { s with PendingRemoveEntities := s.PendingRemoveEntities ++ [EntityId] }
  else { s with Applied := s.Applied ++ [LifecycleOp.RemoveEntity EntityId] }

/-- Modelled from the spec: `OnAuthorityChange` buffers the event inside the span and
applies it outside. -/
def OnAuthorityChange (Op : Worker_AuthorityChangeOp) (s : USpatialReceiver) :
    USpatialReceiver :=
  if s.bInCriticalSection then
    { s with PendingAuthorityChanges := s.PendingAuthorityChanges ++ [Op] }
  else { s with Applied := s.Applied ++ [LifecycleOp.AuthorityChange Op] }

/-- The dispatcher hands one lifecycle event to its `On...` member. -/
def Dispatch (s : USpatialReceiver) : LifecycleOp → USpatialReceiver
  | LifecycleOp.RemoveEntity e => s.OnRemoveEntity e
  | LifecycleOp.AddEntity e => s.OnAddEntity e
  | LifecycleOp.AddComponent Op => s.OnAddComponent Op
  | LifecycleOp.AuthorityChange Op => s.OnAuthorityChange Op

/-- The dispatcher hands over a sequence of lifecycle events, oldest first. -/
def DispatchAll (Ops : List LifecycleOp) (s : USpatialReceiver) : USpatialReceiver :=
  Ops.foldl Dispatch s

/-- A receiver outside the critical section with empty buffers that has applied
`Applied` so far. -/
def idle (Applied : List LifecycleOp) : USpatialReceiver :=
  { bInCriticalSection := false, PendingAddEntities := [], PendingAuthorityChanges := [],
    PendingAddComponents := [], PendingRemoveEntities := [], Applied := Applied }

end USpatialReceiver

namespace LifecycleOp

/-- The entity of a RemoveEntity event. -/
def removeEntity? : LifecycleOp → Option Worker_EntityId
  | RemoveEntity e => some e
  | _ => none

/-- The entity of an AddEntity event. -/
def addEntity? : LifecycleOp → Option Worker_EntityId
  | AddEntity e => some e
  | _ => none

/-- The payload of an AddComponent event. -/
def addComponent? : LifecycleOp → Option PendingAddComponentWrapper
  | AddComponent Op => some Op
  | _ => none

/-- The payload of an AuthorityChange event. -/
def authorityChange? : LifecycleOp → Option Worker_AuthorityChangeOp
  | AuthorityChange Op => some Op
  | _ => none

end LifecycleOp

/-! ## Replication scheduler of `USpatialNetDriver`

Engine classes are reduced to the members the driver reads or writes. Pointers to actors,
connections, channels and `FNetworkObjectInfo`s are addresses into stores that hold an
object at every address; a pointer that may be null is an `Option`. The tag counters
are taken not to overflow. Times and frequencies, `float` in the code, are exact
rationals: the rounding of the `float` operations is not followed, and a quotient by a
zero frequency, an infinity in the code, is the `0` of the rational division. The update
interval `OptimalNetUpdateDelta` is the only value computed from such quotients; it is
stored and read by no function of this file. -/

/-- Engine enum `ENetDormancy`. -/
inductive ENetDormancy where
  | DORM_Never
  | DORM_Awake
  | DORM_DormantAll
  | DORM_DormantPartial
  | DORM_Initial
  deriving DecidableEq, Repr

/-- The numeric value of an `ENetDormancy`. -/
def ENetDormancy.toNat : ENetDormancy → Nat
  | DORM_Never => 0
  | DORM_Awake => 1
  | DORM_DormantAll => 2
  | DORM_DormantPartial => 3
  | DORM_Initial => 4

/-- Engine enum `EConnectionState`. -/
inductive EConnectionState where
  | USOCK_Invalid
  | USOCK_Closed
  | USOCK_Pending
  | USOCK_Open
  deriving DecidableEq, Repr

/-- Engine class `AActor`: `NetTag`, `GetNetConnection()`, `NetDormancy`, `GetTearOff()`,
`IsNetStartupActor()`, the two update frequencies, whether the class carries
`SPATIALCLASS_Singleton`, and whether `GuidCache->SupportsObject` accepts both the class
and the archetype (or the actor itself for a startup actor). -/
structure AActor where
  NetTag : Nat
  NetConnection : Option Nat
  NetDormancy : ENetDormancy
  bTearOff : Bool
  bNetStartupActor : Bool
  NetUpdateFrequency : ℚ
  MinNetUpdateFrequency : ℚ
  bSingleton : Bool
  bSupportsObject : Bool

/-- Engine struct `FNetworkObjectInfo`; `Actor` is never null. -/
structure FNetworkObjectInfo where
  Actor : Nat
  DormantConnections : List Nat
  NextUpdateTime : ℚ
  LastNetReplicateTime : ℚ
  OptimalNetUpdateDelta : ℚ
  LastNetUpdateTime : ℚ
  bPendingNetUpdate : Bool

/-- Engine struct `FActorDestructionInfo`; `NAME_None` is `none`. -/
structure FActorDestructionInfo where
  NetGUID : FNetworkGUID
  StreamingLevelName : Option String
  deriving DecidableEq, Repr

/-- Engine struct `FNetViewer`, reduced to the connection it was built from. -/
structure FNetViewer where
  Connection : Nat
  deriving DecidableEq, Repr

/-- Engine class `UActorChannel`. -/
structure UActorChannel where
  Actor : Option Nat
  RelevantTime : ℚ
  LastUpdateTime : ℚ
  bPendingDormancy : Bool
  Dormant : Bool

/-- Class `USpatialNetConnection` with the members of `UNetConnection` the driver uses.
`PlayerController` holds the controller's `GetViewTarget()` when there is a controller;
`QueuedBits` is the engine's measure of unsent data. -/
structure USpatialNetConnection where
  bReliableSpatialConnection : Bool
  OwningActor : Option Nat
  State : EConnectionState
  LastReceiveTime : ℚ
  PlayerController : Option (Option Nat)
  ViewTarget : Option Nat
  Children : List Nat
  TimeSensitive : Bool
  TickCount : Nat
  SentTemporaries : List Nat
  ActorChannelMap : TMap Nat Nat
  DestroyedStartupOrDormantActorGUIDs : List FNetworkGUID
  ClientVisibleLevelNames : List String
  QueuedBits : Int

/-- Engine struct `FActorPriority`. `DestructionInfo` points into the driver's
`DestroyedStartupOrDormantActors` and is held by value. -/
structure FActorPriority where
  Priority : Int
  ActorInfo : Option Nat
  Channel : Option Nat
  DestructionInfo : Option FActorDestructionInfo
  deriving DecidableEq, Repr

/-- The connections and channels, which engine calls may change. -/
structure FNetState where
  Connections : Nat → USpatialNetConnection
  Channels : Nat → UActorChannel

/-- One call of `Channel->ReplicateActor()` made by
`ServerReplicateActors_ProcessPrioritizedActors`: the connection, the index in the sorted
list, the `FNetworkObjectInfo` and the channel, and what the call returned. -/
structure FReplicateActorCall where
  Connection : Nat
  Index : Nat
  ActorInfo : Nat
  Channel : Nat
  bSent : Bool
  deriving DecidableEq, Repr

/-- Engine and game code the scheduler calls, none of it part of the sources.
* `IsNetReady net c`: `c->IsNetReady(0)` on a connection.
* `CreateChannel net c`: `c->CreateChannel(CHTYPE_Actor, 1)`, null on failure.
* `SetChannelActor`, `ChannelIsNetReady`, `ReplicateActor`, `Close`,
  `StartBecomingDormant`: the members of the channel at the given address.
* `AddSingleton net a`: `GlobalStateManager->AddSingleton(a)`.
* `GetNetDormancy a v`: the virtual `a->GetNetDormancy(...)` for viewer `v`.
* `SRand`, `FRand`: what `FMath::SRand()` and `FMath::FRand()` return.
* `ActorPriority c ch info`, `DestructionPriority c dinfo`: the `Priority` computed by
  the two constructors of `FActorPriority`.
* `BuildConsiderList infos DeltaSeconds`: `ServerReplicateActors_BuildConsiderList`, which
  fills the consider list and may update the infos. -/
structure Engine where
  IsNetReady : FNetState → Nat → Bool
  CreateChannel : FNetState → Nat → Option Nat × FNetState
  SetChannelActor : FNetState → Nat → Nat → FNetState
  ChannelIsNetReady : FNetState → Nat → Bool
  ReplicateActor : FNetState → Nat → Bool × FNetState
  Close : FNetState → Nat → FNetState
  StartBecomingDormant : FNetState → Nat → FNetState
  AddSingleton : FNetState → Nat → Option Nat × FNetState
  GetNetDormancy : Nat → FNetViewer → Bool
  SRand : ℚ
  FRand : ℚ
  ActorPriority : Nat → Option Nat → Nat → Int
  DestructionPriority : Nat → FActorDestructionInfo → Int
  BuildConsiderList : (Nat → FNetworkObjectInfo) → ℚ → List Nat × (Nat → FNetworkObjectInfo)

/-- Class `USpatialNetDriver` with the members of `UNetDriver` the scheduler uses.
`WorldTimeSeconds` is `World->TimeSeconds`, `ReplicationViewers` is
`World->GetWorldSettings()->ReplicationViewers`, and `ReplicateActorCalls` lists the
`ReplicateActor` calls made so far (oldest first). The debug lists filled under
`DebugRelevantActors` are left out. -/
structure USpatialNetDriver where
  NetTag : Nat
  ReplicationFrame : Nat
  Time : ℚ
  WorldTimeSeconds : ℚ
  RelevantTimeout : ℚ
  ClientConnections : List Nat
  Actors : Nat → AActor
  NetworkObjectInfos : Nat → FNetworkObjectInfo
  DestroyedStartupOrDormantActors : TMap FNetworkGUID FActorDestructionInfo
  ReplicationViewers : List FNetViewer
  Net : FNetState
  ReplicateActorCalls : List FReplicateActorCall

/-- Outcome of a driver call. -/
abbrev DriverResult (α : Type) := Result USpatialNetDriver α

/-- Static function `IsActorRelevantToConnection`. -/
def IsActorRelevantToConnection (_Actor : Nat) (_ConnectionViewers : List FNetViewer) : Bool :=
  true

/-- Static function `IsActorDormant`. -/
def IsActorDormant (ActorInfo : FNetworkObjectInfo) (Connection : Nat) : Bool :=
  ActorInfo.DormantConnections.contains Connection

/-- Static function `ShouldActorGoDormant`; `Channel` is the channel object, if any. -/
def ShouldActorGoDormant (env : Engine) (Actor : Nat) (NetDormancy : ENetDormancy)
    (ConnectionViewers : List FNetViewer) (Channel : Option UActorChannel) : Bool :=
  match Channel with
  | none => false
  | some Ch =>
    if decide (NetDormancy.toNat ≤ ENetDormancy.DORM_Awake.toNat) || Ch.bPendingDormancy
        || Ch.Dormant then false
    else if NetDormancy = ENetDormancy.DORM_DormantPartial then
      ConnectionViewers.all fun Viewer => env.GetNetDormancy Actor Viewer
    else true
/-- Modelled from the spec: the call
`Sort(OutPriorityActors, FinalSortedCount, FCompareFActorPriority())`. The engine's `Sort`
and the comparator are not part of the sources; the sort is descending by `Priority`
and stable. -/
def Sort_FCompareFActorPriority (OutPriorityActors : List FActorPriority) : List FActorPriority :=
  OutPriorityActors.insertionSort fun A B => B.Priority ≤ A.Priority

/-- The loop over `InConnection->SentTemporaries` in
`ServerReplicateActors_PrioritizeActors`. -/
def ServerReplicateActors_PrioritizeActors.tagSentTemporaries (NetTag : Nat) :
    List Nat → (Nat → AActor) → (Nat → AActor)
  | [], Actors => Actors
  | Actor :: rest, Actors =>
    tagSentTemporaries NetTag rest
      (Function.update Actors Actor { Actors Actor with NetTag := NetTag })

/-- The step of `ServerReplicateActors_PrioritizeActors` in which an actor that wants to
go dormant has `Channel->StartBecomingDormant()` called. -/
def ServerReplicateActors_PrioritizeActors.startDormancy (env : Engine) (Actor : Nat)
    (ConnectionViewers : List FNetViewer) (Channel : Option Nat) (d : USpatialNetDriver) :
    USpatialNetDriver :=
  match Channel with
  | some Ch =>
    if ShouldActorGoDormant env Actor (d.Actors Actor).NetDormancy ConnectionViewers
        (some (d.Net.Channels Ch)) then
      { d with Net := env.StartBecomingDormant d.Net Ch }
    else d
  | none => d

/-- The test on `Actor->GetNetConnection()` in `ServerReplicateActors_PrioritizeActors`:
the value is `false` where the source says `continue`. `ClientConnections[0]` is only
read for an actor without connection, and asserts that the array is not empty. -/
def ServerReplicateActors_PrioritizeActors.replicatesOn (InConnection Actor : Nat)
    (d : USpatialNetDriver) : DriverResult Bool :=
  let ActorConnection := (d.Actors Actor).NetConnection
  if ActorConnection ≠ some InConnection then
    if ActorConnection = none then
      match d.ClientConnections with
      | [] => fatal Fault.check d
      | First :: _ => ok (decide (InConnection = First)) d
    else ok false d
  else ok true d

/-- The loop over `ConsiderList` in `ServerReplicateActors_PrioritizeActors`;
`OutPriorityList` holds the entries written so far, so `FinalSortedCount` is its
length. Writing past the `MaxSortedActors` allocated entries is a fault. -/
def ServerReplicateActors_PrioritizeActors.consider (env : Engine) (InConnection : Nat)
    (ConnectionViewers : List FNetViewer) (MaxSortedActors : Nat) :
    List Nat → List FActorPriority → USpatialNetDriver → DriverResult (List FActorPriority)
  | [], OutPriorityList, d => ok OutPriorityList d
  | ActorInfo :: rest, OutPriorityList, d =>
    let Actor := (d.NetworkObjectInfos ActorInfo).Actor
    let Channel := TMap.Find (d.Net.Connections InConnection).ActorChannelMap Actor
    if IsActorDormant (d.NetworkObjectInfos ActorInfo) InConnection then
      consider env InConnection ConnectionViewers MaxSortedActors rest OutPriorityList d
    else
      (ServerReplicateActors_PrioritizeActors.replicatesOn InConnection Actor
        (ServerReplicateActors_PrioritizeActors.startDormancy env Actor ConnectionViewers
          Channel d)).bind fun bReplicateHere d2 =>
      if !bReplicateHere then
        consider env InConnection ConnectionViewers MaxSortedActors rest OutPriorityList d2
      else if !IsActorRelevantToConnection Actor ConnectionViewers then
        consider env InConnection ConnectionViewers MaxSortedActors rest OutPriorityList d2
      else if (d2.Actors Actor).NetTag ≠ d2.NetTag then
        if OutPriorityList.length < MaxSortedActors then
          consider env InConnection ConnectionViewers MaxSortedActors rest
            (OutPriorityList ++
              [{ Priority := env.ActorPriority InConnection Channel ActorInfo
                 ActorInfo := some ActorInfo
                 Channel := Channel
                 DestructionInfo := none }])
            { d2 with
              Actors := Function.update d2.Actors Actor
                { d2.Actors Actor with NetTag := d2.NetTag } }
        else fatal Fault.outOfBounds d2
      else
        consider env InConnection ConnectionViewers MaxSortedActors rest OutPriorityList d2

/-- The loop over `InConnection->GetDestroyedStartupOrDormantActorGUIDs()` in
`ServerReplicateActors_PrioritizeActors`; `FindChecked` asserts that the key exists. -/
def ServerReplicateActors_PrioritizeActors.addDeleted (env : Engine) (InConnection : Nat)
    (MaxSortedActors : Nat) :
    List FNetworkGUID → List FActorPriority → USpatialNetDriver →
      DriverResult (List FActorPriority)
  | [], OutPriorityList, d => ok OutPriorityList d
  | GUID :: rest, OutPriorityList, d =>
    match TMap.Find d.DestroyedStartupOrDormantActors GUID with
    | none => fatal Fault.check d
    | some DInfo =>
      if OutPriorityList.length < MaxSortedActors then
        addDeleted env InConnection MaxSortedActors rest
          (OutPriorityList ++
            [{ Priority := env.DestructionPriority InConnection DInfo
               ActorInfo := none
               Channel := none
               DestructionInfo := some DInfo }]) d
      else fatal Fault.outOfBounds d

/-- The start of `ServerReplicateActors_PrioritizeActors`: `NetTag++`,
`InConnection->TickCount++`, and the sent temporaries are tagged. -/
def ServerReplicateActors_PrioritizeActors.begin (InConnection : Nat) (d : USpatialNetDriver) :
    USpatialNetDriver :=
  { d with
    NetTag := d.NetTag + 1
    Actors := ServerReplicateActors_PrioritizeActors.tagSentTemporaries (d.NetTag + 1)
      (d.Net.Connections InConnection).SentTemporaries d.Actors
    Net :=
      { d.Net with
        Connections := Function.update d.Net.Connections InConnection
          { d.Net.Connections InConnection with
            TickCount := (d.Net.Connections InConnection).TickCount + 1 } } }

/-- The two loops of `ServerReplicateActors_PrioritizeActors` that fill
`OutPriorityList`: the considered actors, then the deleted actors. -/
def ServerReplicateActors_PrioritizeActors.collect (env : Engine) (InConnection : Nat)
    (ConnectionViewers : List FNetViewer) (ConsiderList : List Nat) (MaxSortedActors : Nat)
    (d : USpatialNetDriver) : DriverResult (List FActorPriority) :=
  (ServerReplicateActors_PrioritizeActors.consider env InConnection ConnectionViewers
    MaxSortedActors ConsiderList [] d).bind fun OutPriorityList d1 =>
  ServerReplicateActors_PrioritizeActors.addDeleted env InConnection MaxSortedActors
    (d1.Net.Connections InConnection).DestroyedStartupOrDormantActorGUIDs OutPriorityList d1

/-- Member `USpatialNetDriver::ServerReplicateActors_PrioritizeActors`. The value is the
sorted array `OutPriorityActors`; the returned `FinalSortedCount` is its length. -/
def ServerReplicateActors_PrioritizeActors (env : Engine) (InConnection : Nat)
    (ConnectionViewers : List FNetViewer) (ConsiderList : List Nat) (d : USpatialNetDriver) :
    DriverResult (List FActorPriority) :=
  let d1 := ServerReplicateActors_PrioritizeActors.begin InConnection d
  let MaxSortedActors := ConsiderList.length + d1.DestroyedStartupOrDormantActors.length
  if 0 < MaxSortedActors then
    (ServerReplicateActors_PrioritizeActors.collect env InConnection ConnectionViewers
      ConsiderList MaxSortedActors d1).bind fun OutPriorityList d2 =>
    ok (Sort_FCompareFActorPriority OutPriorityList) d2
  else ok [] d1
/-- Modelled from the spec: the engine template `FMath::Max`, `(A >= B) ? A : B`, is not
part of the sources. -/
def FMath.Max (A B : ℚ) : ℚ := if A ≥ B then A else B

/-- Modelled from the spec: the engine template `FMath::Clamp`,
`X < Min ? Min : X < Max ? X : Max`, is not part of the sources. -/
def FMath.Clamp (X Min Max : ℚ) : ℚ := if X < Min then Min else if X < Max then X else Max

/-- The deletion entry branch of `ServerReplicateActors_ProcessPrioritizedActors`. -/
def ServerReplicateActors_ProcessPrioritizedActors.deletionEntry (env : Engine)
    (InConnection : Nat) (DestructionInfo : FActorDestructionInfo) (d : USpatialNetDriver) :
    USpatialNetDriver :=
  if DestructionInfo.StreamingLevelName ≠ none ∧
      ¬ (d.Net.Connections InConnection).ClientVisibleLevelNames.contains
        (DestructionInfo.StreamingLevelName.getD "") then d
  else
    let Created := env.CreateChannel d.Net InConnection
    match Created.1 with
    | some _ =>
      { d with
        Net :=
          { Created.2 with
            Connections := Function.update Created.2.Connections InConnection
              { Created.2.Connections InConnection with
                DestroyedStartupOrDormantActorGUIDs :=
                  (Created.2.Connections InConnection).DestroyedStartupOrDormantActorGUIDs.filter
                    fun GUID => GUID ≠ DestructionInfo.NetGUID } } }
    | none => { d with Net := Created.2 }

/-- The block of `ServerReplicateActors_ProcessPrioritizedActors` that finds a channel
for an actor without one, entered when the class and archetype are supported. -/
def ServerReplicateActors_ProcessPrioritizedActors.createChannel (env : Engine)
    (InConnection ActorInfo Actor : Nat) (d : USpatialNetDriver) :
    Option Nat × USpatialNetDriver :=
  if (d.Actors Actor).bSingleton then
    ((env.AddSingleton d.Net Actor).1, { d with Net := (env.AddSingleton d.Net Actor).2 })
  else
    let Created := env.CreateChannel d.Net InConnection
    match Created.1 with
    | some Channel => (some Channel, { d with Net := env.SetChannelActor Created.2 Channel Actor })
    | none =>
      if (d.Actors Actor).NetUpdateFrequency < 1 then
        (none, { d with
          Net := Created.2
          NetworkObjectInfos := Function.update d.NetworkObjectInfos ActorInfo
            { d.NetworkObjectInfos ActorInfo with
              NextUpdateTime := d.WorldTimeSeconds + (2 / 10) * env.FRand } })
      else (none, { d with Net := Created.2 })

/-- The block `if (Channel->IsNetReady(0)) { ... }` of
`ServerReplicateActors_ProcessPrioritizedActors`: the actor is replicated, after a
successful send its update interval is recomputed, and `OutUpdated` is incremented. The
interval is computed in exact arithmetic, which is the code's `float` value up to
rounding when both frequencies are non-zero. -/
def ServerReplicateActors_ProcessPrioritizedActors.replicate (env : Engine)
    (InConnection j ActorInfo Actor Channel : Nat) (OutUpdated : Nat)
    (d : USpatialNetDriver) : Nat × USpatialNetDriver :=
  if env.ChannelIsNetReady d.Net Channel then
    let Replicated := env.ReplicateActor d.Net Channel
    let d1 : USpatialNetDriver :=
      { d with
        Net := Replicated.2
        ReplicateActorCalls := d.ReplicateActorCalls ++
          [{ Connection := InConnection, Index := j, ActorInfo := ActorInfo,
             Channel := Channel, bSent := Replicated.1 }] }
    if Replicated.1 then
      let MinOptimalDelta := 1 / (d1.Actors Actor).NetUpdateFrequency
      let MaxOptimalDelta :=
        FMath.Max (1 / (d1.Actors Actor).MinNetUpdateFrequency) MinOptimalDelta
      let DeltaBetweenReplications :=
        d1.WorldTimeSeconds - (d1.NetworkObjectInfos ActorInfo).LastNetReplicateTime
      (OutUpdated + 1,
        { d1 with
          NetworkObjectInfos := Function.update d1.NetworkObjectInfos ActorInfo
            { d1.NetworkObjectInfos ActorInfo with
              OptimalNetUpdateDelta :=
                FMath.Clamp (DeltaBetweenReplications * (7 / 10)) MinOptimalDelta
                  MaxOptimalDelta
              LastNetReplicateTime := d1.WorldTimeSeconds } })
    else (OutUpdated + 1, d1)
  else (OutUpdated, d)

/-- The last block of the loop body of `ServerReplicateActors_ProcessPrioritizedActors`:
the channel of an actor that is not recently relevant or is torn off is closed, unless
the actor is a startup actor. -/
def ServerReplicateActors_ProcessPrioritizedActors.closeChannel (env : Engine)
    (Actor : Nat) (bIsRecentlyRelevant : Bool) (Channel : Option Nat)
    (d : USpatialNetDriver) : USpatialNetDriver :=
  match Channel with
  | some Ch =>
    if (!bIsRecentlyRelevant || (d.Actors Actor).bTearOff) &&
        !(d.Actors Actor).bNetStartupActor then
      { d with Net := env.Close d.Net Ch }
    else d
  | none => d

/-- The flag `bIsRelevant` of `ServerReplicateActors_ProcessPrioritizedActors`: the actor
is not torn off, has no channel or was not checked for more than a second, and
`IsActorRelevantToConnection` accepts it. -/
def ServerReplicateActors_ProcessPrioritizedActors.bIsRelevant (Actor : Nat)
    (ConnectionViewers : List FNetViewer) (Channel : Option Nat) (d : USpatialNetDriver) :
    Bool :=
  !(d.Actors Actor).bTearOff &&
    (match Channel with
      | none => true
      | some Ch => decide (d.Time - (d.Net.Channels Ch).RelevantTime > 1)) &&
    IsActorRelevantToConnection Actor ConnectionViewers

/-- The flag `bIsRecentlyRelevant` of `ServerReplicateActors_ProcessPrioritizedActors`. -/
def ServerReplicateActors_ProcessPrioritizedActors.bIsRecentlyRelevant (bIsRelevant : Bool)
    (Channel : Option Nat) (d : USpatialNetDriver) : Bool :=
  bIsRelevant ||
    (match Channel with
      | none => false
      | some Ch => decide (d.Time - (d.Net.Channels Ch).RelevantTime < d.RelevantTimeout))

/-- The channel `ServerReplicateActors_ProcessPrioritizedActors` goes on with for a
recently relevant actor: the one of the entry, or a new one when the entry has none and
the actor's class and archetype are supported. -/
def ServerReplicateActors_ProcessPrioritizedActors.findChannel (env : Engine)
    (InConnection ActorInfo Actor : Nat) (Channel : Option Nat) (d : USpatialNetDriver) :
    Option Nat × USpatialNetDriver :=
  if Channel = none ∧ (d.Actors Actor).bSupportsObject then
    ServerReplicateActors_ProcessPrioritizedActors.createChannel env InConnection ActorInfo
      Actor d
  else (Channel, d)

/-- The step `if (bIsRelevant) Channel->RelevantTime = Time + 0.5f * FMath::SRand();`. -/
def ServerReplicateActors_ProcessPrioritizedActors.markRelevant (env : Engine)
    (bIsRelevant : Bool) (Channel : Nat) (d : USpatialNetDriver) : USpatialNetDriver :=
  if bIsRelevant then
    { d with
      Net :=
        { d.Net with
          Channels := Function.update d.Net.Channels Channel
            { d.Net.Channels Channel with RelevantTime := d.Time + (1 / 2) * env.SRand } } }
  else d

/-- The block `if (Channel) { ... }` of `ServerReplicateActors_ProcessPrioritizedActors`
followed by the closing of the channel: the channel is marked relevant, the actor is
replicated if the channel is ready, and if the connection is then not ready the body
ends in `return j`. -/
def ServerReplicateActors_ProcessPrioritizedActors.withChannel (env : Engine)
    (InConnection j ActorInfo Actor Channel : Nat) (bIsRelevant bIsRecentlyRelevant : Bool)
    (OutUpdated : Nat) (d : USpatialNetDriver) : DriverResult (Bool × Nat) :=
  let Sent := ServerReplicateActors_ProcessPrioritizedActors.replicate env InConnection j
    ActorInfo Actor Channel OutUpdated
    (ServerReplicateActors_ProcessPrioritizedActors.markRelevant env bIsRelevant Channel d)
  if !env.IsNetReady Sent.2.Net InConnection then ok (true, Sent.1) Sent.2
  else
    ok (false, Sent.1)
      (ServerReplicateActors_ProcessPrioritizedActors.closeChannel env Actor
        bIsRecentlyRelevant (some Channel) Sent.2)

/-- The part `Normal actor replication` of the loop body of
`ServerReplicateActors_ProcessPrioritizedActors`, for an entry with an info. Every
channel is taken to be a `USpatialActorChannel`. -/
def ServerReplicateActors_ProcessPrioritizedActors.actorEntry (env : Engine)
    (InConnection : Nat) (ConnectionViewers : List FNetViewer) (j ActorInfo : Nat)
    (Channel : Option Nat) (OutUpdated : Nat) (d : USpatialNetDriver) :
    DriverResult (Bool × Nat) :=
  if Channel = none ∨ (Channel.map fun Ch => (d.Net.Channels Ch).Actor) ≠ some none then
    let Actor := (d.NetworkObjectInfos ActorInfo).Actor
    let bIsRelevant := ServerReplicateActors_ProcessPrioritizedActors.bIsRelevant Actor
      ConnectionViewers Channel d
    let bIsRecentlyRelevant :=
      ServerReplicateActors_ProcessPrioritizedActors.bIsRecentlyRelevant bIsRelevant Channel d
    if bIsRecentlyRelevant then
      match ServerReplicateActors_ProcessPrioritizedActors.findChannel env InConnection
          ActorInfo Actor Channel d with
      | (some Ch, d1) =>
        ServerReplicateActors_ProcessPrioritizedActors.withChannel env InConnection j
          ActorInfo Actor Ch bIsRelevant bIsRecentlyRelevant OutUpdated d1
      | (none, d1) =>
        ok (false, OutUpdated)
          (ServerReplicateActors_ProcessPrioritizedActors.closeChannel env Actor
            bIsRecentlyRelevant none d1)
    else
      ok (false, OutUpdated)
        (ServerReplicateActors_ProcessPrioritizedActors.closeChannel env Actor
          bIsRecentlyRelevant Channel d)
  else ok (false, OutUpdated) d

/-- The body of the loop of `ServerReplicateActors_ProcessPrioritizedActors` for the
entry at index `j`. The value says whether the body ended in `return j`, and carries
`OutUpdated`. An entry with neither `ActorInfo` nor `DestructionInfo` is a null
dereference. -/
def ServerReplicateActors_ProcessPrioritizedActors.entry (env : Engine) (InConnection : Nat)
    (ConnectionViewers : List FNetViewer) (j : Nat) (Entry : FActorPriority)
    (OutUpdated : Nat) (d : USpatialNetDriver) : DriverResult (Bool × Nat) :=
  match Entry.ActorInfo, Entry.DestructionInfo with
  | none, some DestructionInfo =>
    ok (false, OutUpdated)
      (ServerReplicateActors_ProcessPrioritizedActors.deletionEntry env InConnection
        DestructionInfo d)
  | none, none => fatal Fault.nullDeref d
  | some ActorInfo, _ =>
    ServerReplicateActors_ProcessPrioritizedActors.actorEntry env InConnection
      ConnectionViewers j ActorInfo Entry.Channel OutUpdated d

/-- The loop of `ServerReplicateActors_ProcessPrioritizedActors` from index `j` on; at
the end of the list `j` is `FinalSortedCount`. The value is the returned index and
`OutUpdated`. -/
def ServerReplicateActors_ProcessPrioritizedActors.loop (env : Engine) (InConnection : Nat)
    (ConnectionViewers : List FNetViewer) :
    Nat → List FActorPriority → Nat → USpatialNetDriver → DriverResult (Nat × Nat)
  | j, [], OutUpdated, d => ok (j, OutUpdated) d
  | j, Entry :: rest, OutUpdated, d =>
    (ServerReplicateActors_ProcessPrioritizedActors.entry env InConnection ConnectionViewers
      j Entry OutUpdated d).bind fun Done d1 =>
    if Done.1 then ok (j, Done.2) d1
    else loop env InConnection ConnectionViewers (j + 1) rest Done.2 d1

/-- Member `USpatialNetDriver::ServerReplicateActors_ProcessPrioritizedActors`;
`PriorityActors` is the array with its length `FinalSortedCount`. The value is the
returned index and `OutUpdated`. -/
def ServerReplicateActors_ProcessPrioritizedActors (env : Engine) (InConnection : Nat)
    (ConnectionViewers : List FNetViewer) (PriorityActors : List FActorPriority)
    (OutUpdated : Nat) (d : USpatialNetDriver) : DriverResult (Nat × Nat) :=
  if !env.IsNetReady d.Net InConnection then ok (0, OutUpdated) d
  else
    ServerReplicateActors_ProcessPrioritizedActors.loop env InConnection ConnectionViewers 0
      PriorityActors OutUpdated d
/-- The loop over `SpatialConnection->Children` in
`ServerReplicateActors_PrepConnections`; with `bReady` each child gets the view target
of its player controller, or null when it has none, otherwise null. -/
def ServerReplicateActors_PrepConnections.children (bReady : Bool) :
    List Nat → (Nat → USpatialNetConnection) → (Nat → USpatialNetConnection)
  | [], Connections => Connections
  | Child :: rest, Connections =>
    children bReady rest
      (Function.update Connections Child
        { Connections Child with
          ViewTarget :=
            if bReady then
              match (Connections Child).PlayerController with
              | some ViewTarget => ViewTarget
              | none => none
            else none })

/-- The loop over `ClientConnections` in `ServerReplicateActors_PrepConnections`; the
value is `bFoundReadyConnection`. The assertions on the child connection and on the
world of the owning actor are taken to hold. -/
def ServerReplicateActors_PrepConnections.loop :
    List Nat → Bool → USpatialNetDriver → DriverResult Bool
  | [], bFoundReadyConnection, d => ok bFoundReadyConnection d
  | SpatialConnection :: rest, bFoundReadyConnection, d =>
    let Conn := d.Net.Connections SpatialConnection
    (check (decide (Conn.State = EConnectionState.USOCK_Pending ∨
        Conn.State = EConnectionState.USOCK_Open ∨
        Conn.State = EConnectionState.USOCK_Closed)) d).bind fun _ d =>
    if (Conn.bReliableSpatialConnection || Conn.OwningActor.isSome) &&
        decide (Conn.State = EConnectionState.USOCK_Open) &&
        decide (d.Time - Conn.LastReceiveTime < 15 / 10) then
      loop rest true
        { d with
          Net :=
            { d.Net with
              Connections :=
                ServerReplicateActors_PrepConnections.children true Conn.Children
                  (Function.update d.Net.Connections SpatialConnection
                    { Conn with
                      ViewTarget :=
                        match Conn.PlayerController with
                        | some ViewTarget => ViewTarget
                        | none => Conn.OwningActor }) } }
    else
      loop rest bFoundReadyConnection
        { d with
          Net :=
            { d.Net with
              Connections :=
                ServerReplicateActors_PrepConnections.children false Conn.Children
                  (Function.update d.Net.Connections SpatialConnection
                    { Conn with ViewTarget := none }) } }

/-- Member `USpatialNetDriver::ServerReplicateActors_PrepConnections`. -/
def ServerReplicateActors_PrepConnections (d : USpatialNetDriver) : DriverResult Nat :=
  let NumClientsToTick := d.ClientConnections.length
  (ServerReplicateActors_PrepConnections.loop d.ClientConnections false d).bind
  fun bFoundReadyConnection d1 =>
  ok (if bFoundReadyConnection then NumClientsToTick else 0) d1

/-- The loop over `ConsiderList` in the branch `i >= NumClientsToTick` of
`ServerReplicateActors`. -/
def ServerReplicateActors.flagConsidered (SpatialConnection : Nat) :
    List Nat → USpatialNetDriver → USpatialNetDriver
  | [], d => d
  | ActorInfo :: rest, d =>
    let Info := d.NetworkObjectInfos ActorInfo
    if !Info.bPendingNetUpdate then
      match TMap.Find (d.Net.Connections SpatialConnection).ActorChannelMap Info.Actor with
      | some Channel =>
        if (d.Net.Channels Channel).LastUpdateTime < Info.LastNetUpdateTime then
          flagConsidered SpatialConnection rest
            { d with
              NetworkObjectInfos := Function.update d.NetworkObjectInfos ActorInfo
                { Info with bPendingNetUpdate := true } }
        else flagConsidered SpatialConnection rest d
      | none => flagConsidered SpatialConnection rest d
    else flagConsidered SpatialConnection rest d

/-- The loop `for (k = LastProcessedActor; k < FinalSortedCount; k++)` of
`ServerReplicateActors`, over the entries from `LastProcessedActor` on. -/
def ServerReplicateActors.flagUnprocessed (env : Engine) (ConnectionViewers : List FNetViewer) :
    List FActorPriority → USpatialNetDriver → USpatialNetDriver
  | [], d => d
  | Entry :: rest, d =>
    match Entry.ActorInfo with
    | none => flagUnprocessed env ConnectionViewers rest d
    | some ActorInfo =>
      let Actor := (d.NetworkObjectInfos ActorInfo).Actor
      if (match Entry.Channel with
          | some Channel => decide (d.Time - (d.Net.Channels Channel).RelevantTime ≤ 1)
          | none => false) then
        flagUnprocessed env ConnectionViewers rest
          { d with
            NetworkObjectInfos := Function.update d.NetworkObjectInfos ActorInfo
              { d.NetworkObjectInfos ActorInfo with bPendingNetUpdate := true } }
      else if IsActorRelevantToConnection Actor ConnectionViewers then
        flagUnprocessed env ConnectionViewers rest
          { d with
            NetworkObjectInfos := Function.update d.NetworkObjectInfos ActorInfo
              { d.NetworkObjectInfos ActorInfo with bPendingNetUpdate := true }
            Net :=
              match Entry.Channel with
              | some Channel =>
                { d.Net with
                  Channels := Function.update d.Net.Channels Channel
                    { d.Net.Channels Channel with
                      RelevantTime := d.Time + (1 / 2) * env.SRand } }
              | none => d.Net }
      else flagUnprocessed env ConnectionViewers rest d

/-- The viewers `ServerReplicateActors` collects for a connection with a view target:
the connection itself and its children that have a view target. -/
def ServerReplicateActors.viewers (SpatialConnection : Nat) (d : USpatialNetDriver) :
    List FNetViewer :=
  { Connection := SpatialConnection } ::
    ((d.Net.Connections SpatialConnection).Children.filter fun Child =>
      (d.Net.Connections Child).ViewTarget.isSome).map fun Child => { Connection := Child }

/-- The start of the branch of `ServerReplicateActors` for a connection that is ticked:
with a view target, `ReplicationViewers` is reset and filled with the viewers of the
connection. -/
def ServerReplicateActors.setViewers (SpatialConnection : Nat) (d : USpatialNetDriver) :
    USpatialNetDriver :=
  if (d.Net.Connections SpatialConnection).ViewTarget.isSome then
    { d with ReplicationViewers := ServerReplicateActors.viewers SpatialConnection d }
  else d

/-- The branch of `ServerReplicateActors` for a connection that is ticked: the actors
are prioritized and processed, and the entries from `LastProcessedActor` on are
flagged. The value is `Updated`. -/
def ServerReplicateActors.tickConnection (env : Engine) (SpatialConnection : Nat)
    (ConsiderList : List Nat) (Updated : Nat) (d : USpatialNetDriver) : DriverResult Nat :=
  (ServerReplicateActors_PrioritizeActors env SpatialConnection
    (ServerReplicateActors.setViewers SpatialConnection d).ReplicationViewers ConsiderList
    (ServerReplicateActors.setViewers SpatialConnection d)).bind fun PriorityActors d2 =>
  (ServerReplicateActors_ProcessPrioritizedActors env SpatialConnection d2.ReplicationViewers
    PriorityActors Updated d2).bind fun Processed d3 =>
  ok Processed.2
    { ServerReplicateActors.flagUnprocessed env d3.ReplicationViewers
        (PriorityActors.drop Processed.1) d3 with ReplicationViewers := [] }

/-- The branch `i >= NumClientsToTick` of `ServerReplicateActors` for a connection that
is not ticked: considered actors are flagged, and `TimeSensitive` is cleared. -/
def ServerReplicateActors.skipConnection (SpatialConnection : Nat) (ConsiderList : List Nat)
    (d : USpatialNetDriver) : USpatialNetDriver :=
  let d1 := ServerReplicateActors.flagConsidered SpatialConnection ConsiderList d
  { d1 with
    Net :=
      { d1.Net with
        Connections := Function.update d1.Net.Connections SpatialConnection
          { d1.Net.Connections SpatialConnection with TimeSensitive := false } } }

/-- The loop over `ClientConnections` in `ServerReplicateActors`, from index `i` on. -/
def ServerReplicateActors.connections (env : Engine) (NumClientsToTick : Nat)
    (ConsiderList : List Nat) :
    Nat → List Nat → Nat → USpatialNetDriver → DriverResult Nat
  | _, [], Updated, d => ok Updated d
  | i, SpatialConnection :: rest, Updated, d =>
    if i ≥ NumClientsToTick then
      connections env NumClientsToTick ConsiderList (i + 1) rest Updated
        (ServerReplicateActors.skipConnection SpatialConnection ConsiderList d)
    else if (d.Net.Connections SpatialConnection).bReliableSpatialConnection ||
        (d.Net.Connections SpatialConnection).ViewTarget.isSome then
      (ServerReplicateActors.tickConnection env SpatialConnection ConsiderList Updated d).bind
      fun Updated d1 =>
      connections env NumClientsToTick ConsiderList (i + 1) rest Updated d1
    else connections env NumClientsToTick ConsiderList (i + 1) rest Updated d

/-- The loop at the end of `ServerReplicateActors` that moves the first connection to
the end of `ClientConnections`, `NumConnectionsToMove` times. -/
def ServerReplicateActors.rotate : Nat → List Nat → List Nat
  | 0, ClientConnections => ClientConnections
  | _ + 1, [] => []
  | n + 1, ClientConnection :: rest => rotate n (rest ++ [ClientConnection])

/-- Member `USpatialNetDriver::ServerReplicateActors`. The value is `Updated`. -/
def ServerReplicateActors (env : Engine) (DeltaSeconds : ℚ) (d : USpatialNetDriver) :
    DriverResult Nat :=
  if d.ClientConnections.length = 0 then ok 0 d
  else
    (ServerReplicateActors_PrepConnections
      { d with ReplicationFrame := d.ReplicationFrame + 1 }).bind fun NumClientsToTick d1 =>
    if NumClientsToTick = 0 then ok 0 d1
    else
      let Built := env.BuildConsiderList d1.NetworkObjectInfos DeltaSeconds
      (ServerReplicateActors.connections env NumClientsToTick Built.1 0 d1.ClientConnections 0
        { d1 with NetworkObjectInfos := Built.2 }).bind fun Updated d2 =>
      ok Updated
        (if NumClientsToTick < d2.ClientConnections.length then
          { d2 with
            ClientConnections :=
              ServerReplicateActors.rotate NumClientsToTick d2.ClientConnections }
        else d2)

/-! ## `GetTypeHash` of `FUnrealObjectRef` -/

/-- The `GetTypeHash` overloads that `GetTypeHash(const FUnrealObjectRef&)` calls, none of
them part of the sources: the ones for `int64`, for `uint32`, for the
`TSchemaOption<FString>` of the path and for the `TSchemaOption<FUnrealObjectRef>` of the
outer. Each is a function of the value it is given. -/
structure HashEnv where
  GetTypeHash_int64 : Int → Nat
  GetTypeHash_uint32 : Nat → Nat
  GetTypeHash_Path : Option String → Nat
  GetTypeHash_Outer : Option FUnrealObjectRef → Nat

/-- Function `GetTypeHash(const FUnrealObjectRef&)` of `UnrealObjectRef.h`, in `uint32`
arithmetic. -/
def GetTypeHash (env : HashEnv) (ObjectRef : FUnrealObjectRef) : Nat :=
  let Hash0 := 1327
  let Hash1 := (Hash0 * 977 + env.GetTypeHash_int64 ObjectRef.Entity) % 2 ^ 32
  let Hash2 := (Hash1 * 977 + env.GetTypeHash_uint32 ObjectRef.Offset) % 2 ^ 32
  let Hash3 := (Hash2 * 977 + env.GetTypeHash_Path ObjectRef.Path) % 2 ^ 32
  (Hash3 * 977 + env.GetTypeHash_Outer ObjectRef.Outer) % 2 ^ 32

/-! ## `FSpatialConditionMapFilter` -/

/-- Engine enum `ELifetimeCondition`; `COND_Max`, the number of its values, is 14. -/
inductive ELifetimeCondition where
  | COND_None
  | COND_InitialOnly
  | COND_OwnerOnly
  | COND_SkipOwner
  | COND_SimulatedOnly
  | COND_AutonomousOnly
  | COND_SimulatedOrPhysics
  | COND_InitialOrOwner
  | COND_Custom
  | COND_ReplayOrOwner
  | COND_ReplayOnly
  | COND_SimulatedOnlyNoReplay
  | COND_SimulatedOrPhysicsNoReplay
  | COND_SkipReplay
  deriving DecidableEq, Repr

/-- Engine enum `ENetRole`. -/
inductive ENetRole where
  | ROLE_None
  | ROLE_SimulatedProxy
  | ROLE_AutonomousProxy
  | ROLE_Authority
  deriving DecidableEq, Repr

/-- Engine struct `FReplicationFlags`, the bits the filter sets. -/
structure FReplicationFlags where
  bReplay : Bool
  bNetInitial : Bool
  bNetSimulated : Bool
  bNetOwner : Bool
  bRepPhysics : Bool
  deriving DecidableEq, Repr

/-- What the filter reads through `ActorChannel->Actor`, taken to be non-null: the
actor's `Role` and its `ReplicatedMovement.bRepPhysics`. -/
structure USpatialActorChannel where
  Actor_Role : ENetRole
  Actor_bRepPhysics : Bool
  deriving DecidableEq, Repr

/-- Class `FSpatialConditionMapFilter`: the array `ConditionMap[COND_Max]`. -/
structure FSpatialConditionMapFilter where
  ConditionMap : ELifetimeCondition → Bool

/-- Constructor `FSpatialConditionMapFilter(ActorChannel, bAuthoritative)`; the array
starts with the contents `Uninitialised` and is assigned entry by entry. -/
def FSpatialConditionMapFilter.construct (Uninitialised : ELifetimeCondition → Bool)
    (ActorChannel : USpatialActorChannel) (bAuthoritative : Bool) :
    FSpatialConditionMapFilter :=
  let RepFlags : FReplicationFlags :=
    { bReplay := false
      bNetInitial := true
      bNetSimulated := decide (ActorChannel.Actor_Role = ENetRole.ROLE_SimulatedProxy)
      bNetOwner := bAuthoritative
      bRepPhysics := ActorChannel.Actor_bRepPhysics }
  let bIsInitial := if RepFlags.bNetInitial then true else false
  let bIsOwner := if RepFlags.bNetOwner then true else false
  let bIsSimulated := if RepFlags.bNetSimulated then true else false
  let bIsPhysics := if RepFlags.bRepPhysics then true else false
  let bIsReplay := if RepFlags.bReplay then true else false
  let M0 := Uninitialised
  let M1 := Function.update M0 ELifetimeCondition.COND_None true
  let M2 := Function.update M1 ELifetimeCondition.COND_InitialOnly bIsInitial
  let M3 := Function.update M2 ELifetimeCondition.COND_OwnerOnly bIsOwner
  let M4 := Function.update M3 ELifetimeCondition.COND_SkipOwner (!bIsOwner)
  let M5 := Function.update M4 ELifetimeCondition.COND_SimulatedOnly bIsSimulated
  let M6 := Function.update M5 ELifetimeCondition.COND_SimulatedOnlyNoReplay
    (bIsSimulated && !bIsReplay)
  let M7 := Function.update M6 ELifetimeCondition.COND_AutonomousOnly (!bIsSimulated)
  let M8 := Function.update M7 ELifetimeCondition.COND_SimulatedOrPhysics
    (bIsSimulated || bIsPhysics)
  let M9 := Function.update M8 ELifetimeCondition.COND_SimulatedOrPhysicsNoReplay
    ((bIsSimulated || bIsPhysics) && !bIsReplay)
  let M10 := Function.update M9 ELifetimeCondition.COND_InitialOrOwner (bIsInitial || bIsOwner)
  let M11 := Function.update M10 ELifetimeCondition.COND_ReplayOrOwner (bIsReplay || bIsOwner)
  let M12 := Function.update M11 ELifetimeCondition.COND_ReplayOnly bIsReplay
  let M13 := Function.update M12 ELifetimeCondition.COND_SkipReplay (!bIsReplay)
  let M14 := Function.update M13 ELifetimeCondition.COND_Custom true
  { ConditionMap := M14 }

/-- Member `FSpatialConditionMapFilter::IsRelevant`. -/
def FSpatialConditionMapFilter.IsRelevant (Filter : FSpatialConditionMapFilter)
    (Condition : ELifetimeCondition) : Bool :=
  Filter.ConditionMap Condition

/-! ## `USpatialNetDriver::SpatialProcessServerTravel`: the travel URL

The members of the engine class `FString` that are used are not part of the sources. A
string whose characters are examined is a list of characters; searches ignore case when
the call leaves the engine's default `ESearchCase::IgnoreCase` in place. -/

/-- The engine class `FString` where its characters are examined. -/
abbrev FString := List Char

/-- Modelled from the spec: the engine member `FString::ToUpper`, for the letters `a` to
`z`; it is not part of the sources. -/
def FString.ToUpper (s : FString) : FString := s.map Char.toUpper

/-- Whether `SubStr` stands at the start of `s`, ignoring case. -/
def FString.StartsWithIgnoreCase (s SubStr : FString) : Bool :=
  (FString.ToUpper SubStr).isPrefixOf (FString.ToUpper s)

/-- Modelled from the spec: the engine member `FString::Find(SubStr)` with its default
arguments (`ESearchCase::IgnoreCase`, `ESearchDir::FromStart`), for a non-empty `SubStr`:
the first index at which `SubStr` stands, `none` for `INDEX_NONE`. It is not part of the
sources. -/
def FString.Find (SubStr : FString) : FString → Option Nat
  | [] => none
  | c :: s =>
    if FString.StartsWithIgnoreCase (c :: s) SubStr then some 0
    else (FString.Find SubStr s).map fun i => i + 1

/-- Modelled from the spec: the engine member `FString::Find(SubStr,
ESearchCase::IgnoreCase, ESearchDir::FromEnd)`, for a non-empty `SubStr`: the last index
at which `SubStr` stands, `none` for `INDEX_NONE`. It is not part of the sources. -/
def FString.FindFromEnd (SubStr : FString) : FString → Option Nat
  | [] => none
  | c :: s =>
    match FString.FindFromEnd SubStr s with
    | some i => some (i + 1)
    | none => if FString.StartsWithIgnoreCase (c :: s) SubStr then some 0 else none

/-- Modelled from the spec: the engine member `FString::Contains(SubStr)` with its default
`ESearchCase::IgnoreCase`, which is `Find(SubStr) != INDEX_NONE`. It is not part of the
sources. -/
def FString.Contains (s SubStr : FString) : Bool := (FString.Find SubStr s).isSome

/-- Modelled from the spec: the engine member `FString::Left(Count)`, which is not part of
the sources. -/
def FString.Left (s : FString) (Count : Nat) : FString := s.take Count

/-- Modelled from the spec: the engine member `FString::Mid(Start)`, which is not part of
the sources. -/
def FString.Mid (s : FString) (Start : Nat) : FString := s.drop Start

/-- Modelled from the spec: the engine member `FString::Split(InS, &LeftS, &RightS,
ESearchCase::IgnoreCase, ESearchDir::FromEnd)`, which is not part of the sources. It
looks for the last occurrence of `InS`; when there is none it returns `false` and leaves
`LeftS` and `RightS` as they are, otherwise it returns `true` and stores what stands
before and after the occurrence. The value is the returned flag with the new contents
of `LeftS` and `RightS`. -/
def FString.Split (s InS LeftS RightS : FString) : Bool × FString × FString :=
  match FString.FindFromEnd InS s with
  | none => (false, LeftS, RightS)
  | some InPos => (true, FString.Left s InPos, FString.Mid s (InPos + InS.length))

/-- What `SpatialProcessServerTravel` reads from its surroundings: whether this server has
authority over the deployment-map component of the global state manager, and the name
`UWorld::RemovePIEPrefix(GameMode->GetOutermost()->GetName())` of the current map. -/
structure TravelEnv where
  bHasAuthority : Bool
  CurrentMap : FString

/-- The local `NextMap` of `SpatialProcessServerTravel`. -/
def SpatialProcessServerTravel.NextMap (env : TravelEnv) (URL : FString) : FString :=
  if FString.Contains (FString.ToUpper URL) "?RESTART".toList then env.CurrentMap
  else
    match FString.Find "?".toList URL with
    | none => URL
    | some OptionStart => FString.Left URL OptionStart

/-- The local `NewURL` of `SpatialProcessServerTravel` after the snapshot option has been
handled. `Path` and `MapName` are default-constructed, so they are empty when `Split`
is called. -/
def SpatialProcessServerTravel.NewURL (env : TravelEnv) (URL : FString) : FString :=
  let NextMap := SpatialProcessServerTravel.NextMap env URL
  let NewURL := URL
  let SnapshotOption := FString.Contains NewURL "snapshot=".toList
  if !SnapshotOption then
    let Path : FString := []
    let MapName : FString := []
    let Parts := FString.Split NextMap "/".toList Path MapName
    NewURL ++ ("?snapshot=".toList ++ Parts.2.2)
  else NewURL

/-- Member `USpatialNetDriver::SpatialProcessServerTravel`, reduced to the URL it travels
to: the value is the `NewURL` passed to `GameMode->ProcessClientTravel` and stored in
`World->NextURL` by `FinishServerTravel`, or `none` when the call returns early because
this server has no authority over the global state manager. -/
def SpatialProcessServerTravel (env : TravelEnv) (URL : FString) : Option FString :=
  if !env.bHasAuthority then none
  else some (SpatialProcessServerTravel.NewURL env URL)

/-! ## `USpatialTypebindingManager`: the class-info tables

Embedding of `SpatialTypebindingManager.cpp`. The header of the class and the headers of
the schema database are absent from src; the members the functions read and write are the
fields below. A `UClass*`, `UFunction*` or `UProperty*` is the record of the object it
points to, so two pointers are equal exactly when the records are. Array sizes and
offsets stay far below `2 ^ 32` and are natural numbers. -/

/-- Modelled from the spec: the enumeration `ESchemaComponentType`; the sources name
`SCHEMA_Invalid` and the four RPC groups, the other three values are the property groups
the schema database is indexed by. -/
inductive ESchemaComponentType where
  | SCHEMA_Invalid
  | SCHEMA_Data
  | SCHEMA_OwnerOnly
  | SCHEMA_Handover
  | SCHEMA_ClientRPC
  | SCHEMA_ServerRPC
  | SCHEMA_NetMulticastRPC
  | SCHEMA_CrossServerRPC
deriving DecidableEq, Repr

/-- The engine object behind a `UFunction*`: its address and its `FunctionFlags`. -/
structure UFunction where
  Addr : Nat
  FunctionFlags : Nat
deriving DecidableEq, Repr

/-- The engine object behind a `UProperty*`: its address, `PropertyFlags`, `ArrayDim`,
`ElementSize` and the answer of `GetOffset_ForGC()`. -/
structure UProperty where
  Addr : Nat
  PropertyFlags : Nat
  ArrayDim : Nat
  ElementSize : Nat
  Offset_ForGC : Nat
deriving DecidableEq, Repr

/-- The engine object behind a `UClass*`: its address, the answer of `GetPathName()` and
the properties a `TFieldIterator<UProperty>` visits, in that order. -/
structure UClass where
  Addr : Nat
  PathName : String
  Properties : List UProperty
deriving DecidableEq, Repr

/-- Modelled from the spec: the struct `FRPCInfo`, the RPC group of a function (member
`Type`, a reserved word here) and its index in the array of that group. -/
structure FRPCInfo where
  Type_ : ESchemaComponentType
  Index : Nat
deriving DecidableEq, Repr

/-- Modelled from the spec: the struct `FHandoverPropertyInfo`. -/
structure FHandoverPropertyInfo where
  Handle : Nat
  Offset : Nat
  ArrayIdx : Nat
  Property : UProperty
deriving DecidableEq, Repr

/-- Modelled from the spec: the struct `FClassInfo`. `SchemaComponents` is the array
indexed by `ESchemaComponentType`; `SubobjectInfo` maps an offset to the shared
`FClassInfo` of the sub-object, held here by value. -/
structure FClassInfo where
  Class : Option UClass
  RPCs : TMap ESchemaComponentType (List UFunction)
  RPCInfoMap : TMap UFunction FRPCInfo
  HandoverProperties : List FHandoverPropertyInfo
  SchemaComponents : ESchemaComponentType → Worker_ComponentId
  SubobjectName : String
  SubobjectInfo : List (Nat × FClassInfo)

/-- Modelled from the spec: a default-constructed `FClassInfo`: null class, empty
containers, every schema component `0`. -/
def FClassInfo.default : FClassInfo :=
  { Class := none
    RPCs := []
    RPCInfoMap := []
    HandoverProperties := []
    SchemaComponents := fun _ => 0
    SubobjectName := ""
    SubobjectInfo := [] }

/-- Modelled from the spec: the struct `FSubobjectSchemaData` of the schema database. -/
structure FSubobjectSchemaData where
  ClassPath : String
  Name : String
  SchemaComponents : ESchemaComponentType → Worker_ComponentId

/-- Modelled from the spec: the struct `FSchemaData` of the schema database;
`SubobjectData` is iterated in the order of the list. -/
structure FSchemaData where
  SchemaComponents : ESchemaComponentType → Worker_ComponentId
  SubobjectData : TMap Nat FSubobjectSchemaData

/-- Modelled from the spec: the asset `USchemaDatabase`. -/
structure USchemaDatabase where
  ClassPathToSchema : TMap String FSchemaData

/-- What `CreateTypebindings` reads from outside the manager: the loaded
`SchemaDatabase`, the answer of `FSoftClassPath(path).TryLoadClass<UObject>()`
(`none` is `nullptr`), the answer of `improbable::GetClassRPCFunctions`, the types
`ForAllSchemaComponentTypes` passes to its callback, in that order, and the engine's
flag masks. -/
structure TypebindingEnv where
  SchemaDatabase : USchemaDatabase
  TryLoadClass : String → Option UClass
  GetClassRPCFunctions : UClass → List UFunction
  ForAllSchemaComponentTypes : List ESchemaComponentType
  FUNC_NetClient : Nat
  FUNC_NetServer : Nat
  FUNC_NetCrossServer : Nat
  FUNC_NetMulticast : Nat
  CPF_Handover : Nat

/-- The members of `USpatialTypebindingManager` that `CreateTypebindings` and the
lookups use. -/
structure USpatialTypebindingManager where
  SupportedClasses : List UClass
  ClassInfoMap : TMap UClass FClassInfo
  ComponentToClassMap : TMap Worker_ComponentId UClass
  ComponentToOffsetMap : TMap Worker_ComponentId Nat
  ComponentToCategoryMap : TMap Worker_ComponentId ESchemaComponentType

/-- The chain of flag tests at the top of the loop over `RelevantClassFunctions`;
`none` is the `checkNoEntry()` branch. -/
def CreateTypebindings.RPCType (env : TypebindingEnv) (RemoteFunction : UFunction) :
    Option ESchemaComponentType :=
  if RemoteFunction.FunctionFlags &&& env.FUNC_NetClient ≠ 0 then
    some ESchemaComponentType.SCHEMA_ClientRPC
  else if RemoteFunction.FunctionFlags &&& env.FUNC_NetServer ≠ 0 then
    some ESchemaComponentType.SCHEMA_ServerRPC
  else if RemoteFunction.FunctionFlags &&& env.FUNC_NetCrossServer ≠ 0 then
    some ESchemaComponentType.SCHEMA_CrossServerRPC
  else if RemoteFunction.FunctionFlags &&& env.FUNC_NetMulticast ≠ 0 then
    some ESchemaComponentType.SCHEMA_NetMulticastRPC
  else
    none

/-- The rest of the loop body: `FindOrAdd` the array of the group, record type and
index, append the function and add the record to `RPCInfoMap`. -/
def CreateTypebindings.addRPC (Info : FClassInfo) (RemoteFunction : UFunction)
    (RPCType : ESchemaComponentType) : FClassInfo :=
  let RPCArray := (TMap.Find Info.RPCs RPCType).getD []
  let RPCInfo : FRPCInfo := { Type_ := RPCType, Index := RPCArray.length }
  { Info with
    RPCs := TMap.Emplace Info.RPCs RPCType (RPCArray ++ [RemoteFunction])
    RPCInfoMap := TMap.Emplace Info.RPCInfoMap RemoteFunction RPCInfo }

/-- The loop over `RelevantClassFunctions`; `none` when `checkNoEntry()` is reached. -/
def CreateTypebindings.rpcs (env : TypebindingEnv) :
    List UFunction → FClassInfo → Option FClassInfo
  | [], Info => some Info
  | RemoteFunction :: rest, Info =>
    match CreateTypebindings.RPCType env RemoteFunction with
    | none => none
    | some RPCType =>
      CreateTypebindings.rpcs env rest (CreateTypebindings.addRPC Info RemoteFunction RPCType)

/-- The loop over `ArrayIdx` for one handover property. -/
def CreateTypebindings.handoverProperty (Property : UProperty) :
    List Nat → FClassInfo → FClassInfo
  | [], Info => Info
  | ArrayIdx :: rest, Info =>
    let HandoverInfo : FHandoverPropertyInfo :=
      { Handle := Info.HandoverProperties.length + 1
        Offset := Property.Offset_ForGC + Property.ElementSize * ArrayIdx
        ArrayIdx := ArrayIdx
        Property := Property }
    CreateTypebindings.handoverProperty Property rest
      { Info with HandoverProperties := Info.HandoverProperties ++ [HandoverInfo] }

/-- The loop over the properties of the class. -/
def CreateTypebindings.handover (env : TypebindingEnv) :
    List UProperty → FClassInfo → FClassInfo
  | [], Info => Info
  | Property :: rest, Info =>
    if Property.PropertyFlags &&& env.CPF_Handover ≠ 0 then
      CreateTypebindings.handover env rest
        (CreateTypebindings.handoverProperty Property (List.range Property.ArrayDim) Info)
    else
      CreateTypebindings.handover env rest Info

/-- The three `Add` calls that register a component id with its class, offset and
category. -/
def CreateTypebindings.registerComponent (m : USpatialTypebindingManager)
    (ComponentId : Worker_ComponentId) (Class : UClass) (Offset : Nat)
    (Type_ : ESchemaComponentType) : USpatialTypebindingManager :=
  { m with
    ComponentToClassMap := TMap.Emplace m.ComponentToClassMap ComponentId Class
    ComponentToOffsetMap := TMap.Emplace m.ComponentToOffsetMap ComponentId Offset
    ComponentToCategoryMap := TMap.Emplace m.ComponentToCategoryMap ComponentId Type_ }

/-- The first `ForAllSchemaComponentTypes` callback, run over the types: the schema data
of the class are looked up with `operator[]`, which asserts that the path is a key. -/
def CreateTypebindings.classComponents (env : TypebindingEnv) (Class : UClass) :
    List ESchemaComponentType → FClassInfo → USpatialTypebindingManager →
      Result USpatialTypebindingManager FClassInfo
  | [], Info, m => Result.ok Info m
  | Type_ :: rest, Info, m =>
    match TMap.Find env.SchemaDatabase.ClassPathToSchema Class.PathName with
    | none => Result.fatal Fault.check m
    | some SchemaData =>
      let ComponentId := SchemaData.SchemaComponents Type_
      if ComponentId ≠ 0 then
        CreateTypebindings.classComponents env Class rest
          { Info with SchemaComponents := Function.update Info.SchemaComponents Type_ ComponentId }
          (CreateTypebindings.registerComponent m ComponentId Class 0 Type_)
      else
        CreateTypebindings.classComponents env Class rest Info m

/-- The body of the first loop over `SupportedClasses`. -/
def CreateTypebindings.classInfo (env : TypebindingEnv) (Class : UClass)
    (m : USpatialTypebindingManager) : Result USpatialTypebindingManager Unit :=
  match CreateTypebindings.rpcs env (env.GetClassRPCFunctions Class) FClassInfo.default with
  | none => Result.fatal Fault.check m
  | some Info =>
    (CreateTypebindings.classComponents env Class env.ForAllSchemaComponentTypes
      (CreateTypebindings.handover env Class.Properties Info) m).bind fun Info m =>
    Result.ok () { m with
      ClassInfoMap := TMap.Emplace m.ClassInfoMap Class { Info with Class := some Class } }

/-- The first loop over `SupportedClasses`. -/
def CreateTypebindings.classInfos (env : TypebindingEnv) :
    List UClass → USpatialTypebindingManager → Result USpatialTypebindingManager Unit
  | [], m => Result.ok () m
  | Class :: rest, m =>
    (CreateTypebindings.classInfo env Class m).bind fun _ m =>
    CreateTypebindings.classInfos env rest m

/-- `USpatialTypebindingManager::FindClassInfoByClass`; `none` is `nullptr`. -/
def FindClassInfoByClass (m : USpatialTypebindingManager) (Class : UClass) :
    Option FClassInfo :=
  TMap.Find m.ClassInfoMap Class

/-- The second `ForAllSchemaComponentTypes` callback, run over the types. -/
def CreateTypebindings.subobjectComponents (SubobjectSchemaData : FSubobjectSchemaData)
    (SubobjectClass : UClass) (Offset : Nat) :
    List ESchemaComponentType → FClassInfo → USpatialTypebindingManager →
      FClassInfo × USpatialTypebindingManager
  | [], SubobjectInfo, m => (SubobjectInfo, m)
  | Type_ :: rest, SubobjectInfo, m =>
    let ComponentId := SubobjectSchemaData.SchemaComponents Type_
    if ComponentId ≠ 0 then
      CreateTypebindings.subobjectComponents SubobjectSchemaData SubobjectClass Offset rest
        { SubobjectInfo with
          SchemaComponents := Function.update SubobjectInfo.SchemaComponents Type_ ComponentId }
        (CreateTypebindings.registerComponent m ComponentId SubobjectClass Offset Type_)
    else
      CreateTypebindings.subobjectComponents SubobjectSchemaData SubobjectClass Offset rest
        SubobjectInfo m

/-- The body of the loop over `SubobjectData`: `continue` when the class of the
sub-object does not load or has no `FClassInfo`; otherwise a copy of that `FClassInfo`
gets the name and the component ids of the sub-object and is added to the
`SubobjectInfo` of the actor class, through the pointer `ActorInfo`. -/
def CreateTypebindings.subobject (env : TypebindingEnv) (Class : UClass)
    (SubobjectDataPair : Nat × FSubobjectSchemaData) (m : USpatialTypebindingManager) :
    Result USpatialTypebindingManager Unit :=
  let Offset := SubobjectDataPair.1
  let SubobjectSchemaData := SubobjectDataPair.2
  let ActorInfo := FindClassInfoByClass m Class
  match env.TryLoadClass SubobjectSchemaData.ClassPath with
  | none => Result.ok () m
  | some SubobjectClass =>
    match FindClassInfoByClass m SubobjectClass with
    | none => Result.ok () m
    | some SubobjectInfoPtr =>
      let r := CreateTypebindings.subobjectComponents SubobjectSchemaData SubobjectClass Offset
        env.ForAllSchemaComponentTypes
        { SubobjectInfoPtr with SubobjectName := SubobjectSchemaData.Name } m
      match ActorInfo with
      | none => Result.fatal Fault.nullDeref r.2
      | some ActorInfo =>
        Result.ok () { r.2 with
          ClassInfoMap := TMap.Emplace r.2.ClassInfoMap Class
            { ActorInfo with
              SubobjectInfo := TMap.Emplace ActorInfo.SubobjectInfo Offset r.1 } }

/-- The loop over the `SubobjectData` of one class. -/
def CreateTypebindings.subobjects (env : TypebindingEnv) (Class : UClass) :
    List (Nat × FSubobjectSchemaData) → USpatialTypebindingManager →
      Result USpatialTypebindingManager Unit
  | [], m => Result.ok () m
  | SubobjectDataPair :: rest, m =>
    (CreateTypebindings.subobject env Class SubobjectDataPair m).bind fun _ m =>
    CreateTypebindings.subobjects env Class rest m

/-- The body of the second loop over `SupportedClasses`; the schema data of the class
are looked up with `operator[]`. -/
def CreateTypebindings.classSubobjects (env : TypebindingEnv) (Class : UClass)
    (m : USpatialTypebindingManager) : Result USpatialTypebindingManager Unit :=
  match TMap.Find env.SchemaDatabase.ClassPathToSchema Class.PathName with
  | none => Result.fatal Fault.check m
  | some SchemaData => CreateTypebindings.subobjects env Class SchemaData.SubobjectData m

/-- The second loop over `SupportedClasses`. -/
def CreateTypebindings.allSubobjects (env : TypebindingEnv) :
    List UClass → USpatialTypebindingManager → Result USpatialTypebindingManager Unit
  | [], m => Result.ok () m
  | Class :: rest, m =>
    (CreateTypebindings.classSubobjects env Class m).bind fun _ m =>
    CreateTypebindings.allSubobjects env rest m

/-- `USpatialTypebindingManager::CreateTypebindings`. -/
def CreateTypebindings (env : TypebindingEnv) (m : USpatialTypebindingManager) :
    Result USpatialTypebindingManager Unit :=
  (CreateTypebindings.classInfos env m.SupportedClasses m).bind fun _ m =>
  CreateTypebindings.allSubobjects env m.SupportedClasses m

/-- `USpatialTypebindingManager::FindClassInfoByActorClassAndOffset`; `none` is
`nullptr`. -/
def FindClassInfoByActorClassAndOffset (m : USpatialTypebindingManager) (Class : UClass)
    (Offset : Nat) : Option FClassInfo :=
  match FindClassInfoByClass m Class with
  | some Info =>
    if Offset = 0 then
      some Info
    else
      match TMap.Find Info.SubobjectInfo Offset with
      | some SubobjectInfo => some SubobjectInfo
      | none => none
  | none => none

/-- `USpatialTypebindingManager::FindOffsetByComponentId`: the returned flag and the
value of `OutOffset` after the call. -/
def FindOffsetByComponentId (m : USpatialTypebindingManager) (ComponentId : Worker_ComponentId)
    (OutOffset : Nat) : Bool × Nat :=
  match TMap.Find m.ComponentToOffsetMap ComponentId with
  | some Offset => (true, Offset)
  | none => (false, OutOffset)

/-! ## Vocabulary of the properties -/

/-- The cache a call ended in, normally or not. -/
def Result.state {σ α : Type} : Result σ α → σ
  | Result.ok _ s => s
  | Result.fatal _ s => s

/-- Whether a call ended normally. -/
def Result.isOk {σ α : Type} : Result σ α → Bool
  | Result.ok _ _ => true
  | Result.fatal _ _ => false

/-- One call on the cache: `AssignNewEntityActorNetGUID`,
`AssignNewStablyNamedObjectNetGUID`, `GetNetGUIDFromUnrealObjectRef` or
`RemoveEntityNetGUID` with its arguments. -/
inductive CacheCall where
  | assignEntityActor (Actor : UObjectPtr)
      (SubobjectToOffset : List (UObjectPtr × Nat))
  | assignStablyNamed (Object : UObjectPtr)
  | getNetGUID (ObjectRef : FUnrealObjectRef)
  | removeEntity (EntityId : Worker_EntityId)

/-- Perform one call, dropping its return value. -/
def CacheCall.run (env : Env) : CacheCall → FSpatialNetGUIDCache → CacheResult Unit
  | CacheCall.assignEntityActor Actor SubobjectToOffset, c =>
    (AssignNewEntityActorNetGUID env Actor SubobjectToOffset c).bind fun _ c1 => ok () c1
  | CacheCall.assignStablyNamed Object, c =>
    (AssignNewStablyNamedObjectNetGUID env Object c).bind fun _ c1 => ok () c1
  | CacheCall.getNetGUID ObjectRef, c =>
    (GetNetGUIDFromUnrealObjectRef env ObjectRef c).bind fun _ c1 => ok () c1
  | CacheCall.removeEntity EntityId, c => RemoveEntityNetGUID env EntityId c

/-- Perform a sequence of calls, each in the surroundings it is made in; the sequence
ends at the first call that does not end normally. -/
def runCalls : List (Env × CacheCall) → FSpatialNetGUIDCache → CacheResult Unit
  | [], c => ok () c
  | (env, call) :: rest, c =>
    (CacheCall.run env call c).bind fun _ c1 => runCalls rest c1

/-- The two maps are mutual inverses: an id maps to a ref in `NetGUIDToUnrealObjectRef`
exactly when that ref maps to that id in `UnrealObjectRefToNetGUID`. -/
def MutualInverses (c : FSpatialNetGUIDCache) : Prop :=
  ∀ (g : FNetworkGUID) (r : FUnrealObjectRef),
    TMap.Find c.NetGUIDToUnrealObjectRef g = some r ↔
      TMap.Find c.UnrealObjectRefToNetGUID r = some g

/-- Two caches hold the same two reference maps. -/
def SameRefMaps (c c1 : FSpatialNetGUIDCache) : Prop :=
  c1.NetGUIDToUnrealObjectRef = c.NetGUIDToUnrealObjectRef ∧
    c1.UnrealObjectRefToNetGUID = c.UnrealObjectRefToNetGUID

/-- The ids returned by successive `GenerateNewNetGUID` calls, one per flag of the list. -/
def GenerateNewNetGUIDs : List (Fin 2) → FSpatialNetGUIDCache → List FNetworkGUID
  | [], _ => []
  | IsStatic :: rest, c =>
    (GenerateNewNetGUID c IsStatic).1 :: GenerateNewNetGUIDs rest (GenerateNewNetGUID c IsStatic).2

/-- The counter `UniqueNetIDs[IsStatic]`. -/
def UniqueNetIDs (c : FSpatialNetGUIDCache) (IsStatic : Fin 2) : Nat :=
  if IsStatic = 0 then c.UniqueNetIDs0 else c.UniqueNetIDs1

/-- The value a call returned, if it ended normally. -/
def Result.value? {σ α : Type} : Result σ α → Option α
  | Result.ok v _ => some v
  | Result.fatal _ _ => none

/-- Every association of the four maps of `c` is still present in `c1`. -/
def Extends (c c1 : FSpatialNetGUIDCache) : Prop :=
  (∀ o g, TMap.Find c.NetGUIDLookup o = some g → TMap.Find c1.NetGUIDLookup o = some g) ∧
  (∀ g x, TMap.Find c.ObjectLookup g = some x → TMap.Find c1.ObjectLookup g = some x) ∧
  (∀ g r, TMap.Find c.NetGUIDToUnrealObjectRef g = some r →
    TMap.Find c1.NetGUIDToUnrealObjectRef g = some r) ∧
  (∀ r g, TMap.Find c.UnrealObjectRefToNetGUID r = some g →
    TMap.Find c1.UnrealObjectRefToNetGUID r = some g)

/-- The identity record of an object: the reference stored in `NetGUIDToUnrealObjectRef`
under the id that `NetGUIDLookup` associates with the object, if both exist. -/
def RecordOf (c : FSpatialNetGUIDCache) (o : UObjectPtr) : Option FUnrealObjectRef :=
  (TMap.Find c.NetGUIDLookup o).bind fun g => TMap.Find c.NetGUIDToUnrealObjectRef g

/-- The object followed by its outers, innermost first. -/
def UObjectPtr.chain : UObjectPtr → List UObjectPtr
  | UObjectPtr.nullptr => []
  | UObjectPtr.obj a n d Outer => UObjectPtr.obj a n d Outer :: UObjectPtr.chain Outer

/-- Consistency of the inherited engine maps with the reference map: every id that has a
record and every id associated with an object is a registered handle (a key of
`ObjectLookup`), and no two objects are associated with the same id. -/
def WellFormed (c : FSpatialNetGUIDCache) : Prop :=
  (∀ g r, TMap.Find c.NetGUIDToUnrealObjectRef g = some r →
    TMap.Contains c.ObjectLookup g = true) ∧
  (∀ o g, TMap.Find c.NetGUIDLookup o = some g → TMap.Contains c.ObjectLookup g = true) ∧
  (∀ o1 o2 g, TMap.Find c.NetGUIDLookup o1 = some g → TMap.Find c.NetGUIDLookup o2 = some g →
    o1 = o2)

/-- Well-formedness is kept and no object's identity record changes. -/
def KeepsRecords (c c1 : FSpatialNetGUIDCache) : Prop :=
  WellFormed c → WellFormed c1 ∧ ∀ o, RecordOf c1 o = RecordOf c o

/-- The reference `r` is the stably-named reference of object `o` in cache `c`: its path is
the object's name and its outer is the record of the object's outer, or the
value-initialised reference when the object has no outer. -/
def IsStableRefOf (c : FSpatialNetGUIDCache) (o : UObjectPtr) (r : FUnrealObjectRef) : Prop :=
  ∃ ro, r = FUnrealObjectRef.ofPath 0 0 o.GetFName ro ∧
    if o.GetOuter = UObjectPtr.nullptr then ro = FUnrealObjectRef.empty
    else RecordOf c o.GetOuter = some ro

/-- The fault a call ended with, if it did not end normally. -/
def Result.fault? {σ α : Type} : Result σ α → Option Fault
  | Result.ok _ _ => none
  | Result.fatal f _ => some f

/-- The call passes no null object as actor or sub-object. -/
def CacheCall.NonNull : CacheCall → Prop
  | CacheCall.assignEntityActor Actor SubobjectToOffset =>
    Actor ≠ UObjectPtr.nullptr ∧ ∀ p ∈ SubobjectToOffset, p.1 ≠ UObjectPtr.nullptr
  | CacheCall.assignStablyNamed _ => True
  | CacheCall.getNetGUID _ => True
  | CacheCall.removeEntity _ => True

/-- Two caches hold the same log of `ResolvePendingOperations` calls. -/
def SameResolveCalls (c c1 : FSpatialNetGUIDCache) : Prop :=
  c1.ResolveCalls = c.ResolveCalls

/-- The reference `r` has an identity record in `c`: the two reference maps associate it
with one id, in both directions. -/
def HasRecord (c : FSpatialNetGUIDCache) (r : FUnrealObjectRef) : Prop :=
  ∃ g, TMap.Find c.NetGUIDToUnrealObjectRef g = some r ∧
    TMap.Find c.UnrealObjectRefToNetGUID r = some g

/-- From `c` to `c1` no association was lost, the log of `ResolvePendingOperations` calls
only grew, and every reference of a call logged in between has its record in `c1`. -/
def ResolvesRegistered (c c1 : FSpatialNetGUIDCache) : Prop :=
  Extends c c1 ∧ ∃ calls, c1.ResolveCalls = c.ResolveCalls ++ calls ∧
    ∀ p ∈ calls, HasRecord c1 p.2

/-- The calls `AssignNewEntityActorNetGUID` makes on a receiver, in order: one for the
actor at offset `0`, then one per pair of `SubobjectToOffset`. -/
def EntityResolveCalls (env : Env) (Actor : UObjectPtr)
    (SubobjectToOffset : List (UObjectPtr × Nat)) : List (UObjectPtr × FUnrealObjectRef) :=
  (Actor, FUnrealObjectRef.ofEntity (env.GetEntityIdFromActor Actor) 0) ::
    SubobjectToOffset.map fun p =>
      (p.1, FUnrealObjectRef.ofEntity (env.GetEntityIdFromActor Actor) p.2)

/-- From `d` to `d1` the scheduler's own data are unchanged except for the `NetTag` of
actors: the infos, the client connections, the driver's `NetTag`, the destroyed actors,
the clocks and the net connection of every actor. -/
def SameActors (d d1 : USpatialNetDriver) : Prop :=
  d1.NetworkObjectInfos = d.NetworkObjectInfos ∧
  d1.ClientConnections = d.ClientConnections ∧
  d1.NetTag = d.NetTag ∧
  d1.DestroyedStartupOrDormantActors = d.DestroyedStartupOrDormantActors ∧
  d1.ReplicateActorCalls = d.ReplicateActorCalls ∧
  ∀ Actor, (d1.Actors Actor).NetConnection = (d.Actors Actor).NetConnection

/-- `Entry` is a normal entry for an info of `ConsiderList` that is not dormant for
`InConnection` in `d` and whose actor has `InConnection` as its net connection, or has
none while `InConnection` is `ClientConnections[0]`. -/
def IsConsideredEntry (d : USpatialNetDriver) (InConnection : Nat) (ConsiderList : List Nat)
    (Entry : FActorPriority) : Prop :=
  Entry.DestructionInfo = none ∧
  ∃ ActorInfo ∈ ConsiderList, Entry.ActorInfo = some ActorInfo ∧
    IsActorDormant (d.NetworkObjectInfos ActorInfo) InConnection = false ∧
    ((d.Actors (d.NetworkObjectInfos ActorInfo).Actor).NetConnection = some InConnection ∨
      ((d.Actors (d.NetworkObjectInfos ActorInfo).Actor).NetConnection = none ∧
        d.ClientConnections.head? = some InConnection))

/-- `Entry` is a deletion entry for one of the destroyed actors of `d`. -/
def IsDeletionEntry (d : USpatialNetDriver) (Entry : FActorPriority) : Prop :=
  Entry.ActorInfo = none ∧
  ∃ GUID DInfo, TMap.Find d.DestroyedStartupOrDormantActors GUID = some DInfo ∧
    Entry.DestructionInfo = some DInfo

/-- The entries `ServerReplicateActors_PrioritizeActors` has written to `OutPriorityList`
when it reaches `Sort`, in the order in which they were collected; empty when nothing
was allocated. -/
def CollectedEntries (env : Engine) (InConnection : Nat) (ConnectionViewers : List FNetViewer)
    (ConsiderList : List Nat) (d : USpatialNetDriver) : List FActorPriority :=
  ((ServerReplicateActors_PrioritizeActors.collect env InConnection ConnectionViewers
    ConsiderList (ConsiderList.length + d.DestroyedStartupOrDormantActors.length)
    (ServerReplicateActors_PrioritizeActors.begin InConnection d)).value?).getD []

/-- What one pass through the loop body of
`ServerReplicateActors_ProcessPrioritizedActors` for `Entry` at index `j` may do, seen
from the state `d` before it: a normal end logs at most one `ReplicateActor` call, for
this connection, index and info, and counts it in `OutUpdated`, and the body ends in
`return j` only with the connection not ready; a fault leaves the state as it was and
only happens for an entry that has neither an info nor a destruction info. -/
def EntryPost (env : Engine) (InConnection j : Nat) (Entry : FActorPriority)
    (OutUpdated : Nat) (d : USpatialNetDriver) : DriverResult (Bool × Nat) → Prop
  | Result.ok Done d1 =>
    (∃ calls, d1.ReplicateActorCalls = d.ReplicateActorCalls ++ calls ∧
      Done.2 = OutUpdated + calls.length ∧ calls.length ≤ 1 ∧
      ∀ c ∈ calls, c.Connection = InConnection ∧ c.Index = j ∧
        Entry.ActorInfo = some c.ActorInfo) ∧
    (Done.1 = true → env.IsNetReady d1.Net InConnection = false) ∧
    (Entry.ActorInfo ≠ none ∨ Entry.DestructionInfo ≠ none)
  | Result.fatal _ d1 => d1 = d ∧ Entry.ActorInfo = none ∧ Entry.DestructionInfo = none

/-- The update interval and send time stored in `Info` are the ones
`ServerReplicateActors_ProcessPrioritizedActors` computes after a successful send of the
info at address `ActorInfo`, from the state `d` before the iteration: the interval is
`clamp(0.7 * (now - LastNetReplicateTime), MinOptimalDelta, MaxOptimalDelta)` and the
send time is `now`, with `now = World->TimeSeconds`. -/
def IsUpdatedAfterSend (d : USpatialNetDriver) (ActorInfo : Nat) (Info : FNetworkObjectInfo) :
    Prop :=
  Info.OptimalNetUpdateDelta =
      FMath.Clamp
        ((d.WorldTimeSeconds - (d.NetworkObjectInfos ActorInfo).LastNetReplicateTime) * (7 / 10))
        (1 / (d.Actors (d.NetworkObjectInfos ActorInfo).Actor).NetUpdateFrequency)
        (FMath.Max (1 / (d.Actors (d.NetworkObjectInfos ActorInfo).Actor).MinNetUpdateFrequency)
          (1 / (d.Actors (d.NetworkObjectInfos ActorInfo).Actor).NetUpdateFrequency)) ∧
    Info.LastNetReplicateTime = d.WorldTimeSeconds

/-- From `d` to `d1` every info keeps its actor, its dormant connections and its
`bPendingNetUpdate` flag. -/
def SameInfoFlags (d d1 : USpatialNetDriver) : Prop :=
  ∀ p, (d1.NetworkObjectInfos p).bPendingNetUpdate = (d.NetworkObjectInfos p).bPendingNetUpdate ∧
    (d1.NetworkObjectInfos p).DormantConnections = (d.NetworkObjectInfos p).DormantConnections ∧
    (d1.NetworkObjectInfos p).Actor = (d.NetworkObjectInfos p).Actor

/-- From `d` to `d1` every info that is flagged `bPendingNetUpdate` stays flagged. -/
def FlagsKept (d d1 : USpatialNetDriver) : Prop :=
  ∀ p, (d.NetworkObjectInfos p).bPendingNetUpdate = true →
    (d1.NetworkObjectInfos p).bPendingNetUpdate = true

/-- The info at address `ActorInfo` is dormant for connection `C` in `d`. -/
def DormantFor (C ActorInfo : Nat) (d : USpatialNetDriver) : Prop :=
  C ∈ (d.NetworkObjectInfos ActorInfo).DormantConnections

/-- From `d` to `d1` the info stayed dormant for `C`, and none of the `ReplicateActor`
calls logged in between is a call on connection `C` for that info. -/
def QuietFor (C ActorInfo : Nat) (d d1 : USpatialNetDriver) : Prop :=
  DormantFor C ActorInfo d1 ∧
  ∃ calls, d1.ReplicateActorCalls = d.ReplicateActorCalls ++ calls ∧
    ∀ c ∈ calls, ¬ (c.Connection = C ∧ c.ActorInfo = ActorInfo)

/-- The engine's `BuildConsiderList` does not wake the info for `C`: it leaves the
connection in the info's `DormantConnections`. -/
def KeepsDormant (env : Engine) (C ActorInfo : Nat) : Prop :=
  ∀ (infos : Nat → FNetworkObjectInfo) (DeltaSeconds : ℚ),
    C ∈ (infos ActorInfo).DormantConnections →
    C ∈ ((env.BuildConsiderList infos DeltaSeconds).2 ActorInfo).DormantConnections

/-- Successive ticks, oldest first. Each tick has its own engine behaviour and
`DeltaSeconds`; before the tick's `ServerReplicateActors` call, whatever else happened
since the last tick is applied to the driver as `Between`. -/
def ServerReplicateActorsTicks :
    List (Engine × ℚ × (USpatialNetDriver → USpatialNetDriver)) → USpatialNetDriver →
      DriverResult Unit
  | [], d => ok () d
  | (env, DeltaSeconds, Between) :: rest, d =>
    (ServerReplicateActors env DeltaSeconds (Between d)).bind fun _ d1 =>
    ServerReplicateActorsTicks rest d1

/-- From `d` to `d1` the actors and the world time are unchanged, and so is every info
except possibly the one at the address `ActorInfo`. -/
def OnlyInfo (ActorInfo : Option Nat) (d d1 : USpatialNetDriver) : Prop :=
  d1.Actors = d.Actors ∧ d1.WorldTimeSeconds = d.WorldTimeSeconds ∧
  ∀ q, ActorInfo ≠ some q → d1.NetworkObjectInfos q = d.NetworkObjectInfos q

/-- The test of `ServerReplicateActors_PrepConnections` on a client connection: it is the
reliable Spatial connection or has an owning actor, it is open, and it last received
less than 1.5 seconds ago. -/
def IsReadyConnection (d : USpatialNetDriver) (SpatialConnection : Nat) : Bool :=
  ((d.Net.Connections SpatialConnection).bReliableSpatialConnection ||
      (d.Net.Connections SpatialConnection).OwningActor.isSome) &&
    decide ((d.Net.Connections SpatialConnection).State = EConnectionState.USOCK_Open) &&
    decide (d.Time - (d.Net.Connections SpatialConnection).LastReceiveTime < 15 / 10)

/-- From `d` to `d1` the driver's time and, for every connection, the members read by the
test of `ServerReplicateActors_PrepConnections` are unchanged. -/
def SameReadiness (d d1 : USpatialNetDriver) : Prop :=
  d1.Time = d.Time ∧
  ∀ C, (d1.Net.Connections C).State = (d.Net.Connections C).State ∧
    (d1.Net.Connections C).bReliableSpatialConnection =
      (d.Net.Connections C).bReliableSpatialConnection ∧
    (d1.Net.Connections C).OwningActor = (d.Net.Connections C).OwningActor ∧
    (d1.Net.Connections C).LastReceiveTime = (d.Net.Connections C).LastReceiveTime

/-- The loop over `ClientConnections` in `ServerReplicateActors` with the branch
`i >= NumClientsToTick` left out: every connection is ticked when it is the reliable
connection or has a view target, and passed over otherwise. -/
def ServerReplicateActors.tickedConnections (env : Engine) (ConsiderList : List Nat) :
    List Nat → Nat → USpatialNetDriver → DriverResult Nat
  | [], Updated, d => ok Updated d
  | SpatialConnection :: rest, Updated, d =>
    if (d.Net.Connections SpatialConnection).bReliableSpatialConnection ||
        (d.Net.Connections SpatialConnection).ViewTarget.isSome then
      (ServerReplicateActors.tickConnection env SpatialConnection ConsiderList Updated d).bind
      fun Updated d1 => tickedConnections env ConsiderList rest Updated d1
    else tickedConnections env ConsiderList rest Updated d

/-- The function `ServerReplicateActors` with the branch `i >= NumClientsToTick` of its
loop and the rotation of `ClientConnections` after the loop left out. -/
def ServerReplicateActors.withoutSkipAndRotation (env : Engine) (DeltaSeconds : ℚ)
    (d : USpatialNetDriver) : DriverResult Nat :=
  if d.ClientConnections.length = 0 then ok 0 d
  else
    (ServerReplicateActors_PrepConnections
      { d with ReplicationFrame := d.ReplicationFrame + 1 }).bind fun NumClientsToTick d1 =>
    if NumClientsToTick = 0 then ok 0 d1
    else
      ServerReplicateActors.tickedConnections env
        (env.BuildConsiderList d1.NetworkObjectInfos DeltaSeconds).1 d1.ClientConnections 0
        { d1 with
          NetworkObjectInfos := (env.BuildConsiderList d1.NetworkObjectInfos DeltaSeconds).2 }

/-- The actors of the normal entries of `L`, in order; `infos` are the
`FNetworkObjectInfo`s the entries point to. -/
def EntryActors (infos : Nat → FNetworkObjectInfo) (L : List FActorPriority) : List Nat :=
  L.filterMap fun Entry => Entry.ActorInfo.map fun ActorInfo => (infos ActorInfo).Actor

/-- The engine's `Channel->StartBecomingDormant()` leaves the set
`GetDestroyedStartupOrDormantActorGUIDs()` of connection `C` as it is. -/
def KeepsDestroyedGUIDs (env : Engine) (C : Nat) : Prop :=
  ∀ (net : FNetState) (Channel : Nat),
    ((env.StartBecomingDormant net Channel).Connections C).DestroyedStartupOrDormantActorGUIDs =
      (net.Connections C).DestroyedStartupOrDormantActorGUIDs

/-- The info carries the class and the two RPC tables that the loop over
`RelevantClassFunctions` builds for the class from an empty `FClassInfo`. -/
def HasRPCTablesOf (env : TypebindingEnv) (Class : UClass) (Info : FClassInfo) : Prop :=
  Info.Class = some Class ∧
  ∃ Built, CreateTypebindings.rpcs env (env.GetClassRPCFunctions Class) FClassInfo.default =
      some Built ∧
    Info.RPCs = Built.RPCs ∧ Info.RPCInfoMap = Built.RPCInfoMap

/-- The two managers know the same classes, each with the same class pointer and the same
RPC tables. -/
def SameClassTables (m m1 : USpatialTypebindingManager) : Prop :=
  ∀ Class : UClass,
    (FindClassInfoByClass m1 Class).map (fun Info => (Info.Class, Info.RPCs, Info.RPCInfoMap)) =
      (FindClassInfoByClass m Class).map (fun Info => (Info.Class, Info.RPCs, Info.RPCInfoMap))

/-- The schema database lists the component id as a component of the class itself, for
one of the enumerated types. -/
def IsActorComponentId (env : TypebindingEnv) (Class : UClass)
    (ComponentId : Worker_ComponentId) : Prop :=
  ComponentId ≠ 0 ∧
  ∃ SchemaData, TMap.Find env.SchemaDatabase.ClassPathToSchema Class.PathName = some SchemaData ∧
    ∃ Type_ ∈ env.ForAllSchemaComponentTypes, SchemaData.SchemaComponents Type_ = ComponentId

/-- The pair of `SubobjectData` lists the component id, for one of the enumerated types,
and is not skipped by the loop body: the class of the sub-object loads and the manager
has an `FClassInfo` for it. -/
def RegistersComponentId (env : TypebindingEnv) (m : USpatialTypebindingManager)
    (SubobjectDataPair : Nat × FSubobjectSchemaData) (ComponentId : Worker_ComponentId) : Prop :=
  ComponentId ≠ 0 ∧
  (∃ SubobjectClass, env.TryLoadClass SubobjectDataPair.2.ClassPath = some SubobjectClass ∧
    (FindClassInfoByClass m SubobjectClass).isSome = true) ∧
  ∃ Type_ ∈ env.ForAllSchemaComponentTypes,
    SubobjectDataPair.2.SchemaComponents Type_ = ComponentId

/-- The schema database lists the component id as a component of a sub-object of the
class that the loop body does not skip. -/
def IsSubobjectComponentId (env : TypebindingEnv) (m : USpatialTypebindingManager)
    (Class : UClass) (Offset : Nat) (ComponentId : Worker_ComponentId) : Prop :=
  ∃ SchemaData, TMap.Find env.SchemaDatabase.ClassPathToSchema Class.PathName = some SchemaData ∧
    ∃ SubobjectDataPair ∈ SchemaData.SubobjectData,
      SubobjectDataPair.1 = Offset ∧ RegistersComponentId env m SubobjectDataPair ComponentId

/-- Every sub-object of the classes that lists the component id sits at the offset. -/
def SubobjectOffsetsAgree (env : TypebindingEnv) (Classes : List UClass)
    (ComponentId : Worker_ComponentId) (Offset : Nat) : Prop :=
  ∀ Class ∈ Classes, ∀ SchemaData,
    TMap.Find env.SchemaDatabase.ClassPathToSchema Class.PathName = some SchemaData →
    ∀ SubobjectDataPair ∈ SchemaData.SubobjectData, ∀ Type_ ∈ env.ForAllSchemaComponentTypes,
      SubobjectDataPair.2.SchemaComponents Type_ = ComponentId → SubobjectDataPair.1 = Offset

/-- The calls of `CreateTypebindings` return for these classes: each has schema data
under its path name and each of its RPC functions carries one of the four net flags. -/
def CanBindClasses (env : TypebindingEnv) (Classes : List UClass) : Prop :=
  ∀ Class ∈ Classes,
    TMap.Contains env.SchemaDatabase.ClassPathToSchema Class.PathName = true ∧
    ∀ F ∈ env.GetClassRPCFunctions Class, CreateTypebindings.RPCType env F ≠ none

/-- The same surroundings in a build that defines `DO_GUARD_SLOW`. -/
def Env.withGuardSlow (env : Env) : Env :=
  { env with DO_GUARD_SLOW := true }

/-- The same calls, each made in a build that defines `DO_GUARD_SLOW`: there a
`RegisterObjectRef` whose pair conflicts with a present association ends the sequence. -/
def guardSlow (calls : List (Env × CacheCall)) : List (Env × CacheCall) :=
  calls.map fun p => (p.1.withGuardSlow, p.2)

/-- Every association of the two engine maps of `c` is still present in `c1`, and in a
build that defines `DO_GUARD_SLOW` (`guard`) so is every association of the two reference
maps. -/
def ExtendsUnder (guard : Bool) (c c1 : FSpatialNetGUIDCache) : Prop :=
  ((∀ o g, TMap.Find c.NetGUIDLookup o = some g → TMap.Find c1.NetGUIDLookup o = some g) ∧
    (∀ g x, TMap.Find c.ObjectLookup g = some x → TMap.Find c1.ObjectLookup g = some x)) ∧
  (guard = true → Extends c c1)

/-- The pass of the loop of `ServerReplicateActors_ProcessPrioritizedActors` for `Entry`
at index `j`, started in state `d` with the count `OutUpdated`, comes to the second
readiness check `if (!InConnection->IsNetReady(0))` and finds the connection saturated:
the entry is a normal entry whose channel, if it has one, has an actor; the actor is
recently relevant; a channel `Channel` is found or created; and after the replicate
block the connection is not ready. -/
def SaturatesAt (env : Engine) (InConnection : Nat) (ConnectionViewers : List FNetViewer)
    (j : Nat) (Entry : FActorPriority) (OutUpdated : Nat) (d : USpatialNetDriver) : Prop :=
  ∃ ActorInfo Channel, Entry.ActorInfo = some ActorInfo ∧
    (Entry.Channel = none ∨
      (Entry.Channel.map fun Ch => (d.Net.Channels Ch).Actor) ≠ some none) ∧
    ServerReplicateActors_ProcessPrioritizedActors.bIsRecentlyRelevant
      (ServerReplicateActors_ProcessPrioritizedActors.bIsRelevant
        (d.NetworkObjectInfos ActorInfo).Actor ConnectionViewers Entry.Channel d)
      Entry.Channel d = true ∧
    (ServerReplicateActors_ProcessPrioritizedActors.findChannel env InConnection ActorInfo
      (d.NetworkObjectInfos ActorInfo).Actor Entry.Channel d).1 = some Channel ∧
    env.IsNetReady
      (ServerReplicateActors_ProcessPrioritizedActors.replicate env InConnection j ActorInfo
        (d.NetworkObjectInfos ActorInfo).Actor Channel OutUpdated
        (ServerReplicateActors_ProcessPrioritizedActors.markRelevant env
          (ServerReplicateActors_ProcessPrioritizedActors.bIsRelevant
            (d.NetworkObjectInfos ActorInfo).Actor ConnectionViewers Entry.Channel d)
          Channel
          (ServerReplicateActors_ProcessPrioritizedActors.findChannel env InConnection
            ActorInfo (d.NetworkObjectInfos ActorInfo).Actor Entry.Channel d).2)).2.Net
      InConnection = false

/-! ## Concrete inputs -/

/-- A cache holding the single record `4 ↔ (entity 7, offset 0)`. -/
def sampleCacheOneRecord : FSpatialNetGUIDCache :=
  { FSpatialNetGUIDCache.empty with
    NetGUIDToUnrealObjectRef := [(FNetworkGUID.mk 4, FUnrealObjectRef.ofEntity 7 0)]
    UnrealObjectRefToNetGUID := [(FUnrealObjectRef.ofEntity 7 0, FNetworkGUID.mk 4)] }

/-- Surroundings of a client worker: no handle authority, no path remapping, the entity
of an object is its address, no actor in the registry, a receiver is present, the
unresolved sentinel is the reference `(0, 1)`, and the build does not define
`DO_GUARD_SLOW`. -/
def sampleClientEnv : Env where
  bNetGUIDAuthority := false
  GetEntityIdFromActor := fun o =>
    match o with
    | UObjectPtr.obj a _ _ _ => a
    | UObjectPtr.nullptr => 0
  GetActorFromEntityId := fun _ => UObjectPtr.nullptr
  SubobjectInfoKeys := fun _ => none
  NetworkRemapPath := fun s => s
  UNRESOLVED_OBJECT_REF := FUnrealObjectRef.ofEntity 0 1
  WITH_EDITOR := false
  bReceiver := true
  DO_GUARD_SLOW := false

/-- A package object without outer, not dynamic. -/
def samplePackage : UObjectPtr := UObjectPtr.obj 1 "Pkg" false UObjectPtr.nullptr

/-- A level inside `samplePackage`, not dynamic. -/
def sampleLevel : UObjectPtr := UObjectPtr.obj 2 "Level" false samplePackage

/-- A dynamically spawned actor inside `sampleLevel`. -/
def sampleActor : UObjectPtr := UObjectPtr.obj 3 "Actor" true sampleLevel

/-- A component of `sampleActor`. -/
def sampleComponent : UObjectPtr := UObjectPtr.obj 4 "Mesh" true sampleActor

/-- Surroundings in which the registry knows `sampleActor` as the actor of every entity
and its class has sub-objects at offsets `1` and `2`; otherwise as `sampleClientEnv`. -/
def sampleRegistryEnv : Env :=
  { sampleClientEnv with
    GetActorFromEntityId := fun _ => sampleActor
    SubobjectInfoKeys := fun _ => some [1, 2] }

/-- A cache holding records of entity `7` at offsets `0`, `1`, `2` and the root record of
entity `8`. -/
def sampleCacheTwoEntities : FSpatialNetGUIDCache :=
  { FSpatialNetGUIDCache.empty with
    NetGUIDToUnrealObjectRef :=
      [(FNetworkGUID.mk 4, FUnrealObjectRef.ofEntity 7 0),
       (FNetworkGUID.mk 6, FUnrealObjectRef.ofEntity 7 1),
       (FNetworkGUID.mk 8, FUnrealObjectRef.ofEntity 7 2),
       (FNetworkGUID.mk 10, FUnrealObjectRef.ofEntity 8 0)]
    UnrealObjectRefToNetGUID :=
      [(FUnrealObjectRef.ofEntity 7 0, FNetworkGUID.mk 4),
       (FUnrealObjectRef.ofEntity 7 1, FNetworkGUID.mk 6),
       (FUnrealObjectRef.ofEntity 7 2, FNetworkGUID.mk 8),
       (FUnrealObjectRef.ofEntity 8 0, FNetworkGUID.mk 10)] }

/-- The cache after `AssignNewEntityActorNetGUID(sampleActor, {sampleComponent ↦ 1})` on a
client with an empty cache. -/
def sampleCacheAfterAssign : FSpatialNetGUIDCache :=
  (AssignNewEntityActorNetGUID sampleClientEnv sampleActor [(sampleComponent, 1)]
    FSpatialNetGUIDCache.empty).state

/-- The cache after `AssignNewStablyNamedObjectNetGUID(sampleLevel)` on a client with an
empty cache. -/
def sampleCacheAfterStable : FSpatialNetGUIDCache :=
  (AssignNewStablyNamedObjectNetGUID sampleClientEnv sampleLevel
    FSpatialNetGUIDCache.empty).state

/-- A static mesh inside `sampleLevel`, not dynamic. -/
def sampleStaticMesh : UObjectPtr := UObjectPtr.obj 5 "Rock" false sampleLevel

/-- The cache after `AssignNewStablyNamedObjectNetGUID(sampleStaticMesh)` on
`sampleCacheAfterStable`. -/
def sampleCacheAfterMesh : FSpatialNetGUIDCache :=
  (AssignNewStablyNamedObjectNetGUID sampleClientEnv sampleStaticMesh
    sampleCacheAfterStable).state

/-- Surroundings of a client whose path remapping strips the session-local prefix of the
name `UEDPIE_0_Map`; otherwise as `sampleClientEnv`. -/
def samplePieEnv : Env :=
  { sampleClientEnv with
    NetworkRemapPath := fun s => if s = "UEDPIE_0_Map" then "Map" else s }

/-- A map package whose name carries the session-local prefix. -/
def samplePieMap : UObjectPtr := UObjectPtr.obj 6 "UEDPIE_0_Map" false UObjectPtr.nullptr

/-- The cache after `AssignNewStablyNamedObjectNetGUID(samplePieMap)` on a client with an
empty cache. -/
def sampleCacheAfterPieMap : FSpatialNetGUIDCache :=
  (AssignNewStablyNamedObjectNetGUID samplePieEnv samplePieMap FSpatialNetGUIDCache.empty).state

/-- Constants of a spawner that may try five times, waits one second before a retry, and
reads status code `1` as success. -/
def sampleSpawnerEnv : SpawnerEnv where
  MAX_NUMBER_COMMAND_ATTEMPTS := 5
  GetCommandRetryWaitTimeSeconds := fun _ => 1
  WORKER_STATUS_CODE_SUCCESS := 1

/-- Five failed responses (status code `2`), each followed by the retry timer. -/
def sampleSpawnerEvents : List SpawnerEvent :=
  [SpawnerEvent.response 2, SpawnerEvent.timer, SpawnerEvent.response 2, SpawnerEvent.timer,
   SpawnerEvent.response 2, SpawnerEvent.timer, SpawnerEvent.response 2, SpawnerEvent.timer,
   SpawnerEvent.response 2, SpawnerEvent.timer]

/-- A batch that arrives out of order: an authority change, two components (ids `5` and
`3`), the entity they belong to, and the removal of another entity. -/
def sampleLifecycleOps : List LifecycleOp :=
  [LifecycleOp.AuthorityChange { entity_id := 7, component_id := 3, authority := 1 },
   LifecycleOp.AddComponent { EntityId := 7, ComponentId := 5, Data := 0 },
   LifecycleOp.AddComponent { EntityId := 7, ComponentId := 3, Data := 1 },
   LifecycleOp.AddEntity 7,
   LifecycleOp.RemoveEntity 6]

/-- An engine in which a connection is ready while `QueuedBits ≤ 0`, every
`ReplicateActor` call sends and queues one unit on connection `1`, a new channel gets
the address `100` plus the number of channels of the connection, and the infos `0`, `1`,
`2` have the priorities `10`, `5`, `8`; deletion entries have priority `5`. -/
def sampleEngine : Engine where
  IsNetReady := fun net c => decide ((net.Connections c).QueuedBits ≤ 0)
  CreateChannel := fun net c => (some (100 + (net.Connections c).ActorChannelMap.length), net)
  SetChannelActor := fun net ch a =>
    { Connections := Function.update net.Connections 1
        { net.Connections 1 with
          ActorChannelMap := TMap.Emplace (net.Connections 1).ActorChannelMap a ch }
      Channels := Function.update net.Channels ch { net.Channels ch with Actor := some a } }
  ChannelIsNetReady := fun _ _ => true
  ReplicateActor := fun net _ =>
    (true,
      { net with
        Connections := Function.update net.Connections 1
          { net.Connections 1 with QueuedBits := (net.Connections 1).QueuedBits + 1 } })
  Close := fun net ch =>
    { net with Channels := Function.update net.Channels ch { net.Channels ch with Actor := none } }
  StartBecomingDormant := fun net ch =>
    { net with
      Channels := Function.update net.Channels ch
        { net.Channels ch with bPendingDormancy := true } }
  AddSingleton := fun net _ => (none, net)
  GetNetDormancy := fun _ _ => true
  SRand := 0
  FRand := 0
  ActorPriority := fun _ _ ActorInfo =>
    match ActorInfo with
    | 0 => 10
    | 1 => 5
    | 2 => 8
    | _ => 0
  DestructionPriority := fun _ _ => 5
  BuildConsiderList := fun infos _ => ([0, 1, 2, 3], infos)

/-- A driver at time `10` with the single reliable connection `1`, which can take two
more sends before it is saturated and has no channels yet. The info at address `p`
belongs to actor `p + 10`, was last replicated half a second ago, and the info `3` is
dormant for connection `1`. Actors have no net connection of their own, an update
frequency of `10` and a minimal one of `1`. -/
def sampleDriver : USpatialNetDriver where
  NetTag := 0
  ReplicationFrame := 0
  Time := 10
  WorldTimeSeconds := 10
  RelevantTimeout := 5
  ClientConnections := [1]
  Actors := fun _ =>
    { NetTag := 0, NetConnection := none, NetDormancy := ENetDormancy.DORM_Awake,
      bTearOff := false, bNetStartupActor := false, NetUpdateFrequency := 10,
      MinNetUpdateFrequency := 1, bSingleton := false, bSupportsObject := true }
  NetworkObjectInfos := fun p =>
    { Actor := p + 10, DormantConnections := if p = 3 then [1] else [],
      NextUpdateTime := 0, LastNetReplicateTime := 19 / 2, OptimalNetUpdateDelta := 0,
      LastNetUpdateTime := 0, bPendingNetUpdate := false }
  DestroyedStartupOrDormantActors := []
  ReplicationViewers := []
  Net :=
    { Connections := fun _ =>
        { bReliableSpatialConnection := true, OwningActor := none,
          State := EConnectionState.USOCK_Open, LastReceiveTime := 10,
          PlayerController := none, ViewTarget := none, Children := [],
          TimeSensitive := false, TickCount := 0, SentTemporaries := [],
          ActorChannelMap := [], DestroyedStartupOrDormantActorGUIDs := [],
          ClientVisibleLevelNames := [], QueuedBits := -1 }
      Channels := fun _ =>
        { Actor := none, RelevantTime := 0, LastUpdateTime := 0, bPendingDormancy := false,
          Dormant := false } }
  ReplicateActorCalls := []

/-- The driver `sampleDriver` with one destroyed startup actor, of GUID `7`, that
connection `1` has not been told about yet. -/
def sampleDriverWithDeletion : USpatialNetDriver :=
  { sampleDriver with
    DestroyedStartupOrDormantActors :=
      [(⟨7⟩, { NetGUID := ⟨7⟩, StreamingLevelName := none })]
    Net :=
      { sampleDriver.Net with
        Connections := fun c =>
          { sampleDriver.Net.Connections c with
            DestroyedStartupOrDormantActorGUIDs := [⟨7⟩] } } }

/-- The array `ServerReplicateActors_PrioritizeActors` returns for connection `1` on
`sampleDriver`: the infos `0`, `2`, `1` with the priorities `10`, `8`, `5`. -/
def samplePriorityActors : List FActorPriority :=
  [{ Priority := 10, ActorInfo := some 0, Channel := none, DestructionInfo := none },
   { Priority := 8, ActorInfo := some 2, Channel := none, DestructionInfo := none },
   { Priority := 5, ActorInfo := some 1, Channel := none, DestructionInfo := none }]

/-- The state of `sampleDriver` after that call. -/
def samplePrioritized : USpatialNetDriver :=
  (ServerReplicateActors_PrioritizeActors sampleEngine 1 [] [0, 1, 2, 3] sampleDriver).state

/-- The state after `ServerReplicateActors_ProcessPrioritizedActors` has processed
`samplePriorityActors` for connection `1`. -/
def sampleProcessed : USpatialNetDriver :=
  (ServerReplicateActors_ProcessPrioritizedActors sampleEngine 1 [] samplePriorityActors 0
    samplePrioritized).state

/-- The state after one pass of the loop body of
`ServerReplicateActors_ProcessPrioritizedActors` for the first entry of
`samplePriorityActors`. -/
def sampleAfterFirstEntry : USpatialNetDriver :=
  (ServerReplicateActors_ProcessPrioritizedActors.entry sampleEngine 1 [] 0
    { Priority := 10, ActorInfo := some 0, Channel := none, DestructionInfo := none } 0
    samplePrioritized).state

/-- Three ticks with the engine `sampleEngine`, one second apart, between which nothing
else happens to the driver. -/
def sampleTicks : List (Engine × ℚ × (USpatialNetDriver → USpatialNetDriver)) :=
  [(sampleEngine, 1, fun d => d), (sampleEngine, 1, fun d => d), (sampleEngine, 1, fun d => d)]

/-- The state of `sampleDriver` after one call of `ServerReplicateActors`. -/
def sampleAfterTick : USpatialNetDriver :=
  (ServerReplicateActors sampleEngine 1 sampleDriver).state

/-- Hash functions for the members of a reference: the entity id modulo `2 ^ 32`, the
offset itself, the length of a path plus one (zero for an unset path), and the depth of
an outer plus one (zero for an unset outer). -/
def sampleHashEnv : HashEnv where
  GetTypeHash_int64 := fun e => (e % 4294967296).toNat
  GetTypeHash_uint32 := fun o => o
  GetTypeHash_Path := fun p =>
    match p with
    | none => 0
    | some s => s.length + 1
  GetTypeHash_Outer := fun u =>
    match u with
    | none => 0
    | some r => r.depth + 1

/-- An actor channel whose actor is a simulated proxy without replicated physics. -/
def sampleSimulatedChannel : USpatialActorChannel :=
  { Actor_Role := ENetRole.ROLE_SimulatedProxy, Actor_bRepPhysics := false }

/-- Surroundings of a server travel on the authoritative server while the map
`/Game/Maps/Lobby` is loaded. -/
def sampleTravelEnv : TravelEnv :=
  { bHasAuthority := true, CurrentMap := "/Game/Maps/Lobby".toList }

/-- The driver `sampleDriver` two seconds later, with nothing received in between: its
connection is still open but no longer passes the test of
`ServerReplicateActors_PrepConnections`. -/
def sampleStaleDriver : USpatialNetDriver :=
  { sampleDriver with Time := 12 }

/-- A client RPC, a server RPC and a second client RPC, with the flag bits of
`sampleTypebindingEnv`. -/
def sampleClientRPC : UFunction := { Addr := 1, FunctionFlags := 0x01000040 }

/-- The server RPC of the sample class. -/
def sampleServerRPC : UFunction := { Addr := 2, FunctionFlags := 0x00200040 }

/-- The second client RPC of the sample class. -/
def sampleSecondClientRPC : UFunction := { Addr := 3, FunctionFlags := 0x01000040 }

/-- An actor class with one handover property, an array of two elements. -/
def sampleActorClass : UClass :=
  { Addr := 100
    PathName := "/Game/Hero.Hero_C"
    Properties :=
      [{ Addr := 7, PropertyFlags := 0x100000000000, ArrayDim := 2, ElementSize := 4,
         Offset_ForGC := 64 }] }

/-- A component class without properties and without RPC functions. -/
def sampleComponentClass : UClass :=
  { Addr := 200, PathName := "/Script/Game.Inventory", Properties := [] }

/-- The schema data of the sub-object of the actor class: an object of the component
class with the components `200` and `201`. -/
def sampleSubobjectSchemaData : FSubobjectSchemaData :=
  { ClassPath := "/Script/Game.Inventory"
    Name := "Inventory"
    SchemaComponents := fun T =>
      match T with
      | ESchemaComponentType.SCHEMA_Data => 200
      | ESchemaComponentType.SCHEMA_ClientRPC => 201
      | _ => 0 }

/-- The schema data of the actor class: the components `100`, `101`, `102` and the
sub-object at offset `1`. -/
def sampleActorSchemaData : FSchemaData :=
  { SchemaComponents := fun T =>
      match T with
      | ESchemaComponentType.SCHEMA_Data => 100
      | ESchemaComponentType.SCHEMA_ClientRPC => 101
      | ESchemaComponentType.SCHEMA_ServerRPC => 102
      | _ => 0
    SubobjectData := [(1, sampleSubobjectSchemaData)] }

/-- A schema database with the two sample classes; the component class has no component
of its own. -/
def sampleTypebindingEnv : TypebindingEnv :=
  { SchemaDatabase :=
      { ClassPathToSchema :=
          [("/Game/Hero.Hero_C", sampleActorSchemaData),
           ("/Script/Game.Inventory",
            { SchemaComponents := fun _ => 0, SubobjectData := [] })] }
    TryLoadClass := fun Path =>
      if Path = "/Game/Hero.Hero_C" then some sampleActorClass
      else if Path = "/Script/Game.Inventory" then some sampleComponentClass
      else none
    GetClassRPCFunctions := fun Class =>
      if Class = sampleActorClass then [sampleClientRPC, sampleServerRPC, sampleSecondClientRPC]
      else []
    ForAllSchemaComponentTypes :=
      [ESchemaComponentType.SCHEMA_Data, ESchemaComponentType.SCHEMA_OwnerOnly,
       ESchemaComponentType.SCHEMA_Handover, ESchemaComponentType.SCHEMA_ClientRPC,
       ESchemaComponentType.SCHEMA_ServerRPC, ESchemaComponentType.SCHEMA_NetMulticastRPC,
       ESchemaComponentType.SCHEMA_CrossServerRPC]
    FUNC_NetClient := 0x01000000
    FUNC_NetServer := 0x00200000
    FUNC_NetCrossServer := 0x00002000
    FUNC_NetMulticast := 0x00004000
    CPF_Handover := 0x100000000000 }

/-- A manager after `FindSupportedClasses` on the sample database: both classes are
supported and the tables are still empty. -/
def sampleTypebindingManager : USpatialTypebindingManager :=
  { SupportedClasses := [sampleActorClass, sampleComponentClass]
    ClassInfoMap := []
    ComponentToClassMap := []
    ComponentToOffsetMap := []
    ComponentToCategoryMap := [] }

/-- The surroundings `sampleClientEnv` in a build that defines `DO_GUARD_SLOW`. -/
def sampleDebugEnv : Env :=
  { sampleClientEnv with DO_GUARD_SLOW := true }

/-- Four calls on a client: an actor with one component at offset `1`, a stably named
level, a lookup by path and the removal of an entity the registry does not know. -/
def sampleCalls : List (Env × CacheCall) :=
  [(sampleClientEnv, CacheCall.assignEntityActor sampleActor [(sampleComponent, 1)]),
   (sampleClientEnv, CacheCall.assignStablyNamed sampleLevel),
   (sampleClientEnv,
     CacheCall.getNetGUID (FUnrealObjectRef.ofPath 0 0 "Map" FUnrealObjectRef.empty)),
   (sampleClientEnv, CacheCall.removeEntity 3)]

/-- The engine `sampleEngine` with the priority `7` for every deletion entry, which no
normal entry of the sample has. -/
def sampleEngineDeletionAtSeven : Engine :=
  { sampleEngine with DestructionPriority := fun _ _ => 7 }

/-! ## Properties -/

/-! ## Lemmas on `TMap` -/
section TMapLemmas
variable {K V : Type} [DecidableEq K]

theorem TMap.Find_Emplace_self (m : TMap K V) (k : K) (v : V) :
    TMap.Find (TMap.Emplace m k v) k = some v := by
  induction m with
  | nil => simp [TMap.Emplace, TMap.Find]
  | cons p m ih =>
    obtain ⟨k1, v1⟩ := p
    by_cases h : k1 = k <;> simp [TMap.Emplace, TMap.Find, h, ih]

theorem TMap.Find_Emplace_ne (m : TMap K V) {k k2 : K} (v : V) (h : k2 ≠ k) :
    TMap.Find (TMap.Emplace m k v) k2 = TMap.Find m k2 := by
  induction m with
  | nil => simp [TMap.Emplace, TMap.Find, Ne.symm h]
  | cons p m ih =>
    obtain ⟨k1, v1⟩ := p
    by_cases h1 : k1 = k
    · subst h1; simp [TMap.Emplace, TMap.Find, Ne.symm h]
    · by_cases h2 : k1 = k2
      · subst h2; simp [TMap.Emplace, TMap.Find, h1]
      · simp [TMap.Emplace, TMap.Find, h1, h2, ih]

theorem TMap.Emplace_eq_self (m : TMap K V) {k : K} {v : V} (h : TMap.Find m k = some v) :
    TMap.Emplace m k v = m := by
  induction m with
  | nil => simp [TMap.Find] at h
  | cons p m ih =>
    obtain ⟨k1, v1⟩ := p
    by_cases h1 : k1 = k
    · subst h1; simp [TMap.Find] at h; simp [TMap.Emplace, h]
    · simp [TMap.Find, h1] at h; simp [TMap.Emplace, h1, ih h]

theorem TMap.Find_Remove_self (m : TMap K V) (k : K) :
    TMap.Find (TMap.Remove m k) k = none := by
  induction m with
  | nil => simp [TMap.Remove, TMap.Find]
  | cons p m ih =>
    obtain ⟨k1, v1⟩ := p
    by_cases h : k1 = k <;> simp [TMap.Remove, TMap.Find, h, ih]

theorem TMap.Find_Remove_ne (m : TMap K V) {k k2 : K} (h : k2 ≠ k) :
    TMap.Find (TMap.Remove m k) k2 = TMap.Find m k2 := by
  induction m with
  | nil => simp [TMap.Remove, TMap.Find]
  | cons p m ih =>
    obtain ⟨k1, v1⟩ := p
    by_cases h1 : k1 = k
    · subst h1; simp [TMap.Remove, TMap.Find, Ne.symm h, ih]
    · by_cases h2 : k1 = k2
      · subst h2; simp [TMap.Remove, TMap.Find, h1]
      · simp [TMap.Remove, TMap.Find, h1, h2, ih]

theorem TMap.Find_Remove (m : TMap K V) (k k2 : K) :
    TMap.Find (TMap.Remove m k) k2 = if k2 = k then none else TMap.Find m k2 := by
  by_cases h : k2 = k
  · subst h; simp [TMap.Find_Remove_self]
  · simp [h, TMap.Find_Remove_ne m h]

theorem TMap.Find_Emplace (m : TMap K V) (k k2 : K) (v : V) :
    TMap.Find (TMap.Emplace m k v) k2 = if k2 = k then some v else TMap.Find m k2 := by
  by_cases h : k2 = k
  · subst h; simp [TMap.Find_Emplace_self]
  · simp [h, TMap.Find_Emplace_ne m v h]

theorem TMap.Remove_eq_self (m : TMap K V) {k : K} (h : TMap.Find m k = none) :
    TMap.Remove m k = m := by
  induction m with
  | nil => rfl
  | cons p m ih =>
    obtain ⟨k1, v1⟩ := p
    by_cases h1 : k1 = k
    · subst h1; simp [TMap.Find] at h
    · simp [TMap.Find, h1] at h; simp [TMap.Remove, h1, ih h]

end TMapLemmas

theorem FUnrealObjectRef.eq_iff : ∀ (a b : FUnrealObjectRef), FUnrealObjectRef.eq a b = true ↔ a = b
  | mk e1 o1 p1 none, mk e2 o2 p2 none => by
      cases p1 <;> cases p2 <;> simp [FUnrealObjectRef.eq, and_assoc]
  | mk e1 o1 p1 none, mk e2 o2 p2 (some b) => by
      cases p1 <;> cases p2 <;> simp [FUnrealObjectRef.eq, and_assoc]
  | mk e1 o1 p1 (some a), mk e2 o2 p2 none => by
      cases p1 <;> cases p2 <;> simp [FUnrealObjectRef.eq, and_assoc]
  | mk e1 o1 p1 (some a), mk e2 o2 p2 (some b) => by
      have ih := FUnrealObjectRef.eq_iff a b
      cases p1 <;> cases p2 <;> simp [FUnrealObjectRef.eq, ih, and_assoc]

theorem FUnrealObjectRef.eq_eq_decide (a b : FUnrealObjectRef) :
    FUnrealObjectRef.eq a b = decide (a = b) := by
  by_cases h : a = b
  · simp [h, (FUnrealObjectRef.eq_iff b b).2 rfl]
  · have : FUnrealObjectRef.eq a b ≠ true := fun h2 => h ((FUnrealObjectRef.eq_iff a b).1 h2)
    simp [h, this]

theorem FUnrealObjectRef.ne_eq_decide (a b : FUnrealObjectRef) :
    FUnrealObjectRef.ne a b = decide (a ≠ b) := by
  simp [FUnrealObjectRef.ne, FUnrealObjectRef.eq_eq_decide]

/-! ## Sequencing lemmas -/

@[simp] theorem Result.bind_ok {σ α β : Type} (v : α) (s : σ) (f : α → σ → Result σ β) :
    (Result.ok v s).bind f = f v s := rfl

@[simp] theorem Result.bind_fatal {σ α β : Type} (e : Fault) (s : σ)
    (f : α → σ → Result σ β) :
    (Result.fatal e s : Result σ α).bind f = Result.fatal e s := rfl

@[simp] theorem check_true {σ : Type} (s : σ) : check true s = Result.ok () s := rfl

@[simp] theorem check_false {σ : Type} (s : σ) : check false s = Result.fatal Fault.check s :=
  rfl

@[simp] theorem Result.state_ok {σ α : Type} (v : α) (s : σ) : (Result.ok v s).state = s := rfl

@[simp] theorem Result.state_fatal {σ α : Type} (e : Fault) (s : σ) :
    (Result.fatal e s : Result σ α).state = s := rfl

theorem Result.bind_eq_ok {σ α β : Type} {r : Result σ α} {f : α → σ → Result σ β} {v : β}
    {s : σ} : r.bind f = Result.ok v s ↔ ∃ v1 s1, r = Result.ok v1 s1 ∧ f v1 s1 = Result.ok v s := by
  cases r with
  | ok v1 s1 =>
    constructor
    · intro h; exact ⟨v1, s1, rfl, h⟩
    · rintro ⟨v2, s2, h1, h2⟩
      injection h1 with h3 h4
      subst h3; subst h4; exact h2
  | fatal e s1 => simp

theorem Result.state_of_eq_ok {σ α : Type} {r : Result σ α} {v : α} {s : σ}
    (h : r = Result.ok v s) : r.state = s := by
  rw [h]; rfl

theorem Result.eq_ok_of_value {σ α : Type} {r : Result σ α} {v : α} (h : r.value? = some v) :
    r = Result.ok v r.state := by
  cases r with
  | ok v1 s =>
    simp only [Result.value?, Option.some.injEq] at h
    subst h
    rfl
  | fatal e s => simp [Result.value?] at h

theorem check_eq_ok {σ : Type} {b : Bool} {s s1 : σ} {u : Unit} :
    check b s = Result.ok u s1 ↔ b = true ∧ s1 = s := by
  cases b <;> simp [eq_comm]

/-- A transitive relation that holds across a call and across what follows it holds
across the sequence, however it ends. -/
theorem Result.bind_rel {σ α β : Type} {R : σ → σ → Prop}
    (htrans : ∀ a b c, R a b → R b c → R a c) {c : σ} {r : Result σ α}
    {f : α → σ → Result σ β} (h1 : R c r.state)
    (h2 : ∀ v s, r = Result.ok v s → R s (f v s).state) : R c (r.bind f).state := by
  cases r with
  | ok v s => exact htrans _ _ _ h1 (h2 v s rfl)
  | fatal e s => exact h1

theorem check_state {σ : Type} (b : Bool) (s : σ) : (check b s).state = s := by
  cases b <;> rfl

/-- A predicate that holds after a call and is kept by what follows it holds after the
sequence, however it ends. -/
theorem Result.bind_pred {σ α β : Type} {P : σ → Prop} {r : Result σ α}
    {f : α → σ → Result σ β} (h1 : P r.state)
    (h2 : ∀ v s, r = Result.ok v s → P (f v s).state) : P (r.bind f).state := by
  cases r with
  | ok v s => exact h2 v s rfl
  | fatal e s => exact h1

/-! ## `RegisterObjectRef` -/

/-- RegisterObjectRef in terms of the two lookups: the pair is emplaced unless the build
defines `DO_GUARD_SLOW` and the pair conflicts with an association that is present. -/
theorem RegisterObjectRef_eq (env : Env) (c : FSpatialNetGUIDCache) (g : FNetworkGUID)
    (r : FUnrealObjectRef) :
    RegisterObjectRef env c g r =
      if env.DO_GUARD_SLOW = true →
          (TMap.Find c.NetGUIDToUnrealObjectRef g = none ∨
            TMap.Find c.NetGUIDToUnrealObjectRef g = some r) ∧
          (TMap.Find c.UnrealObjectRefToNetGUID r = none ∨
            TMap.Find c.UnrealObjectRefToNetGUID r = some g) then
        ok () { c with
          NetGUIDToUnrealObjectRef := TMap.Emplace c.NetGUIDToUnrealObjectRef g r
          UnrealObjectRefToNetGUID := TMap.Emplace c.UnrealObjectRefToNetGUID r g }
      else fatal Fault.check c := by
  unfold RegisterObjectRef checkSlow TMap.Contains
  cases hSlow : env.DO_GUARD_SLOW with
  | false => simp [Result.bind]
  | true =>
  simp only [if_true, true_implies]
  cases h1 : TMap.Find c.NetGUIDToUnrealObjectRef g with
  | none =>
    cases h2 : TMap.Find c.UnrealObjectRefToNetGUID r with
    | none => simp [h1, h2]
    | some g2 => by_cases h3 : g2 = g <;> simp [h1, h2, h3]
  | some r2 =>
    by_cases h : r2 = r
    · cases h2 : TMap.Find c.UnrealObjectRefToNetGUID r with
      | none => simp [h1, h2, h, FUnrealObjectRef.eq_eq_decide]
      | some g2 => by_cases h3 : g2 = g <;> simp [h1, h2, h, h3, FUnrealObjectRef.eq_eq_decide]
    · simp [h1, h, FUnrealObjectRef.eq_eq_decide]

theorem check_bind_pred {σ β : Type} {P : σ → Prop} {b : Bool} {s : σ}
    {f : Unit → σ → Result σ β} (h1 : P s) (h2 : b = true → P (f () s).state) :
    P ((check b s).bind f).state := by
  cases b
  · exact h1
  · exact h2 rfl

/-- An invariant kept by a call and by what follows it is kept by the sequence. -/
theorem Result.bind_inv {σ α β : Type} {P : σ → Prop} {r : Result σ α}
    {f : α → σ → Result σ β} (h1 : P r.state) (h2 : ∀ v s, P s → P (f v s).state) :
    P (r.bind f).state := by
  cases r with
  | ok v s => exact h2 v s h1
  | fatal e s => exact h1

/-! ## Handle allocation leaves the reference maps alone -/

theorem SameRefMaps.same (c : FSpatialNetGUIDCache) : SameRefMaps c c := ⟨rfl, rfl⟩

theorem SameRefMaps.chain {a b c : FSpatialNetGUIDCache} (h1 : SameRefMaps a b)
    (h2 : SameRefMaps b c) : SameRefMaps a c :=
  ⟨h2.1.trans h1.1, h2.2.trans h1.2⟩

theorem SameRefMaps.chain3 : ∀ a b c : FSpatialNetGUIDCache,
    SameRefMaps a b → SameRefMaps b c → SameRefMaps a c :=
  fun _ _ _ h1 h2 => h1.chain h2

theorem GenerateNewNetGUID_sameRefMaps (c : FSpatialNetGUIDCache) (s : Fin 2) :
    SameRefMaps c (GenerateNewNetGUID c s).2 := by
  unfold GenerateNewNetGUID
  split <;> exact ⟨rfl, rfl⟩

theorem RegisterNetGUID_Internal_sameRefMaps (c : FSpatialNetGUIDCache) (g : FNetworkGUID)
    (o : FNetGuidCacheObject) : SameRefMaps c (RegisterNetGUID_Internal c g o).state := by
  unfold RegisterNetGUID_Internal
  refine check_bind_pred (SameRefMaps.same c) (fun _ => ?_)
  simp only []
  split
  · exact ⟨rfl, rfl⟩
  · exact check_bind_pred ⟨rfl, rfl⟩ (fun _ => ⟨rfl, rfl⟩)

theorem GetOrAssignNetGUID_sameRefMaps (env : Env) (o : UObjectPtr) :
    ∀ c, SameRefMaps c (GetOrAssignNetGUID env o c).state := by
  induction o with
  | nullptr => intro c; exact ⟨rfl, rfl⟩
  | obj a n d outer ih =>
    intro c
    unfold GetOrAssignNetGUID
    simp only []
    split
    · exact ⟨rfl, rfl⟩
    split
    · exact ⟨rfl, rfl⟩
    refine (GenerateNewNetGUID_sameRefMaps c (if d then 0 else 1)).chain ?_
    refine check_bind_pred (SameRefMaps.same _) (fun _ => ?_)
    refine check_bind_pred (SameRefMaps.same _) (fun _ => ?_)
    refine Result.bind_rel SameRefMaps.chain3 (ih _) (fun v s _ => ?_)
    exact Result.bind_rel SameRefMaps.chain3 (RegisterNetGUID_Internal_sameRefMaps _ _ _)
      (fun _ s3 _ => SameRefMaps.same _)

theorem GetOrAssignNetGUID_SpatialGDK_sameRefMaps (env : Env) (o : UObjectPtr) :
    ∀ c, SameRefMaps c (GetOrAssignNetGUID_SpatialGDK env o c).state := by
  induction o with
  | nullptr =>
    intro c
    unfold GetOrAssignNetGUID_SpatialGDK
    refine Result.bind_rel SameRefMaps.chain3 (GetOrAssignNetGUID_sameRefMaps _ _ _)
      (fun v s _ => ?_)
    exact check_bind_pred (SameRefMaps.same _) (fun _ => SameRefMaps.same _)
  | obj a n d outer ih =>
    intro c
    unfold GetOrAssignNetGUID_SpatialGDK
    refine Result.bind_rel SameRefMaps.chain3 (GetOrAssignNetGUID_sameRefMaps _ _ _)
      (fun v s _ => ?_)
    refine Result.bind_rel SameRefMaps.chain3 ?_
      (fun v2 s2 _ => check_bind_pred (SameRefMaps.same _) (fun _ => SameRefMaps.same _))
    split
    · refine (GenerateNewNetGUID_sameRefMaps s (if d then 0 else 1)).chain ?_
      refine Result.bind_rel SameRefMaps.chain3 (ih _) (fun v3 s3 _ => ?_)
      exact Result.bind_rel SameRefMaps.chain3 (RegisterNetGUID_Internal_sameRefMaps _ _ _)
        (fun _ s3 _ => SameRefMaps.same _)
    · exact SameRefMaps.same _

/-! ## The two maps stay mutual inverses -/

theorem MutualInverses.of_sameRefMaps {c c1 : FSpatialNetGUIDCache} (h : MutualInverses c)
    (hs : SameRefMaps c c1) : MutualInverses c1 := by
  intro g r
  rw [hs.1, hs.2]
  exact h g r

theorem MutualInverses_empty : MutualInverses FSpatialNetGUIDCache.empty := by
  intro g r
  simp [FSpatialNetGUIDCache.empty, TMap.Find]

theorem RegisterObjectRef_inverses (env : Env) (hSlow : env.DO_GUARD_SLOW = true)
    (c : FSpatialNetGUIDCache) (g : FNetworkGUID)
    (r : FUnrealObjectRef) (h : MutualInverses c) :
    MutualInverses (RegisterObjectRef env c g r).state := by
  rw [RegisterObjectRef_eq]
  split
  · rename_i hc
    have hc := hc hSlow
    intro g2 r2
    simp only [Result.state_ok, TMap.Find_Emplace]
    by_cases hg : g2 = g <;> by_cases hr : r2 = r
    · simp [hg, hr]
    · subst hg
      simp only [if_true, hr, if_false]
      constructor
      · intro h1; exact absurd (Option.some.inj h1).symm hr
      · intro h1
        have h2 := (h g2 r2).2 h1
        rcases hc.1 with h3 | h3
        · rw [h3] at h2; cases h2
        · rw [h3] at h2; exact absurd (Option.some.inj h2).symm hr
    · subst hr
      simp only [if_true, hg, if_false]
      constructor
      · intro h1
        have h2 := (h g2 r2).1 h1
        rcases hc.2 with h3 | h3
        · rw [h3] at h2; cases h2
        · rw [h3] at h2; exact absurd (Option.some.inj h2).symm hg
      · intro h1; exact absurd (Option.some.inj h1).symm hg
    · simp only [hg, hr, if_false]
      exact h g2 r2
  · exact h

theorem ResolvePendingOperations_sameRefMaps (env : Env) (c : FSpatialNetGUIDCache)
    (o : UObjectPtr) (r : FUnrealObjectRef) :
    SameRefMaps c (ResolvePendingOperations env c o r).state := by
  unfold ResolvePendingOperations
  split
  · exact ⟨rfl, rfl⟩
  · split <;> exact ⟨rfl, rfl⟩

theorem AssignNewEntityActorNetGUID_loop_inverses (env : Env)
    (hSlow : env.DO_GUARD_SLOW = true) (e : Worker_EntityId)
    (l : List (UObjectPtr × Nat)) :
    ∀ c, MutualInverses c → MutualInverses (AssignNewEntityActorNetGUID.loop env e l c).state := by
  induction l with
  | nil => intro c h; exact h
  | cons p rest ih =>
    intro c h
    obtain ⟨so, off⟩ := p
    unfold AssignNewEntityActorNetGUID.loop
    refine Result.bind_inv (h.of_sameRefMaps (GetOrAssignNetGUID_SpatialGDK_sameRefMaps _ _ _))
      (fun v s hs => ?_)
    refine Result.bind_inv (RegisterObjectRef_inverses _ hSlow _ _ _ hs) (fun v2 s2 hs2 => ?_)
    refine Result.bind_inv (hs2.of_sameRefMaps (ResolvePendingOperations_sameRefMaps _ _ _ _))
      (fun v3 s3 hs3 => ?_)
    exact ih s3 hs3

theorem AssignNewEntityActorNetGUID_inverses (env : Env) (hSlow : env.DO_GUARD_SLOW = true)
    (Actor : UObjectPtr)
    (l : List (UObjectPtr × Nat)) (c : FSpatialNetGUIDCache) (h : MutualInverses c) :
    MutualInverses (AssignNewEntityActorNetGUID env Actor l c).state := by
  unfold AssignNewEntityActorNetGUID
  simp only []
  refine check_bind_pred h (fun _ => ?_)
  refine Result.bind_inv (h.of_sameRefMaps (GetOrAssignNetGUID_SpatialGDK_sameRefMaps _ _ _))
    (fun v s hs => ?_)
  refine Result.bind_inv (RegisterObjectRef_inverses _ hSlow _ _ _ hs) (fun v2 s2 hs2 => ?_)
  refine Result.bind_inv (hs2.of_sameRefMaps (ResolvePendingOperations_sameRefMaps _ _ _ _))
    (fun v3 s3 hs3 => ?_)
  exact Result.bind_inv (AssignNewEntityActorNetGUID_loop_inverses _ hSlow _ _ _ hs3)
    (fun v4 s4 hs4 => hs4)

theorem AssignNewStablyNamedObjectNetGUID_inverses (env : Env)
    (hSlow : env.DO_GUARD_SLOW = true) (o : UObjectPtr) :
    ∀ c, MutualInverses c → MutualInverses (AssignNewStablyNamedObjectNetGUID env o c).state := by
  induction o with
  | nullptr =>
    intro c h
    unfold AssignNewStablyNamedObjectNetGUID
    refine Result.bind_inv (h.of_sameRefMaps (GetOrAssignNetGUID_SpatialGDK_sameRefMaps _ _ _))
      (fun v s hs => ?_)
    split <;> exact hs
  | obj a n d outer ih =>
    intro c h
    unfold AssignNewStablyNamedObjectNetGUID
    refine Result.bind_inv (h.of_sameRefMaps (GetOrAssignNetGUID_SpatialGDK_sameRefMaps _ _ _))
      (fun v s hs => ?_)
    split
    · exact hs
    · refine Result.bind_inv ?_ (fun v2 s2 hs2 => ?_)
      · split
        · exact hs
        · exact ih s hs
      · exact Result.bind_inv (RegisterObjectRef_inverses _ hSlow _ _ _ hs2) (fun v3 s3 hs3 => hs3)

theorem RegisterNetGUIDFromPathForStaticObject_sameRefMaps (c : FSpatialNetGUIDCache)
    (p : String) (g : FNetworkGUID) :
    SameRefMaps c (RegisterNetGUIDFromPathForStaticObject c p g).state := by
  unfold RegisterNetGUIDFromPathForStaticObject
  refine (GenerateNewNetGUID_sameRefMaps c 0).chain ?_
  exact Result.bind_rel SameRefMaps.chain3 (RegisterNetGUID_Internal_sameRefMaps _ _ _)
    (fun _ s3 _ => SameRefMaps.same _)

theorem GetNetGUIDFromUnrealObjectRefInternal_inverses (env : Env)
    (hSlow : env.DO_GUARD_SLOW = true)
    (recurse : FUnrealObjectRef → FSpatialNetGUIDCache → CacheResult FNetworkGUID)
    (hrec : ∀ r c, MutualInverses c → MutualInverses (recurse r c).state)
    (r : FUnrealObjectRef) (c : FSpatialNetGUIDCache) (h : MutualInverses c) :
    MutualInverses (GetNetGUIDFromUnrealObjectRefInternal env recurse r c).state := by
  unfold GetNetGUIDFromUnrealObjectRefInternal
  simp only []
  split
  · refine Result.bind_inv ?_ (fun v s hs => ?_)
    · split
      · exact hrec _ _ h
      · exact h
    · refine Result.bind_inv
        (hs.of_sameRefMaps (RegisterNetGUIDFromPathForStaticObject_sameRefMaps _ _ _))
        (fun v2 s2 hs2 => ?_)
      exact Result.bind_inv (RegisterObjectRef_inverses _ hSlow _ _ _ hs2) (fun v3 s3 hs3 => hs3)
  · exact h

theorem GetNetGUIDFromUnrealObjectRefFuel_inverses (env : Env)
    (hSlow : env.DO_GUARD_SLOW = true) (fuel : Nat) :
    ∀ r c, MutualInverses c →
      MutualInverses (GetNetGUIDFromUnrealObjectRefFuel env fuel r c).state := by
  induction fuel with
  | zero => intro r c h; exact h
  | succ k ih =>
    intro r c h
    unfold GetNetGUIDFromUnrealObjectRefFuel
    exact GetNetGUIDFromUnrealObjectRefInternal_inverses env hSlow _ ih _ _ h

theorem GetNetGUIDFromUnrealObjectRef_inverses (env : Env) (hSlow : env.DO_GUARD_SLOW = true)
    (r : FUnrealObjectRef)
    (c : FSpatialNetGUIDCache) (h : MutualInverses c) :
    MutualInverses (GetNetGUIDFromUnrealObjectRef env r c).state :=
  GetNetGUIDFromUnrealObjectRefFuel_inverses env hSlow _ r c h

/-- Removing a matching pair from both maps keeps them mutual inverses. -/
theorem MutualInverses_remove_pair {c : FSpatialNetGUIDCache} (h : MutualInverses c)
    {g : FNetworkGUID} {r : FUnrealObjectRef}
    (hgr : TMap.Find c.NetGUIDToUnrealObjectRef g = some r) :
    MutualInverses { c with
      NetGUIDToUnrealObjectRef := TMap.Remove c.NetGUIDToUnrealObjectRef g
      UnrealObjectRefToNetGUID := TMap.Remove c.UnrealObjectRefToNetGUID r } := by
  intro g2 r2
  simp only [TMap.Find_Remove]
  have hrg := (h g r).1 hgr
  by_cases hg : g2 = g <;> by_cases hr : r2 = r
  · simp [hg, hr]
  · subst hg
    simp only [if_true, hr, if_false]
    constructor
    · intro h1; cases h1
    · intro h1
      have h2 := (h g2 r2).2 h1
      rw [hgr] at h2
      exact absurd (Option.some.inj h2).symm hr
  · subst hr
    simp only [if_true, hg, if_false]
    constructor
    · intro h1
      have h2 := (h g2 r2).1 h1
      rw [hrg] at h2
      exact absurd (Option.some.inj h2).symm hg
    · intro h1; cases h1
  · simp only [hg, hr, if_false]
    exact h g2 r2

theorem RemoveEntityNetGUID_loop_inverses (e : Worker_EntityId) (Keys : List Nat) :
    ∀ c, MutualInverses c → MutualInverses (RemoveEntityNetGUID.loop e Keys c) := by
  induction Keys with
  | nil => intro c h; exact h
  | cons k rest ih =>
    intro c h
    unfold RemoveEntityNetGUID.loop
    split
    · rename_i g hg
      exact ih _ (MutualInverses_remove_pair h ((h _ _).2 hg))
    · exact ih _ h

theorem RemoveEntityNetGUID_inverses (env : Env) (e : Worker_EntityId)
    (c : FSpatialNetGUIDCache) (h : MutualInverses c) :
    MutualInverses (RemoveEntityNetGUID env e c).state := by
  unfold RemoveEntityNetGUID
  split
  · exact h
  · split
    · exact h
    · rename_i Keys _
      have h1 := RemoveEntityNetGUID_loop_inverses e Keys c h
      simp only []
      split
      · rename_i hnone
        simp only [Result.state_fatal]
        rw [TMap.Remove_eq_self _ hnone]
        exact h1
      · rename_i r hr
        exact MutualInverses_remove_pair h1 hr

theorem CacheCall_run_inverses (env : Env) (hSlow : env.DO_GUARD_SLOW = true)
    (call : CacheCall) (c : FSpatialNetGUIDCache)
    (h : MutualInverses c) : MutualInverses (CacheCall.run env call c).state := by
  cases call with
  | assignEntityActor Actor l =>
    exact Result.bind_inv (AssignNewEntityActorNetGUID_inverses env hSlow Actor l c h)
      (fun _ _ hs => hs)
  | assignStablyNamed o =>
    exact Result.bind_inv (AssignNewStablyNamedObjectNetGUID_inverses env hSlow o c h)
      (fun _ _ hs => hs)
  | getNetGUID r =>
    exact Result.bind_inv (GetNetGUIDFromUnrealObjectRef_inverses env hSlow r c h)
      (fun _ _ hs => hs)
  | removeEntity e => exact RemoveEntityNetGUID_inverses env e c h

theorem runCalls_inverses (calls : List (Env × CacheCall)) :
    (∀ p ∈ calls, p.1.DO_GUARD_SLOW = true) →
    ∀ c, MutualInverses c → MutualInverses (runCalls calls c).state := by
  induction calls with
  | nil => intro _ c h; exact h
  | cons p rest ih =>
    intro hSlow c h
    obtain ⟨env, call⟩ := p
    unfold runCalls
    exact Result.bind_inv
      (CacheCall_run_inverses env (hSlow (env, call) (List.mem_cons_self _ _)) call c h)
      (fun _ s hs => ih (fun q hq => hSlow q (List.mem_cons_of_mem _ hq)) s hs)

/-! ## A sequence without conflicting registration runs alike in every build -/

/-- If each step of a sequence returns alike in two settings, so does the sequence. -/
theorem Result.bind_ok_of_ok {σ α β : Type} {r r1 : Result σ α} {f f1 : α → σ → Result σ β}
    {w : β} {t : σ} (h1 : ∀ v s, r = Result.ok v s → r1 = Result.ok v s)
    (h2 : ∀ v s, f v s = Result.ok w t → f1 v s = Result.ok w t)
    (h : r.bind f = Result.ok w t) : r1.bind f1 = Result.ok w t := by
  obtain ⟨v, s, e1, e2⟩ := Result.bind_eq_ok.1 h
  rw [h1 v s e1]
  exact h2 v s e2

theorem GetOrAssignNetGUID_withGuardSlow (env : Env) (o : UObjectPtr) :
    ∀ c, GetOrAssignNetGUID env.withGuardSlow o c = GetOrAssignNetGUID env o c := by
  induction o with
  | nullptr => intro c; rfl
  | obj a n d outer ih =>
    intro c
    unfold GetOrAssignNetGUID
    simp only [ih]
    rfl

theorem GetOrAssignNetGUID_SpatialGDK_withGuardSlow (env : Env) (o : UObjectPtr) :
    ∀ c, GetOrAssignNetGUID_SpatialGDK env.withGuardSlow o c =
      GetOrAssignNetGUID_SpatialGDK env o c := by
  induction o with
  | nullptr =>
    intro c
    unfold GetOrAssignNetGUID_SpatialGDK
    rw [GetOrAssignNetGUID_withGuardSlow]
  | obj a n d outer ih =>
    intro c
    unfold GetOrAssignNetGUID_SpatialGDK
    simp only [ih, GetOrAssignNetGUID_withGuardSlow]
    rfl

theorem RegisterObjectRef_of_guarded {env : Env} {c c1 : FSpatialNetGUIDCache}
    {g : FNetworkGUID} {r : FUnrealObjectRef} {u : Unit}
    (h : RegisterObjectRef env.withGuardSlow c g r = ok u c1) :
    RegisterObjectRef env c g r = ok u c1 := by
  rw [RegisterObjectRef_eq] at h ⊢
  split at h
  · rename_i hc
    rw [if_pos (fun _ => hc rfl)]
    exact h
  · cases h

theorem AssignNewEntityActorNetGUID_loop_of_guarded (env : Env) (e : Worker_EntityId)
    (l : List (UObjectPtr × Nat)) :
    ∀ (c c1 : FSpatialNetGUIDCache) (u : Unit),
      AssignNewEntityActorNetGUID.loop env.withGuardSlow e l c = ok u c1 →
      AssignNewEntityActorNetGUID.loop env e l c = ok u c1 := by
  induction l with
  | nil => intro c c1 u h; exact h
  | cons p rest ih =>
    intro c c1 u h
    obtain ⟨so, off⟩ := p
    unfold AssignNewEntityActorNetGUID.loop at h ⊢
    rw [GetOrAssignNetGUID_SpatialGDK_withGuardSlow] at h
    refine Result.bind_ok_of_ok (fun _ _ e => e) (fun g s h2 => ?_) h
    refine Result.bind_ok_of_ok (fun _ _ e => RegisterObjectRef_of_guarded e)
      (fun _ s2 h3 => ?_) h2
    exact Result.bind_ok_of_ok (fun _ _ e => e) (fun _ s3 h4 => ih s3 c1 u h4) h3

theorem AssignNewEntityActorNetGUID_of_guarded {env : Env} {Actor : UObjectPtr}
    {l : List (UObjectPtr × Nat)} {c c1 : FSpatialNetGUIDCache} {g : FNetworkGUID}
    (h : AssignNewEntityActorNetGUID env.withGuardSlow Actor l c = ok g c1) :
    AssignNewEntityActorNetGUID env Actor l c = ok g c1 := by
  unfold AssignNewEntityActorNetGUID at h ⊢
  simp only [] at h ⊢
  refine Result.bind_ok_of_ok (fun _ _ e => e) (fun _ s0 h1 => ?_) h
  rw [GetOrAssignNetGUID_SpatialGDK_withGuardSlow] at h1
  refine Result.bind_ok_of_ok (fun _ _ e => e) (fun g1 s1 h2 => ?_) h1
  refine Result.bind_ok_of_ok (fun _ _ e => RegisterObjectRef_of_guarded e)
    (fun _ s2 h3 => ?_) h2
  refine Result.bind_ok_of_ok (fun _ _ e => e) (fun _ s3 h4 => ?_) h3
  exact Result.bind_ok_of_ok
    (fun _ _ e => AssignNewEntityActorNetGUID_loop_of_guarded env _ l _ _ _ e)
    (fun _ _ e => e) h4

theorem AssignNewStablyNamedObjectNetGUID_of_guarded (env : Env) (o : UObjectPtr) :
    ∀ (c c1 : FSpatialNetGUIDCache) (g : FNetworkGUID),
      AssignNewStablyNamedObjectNetGUID env.withGuardSlow o c = ok g c1 →
      AssignNewStablyNamedObjectNetGUID env o c = ok g c1 := by
  induction o with
  | nullptr =>
    intro c c1 g h
    unfold AssignNewStablyNamedObjectNetGUID at h ⊢
    rw [GetOrAssignNetGUID_SpatialGDK_withGuardSlow] at h
    exact h
  | obj a n d outer ih =>
    intro c c1 g h
    unfold AssignNewStablyNamedObjectNetGUID at h ⊢
    rw [GetOrAssignNetGUID_SpatialGDK_withGuardSlow] at h
    refine Result.bind_ok_of_ok (fun _ _ e => e) (fun g1 s1 h1 => ?_) h
    have hU : env.withGuardSlow.UNRESOLVED_OBJECT_REF = env.UNRESOLVED_OBJECT_REF := rfl
    have hG : ∀ s x, GetUnrealObjectRefFromNetGUID env.withGuardSlow s x =
        GetUnrealObjectRefFromNetGUID env s x := fun _ _ => rfl
    rw [hU, hG] at h1
    split at h1
    · rename_i hne
      rw [if_pos hne]
      exact h1
    · rename_i hne
      rw [if_neg hne]
      refine Result.bind_ok_of_ok ?_ (fun og s2 h2 => ?_) h1
      · intro og s2 e
        cases outer with
        | nullptr => exact e
        | obj a2 n2 d2 o2 => exact ih s1 s2 og e
      · rw [hG] at h2
        exact Result.bind_ok_of_ok (fun _ _ e => RegisterObjectRef_of_guarded e)
          (fun _ _ e => e) h2

theorem GetNetGUIDFromUnrealObjectRefInternal_of_guarded (env : Env)
    (recurse recurse1 : FUnrealObjectRef → FSpatialNetGUIDCache → CacheResult FNetworkGUID)
    (hrec : ∀ r c c1 g, recurse r c = ok g c1 → recurse1 r c = ok g c1)
    (r : FUnrealObjectRef) (c c1 : FSpatialNetGUIDCache) (g : FNetworkGUID)
    (h : GetNetGUIDFromUnrealObjectRefInternal env.withGuardSlow recurse r c = ok g c1) :
    GetNetGUIDFromUnrealObjectRefInternal env recurse1 r c = ok g c1 := by
  unfold GetNetGUIDFromUnrealObjectRefInternal at h ⊢
  simp only [] at h ⊢
  split at h
  · rename_i hc
    rw [if_pos hc]
    refine Result.bind_ok_of_ok ?_ (fun og s1 h1 => ?_) h
    · intro og s1 e
      split at e
      · exact hrec _ _ _ _ e
      · exact e
    · refine Result.bind_ok_of_ok (fun _ _ e => e) (fun g2 s2 h2 => ?_) h1
      exact Result.bind_ok_of_ok (fun _ _ e => RegisterObjectRef_of_guarded e)
        (fun _ _ e => e) h2
  · rename_i hc
    rw [if_neg hc]
    exact h

theorem NetworkRemapObjectRefPaths.loop_withGuardSlow (env : Env) :
    ∀ x, NetworkRemapObjectRefPaths.loop env.withGuardSlow x =
      NetworkRemapObjectRefPaths.loop env x
  | FUnrealObjectRef.mk e o p none => rfl
  | FUnrealObjectRef.mk e o p (some u) => by
    unfold NetworkRemapObjectRefPaths.loop
    rw [NetworkRemapObjectRefPaths.loop_withGuardSlow env u]
    rfl

theorem GetNetGUIDFromUnrealObjectRefFuel_of_guarded (env : Env) (fuel : Nat) :
    ∀ (r : FUnrealObjectRef) (c c1 : FSpatialNetGUIDCache) (g : FNetworkGUID),
      GetNetGUIDFromUnrealObjectRefFuel env.withGuardSlow fuel r c = ok g c1 →
      GetNetGUIDFromUnrealObjectRefFuel env fuel r c = ok g c1 := by
  induction fuel with
  | zero => intro r c c1 g h; cases h
  | succ k ih =>
    intro r c c1 g h
    unfold GetNetGUIDFromUnrealObjectRefFuel at h ⊢
    have hR : NetworkRemapObjectRefPaths env.withGuardSlow r = NetworkRemapObjectRefPaths env r := by
      unfold NetworkRemapObjectRefPaths
      rw [NetworkRemapObjectRefPaths.loop_withGuardSlow]
    rw [hR] at h
    exact GetNetGUIDFromUnrealObjectRefInternal_of_guarded env _ _ ih _ c c1 g h

theorem CacheCall_run_of_guarded {env : Env} {call : CacheCall}
    {c c1 : FSpatialNetGUIDCache} {u : Unit}
    (h : CacheCall.run env.withGuardSlow call c = ok u c1) :
    CacheCall.run env call c = ok u c1 := by
  cases call with
  | assignEntityActor Actor l =>
    exact Result.bind_ok_of_ok (fun _ _ e => AssignNewEntityActorNetGUID_of_guarded e)
      (fun _ _ e => e) h
  | assignStablyNamed o =>
    exact Result.bind_ok_of_ok
      (fun _ _ e => AssignNewStablyNamedObjectNetGUID_of_guarded env o _ _ _ e)
      (fun _ _ e => e) h
  | getNetGUID r =>
    exact Result.bind_ok_of_ok
      (fun _ _ e => GetNetGUIDFromUnrealObjectRefFuel_of_guarded env _ r _ _ _ e)
      (fun _ _ e => e) h
  | removeEntity e => exact h

theorem runCalls_of_guarded (calls : List (Env × CacheCall)) :
    ∀ (c c1 : FSpatialNetGUIDCache) (u : Unit), runCalls (guardSlow calls) c = ok u c1 →
      runCalls calls c = ok u c1 := by
  induction calls with
  | nil => intro c c1 u h; exact h
  | cons p rest ih =>
    intro c c1 u h
    obtain ⟨env, call⟩ := p
    exact Result.bind_ok_of_ok (fun _ _ e => CacheCall_run_of_guarded e)
      (fun _ s e => ih s c1 u e) h

theorem guardSlow_guarded (calls : List (Env × CacheCall)) :
    ∀ p ∈ guardSlow calls, p.1.DO_GUARD_SLOW = true := by
  intro p hp
  obtain ⟨q, _, rfl⟩ := List.mem_map.1 hp
  rfl

/-! ## Mutual inverses -/

/-- C1 as stated fails in a build without `DO_GUARD_SLOW`: on a client with an empty
cache, `AssignNewEntityActorNetGUID(sampleActor, {sampleComponent ↦ 0})` returns, the
actor's id `2` is mapped to `(3, 0)`, but `(3, 0)` is mapped to the component's id `4`,
which `RegisterObjectRef` emplaced over the root association. -/
theorem C1_conflicting_registration_breaks_inverses :
    sampleClientEnv.DO_GUARD_SLOW = false ∧
    (runCalls [(sampleClientEnv, CacheCall.assignEntityActor sampleActor [(sampleComponent, 0)])]
      FSpatialNetGUIDCache.empty).isOk = true ∧
    TMap.Find (runCalls
        [(sampleClientEnv, CacheCall.assignEntityActor sampleActor [(sampleComponent, 0)])]
        FSpatialNetGUIDCache.empty).state.NetGUIDToUnrealObjectRef ⟨2⟩ =
      some (FUnrealObjectRef.ofEntity 3 0) ∧
    TMap.Find (runCalls
        [(sampleClientEnv, CacheCall.assignEntityActor sampleActor [(sampleComponent, 0)])]
        FSpatialNetGUIDCache.empty).state.UnrealObjectRefToNetGUID
        (FUnrealObjectRef.ofEntity 3 0) = some ⟨4⟩ ∧
    ¬ MutualInverses (runCalls
        [(sampleClientEnv, CacheCall.assignEntityActor sampleActor [(sampleComponent, 0)])]
        FSpatialNetGUIDCache.empty).state := by
  have h1 : TMap.Find (runCalls
        [(sampleClientEnv, CacheCall.assignEntityActor sampleActor [(sampleComponent, 0)])]
        FSpatialNetGUIDCache.empty).state.NetGUIDToUnrealObjectRef ⟨2⟩ =
      some (FUnrealObjectRef.ofEntity 3 0) := by decide!
  have h2 : TMap.Find (runCalls
        [(sampleClientEnv, CacheCall.assignEntityActor sampleActor [(sampleComponent, 0)])]
        FSpatialNetGUIDCache.empty).state.UnrealObjectRefToNetGUID
        (FUnrealObjectRef.ofEntity 3 0) = some ⟨4⟩ := by decide!
  refine ⟨rfl, by decide!, h1, h2, ?_⟩
  intro hinv
  have h3 := (hinv ⟨2⟩ (FUnrealObjectRef.ofEntity 3 0)).1 h1
  rw [h2] at h3
  exact absurd h3 (by decide)

/-- C1 (amended): take any sequence of `AssignNewEntityActorNetGUID`,
`AssignNewStablyNamedObjectNetGUID`, `GetNetGUIDFromUnrealObjectRef` and
`RemoveEntityNetGUID` calls starting from an empty cache, whatever the surroundings of
each call. In a build that defines `DO_GUARD_SLOW` the cache the sequence ends in
(normally or at a fatal assertion) has maps that are mutual inverses; and when that build
completes the sequence, which is when no `RegisterObjectRef` of the sequence meets a
conflicting association, every build completes it with the same cache, whose maps are
therefore mutual inverses. -/
theorem C1_maps_stay_mutual_inverses_without_conflict (calls : List (Env × CacheCall)) :
    MutualInverses (runCalls (guardSlow calls) FSpatialNetGUIDCache.empty).state ∧
    ∀ c, runCalls (guardSlow calls) FSpatialNetGUIDCache.empty = ok () c →
      runCalls calls FSpatialNetGUIDCache.empty = ok () c ∧ MutualInverses c := by
  have h1 := runCalls_inverses (guardSlow calls) (guardSlow_guarded calls) _ MutualInverses_empty
  refine ⟨h1, fun c h => ⟨runCalls_of_guarded calls _ c () h, ?_⟩⟩
  rw [Result.state_of_eq_ok h] at h1
  exact h1

/-- C1 (amended) on `sampleCalls`: the four calls are completed by a build that defines
`DO_GUARD_SLOW`, so the client build completes them too and ends with maps that are
mutual inverses. -/
theorem C1_maps_stay_mutual_inverses_without_conflict_witness :
    (runCalls (guardSlow sampleCalls) FSpatialNetGUIDCache.empty).isOk = true ∧
    (runCalls sampleCalls FSpatialNetGUIDCache.empty).isOk = true ∧
    MutualInverses (runCalls sampleCalls FSpatialNetGUIDCache.empty).state := by
  have hv : (runCalls (guardSlow sampleCalls) FSpatialNetGUIDCache.empty).value? = some () := by
    decide!
  have h := (C1_maps_stay_mutual_inverses_without_conflict sampleCalls).2 _
    (Result.eq_ok_of_value hv)
  refine ⟨by decide!, by decide!, ?_⟩
  rw [Result.state_of_eq_ok h.1]
  exact h.2

/-- C2 as stated fails in a build without `DO_GUARD_SLOW`: on a cache holding
`4 ↔ (7, 0)`, registering `6 ↔ (7, 0)` returns and emplaces the pair, so that `(7, 0)` is
now mapped to `6` while `4` is still mapped to `(7, 0)`. -/
theorem C2_conflicting_pair_is_registered_without_guard :
    sampleClientEnv.DO_GUARD_SLOW = false ∧
    TMap.Find sampleCacheOneRecord.UnrealObjectRefToNetGUID (FUnrealObjectRef.ofEntity 7 0) =
      some ⟨4⟩ ∧
    RegisterObjectRef sampleClientEnv sampleCacheOneRecord ⟨6⟩ (FUnrealObjectRef.ofEntity 7 0) =
      ok ()
        { sampleCacheOneRecord with
          NetGUIDToUnrealObjectRef :=
            [(⟨4⟩, FUnrealObjectRef.ofEntity 7 0), (⟨6⟩, FUnrealObjectRef.ofEntity 7 0)]
          UnrealObjectRefToNetGUID := [(FUnrealObjectRef.ofEntity 7 0, ⟨6⟩)] } := by
  decide!

/-- C2 (amended): in a build that defines `DO_GUARD_SLOW`, `RegisterObjectRef(id, ref)`
ends in a fatal assertion, with the cache as it was, whenever `id` is already mapped to
a different ref or `ref` is already mapped to a different id; in a build that does not,
the call returns and emplaces the pair in both maps whatever they hold; and in every
build, registering a pair that is already present in both maps succeeds and leaves the
cache unchanged. -/
theorem C2_RegisterObjectRef_conflict_is_fatal_when_guarded (env : Env)
    (c : FSpatialNetGUIDCache) (g : FNetworkGUID) (r : FUnrealObjectRef) :
    (env.DO_GUARD_SLOW = true →
      ((∃ r2, TMap.Find c.NetGUIDToUnrealObjectRef g = some r2 ∧ r2 ≠ r) ∨
        (∃ g2, TMap.Find c.UnrealObjectRefToNetGUID r = some g2 ∧ g2 ≠ g)) →
      RegisterObjectRef env c g r = fatal Fault.check c) ∧
    (env.DO_GUARD_SLOW = false →
      RegisterObjectRef env c g r =
        ok () { c with
          NetGUIDToUnrealObjectRef := TMap.Emplace c.NetGUIDToUnrealObjectRef g r
          UnrealObjectRefToNetGUID := TMap.Emplace c.UnrealObjectRefToNetGUID r g }) ∧
    (TMap.Find c.NetGUIDToUnrealObjectRef g = some r →
      TMap.Find c.UnrealObjectRefToNetGUID r = some g →
      RegisterObjectRef env c g r = ok () c) := by
  refine ⟨?_, ?_, ?_⟩
  · intro hSlow h
    rw [RegisterObjectRef_eq, if_neg]
    intro hc
    obtain ⟨h1, h2⟩ := hc hSlow
    rcases h with ⟨r2, hr, hne⟩ | ⟨g2, hg, hne⟩
    · rcases h1 with h1 | h1
      · rw [h1] at hr; cases hr
      · rw [h1] at hr; exact hne (Option.some.inj hr).symm
    · rcases h2 with h2 | h2
      · rw [h2] at hg; cases hg
      · rw [h2] at hg; exact hne (Option.some.inj hg).symm
  · intro hSlow
    rw [RegisterObjectRef_eq, if_pos]
    intro hc
    rw [hSlow] at hc
    cases hc
  · intro h1 h2
    rw [RegisterObjectRef_eq, if_pos (fun _ => ⟨Or.inr h1, Or.inr h2⟩),
      TMap.Emplace_eq_self _ h1, TMap.Emplace_eq_self _ h2]

/-- C2 (amended) on a cache holding `4 ↔ (7, 0)`: with `DO_GUARD_SLOW`, registering
`4 ↔ (7, 1)` and `6 ↔ (7, 0)` is fatal; without it, registering `6 ↔ (7, 0)` returns;
registering `4 ↔ (7, 0)` again changes nothing in either build. -/
theorem C2_RegisterObjectRef_conflict_is_fatal_when_guarded_witness :
    RegisterObjectRef sampleDebugEnv sampleCacheOneRecord ⟨4⟩ (FUnrealObjectRef.ofEntity 7 1) =
        fatal Fault.check sampleCacheOneRecord ∧
      RegisterObjectRef sampleDebugEnv sampleCacheOneRecord ⟨6⟩ (FUnrealObjectRef.ofEntity 7 0) =
        fatal Fault.check sampleCacheOneRecord ∧
      (RegisterObjectRef sampleClientEnv sampleCacheOneRecord ⟨6⟩
        (FUnrealObjectRef.ofEntity 7 0)).isOk = true ∧
      RegisterObjectRef sampleDebugEnv sampleCacheOneRecord ⟨4⟩ (FUnrealObjectRef.ofEntity 7 0) =
        ok () sampleCacheOneRecord ∧
      RegisterObjectRef sampleClientEnv sampleCacheOneRecord ⟨4⟩ (FUnrealObjectRef.ofEntity 7 0) =
        ok () sampleCacheOneRecord :=
  ⟨(C2_RegisterObjectRef_conflict_is_fatal_when_guarded sampleDebugEnv sampleCacheOneRecord ⟨4⟩
      (FUnrealObjectRef.ofEntity 7 1)).1 rfl
      (Or.inl ⟨FUnrealObjectRef.ofEntity 7 0, by decide, by decide⟩),
    (C2_RegisterObjectRef_conflict_is_fatal_when_guarded sampleDebugEnv sampleCacheOneRecord ⟨6⟩
      (FUnrealObjectRef.ofEntity 7 0)).1 rfl
      (Or.inr ⟨⟨4⟩, by decide, by decide⟩),
    by
      rw [(C2_RegisterObjectRef_conflict_is_fatal_when_guarded sampleClientEnv
        sampleCacheOneRecord ⟨6⟩ (FUnrealObjectRef.ofEntity 7 0)).2.1 rfl]
      rfl,
    (C2_RegisterObjectRef_conflict_is_fatal_when_guarded sampleDebugEnv sampleCacheOneRecord ⟨4⟩
      (FUnrealObjectRef.ofEntity 7 0)).2.2 (by decide) (by decide),
    (C2_RegisterObjectRef_conflict_is_fatal_when_guarded sampleClientEnv sampleCacheOneRecord ⟨4⟩
      (FUnrealObjectRef.ofEntity 7 0)).2.2 (by decide) (by decide)⟩

/-! ## `GenerateNewNetGUID` -/

theorem Nat.shiftLeft_one_lor (x s : Nat) (hs : s < 2) : (x <<< 1) ||| s = 2 * x + s := by
  rw [Nat.shiftLeft_eq, Nat.pow_one, Nat.mul_comm]
  have := Nat.mul_add_lt_is_or (show s < 2 ^ 1 by simpa using hs) x
  simpa using this.symm

theorem GenerateNewNetGUID_value (c : FSpatialNetGUIDCache) (s : Fin 2) :
    (GenerateNewNetGUID c s).1.Value = (2 * ((UniqueNetIDs c s + 1) % 2 ^ 32) + s.val) % 2 ^ 32 ∧
    UniqueNetIDs (GenerateNewNetGUID c s).2 s = (UniqueNetIDs c s + 1) % 2 ^ 32 ∧
    (∀ t, t ≠ s → UniqueNetIDs (GenerateNewNetGUID c s).2 t = UniqueNetIDs c t) := by
  have hs : s.val < 2 := s.isLt
  unfold GenerateNewNetGUID UniqueNetIDs
  by_cases h : s = 0
  · subst h
    simp only [if_true, Nat.shiftLeft_one_lor _ _ hs, true_and]
    intro t ht
    simp [ht]
  · simp only [h, if_false, Nat.shiftLeft_one_lor _ _ hs, true_and]
    intro t ht
    have : t = 0 := by omega
    simp [this]

theorem GenerateNewNetGUIDs_mem (flags : List (Fin 2)) :
    ∀ (c : FSpatialNetGUIDCache),
      (∀ s, UniqueNetIDs c s + flags.length < 2 ^ 31) →
      ∀ g ∈ GenerateNewNetGUIDs flags c,
        ∃ s : Fin 2, ∃ k, g.Value = 2 * k + s.val ∧ UniqueNetIDs c s < k ∧
          k ≤ UniqueNetIDs c s + flags.length := by
  induction flags with
  | nil => intro c _ g hg; simp [GenerateNewNetGUIDs] at hg
  | cons s rest ih =>
    intro c hb g hg
    obtain ⟨hv, hc, ho⟩ := GenerateNewNetGUID_value c s
    have hbs := hb s
    simp only [List.length_cons] at hbs
    have hmod : (UniqueNetIDs c s + 1) % 2 ^ 32 = UniqueNetIDs c s + 1 :=
      Nat.mod_eq_of_lt (by omega)
    rw [hmod] at hv hc
    simp only [GenerateNewNetGUIDs, List.mem_cons] at hg
    rcases hg with hg | hg
    · refine ⟨s, UniqueNetIDs c s + 1, ?_, by omega, by simp⟩
      rw [hg, hv]
      have := s.isLt
      exact Nat.mod_eq_of_lt (by omega)
    · have hb2 : ∀ t, UniqueNetIDs (GenerateNewNetGUID c s).2 t + rest.length < 2 ^ 31 := by
        intro t
        have hbt := hb t
        simp only [List.length_cons] at hbt
        by_cases ht : t = s
        · subst ht; rw [hc]; omega
        · rw [ho t ht]; omega
      obtain ⟨t, k, h1, h2, h3⟩ := ih _ hb2 g hg
      refine ⟨t, k, h1, ?_, ?_⟩
      · by_cases ht : t = s
        · subst ht; rw [hc] at h2; omega
        · rw [ho t ht] at h2; exact h2
      · simp only [List.length_cons]
        by_cases ht : t = s
        · subst ht; rw [hc] at h3; omega
        · rw [ho t ht] at h3; omega

theorem GenerateNewNetGUIDs_nodup (flags : List (Fin 2)) :
    ∀ (c : FSpatialNetGUIDCache),
      (∀ s, UniqueNetIDs c s + flags.length < 2 ^ 31) →
      (GenerateNewNetGUIDs flags c).Nodup := by
  induction flags with
  | nil => intro c _; simp [GenerateNewNetGUIDs]
  | cons s rest ih =>
    intro c hb
    obtain ⟨hv, hc, ho⟩ := GenerateNewNetGUID_value c s
    have hbs := hb s
    simp only [List.length_cons] at hbs
    have hmod : (UniqueNetIDs c s + 1) % 2 ^ 32 = UniqueNetIDs c s + 1 :=
      Nat.mod_eq_of_lt (by omega)
    rw [hmod] at hv hc
    have hb2 : ∀ t, UniqueNetIDs (GenerateNewNetGUID c s).2 t + rest.length < 2 ^ 31 := by
      intro t
      have hbt := hb t
      simp only [List.length_cons] at hbt
      by_cases ht : t = s
      · subst ht; rw [hc]; omega
      · rw [ho t ht]; omega
    simp only [GenerateNewNetGUIDs, List.nodup_cons]
    refine ⟨?_, ih _ hb2⟩
    intro hmem
    obtain ⟨t, k, h1, h2, _⟩ := GenerateNewNetGUIDs_mem rest _ hb2 _ hmem
    have hs := s.isLt
    have ht := t.isLt
    rw [hv, Nat.mod_eq_of_lt (by omega)] at h1
    by_cases hts : t = s
    · subst hts; rw [hc] at h2; omega
    · have : t.val ≠ s.val := fun h => hts (Fin.ext h)
      omega

/-- C7: every id produced by `GenerateNewNetGUID(IsStatic)` is
`(counter << 1) | IsStatic` reduced to 32 bits, with `counter` the incremented
`UniqueNetIDs[IsStatic]`, so its low bit equals `IsStatic`; an id generated with
`IsStatic = 0` is never equal to one generated with `IsStatic = 1`, from whatever caches;
and as long as neither counter reaches `2 ^ 31`, the ids returned by any run of
successive calls are pairwise distinct. -/
theorem C7_GenerateNewNetGUID_low_bit_is_IsStatic (c : FSpatialNetGUIDCache) (IsStatic : Fin 2) :
    (GenerateNewNetGUID c IsStatic).1.Value % 2 = IsStatic.val ∧
    (GenerateNewNetGUID c IsStatic).1.Value =
      (2 * UniqueNetIDs (GenerateNewNetGUID c IsStatic).2 IsStatic + IsStatic.val) % 2 ^ 32 ∧
    UniqueNetIDs (GenerateNewNetGUID c IsStatic).2 IsStatic =
      (UniqueNetIDs c IsStatic + 1) % 2 ^ 32 ∧
    (∀ c2 : FSpatialNetGUIDCache, (GenerateNewNetGUID c 0).1 ≠ (GenerateNewNetGUID c2 1).1) ∧
    (∀ flags : List (Fin 2),
      UniqueNetIDs c 0 + flags.length < 2 ^ 31 → UniqueNetIDs c 1 + flags.length < 2 ^ 31 →
      (GenerateNewNetGUIDs flags c).Nodup) := by
  obtain ⟨hv, hc, _⟩ := GenerateNewNetGUID_value c IsStatic
  have hs := IsStatic.isLt
  refine ⟨?_, ?_, hc, ?_, ?_⟩
  · rw [hv]; omega
  · rw [hv, hc]
  · intro c2 h
    have h0 := (GenerateNewNetGUID_value c 0).1
    have h1 := (GenerateNewNetGUID_value c2 1).1
    rw [h] at h0
    rw [h0] at h1
    simp only [Fin.val_zero, Fin.val_one] at h1
    omega
  · intro flags h0 h1
    refine GenerateNewNetGUIDs_nodup flags c ?_
    intro s
    by_cases h : s = 0
    · subst h; exact h0
    · have : s = 1 := by omega
      subst this; exact h1

/-- C7 on the empty cache: five successive calls with flags `0, 1, 0, 0, 1` return
pairwise distinct ids. -/
theorem C7_GenerateNewNetGUID_low_bit_is_IsStatic_witness :
    (GenerateNewNetGUIDs [0, 1, 0, 0, 1] FSpatialNetGUIDCache.empty).Nodup :=
  (C7_GenerateNewNetGUID_low_bit_is_IsStatic FSpatialNetGUIDCache.empty 0).2.2.2.2
    [0, 1, 0, 0, 1] (by decide) (by decide)

/-! ## Namespace of the allocated ids -/

/-- C8 (the code departs from the claim): on an empty cache
`RegisterNetGUIDFromPathForStaticObject("Map", 0)` returns the id `2`, whose static low
bit is clear, while `GetOrAssignNetGUID_SpatialGDK` on a client gives the non-dynamic
`samplePackage` the id `3` (low bit set) and, after it, the dynamic `sampleActor` the id
`2` (low bit clear). -/
theorem C8_path_ids_are_allocated_in_the_dynamic_namespace :
    (RegisterNetGUIDFromPathForStaticObject FSpatialNetGUIDCache.empty "Map" ⟨0⟩).value? =
        some ⟨2⟩ ∧
      (FNetworkGUID.mk 2).IsStatic = false ∧
      (GetOrAssignNetGUID_SpatialGDK sampleClientEnv samplePackage
          FSpatialNetGUIDCache.empty).value? = some ⟨3⟩ ∧
      (FNetworkGUID.mk 3).IsStatic = true ∧
      (GetOrAssignNetGUID_SpatialGDK sampleClientEnv sampleActor
          FSpatialNetGUIDCache.empty).value? = some ⟨2⟩ := by
  decide

/-- Whatever the cache, the path and the outer id, the id that
`RegisterNetGUIDFromPathForStaticObject` returns has its static low bit clear. -/
theorem RegisterNetGUIDFromPathForStaticObject_not_static (c : FSpatialNetGUIDCache)
    (p : String) (og g : FNetworkGUID)
    (h : (RegisterNetGUIDFromPathForStaticObject c p og).value? = some g) :
    g.IsStatic = false := by
  unfold RegisterNetGUIDFromPathForStaticObject at h
  simp only [] at h
  cases hr : RegisterNetGUID_Internal (GenerateNewNetGUID c 0).2 (GenerateNewNetGUID c 0).1
      { Object := UObjectPtr.nullptr, OuterGUID := og, PathName := p,
        bNoLoad := false, bIgnoreWhenMissing := true } with
  | fatal e s => rw [hr] at h; simp [Result.value?] at h
  | ok v s =>
    rw [hr] at h
    simp only [Result.bind_ok, Result.value?, Option.some.injEq] at h
    subst h
    have := (GenerateNewNetGUID_value c 0).1
    simp only [FNetworkGUID.IsStatic, this, Fin.val_zero, decide_eq_false_iff_not]
    omega

/-! ## Failed lookups -/

/-- C4 as stated fails: on an empty cache the unregistered path reference
`{path "Map", outer FUnrealObjectRef()}` is answered with the valid id `2`, and both maps
gain a record for it. -/
theorem C4_unregistered_path_reference_gets_registered :
    TMap.Find FSpatialNetGUIDCache.empty.UnrealObjectRefToNetGUID
        (FUnrealObjectRef.ofPath 0 0 "Map" FUnrealObjectRef.empty) = none ∧
      (GetNetGUIDFromUnrealObjectRef sampleClientEnv
        (FUnrealObjectRef.ofPath 0 0 "Map" FUnrealObjectRef.empty)
        FSpatialNetGUIDCache.empty).value? = some ⟨2⟩ ∧
      (FNetworkGUID.mk 2).IsValid = true ∧
      (GetNetGUIDFromUnrealObjectRef sampleClientEnv
        (FUnrealObjectRef.ofPath 0 0 "Map" FUnrealObjectRef.empty)
        FSpatialNetGUIDCache.empty).state.NetGUIDToUnrealObjectRef =
          [(⟨2⟩, FUnrealObjectRef.ofPath 0 0 "Map" FUnrealObjectRef.empty)] ∧
      (GetNetGUIDFromUnrealObjectRef sampleClientEnv
        (FUnrealObjectRef.ofPath 0 0 "Map" FUnrealObjectRef.empty)
        FSpatialNetGUIDCache.empty).state.UnrealObjectRefToNetGUID =
          [(FUnrealObjectRef.ofPath 0 0 "Map" FUnrealObjectRef.empty, ⟨2⟩)] := by
  decide

theorem NetworkRemapObjectRefPaths_of_no_path (env : Env) (r : FUnrealObjectRef)
    (h : r.Path = none) : NetworkRemapObjectRefPaths env r = r := by
  simp [NetworkRemapObjectRefPaths, h]

/-- C4 (amended): a failed lookup returns a sentinel and changes nothing.
`GetUnrealObjectRefFromNetGUID` of an id with no record returns `UNRESOLVED_OBJECT_REF`
and `GetNetGUIDFromEntityId` of an entity with no root record returns the invalid id `0`
(both only read the cache); `GetNetGUIDFromUnrealObjectRef` of an unregistered reference
that has no path returns the invalid id `0` and leaves the cache as it was. -/
theorem C4_failed_lookups_return_sentinels (env : Env) (c : FSpatialNetGUIDCache) :
    (∀ g, TMap.Find c.NetGUIDToUnrealObjectRef g = none →
      GetUnrealObjectRefFromNetGUID env c g = env.UNRESOLVED_OBJECT_REF) ∧
    (∀ e, TMap.Find c.UnrealObjectRefToNetGUID (FUnrealObjectRef.ofEntity e 0) = none →
      GetNetGUIDFromEntityId c e = ⟨0⟩ ∧ (GetNetGUIDFromEntityId c e).IsValid = false) ∧
    (∀ r, r.Path = none → TMap.Find c.UnrealObjectRefToNetGUID r = none →
      GetNetGUIDFromUnrealObjectRef env r c = ok ⟨0⟩ c ∧ (FNetworkGUID.mk 0).IsValid = false) := by
  refine ⟨?_, ?_, ?_⟩
  · intro g h
    simp [GetUnrealObjectRefFromNetGUID, h]
  · intro e h
    simp [GetNetGUIDFromEntityId, h, FNetworkGUID.IsValid]
  · intro r hp h
    refine ⟨?_, by decide⟩
    unfold GetNetGUIDFromUnrealObjectRef GetNetGUIDFromUnrealObjectRefFuel
    rw [NetworkRemapObjectRefPaths_of_no_path env r hp]
    simp [GetNetGUIDFromUnrealObjectRefInternal, h, hp]

/-- C4 (amended) on the cache holding `4 ↔ (7, 0)`: id `6`, entity `9` and the reference
`(7, 1)` have no record. -/
theorem C4_failed_lookups_return_sentinels_witness :
    GetUnrealObjectRefFromNetGUID sampleClientEnv sampleCacheOneRecord ⟨6⟩ =
        FUnrealObjectRef.ofEntity 0 1 ∧
      GetNetGUIDFromEntityId sampleCacheOneRecord 9 = ⟨0⟩ ∧
      GetNetGUIDFromUnrealObjectRef sampleClientEnv (FUnrealObjectRef.ofEntity 7 1)
        sampleCacheOneRecord = ok ⟨0⟩ sampleCacheOneRecord :=
  ⟨(C4_failed_lookups_return_sentinels sampleClientEnv sampleCacheOneRecord).1 ⟨6⟩
      (by decide),
    ((C4_failed_lookups_return_sentinels sampleClientEnv sampleCacheOneRecord).2.1 9
      (by decide)).1,
    ((C4_failed_lookups_return_sentinels sampleClientEnv sampleCacheOneRecord).2.2
      (FUnrealObjectRef.ofEntity 7 1) rfl (by decide)).1⟩

/-! ## Removal of an entity -/

/-- C5 as stated fails: when the entity registry no longer knows the actor of entity `7`,
`RemoveEntityActor(7)` returns early and the root record of entity `7` is still in both
maps. -/
theorem C5_records_remain_when_actor_is_unknown :
    RemoveEntityActor sampleClientEnv 7 sampleCacheOneRecord = ok () sampleCacheOneRecord ∧
      TMap.Find sampleCacheOneRecord.UnrealObjectRefToNetGUID
        (FUnrealObjectRef.ofEntity 7 0) = some ⟨4⟩ ∧
      TMap.Find sampleCacheOneRecord.NetGUIDToUnrealObjectRef ⟨4⟩ =
        some (FUnrealObjectRef.ofEntity 7 0) := by
  decide

theorem RemoveEntityNetGUID_loop_Find (e : Worker_EntityId) (Keys : List Nat) :
    ∀ (c : FSpatialNetGUIDCache) (r : FUnrealObjectRef),
      TMap.Find (RemoveEntityNetGUID.loop e Keys c).UnrealObjectRefToNetGUID r =
        if ∃ k ∈ Keys, r = FUnrealObjectRef.ofEntity e k then none
        else TMap.Find c.UnrealObjectRefToNetGUID r := by
  induction Keys with
  | nil => intro c r; simp [RemoveEntityNetGUID.loop]
  | cons k rest ih =>
    intro c r
    unfold RemoveEntityNetGUID.loop
    by_cases hr : r = FUnrealObjectRef.ofEntity e k
    · have hex : ∃ k2 ∈ k :: rest, r = FUnrealObjectRef.ofEntity e k2 := ⟨k, by simp, hr⟩
      rw [if_pos hex]
      split
      · rw [ih]
        split
        · rfl
        · simp [hr, TMap.Find_Remove_self]
      · rename_i hnone
        rw [ih]
        split
        · rfl
        · rw [hr]; exact hnone
    · have hiff : (∃ k2 ∈ k :: rest, r = FUnrealObjectRef.ofEntity e k2) ↔
          ∃ k2 ∈ rest, r = FUnrealObjectRef.ofEntity e k2 := by
        constructor
        · rintro ⟨k2, hk2, h2⟩
          rcases List.mem_cons.1 hk2 with h3 | h3
          · subst h3; exact absurd h2 hr
          · exact ⟨k2, h3, h2⟩
        · rintro ⟨k2, hk2, h2⟩
          exact ⟨k2, List.mem_cons_of_mem _ hk2, h2⟩
      split
      · rw [ih]
        simp only [hiff, TMap.Find_Remove_ne _ hr]
      · rw [ih]
        simp only [hiff]

theorem FUnrealObjectRef.ofEntity_inj {e1 e2 : Worker_EntityId} {o1 o2 : Nat}
    (h : FUnrealObjectRef.ofEntity e1 o1 = FUnrealObjectRef.ofEntity e2 o2) :
    e1 = e2 ∧ o1 = o2 := by
  unfold FUnrealObjectRef.ofEntity at h
  injection h with h1 h2
  exact ⟨h1, h2⟩

/-- C5 (amended): when the maps are mutual inverses, entity `e` has a valid root record,
the entity registry still knows the actor of `e` and the actor's class has class info
whose sub-object offsets `Keys` are non-zero, `RemoveEntityActor(e)` ends normally and
afterwards neither map holds a record for `(e, 0)` or for `(e, k)` with `k` in `Keys`,
while every other record is in the maps exactly as before. -/
theorem C5_RemoveEntityActor_removes_entity_records (env : Env) (e : Worker_EntityId)
    (c : FSpatialNetGUIDCache) (Keys : List Nat)
    (hinv : MutualInverses c)
    (hvalid : (GetNetGUIDFromEntityId c e).IsValid = true)
    (hactor : env.GetActorFromEntityId e ≠ UObjectPtr.nullptr)
    (hkeys : env.SubobjectInfoKeys (env.GetActorFromEntityId e) = some Keys)
    (hzero : 0 ∉ Keys) :
    ∃ c1, RemoveEntityActor env e c = ok () c1 ∧
      (∀ off, off = 0 ∨ off ∈ Keys →
        TMap.Find c1.UnrealObjectRefToNetGUID (FUnrealObjectRef.ofEntity e off) = none ∧
        ∀ g, TMap.Find c1.NetGUIDToUnrealObjectRef g ≠ some (FUnrealObjectRef.ofEntity e off)) ∧
      (∀ r, (∀ off, off = 0 ∨ off ∈ Keys → r ≠ FUnrealObjectRef.ofEntity e off) →
        TMap.Find c1.UnrealObjectRefToNetGUID r = TMap.Find c.UnrealObjectRefToNetGUID r ∧
        ∀ g, TMap.Find c1.NetGUIDToUnrealObjectRef g = some r ↔
          TMap.Find c.NetGUIDToUnrealObjectRef g = some r) := by
  -- the root record
  obtain ⟨g0, hg0⟩ : ∃ g0, TMap.Find c.UnrealObjectRefToNetGUID (FUnrealObjectRef.ofEntity e 0)
      = some g0 := by
    cases h : TMap.Find c.UnrealObjectRefToNetGUID (FUnrealObjectRef.ofEntity e 0) with
    | none => simp [GetNetGUIDFromEntityId, h, FNetworkGUID.IsValid] at hvalid
    | some g0 => exact ⟨g0, rfl⟩
  have hroot_not_key : ¬ ∃ k ∈ Keys, FUnrealObjectRef.ofEntity e 0 = FUnrealObjectRef.ofEntity e k := by
    rintro ⟨k, hk, h⟩
    have := (FUnrealObjectRef.ofEntity_inj h).2
    subst this
    exact hzero hk
  have hloop_inv := RemoveEntityNetGUID_loop_inverses e Keys c hinv
  have hg1 : TMap.Find (RemoveEntityNetGUID.loop e Keys c).UnrealObjectRefToNetGUID
      (FUnrealObjectRef.ofEntity e 0) = some g0 := by
    rw [RemoveEntityNetGUID_loop_Find, if_neg hroot_not_key, hg0]
  have hr1 := (hloop_inv g0 _).2 hg1
  have hrun : RemoveEntityActor env e c = ok () { RemoveEntityNetGUID.loop e Keys c with
      NetGUIDToUnrealObjectRef :=
        TMap.Remove (RemoveEntityNetGUID.loop e Keys c).NetGUIDToUnrealObjectRef g0
      UnrealObjectRefToNetGUID :=
        TMap.Remove (RemoveEntityNetGUID.loop e Keys c).UnrealObjectRefToNetGUID
          (FUnrealObjectRef.ofEntity e 0) } := by
    unfold RemoveEntityActor
    rw [if_pos hvalid]
    unfold RemoveEntityNetGUID
    rw [if_neg hactor, hkeys]
    simp only [GetNetGUIDFromEntityId, hg1, hr1]
  refine ⟨_, hrun, ?_⟩
  have hinv1 := RemoveEntityNetGUID_inverses env e c hinv
  have hrun2 : RemoveEntityNetGUID env e c = RemoveEntityActor env e c := by
    unfold RemoveEntityActor; rw [if_pos hvalid]
  rw [hrun2, hrun, Result.state_ok] at hinv1
  have hfind : ∀ r, TMap.Find (TMap.Remove
      (RemoveEntityNetGUID.loop e Keys c).UnrealObjectRefToNetGUID
        (FUnrealObjectRef.ofEntity e 0)) r =
      if r = FUnrealObjectRef.ofEntity e 0 then none
      else if ∃ k ∈ Keys, r = FUnrealObjectRef.ofEntity e k then none
      else TMap.Find c.UnrealObjectRefToNetGUID r := by
    intro r
    rw [TMap.Find_Remove, RemoveEntityNetGUID_loop_Find]
  have hgone : ∀ off, off = 0 ∨ off ∈ Keys →
      TMap.Find (TMap.Remove (RemoveEntityNetGUID.loop e Keys c).UnrealObjectRefToNetGUID
        (FUnrealObjectRef.ofEntity e 0)) (FUnrealObjectRef.ofEntity e off) = none := by
    intro off hoff
    rw [hfind]
    rcases hoff with h | h
    · subst h; simp
    · split
      · rfl
      · rw [if_pos ⟨off, h, rfl⟩]
  have hkept : ∀ r, (∀ off, off = 0 ∨ off ∈ Keys → r ≠ FUnrealObjectRef.ofEntity e off) →
      TMap.Find (TMap.Remove (RemoveEntityNetGUID.loop e Keys c).UnrealObjectRefToNetGUID
        (FUnrealObjectRef.ofEntity e 0)) r = TMap.Find c.UnrealObjectRefToNetGUID r := by
    intro r hr
    rw [hfind, if_neg (hr 0 (Or.inl rfl)), if_neg]
    rintro ⟨k, hk, h⟩
    exact hr k (Or.inr hk) h
  constructor
  · intro off hoff
    refine ⟨hgone off hoff, ?_⟩
    intro g hg
    have := (hinv1 g _).1 hg
    simp only [] at this
    rw [hgone off hoff] at this
    cases this
  · intro r hr
    refine ⟨hkept r hr, ?_⟩
    intro g
    have h1 := hinv1 g r
    simp only [] at h1
    rw [h1, hkept r hr]
    exact (hinv g r).symm

theorem TMap.mem_of_Find {K V : Type} [DecidableEq K] (m : TMap K V) {k : K} {v : V}
    (h : TMap.Find m k = some v) : (k, v) ∈ m := by
  induction m with
  | nil => simp [TMap.Find] at h
  | cons p m ih =>
    obtain ⟨k1, v1⟩ := p
    by_cases h1 : k1 = k
    · subst h1
      simp only [TMap.Find, if_true, Option.some.injEq] at h
      subst h
      exact List.mem_cons_self _ _
    · simp only [TMap.Find, h1, if_false] at h
      exact List.mem_cons_of_mem _ (ih h)

/-- Mutual inverseness can be checked pair by pair on the two lists. -/
theorem MutualInverses_of_pairs (c : FSpatialNetGUIDCache)
    (h1 : ∀ p ∈ c.NetGUIDToUnrealObjectRef,
      TMap.Find c.NetGUIDToUnrealObjectRef p.1 = some p.2 →
        TMap.Find c.UnrealObjectRefToNetGUID p.2 = some p.1)
    (h2 : ∀ p ∈ c.UnrealObjectRefToNetGUID,
      TMap.Find c.UnrealObjectRefToNetGUID p.1 = some p.2 →
        TMap.Find c.NetGUIDToUnrealObjectRef p.2 = some p.1) : MutualInverses c := by
  intro g r
  constructor
  · intro h; exact h1 (g, r) (TMap.mem_of_Find _ h) h
  · intro h; exact h2 (r, g) (TMap.mem_of_Find _ h) h

theorem sampleCacheTwoEntities_inverses : MutualInverses sampleCacheTwoEntities :=
  MutualInverses_of_pairs _ (by decide) (by decide)

/-- C5 (amended) on a cache with records of entity `7` at offsets `0`, `1`, `2` and a root
record of entity `8`: removing entity `7` leaves only the record of entity `8`. -/
theorem C5_RemoveEntityActor_removes_entity_records_witness :
    ∃ c1, RemoveEntityActor sampleRegistryEnv 7 sampleCacheTwoEntities = ok () c1 ∧
      (∀ off, off = 0 ∨ off ∈ [1, 2] →
        TMap.Find c1.UnrealObjectRefToNetGUID (FUnrealObjectRef.ofEntity 7 off) = none ∧
        ∀ g, TMap.Find c1.NetGUIDToUnrealObjectRef g ≠ some (FUnrealObjectRef.ofEntity 7 off)) ∧
      (∀ r, (∀ off, off = 0 ∨ off ∈ [1, 2] → r ≠ FUnrealObjectRef.ofEntity 7 off) →
        TMap.Find c1.UnrealObjectRefToNetGUID r =
          TMap.Find sampleCacheTwoEntities.UnrealObjectRefToNetGUID r ∧
        ∀ g, TMap.Find c1.NetGUIDToUnrealObjectRef g = some r ↔
          TMap.Find sampleCacheTwoEntities.NetGUIDToUnrealObjectRef g = some r) :=
  C5_RemoveEntityActor_removes_entity_records sampleRegistryEnv 7 sampleCacheTwoEntities [1, 2]
    sampleCacheTwoEntities_inverses (by decide) (by decide) rfl (by decide)

/-! ## Calls that only add associations -/

theorem Extends.self (c : FSpatialNetGUIDCache) : Extends c c :=
  ⟨fun _ _ h => h, fun _ _ h => h, fun _ _ h => h, fun _ _ h => h⟩

theorem Extends.compose {a b c : FSpatialNetGUIDCache} (h1 : Extends a b) (h2 : Extends b c) :
    Extends a c :=
  ⟨fun o g h => h2.1 o g (h1.1 o g h), fun o g h => h2.2.1 o g (h1.2.1 o g h),
    fun o g h => h2.2.2.1 o g (h1.2.2.1 o g h), fun o g h => h2.2.2.2 o g (h1.2.2.2 o g h)⟩

theorem Extends.compose3 : ∀ a b c : FSpatialNetGUIDCache, Extends a b → Extends b c → Extends a c :=
  fun _ _ _ h1 h2 => h1.compose h2

theorem TMap.Find_Emplace_of_not_Contains {K V : Type} [DecidableEq K] (m : TMap K V)
    {k k2 : K} (v : V) {x : V} (hk : TMap.Contains m k = false)
    (h : TMap.Find m k2 = some x) : TMap.Find (TMap.Emplace m k v) k2 = some x := by
  rw [TMap.Find_Emplace]
  split
  · rename_i h2
    subst h2
    simp [TMap.Contains, h] at hk
  · exact h

theorem GenerateNewNetGUID_extends (c : FSpatialNetGUIDCache) (s : Fin 2) :
    Extends c (GenerateNewNetGUID c s).2 := by
  unfold GenerateNewNetGUID
  split <;> exact Extends.self _

theorem RegisterNetGUID_Internal_extends (c : FSpatialNetGUIDCache) (g : FNetworkGUID)
    (o : FNetGuidCacheObject) : Extends c (RegisterNetGUID_Internal c g o).state := by
  unfold RegisterNetGUID_Internal
  refine check_bind_pred (Extends.self c) (fun h1 => ?_)
  have h1 : TMap.Contains c.ObjectLookup g = false := by simpa using h1
  have hstep : Extends c { c with ObjectLookup := TMap.Emplace c.ObjectLookup g o } :=
    ⟨fun _ _ h => h, fun _ _ h => TMap.Find_Emplace_of_not_Contains _ _ h1 h,
      fun _ _ h => h, fun _ _ h => h⟩
  simp only []
  split
  · exact hstep
  · refine check_bind_pred hstep (fun h2 => ?_)
    have h2 : TMap.Contains c.NetGUIDLookup o.Object = false := by simpa using h2
    exact ⟨fun _ _ h => TMap.Find_Emplace_of_not_Contains _ _ h2 h,
      fun _ _ h => TMap.Find_Emplace_of_not_Contains _ _ h1 h, fun _ _ h => h, fun _ _ h => h⟩

theorem GetOrAssignNetGUID_extends (env : Env) (o : UObjectPtr) :
    ∀ c, Extends c (GetOrAssignNetGUID env o c).state := by
  induction o with
  | nullptr => intro c; exact Extends.self _
  | obj a n d outer ih =>
    intro c
    unfold GetOrAssignNetGUID
    simp only []
    split
    · exact Extends.self _
    split
    · exact Extends.self _
    refine (GenerateNewNetGUID_extends c (if d then 0 else 1)).compose ?_
    refine check_bind_pred (Extends.self _) (fun _ => ?_)
    refine check_bind_pred (Extends.self _) (fun _ => ?_)
    refine Result.bind_rel Extends.compose3 (ih _) (fun v s _ => ?_)
    exact Result.bind_rel Extends.compose3 (RegisterNetGUID_Internal_extends _ _ _)
      (fun _ s3 _ => Extends.self _)

theorem GetOrAssignNetGUID_SpatialGDK_extends (env : Env) (o : UObjectPtr) :
    ∀ c, Extends c (GetOrAssignNetGUID_SpatialGDK env o c).state := by
  induction o with
  | nullptr =>
    intro c
    unfold GetOrAssignNetGUID_SpatialGDK
    refine Result.bind_rel Extends.compose3 (GetOrAssignNetGUID_extends _ _ _) (fun v s _ => ?_)
    exact check_bind_pred (Extends.self _) (fun _ => Extends.self _)
  | obj a n d outer ih =>
    intro c
    unfold GetOrAssignNetGUID_SpatialGDK
    refine Result.bind_rel Extends.compose3 (GetOrAssignNetGUID_extends _ _ _) (fun v s _ => ?_)
    refine Result.bind_rel Extends.compose3 ?_
      (fun v2 s2 _ => check_bind_pred (Extends.self _) (fun _ => Extends.self _))
    split
    · refine (GenerateNewNetGUID_extends s (if d then 0 else 1)).compose ?_
      refine Result.bind_rel Extends.compose3 (ih _) (fun v3 s3 _ => ?_)
      exact Result.bind_rel Extends.compose3 (RegisterNetGUID_Internal_extends _ _ _)
        (fun _ s3 _ => Extends.self _)
    · exact Extends.self _

theorem Extends.under {c c1 : FSpatialNetGUIDCache} (h : Extends c c1) (guard : Bool) :
    ExtendsUnder guard c c1 :=
  ⟨⟨h.1, h.2.1⟩, fun _ => h⟩

theorem ExtendsUnder.unchanged_under (guard : Bool) (c : FSpatialNetGUIDCache) :
    ExtendsUnder guard c c :=
  (Extends.self c).under guard

theorem ExtendsUnder.andThenUnder {guard : Bool} {a b c : FSpatialNetGUIDCache}
    (h1 : ExtendsUnder guard a b) (h2 : ExtendsUnder guard b c) : ExtendsUnder guard a c :=
  ⟨⟨fun o g h => h2.1.1 o g (h1.1.1 o g h), fun g x h => h2.1.2 g x (h1.1.2 g x h)⟩,
    fun hg => (h1.2 hg).compose (h2.2 hg)⟩

theorem ExtendsUnder.andThenUnder3 (guard : Bool) : ∀ a b c : FSpatialNetGUIDCache,
    ExtendsUnder guard a b → ExtendsUnder guard b c → ExtendsUnder guard a c :=
  fun _ _ _ h1 h2 => h1.andThenUnder h2

/-- `RegisterObjectRef` leaves the engine maps alone; in a build that defines
`DO_GUARD_SLOW` it overwrites no association of the reference maps either. -/
theorem RegisterObjectRef_extends (env : Env) (c : FSpatialNetGUIDCache) (g : FNetworkGUID)
    (r : FUnrealObjectRef) :
    ExtendsUnder env.DO_GUARD_SLOW c (RegisterObjectRef env c g r).state := by
  rw [RegisterObjectRef_eq]
  split
  · rename_i hc
    refine ⟨⟨fun _ _ h => h, fun _ _ h => h⟩, fun hSlow => ?_⟩
    have hc := hc hSlow
    refine ⟨fun _ _ h => h, fun _ _ h => h, ?_, ?_⟩
    · intro g2 r2 h
      simp only [Result.state_ok, TMap.Find_Emplace]
      split
      · rename_i h2
        subst h2
        rcases hc.1 with h3 | h3
        · rw [h3] at h; cases h
        · rw [h3] at h; exact h
      · exact h
    · intro r2 g2 h
      simp only [Result.state_ok, TMap.Find_Emplace]
      split
      · rename_i h2
        subst h2
        rcases hc.2 with h3 | h3
        · rw [h3] at h; cases h
        · rw [h3] at h; exact h
      · exact h
  · exact ExtendsUnder.unchanged_under _ _

/-- A successful `RegisterObjectRef` leaves the pair in both maps. -/
theorem RegisterObjectRef_ok {env : Env} {c c1 : FSpatialNetGUIDCache} {g : FNetworkGUID}
    {r : FUnrealObjectRef} {u : Unit} (h : RegisterObjectRef env c g r = ok u c1) :
    TMap.Find c1.NetGUIDToUnrealObjectRef g = some r ∧
      TMap.Find c1.UnrealObjectRefToNetGUID r = some g ∧
      c1.NetGUIDLookup = c.NetGUIDLookup ∧ c1.ObjectLookup = c.ObjectLookup := by
  rw [RegisterObjectRef_eq] at h
  split at h
  · injection h with _ h2
    subst h2
    exact ⟨TMap.Find_Emplace_self _ _ _, TMap.Find_Emplace_self _ _ _, rfl, rfl⟩
  · cases h

theorem ResolvePendingOperations_extends (env : Env) (c : FSpatialNetGUIDCache)
    (o : UObjectPtr) (r : FUnrealObjectRef) :
    Extends c (ResolvePendingOperations env c o r).state := by
  unfold ResolvePendingOperations
  split
  · exact Extends.self _
  · split <;> exact Extends.self _

theorem AssignNewEntityActorNetGUID_loop_extends (env : Env) (e : Worker_EntityId)
    (l : List (UObjectPtr × Nat)) :
    ∀ c, ExtendsUnder env.DO_GUARD_SLOW c (AssignNewEntityActorNetGUID.loop env e l c).state := by
  induction l with
  | nil => intro c; exact ExtendsUnder.unchanged_under _ _
  | cons p rest ih =>
    intro c
    obtain ⟨so, off⟩ := p
    unfold AssignNewEntityActorNetGUID.loop
    refine Result.bind_rel (ExtendsUnder.andThenUnder3 _) ((GetOrAssignNetGUID_SpatialGDK_extends _ _ _).under _)
      (fun v s _ => ?_)
    refine Result.bind_rel (ExtendsUnder.andThenUnder3 _) (RegisterObjectRef_extends _ _ _ _) (fun v2 s2 _ => ?_)
    refine Result.bind_rel (ExtendsUnder.andThenUnder3 _) ((ResolvePendingOperations_extends _ _ _ _).under _)
      (fun v3 s3 _ => ?_)
    exact ih s3

theorem AssignNewEntityActorNetGUID_extends (env : Env) (Actor : UObjectPtr)
    (l : List (UObjectPtr × Nat)) (c : FSpatialNetGUIDCache) :
    ExtendsUnder env.DO_GUARD_SLOW c (AssignNewEntityActorNetGUID env Actor l c).state := by
  unfold AssignNewEntityActorNetGUID
  simp only []
  refine check_bind_pred (ExtendsUnder.unchanged_under _ _) (fun _ => ?_)
  refine Result.bind_rel (ExtendsUnder.andThenUnder3 _) ((GetOrAssignNetGUID_SpatialGDK_extends _ _ _).under _)
    (fun v s _ => ?_)
  refine Result.bind_rel (ExtendsUnder.andThenUnder3 _) (RegisterObjectRef_extends _ _ _ _) (fun v2 s2 _ => ?_)
  refine Result.bind_rel (ExtendsUnder.andThenUnder3 _) ((ResolvePendingOperations_extends _ _ _ _).under _)
    (fun v3 s3 _ => ?_)
  exact Result.bind_rel (ExtendsUnder.andThenUnder3 _) (AssignNewEntityActorNetGUID_loop_extends _ _ _ _)
    (fun v4 s4 _ => ExtendsUnder.unchanged_under _ _)

theorem AssignNewStablyNamedObjectNetGUID_extends (env : Env) (o : UObjectPtr) :
    ∀ c, ExtendsUnder env.DO_GUARD_SLOW c
      (AssignNewStablyNamedObjectNetGUID env o c).state := by
  induction o with
  | nullptr =>
    intro c
    unfold AssignNewStablyNamedObjectNetGUID
    refine Result.bind_rel (ExtendsUnder.andThenUnder3 _) ((GetOrAssignNetGUID_SpatialGDK_extends _ _ _).under _)
      (fun v s _ => ?_)
    split <;> exact ExtendsUnder.unchanged_under _ _
  | obj a n d outer ih =>
    intro c
    unfold AssignNewStablyNamedObjectNetGUID
    refine Result.bind_rel (ExtendsUnder.andThenUnder3 _) ((GetOrAssignNetGUID_SpatialGDK_extends _ _ _).under _)
      (fun v s _ => ?_)
    split
    · exact ExtendsUnder.unchanged_under _ _
    · refine Result.bind_rel (ExtendsUnder.andThenUnder3 _) ?_ (fun v2 s2 _ => ?_)
      · split
        · exact ExtendsUnder.unchanged_under _ _
        · exact ih s
      · exact Result.bind_rel (ExtendsUnder.andThenUnder3 _) (RegisterObjectRef_extends _ _ _ _)
          (fun v3 s3 _ => ExtendsUnder.unchanged_under _ _)

theorem RegisterNetGUIDFromPathForStaticObject_extends (c : FSpatialNetGUIDCache)
    (p : String) (g : FNetworkGUID) :
    Extends c (RegisterNetGUIDFromPathForStaticObject c p g).state := by
  unfold RegisterNetGUIDFromPathForStaticObject
  refine (GenerateNewNetGUID_extends c 0).compose ?_
  exact Result.bind_rel Extends.compose3 (RegisterNetGUID_Internal_extends _ _ _)
    (fun _ s3 _ => Extends.self _)

theorem GetNetGUIDFromUnrealObjectRefInternal_extends (env : Env)
    (recurse : FUnrealObjectRef → FSpatialNetGUIDCache → CacheResult FNetworkGUID)
    (hrec : ∀ r c, ExtendsUnder env.DO_GUARD_SLOW c (recurse r c).state)
    (r : FUnrealObjectRef) (c : FSpatialNetGUIDCache) :
    ExtendsUnder env.DO_GUARD_SLOW c
      (GetNetGUIDFromUnrealObjectRefInternal env recurse r c).state := by
  unfold GetNetGUIDFromUnrealObjectRefInternal
  simp only []
  split
  · refine Result.bind_rel (ExtendsUnder.andThenUnder3 _) ?_ (fun v s _ => ?_)
    · split
      · exact hrec _ _
      · exact ExtendsUnder.unchanged_under _ _
    · refine Result.bind_rel (ExtendsUnder.andThenUnder3 _)
        ((RegisterNetGUIDFromPathForStaticObject_extends _ _ _).under _) (fun v2 s2 _ => ?_)
      exact Result.bind_rel (ExtendsUnder.andThenUnder3 _) (RegisterObjectRef_extends _ _ _ _)
        (fun v3 s3 _ => ExtendsUnder.unchanged_under _ _)
  · exact ExtendsUnder.unchanged_under _ _

theorem GetNetGUIDFromUnrealObjectRefFuel_extends (env : Env) (fuel : Nat) :
    ∀ r c, ExtendsUnder env.DO_GUARD_SLOW c
      (GetNetGUIDFromUnrealObjectRefFuel env fuel r c).state := by
  induction fuel with
  | zero => intro r c; exact ExtendsUnder.unchanged_under _ _
  | succ k ih =>
    intro r c
    unfold GetNetGUIDFromUnrealObjectRefFuel
    exact GetNetGUIDFromUnrealObjectRefInternal_extends env _ ih _ _

/-! ## What `GetOrAssignNetGUID_SpatialGDK` returns -/

theorem RegisterNetGUID_Internal_ok {c c1 : FSpatialNetGUIDCache} {g : FNetworkGUID}
    {x : FNetGuidCacheObject} {u : Unit} (h : RegisterNetGUID_Internal c g x = ok u c1)
    (hx : x.Object ≠ UObjectPtr.nullptr) :
    TMap.Find c1.NetGUIDLookup x.Object = some g ∧ TMap.Contains c.ObjectLookup g = false ∧
      TMap.Contains c.NetGUIDLookup x.Object = false := by
  unfold RegisterNetGUID_Internal at h
  obtain ⟨_, s1, h1, h2⟩ := Result.bind_eq_ok.1 h
  obtain ⟨hb1, rfl⟩ := check_eq_ok.1 h1
  simp only [hx, if_false] at h2
  obtain ⟨_, s2, h3, h4⟩ := Result.bind_eq_ok.1 h2
  obtain ⟨hb2, rfl⟩ := check_eq_ok.1 h3
  injection h4 with _ h5
  subst h5
  refine ⟨TMap.Find_Emplace_self _ _ _, by simpa using hb1, by simpa using hb2⟩

theorem FNetworkGUID.Find_of_getD_IsValid {K : Type} [DecidableEq K]
    (m : TMap K FNetworkGUID) (k : K)
    (h : ((TMap.Find m k).getD ⟨0⟩).IsValid = true) :
    TMap.Find m k = some ((TMap.Find m k).getD ⟨0⟩) := by
  cases hf : TMap.Find m k with
  | none => rw [hf] at h; simp [FNetworkGUID.IsValid] at h
  | some g => rfl

theorem GetOrAssignNetGUID_ok (env : Env) (a : Nat) (n : String) (d : Bool)
    (outer : UObjectPtr) (c c1 : FSpatialNetGUIDCache) (g : FNetworkGUID)
    (h : GetOrAssignNetGUID env (UObjectPtr.obj a n d outer) c = ok g c1) :
    TMap.Find c1.NetGUIDLookup (UObjectPtr.obj a n d outer) = some g ∨
      (g = FNetworkGUID.GetDefault ∧ env.bNetGUIDAuthority = false) := by
  unfold GetOrAssignNetGUID at h
  simp only [] at h
  split at h
  · rename_i hv
    injection h with h1 h2
    subst h1; subst h2
    exact Or.inl (FNetworkGUID.Find_of_getD_IsValid _ _ hv)
  split at h
  · rename_i _ ha
    injection h with h1 h2
    exact Or.inr ⟨h1.symm, by simpa using ha⟩
  · obtain ⟨_, s1, h1, h2⟩ := Result.bind_eq_ok.1 h
    obtain ⟨_, rfl⟩ := check_eq_ok.1 h1
    obtain ⟨_, s2, h3, h4⟩ := Result.bind_eq_ok.1 h2
    obtain ⟨_, rfl⟩ := check_eq_ok.1 h3
    obtain ⟨og, s3, _, h6⟩ := Result.bind_eq_ok.1 h4
    obtain ⟨_, s4, h7, h8⟩ := Result.bind_eq_ok.1 h6
    injection h8 with h9 h10
    subst h9; subst h10
    exact Or.inl (RegisterNetGUID_Internal_ok h7 (by simp)).1

/-- After a successful `GetOrAssignNetGUID_SpatialGDK` on a non-null object, the object is
associated with the returned id, which is valid and not the default id. -/
theorem GetOrAssignNetGUID_SpatialGDK_ok (env : Env) (o : UObjectPtr)
    (c c1 : FSpatialNetGUIDCache) (g : FNetworkGUID)
    (h : GetOrAssignNetGUID_SpatialGDK env o c = ok g c1) (ho : o ≠ UObjectPtr.nullptr) :
    TMap.Find c1.NetGUIDLookup o = some g ∧ g.IsValid = true ∧ g.IsDefault = false := by
  cases o with
  | nullptr => exact absurd rfl ho
  | obj a n d outer =>
    unfold GetOrAssignNetGUID_SpatialGDK at h
    obtain ⟨g1, s1, h1, h2⟩ := Result.bind_eq_ok.1 h
    obtain ⟨g2, s2, h3, h4⟩ := Result.bind_eq_ok.1 h2
    obtain ⟨_, s3, h5, h6⟩ := Result.bind_eq_ok.1 h4
    obtain ⟨hb, rfl⟩ := check_eq_ok.1 h5
    injection h6 with h7 h8
    subst h7; subst h8
    have hvalid : g2.IsValid = true ∧ g2.IsDefault = false := by
      simpa using hb
    refine ⟨?_, hvalid⟩
    split at h3
    · simp only [] at h3
      obtain ⟨og, s4, _, h10⟩ := Result.bind_eq_ok.1 h3
      obtain ⟨_, s5, h11, h12⟩ := Result.bind_eq_ok.1 h10
      injection h12 with h13 h14
      subst h13; subst h14
      exact (RegisterNetGUID_Internal_ok h11 (by simp)).1
    · rename_i hcond
      injection h3 with h13 h14
      subst h13; subst h14
      rcases GetOrAssignNetGUID_ok env a n d outer c s1 g1 h1 with h15 | h15
      · exact h15
      · exact absurd h15 hcond

/-- An object that already has a valid, non-default id keeps it, and nothing changes. -/
theorem GetOrAssignNetGUID_SpatialGDK_of_Find (env : Env) (o : UObjectPtr)
    (c : FSpatialNetGUIDCache) (g : FNetworkGUID) (ho : o ≠ UObjectPtr.nullptr)
    (h : TMap.Find c.NetGUIDLookup o = some g) (hv : g.IsValid = true)
    (hd : g.IsDefault = false) : GetOrAssignNetGUID_SpatialGDK env o c = ok g c := by
  cases o with
  | nullptr => exact absurd rfl ho
  | obj a n d outer =>
    have hne : g ≠ FNetworkGUID.GetDefault := by
      intro h2; subst h2; simp [FNetworkGUID.IsDefault, FNetworkGUID.GetDefault] at hd
    unfold GetOrAssignNetGUID_SpatialGDK GetOrAssignNetGUID
    simp [h, hv, hd, hne]

/-! ## `AssignNewEntityActorNetGUID` -/

/-- In a build that defines `DO_GUARD_SLOW`, every pair the loop registers is still in
both maps when the loop returns. -/
theorem AssignNewEntityActorNetGUID_loop_ok (env : Env) (hSlow : env.DO_GUARD_SLOW = true)
    (e : Worker_EntityId)
    (l : List (UObjectPtr × Nat)) :
    ∀ (c c1 : FSpatialNetGUIDCache) (u : Unit),
      AssignNewEntityActorNetGUID.loop env e l c = ok u c1 →
      ∀ p ∈ l, ∃ sg : FNetworkGUID,
        (p.1 ≠ UObjectPtr.nullptr → TMap.Find c1.NetGUIDLookup p.1 = some sg) ∧
        TMap.Find c1.NetGUIDToUnrealObjectRef sg = some (FUnrealObjectRef.ofEntity e p.2) ∧
        TMap.Find c1.UnrealObjectRefToNetGUID (FUnrealObjectRef.ofEntity e p.2) = some sg := by
  induction l with
  | nil => intro c c1 u _ p hp; cases hp
  | cons q rest ih =>
    intro c c1 u h p hp
    obtain ⟨so, off⟩ := q
    unfold AssignNewEntityActorNetGUID.loop at h
    obtain ⟨sg, s1, h1, h2⟩ := Result.bind_eq_ok.1 h
    obtain ⟨_, s2, h3, h4⟩ := Result.bind_eq_ok.1 h2
    obtain ⟨_, s3, h5, h6⟩ := Result.bind_eq_ok.1 h4
    rcases List.mem_cons.1 hp with hp | hp
    · subst hp
      have e1 := RegisterObjectRef_ok h3
      have x2 := ResolvePendingOperations_extends env s2 so (FUnrealObjectRef.ofEntity e off)
      rw [Result.state_of_eq_ok h5] at x2
      have x3 := (AssignNewEntityActorNetGUID_loop_extends env e rest s3).2 hSlow
      rw [Result.state_of_eq_ok h6] at x3
      have x23 := x2.compose x3
      refine ⟨sg, ?_, x23.2.2.1 _ _ e1.1, x23.2.2.2 _ _ e1.2.1⟩
      intro hso
      have := (GetOrAssignNetGUID_SpatialGDK_ok env so c s1 sg h1 hso).1
      rw [← e1.2.2.1] at this
      exact x23.1 _ _ this
    · exact ih s3 c1 u h6 p hp

/-! ## Resolving a stably named object twice -/

theorem FUnrealObjectRef.ofPath_ne_of_no_path (e : Worker_EntityId) (o : Nat) (p : String)
    (u r : FUnrealObjectRef) (h : r.Path = none) : FUnrealObjectRef.ofPath e o p u ≠ r := by
  intro h2
  rw [← h2] at h
  simp [FUnrealObjectRef.ofPath, FUnrealObjectRef.Path] at h

/-- C3: when `AssignNewStablyNamedObjectNetGUID` (`ResolveStablyNamedObject`) has
returned the id `g` for an object, a second call returns the same `g` and leaves the
whole cache as the first call left it, so the object's `FUnrealObjectRef` is the same
after both calls and no record is added to either map. The unresolved sentinel is a
reference without a path. -/
theorem C3_AssignNewStablyNamedObjectNetGUID_twice (env : Env) (Object : UObjectPtr)
    (c c1 : FSpatialNetGUIDCache) (g : FNetworkGUID)
    (hU : env.UNRESOLVED_OBJECT_REF.Path = none)
    (h : ResolveStablyNamedObject env Object c = ok g c1) :
    ResolveStablyNamedObject env Object c1 = ok g c1 ∧
      GetUnrealObjectRefFromNetGUID env c1 g ≠ env.UNRESOLVED_OBJECT_REF := by
  unfold ResolveStablyNamedObject at h ⊢
  cases Object with
  | nullptr =>
    unfold AssignNewStablyNamedObjectNetGUID at h ⊢
    have hg : GetOrAssignNetGUID_SpatialGDK env UObjectPtr.nullptr c = ok ⟨0⟩ c := by
      simp [GetOrAssignNetGUID_SpatialGDK, GetOrAssignNetGUID]
    have hg1 : GetOrAssignNetGUID_SpatialGDK env UObjectPtr.nullptr c1 = ok ⟨0⟩ c1 := by
      simp [GetOrAssignNetGUID_SpatialGDK, GetOrAssignNetGUID]
    rw [hg, Result.bind_ok] at h
    split at h
    · rename_i hne
      injection h with h1 h2
      subst h1; subst h2
      rw [hg1, Result.bind_ok, if_pos hne]
      exact ⟨rfl, by simpa [FUnrealObjectRef.ne_eq_decide] using hne⟩
    · cases h
  | obj a n d outer =>
    unfold AssignNewStablyNamedObjectNetGUID at h ⊢
    obtain ⟨g1, s1, h1, h2⟩ := Result.bind_eq_ok.1 h
    have f1 := GetOrAssignNetGUID_SpatialGDK_ok env _ c s1 g1 h1 (by simp)
    split at h2
    · rename_i hne
      injection h2 with h3 h4
      subst h3; subst h4
      rw [GetOrAssignNetGUID_SpatialGDK_of_Find env _ s1 g1 (by simp) f1.1 f1.2.1 f1.2.2,
        Result.bind_ok, if_pos hne]
      exact ⟨rfl, by simpa [FUnrealObjectRef.ne_eq_decide] using hne⟩
    · obtain ⟨og, s2, h3, h4⟩ := Result.bind_eq_ok.1 h2
      obtain ⟨_, s3, h5, h6⟩ := Result.bind_eq_ok.1 h4
      injection h6 with h7 h8
      subst h7; subst h8
      have x1 : ExtendsUnder env.DO_GUARD_SLOW s1 s2 := by
        cases outer with
        | nullptr =>
          simp only [] at h3
          injection h3 with _ h9
          subst h9
          exact ExtendsUnder.unchanged_under _ _
        | obj a2 n2 d2 o2 =>
          simp only [] at h3
          have := AssignNewStablyNamedObjectNetGUID_extends env (UObjectPtr.obj a2 n2 d2 o2) s1
          rw [Result.state_of_eq_ok h3] at this
          exact this
      have e1 := RegisterObjectRef_ok h5
      have hL : TMap.Find s3.NetGUIDLookup (UObjectPtr.obj a n d outer) = some g1 := by
        rw [e1.2.2.1]
        exact x1.1.1 _ _ f1.1
      have hrec : GetUnrealObjectRefFromNetGUID env s3 g1 ≠ env.UNRESOLVED_OBJECT_REF := by
        simp only [GetUnrealObjectRefFromNetGUID, e1.1]
        exact FUnrealObjectRef.ofPath_ne_of_no_path _ _ _ _ _ hU
      rw [GetOrAssignNetGUID_SpatialGDK_of_Find env _ s3 g1 (by simp) hL f1.2.1 f1.2.2,
        Result.bind_ok, if_pos (by simpa [FUnrealObjectRef.ne_eq_decide] using hrec)]
      exact ⟨rfl, hrec⟩

/-- C3 on a client with an empty cache: `sampleLevel` is resolved to id `3` twice, and the
second call returns the cache of the first. -/
theorem C3_AssignNewStablyNamedObjectNetGUID_twice_witness :
    ResolveStablyNamedObject sampleClientEnv sampleLevel FSpatialNetGUIDCache.empty =
        ok ⟨3⟩ sampleCacheAfterStable ∧
      ResolveStablyNamedObject sampleClientEnv sampleLevel sampleCacheAfterStable =
        ok ⟨3⟩ sampleCacheAfterStable ∧
      sampleCacheAfterStable.NetGUIDToUnrealObjectRef.length = 2 :=
  ⟨by decide!,
    (C3_AssignNewStablyNamedObjectNetGUID_twice sampleClientEnv sampleLevel
      FSpatialNetGUIDCache.empty sampleCacheAfterStable ⟨3⟩ rfl (by decide!)).1,
    by decide!⟩

/-! ## Handle allocation keeps the identity records -/

theorem KeepsRecords.unchanged (c : FSpatialNetGUIDCache) : KeepsRecords c c :=
  fun h => ⟨h, fun _ => rfl⟩

theorem KeepsRecords.andThen {a b c : FSpatialNetGUIDCache} (h1 : KeepsRecords a b)
    (h2 : KeepsRecords b c) : KeepsRecords a c := by
  intro ha
  obtain ⟨hb, e1⟩ := h1 ha
  obtain ⟨hc, e2⟩ := h2 hb
  exact ⟨hc, fun o => (e2 o).trans (e1 o)⟩

theorem KeepsRecords.andThen3 : ∀ a b c : FSpatialNetGUIDCache,
    KeepsRecords a b → KeepsRecords b c → KeepsRecords a c :=
  fun _ _ _ h1 h2 => h1.andThen h2

theorem TMap.Contains_Emplace {K V : Type} [DecidableEq K] (m : TMap K V) (k k2 : K) (v : V) :
    TMap.Contains (TMap.Emplace m k v) k2 = (decide (k2 = k) || TMap.Contains m k2) := by
  unfold TMap.Contains
  rw [TMap.Find_Emplace]
  by_cases h : k2 = k <;> simp [h]

theorem GenerateNewNetGUID_keepsRecords (c : FSpatialNetGUIDCache) (s : Fin 2) :
    KeepsRecords c (GenerateNewNetGUID c s).2 := by
  unfold GenerateNewNetGUID
  split <;> exact fun h => ⟨h, fun _ => rfl⟩

theorem RegisterNetGUID_Internal_keepsRecords (c : FSpatialNetGUIDCache) (g : FNetworkGUID)
    (x : FNetGuidCacheObject) : KeepsRecords c (RegisterNetGUID_Internal c g x).state := by
  unfold RegisterNetGUID_Internal
  refine check_bind_pred (KeepsRecords.unchanged c) (fun h1 => ?_)
  have h1 : TMap.Contains c.ObjectLookup g = false := by simpa using h1
  have hstep : KeepsRecords c { c with ObjectLookup := TMap.Emplace c.ObjectLookup g x } := by
    intro hw
    refine ⟨⟨?_, ?_, hw.2.2⟩, fun _ => rfl⟩
    · intro g2 r hr
      simp only [TMap.Contains_Emplace, hw.1 g2 r hr, Bool.or_true]
    · intro o g2 ho
      simp only [TMap.Contains_Emplace, hw.2.1 o g2 ho, Bool.or_true]
  simp only []
  split
  · exact hstep
  · refine check_bind_pred hstep (fun h2 => ?_)
    have h2 : TMap.Contains c.NetGUIDLookup x.Object = false := by simpa using h2
    have h2n : TMap.Find c.NetGUIDLookup x.Object = none := by
      simpa [TMap.Contains] using h2
    intro hw
    have hnotval : ∀ o, TMap.Find c.NetGUIDLookup o ≠ some g := by
      intro o ho
      have := hw.2.1 o g ho
      rw [h1] at this; cases this
    have hnorec : TMap.Find c.NetGUIDToUnrealObjectRef g = none := by
      cases hr : TMap.Find c.NetGUIDToUnrealObjectRef g with
      | none => rfl
      | some r =>
        have := hw.1 g r hr
        rw [h1] at this; cases this
    simp only [Result.state_ok]
    refine ⟨⟨?_, ?_, ?_⟩, ?_⟩
    · intro g2 r hr
      have h3 : TMap.Contains c.ObjectLookup g2 = true := hw.1 g2 r hr
      show TMap.Contains (TMap.Emplace c.ObjectLookup g x) g2 = true
      rw [TMap.Contains_Emplace, h3, Bool.or_true]
    · intro o g2 ho
      show TMap.Contains (TMap.Emplace c.ObjectLookup g x) g2 = true
      have ho : TMap.Find (TMap.Emplace c.NetGUIDLookup x.Object g) o = some g2 := ho
      rw [TMap.Find_Emplace] at ho
      rw [TMap.Contains_Emplace]
      split at ho
      · injection ho with ho; simp [ho]
      · simp [hw.2.1 o g2 ho]
    · intro o1 o2 g2 ho1 ho2
      have ho1 : TMap.Find (TMap.Emplace c.NetGUIDLookup x.Object g) o1 = some g2 := ho1
      have ho2 : TMap.Find (TMap.Emplace c.NetGUIDLookup x.Object g) o2 = some g2 := ho2
      rw [TMap.Find_Emplace] at ho1 ho2
      split at ho1 <;> split at ho2
      · rename_i e1 e2; rw [e1, e2]
      · injection ho1 with ho1; subst ho1; exact absurd ho2 (hnotval o2)
      · injection ho2 with ho2; subst ho2; exact absurd ho1 (hnotval o1)
      · exact hw.2.2 o1 o2 g2 ho1 ho2
    · intro o
      show (TMap.Find (TMap.Emplace c.NetGUIDLookup x.Object g) o).bind
        (fun g => TMap.Find c.NetGUIDToUnrealObjectRef g) = RecordOf c o
      rw [TMap.Find_Emplace]
      by_cases e1 : o = x.Object
      · subst e1
        simp [RecordOf, h2n, hnorec]
      · simp only [e1, if_false, RecordOf]

theorem GetOrAssignNetGUID_keepsRecords (env : Env) (o : UObjectPtr) :
    ∀ c, KeepsRecords c (GetOrAssignNetGUID env o c).state := by
  induction o with
  | nullptr => intro c; exact KeepsRecords.unchanged _
  | obj a n d outer ih =>
    intro c
    unfold GetOrAssignNetGUID
    simp only []
    split
    · exact KeepsRecords.unchanged _
    split
    · exact KeepsRecords.unchanged _
    refine (GenerateNewNetGUID_keepsRecords c (if d then 0 else 1)).andThen ?_
    refine check_bind_pred (KeepsRecords.unchanged _) (fun _ => ?_)
    refine check_bind_pred (KeepsRecords.unchanged _) (fun _ => ?_)
    refine Result.bind_rel KeepsRecords.andThen3 (ih _) (fun v s _ => ?_)
    exact Result.bind_rel KeepsRecords.andThen3 (RegisterNetGUID_Internal_keepsRecords _ _ _)
      (fun _ s3 _ => KeepsRecords.unchanged _)

theorem GetOrAssignNetGUID_SpatialGDK_keepsRecords (env : Env) (o : UObjectPtr) :
    ∀ c, KeepsRecords c (GetOrAssignNetGUID_SpatialGDK env o c).state := by
  induction o with
  | nullptr =>
    intro c
    unfold GetOrAssignNetGUID_SpatialGDK
    refine Result.bind_rel KeepsRecords.andThen3 (GetOrAssignNetGUID_keepsRecords _ _ _)
      (fun v s _ => ?_)
    exact check_bind_pred (KeepsRecords.unchanged _) (fun _ => KeepsRecords.unchanged _)
  | obj a n d outer ih =>
    intro c
    unfold GetOrAssignNetGUID_SpatialGDK
    refine Result.bind_rel KeepsRecords.andThen3 (GetOrAssignNetGUID_keepsRecords _ _ _)
      (fun v s _ => ?_)
    refine Result.bind_rel KeepsRecords.andThen3 ?_
      (fun v2 s2 _ => check_bind_pred (KeepsRecords.unchanged _) (fun _ => KeepsRecords.unchanged _))
    split
    · refine (GenerateNewNetGUID_keepsRecords s (if d then 0 else 1)).andThen ?_
      refine Result.bind_rel KeepsRecords.andThen3 (ih _) (fun v3 s3 _ => ?_)
      exact Result.bind_rel KeepsRecords.andThen3 (RegisterNetGUID_Internal_keepsRecords _ _ _)
        (fun _ s3 _ => KeepsRecords.unchanged _)
    · exact KeepsRecords.unchanged _

theorem WellFormed_empty : WellFormed FSpatialNetGUIDCache.empty := by
  refine ⟨?_, ?_, ?_⟩ <;> intros <;> simp_all [FSpatialNetGUIDCache.empty, TMap.Find]

/-! ## Outer chains -/

theorem UObjectPtr.sizeOf_le_of_mem_chain (u : UObjectPtr) :
    ∀ y ∈ UObjectPtr.chain u, sizeOf y ≤ sizeOf u := by
  induction u with
  | nullptr => intro y hy; simp [UObjectPtr.chain] at hy
  | obj a n d outer ih =>
    intro y hy
    simp only [UObjectPtr.chain, List.mem_cons] at hy
    rcases hy with hy | hy
    · rw [hy]
    · have := ih y hy
      simp only [UObjectPtr.obj.sizeOf_spec]
      omega

theorem UObjectPtr.ne_of_mem_chain_outer (a : Nat) (n : String) (d : Bool) (u y : UObjectPtr)
    (hy : y ∈ UObjectPtr.chain u) : y ≠ UObjectPtr.obj a n d u := by
  intro h
  have := UObjectPtr.sizeOf_le_of_mem_chain u y hy
  rw [h] at this
  simp only [UObjectPtr.obj.sizeOf_spec] at this
  omega

theorem UObjectPtr.outer_mem_chain (u : UObjectPtr) :
    ∀ y ∈ UObjectPtr.chain u, y.GetOuter = UObjectPtr.nullptr ∨ y.GetOuter ∈ UObjectPtr.chain u := by
  induction u with
  | nullptr => intro y hy; simp [UObjectPtr.chain] at hy
  | obj a n d outer ih =>
    intro y hy
    simp only [UObjectPtr.chain, List.mem_cons] at hy
    rcases hy with hy | hy
    · subst hy
      cases outer with
      | nullptr => exact Or.inl rfl
      | obj a2 n2 d2 o2 =>
        refine Or.inr ?_
        simp [UObjectPtr.GetOuter, UObjectPtr.chain]
    · rcases ih y hy with h | h
      · exact Or.inl h
      · exact Or.inr (List.mem_cons_of_mem _ h)

theorem UObjectPtr.self_mem_chain (a : Nat) (n : String) (d : Bool) (u : UObjectPtr) :
    UObjectPtr.obj a n d u ∈ UObjectPtr.chain (UObjectPtr.obj a n d u) := by
  simp [UObjectPtr.chain]

/-! ## Registering a record in a well-formed cache -/

theorem RegisterObjectRef_wellFormed {env : Env} {c c1 : FSpatialNetGUIDCache}
    {g : FNetworkGUID}
    {r : FUnrealObjectRef} {u : Unit} (h : RegisterObjectRef env c g r = ok u c1)
    (hw : WellFormed c) (hg : TMap.Contains c.ObjectLookup g = true) : WellFormed c1 := by
  rw [RegisterObjectRef_eq] at h
  split at h
  · injection h with _ h2
    subst h2
    refine ⟨?_, hw.2.1, hw.2.2⟩
    intro g2 r2 hr
    have hr : TMap.Find (TMap.Emplace c.NetGUIDToUnrealObjectRef g r) g2 = some r2 := hr
    rw [TMap.Find_Emplace] at hr
    show TMap.Contains c.ObjectLookup g2 = true
    split at hr
    · rename_i e; rw [e]; exact hg
    · exact hw.1 g2 r2 hr
  · cases h

theorem RegisterObjectRef_RecordOf {env : Env} {c c1 : FSpatialNetGUIDCache}
    {g : FNetworkGUID}
    {r : FUnrealObjectRef} {u : Unit} (h : RegisterObjectRef env c g r = ok u c1)
    (y : UObjectPtr) :
    RecordOf c1 y = if TMap.Find c.NetGUIDLookup y = some g then some r else RecordOf c y := by
  rw [RegisterObjectRef_eq] at h
  split at h
  · injection h with _ h2
    subst h2
    show (TMap.Find c.NetGUIDLookup y).bind
      (fun g2 => TMap.Find (TMap.Emplace c.NetGUIDToUnrealObjectRef g r) g2) = _
    cases hy : TMap.Find c.NetGUIDLookup y with
    | none => simp [RecordOf, hy]
    | some g2 =>
      by_cases e : g2 = g
      · subst e; simp [TMap.Find_Emplace_self]
      · simp [RecordOf, hy, e, TMap.Find_Emplace_ne _ _ e]
  · cases h

/-! ## `AssignNewStablyNamedObjectNetGUID` along the outer chain -/

/-- A value that no pair of the map holds is not found under any key. -/
theorem TMap.Find_ne_of_values {K V : Type} [DecidableEq K] (m : TMap K V) (v : V)
    (h : ∀ p ∈ m, p.2 ≠ v) (k : K) : TMap.Find m k ≠ some v := by
  intro hk
  exact h (k, v) (TMap.mem_of_Find m hk) rfl

theorem AssignNewStablyNamedObjectNetGUID_spec (env : Env)
    (hU : env.UNRESOLVED_OBJECT_REF.Path = none) (o : UObjectPtr) :
    ∀ (c c1 : FSpatialNetGUIDCache) (g : FNetworkGUID), WellFormed c →
      AssignNewStablyNamedObjectNetGUID env o c = ok g c1 →
      WellFormed c1 ∧
      (o ≠ UObjectPtr.nullptr →
        TMap.Find c1.NetGUIDLookup o = some g ∧ g.IsValid = true ∧ g.IsDefault = false ∧
        ∃ r, TMap.Find c1.NetGUIDToUnrealObjectRef g = some r) ∧
      ((env.DO_GUARD_SLOW = true ∨
          ∀ g0, TMap.Find c.NetGUIDToUnrealObjectRef g0 ≠ some env.UNRESOLVED_OBJECT_REF) →
        (∀ y ∈ (UObjectPtr.chain o).takeWhile (fun y => (RecordOf c y).isNone),
          ∃ r, RecordOf c1 y = some r ∧ IsStableRefOf c1 y r) ∧
        (∀ y ∈ (UObjectPtr.chain o).dropWhile (fun y => (RecordOf c y).isNone),
          RecordOf c1 y = RecordOf c y)) := by
  induction o with
  | nullptr =>
    intro c c1 g hw h
    unfold AssignNewStablyNamedObjectNetGUID at h
    have hg : GetOrAssignNetGUID_SpatialGDK env UObjectPtr.nullptr c = ok ⟨0⟩ c := by
      simp [GetOrAssignNetGUID_SpatialGDK, GetOrAssignNetGUID]
    rw [hg, Result.bind_ok] at h
    split at h
    · injection h with h1 h2
      subst h1; subst h2
      refine ⟨hw, fun h => absurd rfl h, fun _ => ⟨?_, ?_⟩⟩ <;> simp [UObjectPtr.chain]
    · cases h
  | obj a n d u ih =>
    intro c c1 g hw h
    unfold AssignNewStablyNamedObjectNetGUID at h
    obtain ⟨g1, s1, h1, h2⟩ := Result.bind_eq_ok.1 h
    have f1 := GetOrAssignNetGUID_SpatialGDK_ok env _ c s1 g1 h1 (by simp)
    have k1 := GetOrAssignNetGUID_SpatialGDK_keepsRecords env (UObjectPtr.obj a n d u) c
    rw [Result.state_of_eq_ok h1] at k1
    obtain ⟨hw1, hrec1⟩ := k1 hw
    have hmaps := GetOrAssignNetGUID_SpatialGDK_sameRefMaps env (UObjectPtr.obj a n d u) c
    rw [Result.state_of_eq_ok h1] at hmaps
    have hpred : (fun y => (RecordOf s1 y).isNone) = (fun y => (RecordOf c y).isNone) :=
      funext (fun y => by rw [hrec1 y])
    split at h2
    · -- the object already has a record
      rename_i hne
      injection h2 with e1 e2
      subst e1; subst e2
      have hne2 : GetUnrealObjectRefFromNetGUID env s1 g1 ≠ env.UNRESOLVED_OBJECT_REF := by
        simpa [FUnrealObjectRef.ne_eq_decide] using hne
      obtain ⟨r, hr⟩ : ∃ r, TMap.Find s1.NetGUIDToUnrealObjectRef g1 = some r := by
        cases hf : TMap.Find s1.NetGUIDToUnrealObjectRef g1 with
        | none => exact absurd (by simp [GetUnrealObjectRefFromNetGUID, hf]) hne2
        | some r => exact ⟨r, rfl⟩
      have hrx : RecordOf c (UObjectPtr.obj a n d u) = some r := by
        rw [← hrec1]; simp [RecordOf, f1.1, hr]
      refine ⟨hw1, fun _ => ⟨f1.1, f1.2.1, f1.2.2, r, hr⟩, fun _ => ⟨?_, ?_⟩⟩
      · intro y hy
        simp [UObjectPtr.chain, List.takeWhile_cons, hrx] at hy
      · intro y _
        exact hrec1 y
    · -- the object gets a record after its outer
      rename_i hne
      obtain ⟨og, s2, h3, h4⟩ := Result.bind_eq_ok.1 h2
      obtain ⟨_, s3, h5, h6⟩ := Result.bind_eq_ok.1 h4
      injection h6 with e1 e2
      subst e1; subst e2
      have houter : WellFormed s2 ∧ ExtendsUnder env.DO_GUARD_SLOW s1 s2 ∧
          (u ≠ UObjectPtr.nullptr →
            TMap.Find s2.NetGUIDLookup u = some og ∧ og.IsValid = true ∧ og.IsDefault = false ∧
            ∃ r, TMap.Find s2.NetGUIDToUnrealObjectRef og = some r) ∧
          (u = UObjectPtr.nullptr → og = ⟨0⟩) ∧
          ((env.DO_GUARD_SLOW = true ∨
              ∀ g0, TMap.Find c.NetGUIDToUnrealObjectRef g0 ≠ some env.UNRESOLVED_OBJECT_REF) →
            (∀ y ∈ (UObjectPtr.chain u).takeWhile (fun y => (RecordOf c y).isNone),
              ∃ r, RecordOf s2 y = some r ∧ IsStableRefOf s2 y r) ∧
            (∀ y ∈ (UObjectPtr.chain u).dropWhile (fun y => (RecordOf c y).isNone),
              RecordOf s2 y = RecordOf c y)) := by
        cases u with
        | nullptr =>
          simp only [] at h3
          injection h3 with e3 e4
          subst e3; subst e4
          refine ⟨hw1, ExtendsUnder.unchanged_under _ _, fun h => absurd rfl h, fun _ => rfl,
            fun _ => ⟨?_, ?_⟩⟩ <;>
            simp [UObjectPtr.chain]
        | obj a2 n2 d2 o2 =>
          simp only [] at h3
          obtain ⟨i1, i2, i34⟩ := ih s1 s2 og hw1 h3
          have x := AssignNewStablyNamedObjectNetGUID_extends env (UObjectPtr.obj a2 n2 d2 o2) s1
          rw [Result.state_of_eq_ok h3] at x
          refine ⟨i1, x, fun _ => i2 (by simp), fun h => (by cases h), fun hS => ?_⟩
          have hS1 : env.DO_GUARD_SLOW = true ∨
              ∀ g0, TMap.Find s1.NetGUIDToUnrealObjectRef g0 ≠
                some env.UNRESOLVED_OBJECT_REF := by
            rcases hS with hS | hS
            · exact Or.inl hS
            · right
              intro g0
              rw [hmaps.1]
              exact hS g0
          obtain ⟨i3, i4⟩ := i34 hS1
          rw [hpred] at i3 i4
          exact ⟨i3, fun y hy => (i4 y hy).trans (hrec1 y)⟩
      obtain ⟨hw2, x12, hou, hon, i34⟩ := houter
      have hLx2 : TMap.Find s2.NetGUIDLookup (UObjectPtr.obj a n d u) = some g1 :=
        x12.1.1 _ _ f1.1
      have e5 := RegisterObjectRef_ok h5
      have hrecY : ∀ y ∈ UObjectPtr.chain u, RecordOf s3 y = RecordOf s2 y := by
        intro y hy
        rw [RegisterObjectRef_RecordOf h5 y, if_neg]
        intro hyg
        exact UObjectPtr.ne_of_mem_chain_outer a n d u y hy (hw2.2.2 _ _ g1 hyg hLx2)
      have hrecX := RegisterObjectRef_RecordOf h5 (UObjectPtr.obj a n d u)
      rw [if_pos hLx2] at hrecX
      refine ⟨RegisterObjectRef_wellFormed h5 hw2 (hw2.2.1 _ _ hLx2),
        fun _ => ⟨by rw [e5.2.2.1]; exact hLx2, f1.2.1, f1.2.2, _, e5.1⟩, fun hS => ?_⟩
      obtain ⟨i3, i4⟩ := i34 hS
      have hnone1 : TMap.Find s1.NetGUIDToUnrealObjectRef g1 = none := by
        cases hf : TMap.Find s1.NetGUIDToUnrealObjectRef g1 with
        | none => rfl
        | some r =>
          exfalso
          have hr : r = env.UNRESOLVED_OBJECT_REF := by
            simpa [FUnrealObjectRef.ne_eq_decide, GetUnrealObjectRefFromNetGUID, hf] using hne
          rcases hS with hSlow | hNo
          · have hx := (x12.2 hSlow).2.2.1 _ _ hf
            have h7 := e5.1
            have x23 := (RegisterObjectRef_extends env s2 g1
              (FUnrealObjectRef.ofPath 0 0 n
                (if (og.IsValid && !og.IsDefault) = true
                  then GetUnrealObjectRefFromNetGUID env s2 og else FUnrealObjectRef.empty))).2
              hSlow
            rw [Result.state_of_eq_ok h5] at x23
            have h8 := x23.2.2.1 _ _ hx
            rw [h7] at h8
            injection h8 with h8
            rw [hr] at h8
            exact FUnrealObjectRef.ofPath_ne_of_no_path _ _ _ _ _ hU h8
          · rw [hmaps.1, hr] at hf
            exact hNo g1 hf
      have hcx : RecordOf c (UObjectPtr.obj a n d u) = none := by
        rw [← hrec1]; simp [RecordOf, f1.1, hnone1]
      refine ⟨?_, ?_⟩
      · intro y hy
        simp only [UObjectPtr.chain, List.takeWhile_cons, hcx, Option.isNone_none, if_true,
          List.mem_cons] at hy
        rcases hy with hy | hy
        · subst hy
          refine ⟨_, hrecX, _, rfl, ?_⟩
          by_cases hu : u = UObjectPtr.nullptr
          · subst hu
            simp [UObjectPtr.GetOuter, hon rfl, FNetworkGUID.IsValid]
          · obtain ⟨hLu, hv, hd, r, hr⟩ := hou hu
            have hu2 : (UObjectPtr.obj a n d u).GetOuter = u := rfl
            have hmem : u ∈ UObjectPtr.chain u := by
              cases u with
              | nullptr => exact absurd rfl hu
              | obj a2 n2 d2 o2 => exact UObjectPtr.self_mem_chain _ _ _ _
            rw [hu2, if_neg hu, hrecY u hmem]
            simp [hv, hd, GetUnrealObjectRefFromNetGUID, hr, RecordOf, hLu]
        · have hyc : y ∈ UObjectPtr.chain u := (List.takeWhile_sublist _).subset hy
          obtain ⟨r, hr, ro, e, hro⟩ := i3 y hy
          refine ⟨r, (hrecY y hyc).trans hr, ro, e, ?_⟩
          by_cases hyo : y.GetOuter = UObjectPtr.nullptr
          · rw [if_pos hyo] at hro ⊢; exact hro
          · rw [if_neg hyo] at hro ⊢
            rcases UObjectPtr.outer_mem_chain u y hyc with h9 | h9
            · exact absurd h9 hyo
            · rw [hrecY _ h9]; exact hro
      · intro y hy
        simp only [UObjectPtr.chain, List.dropWhile_cons, hcx, Option.isNone_none, if_true]
          at hy
        have hyc : y ∈ UObjectPtr.chain u := (List.dropWhile_sublist _).subset hy
        rw [hrecY y hyc]
        exact i4 y hy

/-- C9: let `AssignNewStablyNamedObjectNetGUID(obj)` return on a well-formed cache (the
outer chain of `obj` is finite by construction; the unresolved sentinel carries no path),
in a build that defines `DO_GUARD_SLOW` or on a cache in which no id is recorded with the
unresolved sentinel. Walking from `obj` up its outer chain, every object before the first
one that already had a record now has a record, and that record is
`{path = its name, outer = the record of its immediate outer}` (the value-initialised
reference when it has no outer); so `obj` itself has a record in any case. The first
object that already had a record, and every object above it, has exactly the record (or
absence of record) it had before the call. The cache stays well-formed. -/
theorem C9_AssignNewStablyNamedObjectNetGUID_resolves_outer_chain (env : Env)
    (Object : UObjectPtr) (c c1 : FSpatialNetGUIDCache) (g : FNetworkGUID)
    (hU : env.UNRESOLVED_OBJECT_REF.Path = none) (hw : WellFormed c)
    (hS : env.DO_GUARD_SLOW = true ∨
      ∀ g0, TMap.Find c.NetGUIDToUnrealObjectRef g0 ≠ some env.UNRESOLVED_OBJECT_REF)
    (h : AssignNewStablyNamedObjectNetGUID env Object c = ok g c1) :
    (∀ y ∈ (UObjectPtr.chain Object).takeWhile (fun y => (RecordOf c y).isNone),
      ∃ r, RecordOf c1 y = some r ∧ IsStableRefOf c1 y r) ∧
    (∀ y ∈ (UObjectPtr.chain Object).dropWhile (fun y => (RecordOf c y).isNone),
      RecordOf c1 y = RecordOf c y) ∧
    (Object ≠ UObjectPtr.nullptr →
      TMap.Find c1.NetGUIDLookup Object = some g ∧ (RecordOf c1 Object).isSome = true) ∧
    WellFormed c1 := by
  obtain ⟨h1, h2, h34⟩ := AssignNewStablyNamedObjectNetGUID_spec env hU Object c c1 g hw h
  obtain ⟨h3, h4⟩ := h34 hS
  refine ⟨h3, h4, ?_, h1⟩
  intro ho
  obtain ⟨h5, _, _, r, hr⟩ := h2 ho
  exact ⟨h5, by simp [RecordOf, h5, hr]⟩

/-- C9 on a client cache in which `sampleLevel` and `samplePackage` already have records:
resolving `sampleStaticMesh` (outer `sampleLevel`) gives it the record
`{path "Rock", outer = record of sampleLevel}` and leaves the records of `sampleLevel` and
`samplePackage` as they were. -/
theorem C9_AssignNewStablyNamedObjectNetGUID_resolves_outer_chain_witness :
    AssignNewStablyNamedObjectNetGUID sampleClientEnv sampleStaticMesh sampleCacheAfterStable =
        ok ⟨7⟩ sampleCacheAfterMesh ∧
      (∃ r, RecordOf sampleCacheAfterMesh sampleStaticMesh = some r ∧
        IsStableRefOf sampleCacheAfterMesh sampleStaticMesh r) ∧
      RecordOf sampleCacheAfterMesh sampleLevel = RecordOf sampleCacheAfterStable sampleLevel ∧
      RecordOf sampleCacheAfterMesh samplePackage =
        RecordOf sampleCacheAfterStable samplePackage ∧
      RecordOf sampleCacheAfterMesh sampleStaticMesh =
        some (FUnrealObjectRef.ofPath 0 0 "Rock"
          (FUnrealObjectRef.ofPath 0 0 "Level"
            (FUnrealObjectRef.ofPath 0 0 "Pkg" FUnrealObjectRef.empty))) :=
  have hw : WellFormed sampleCacheAfterStable :=
    (C9_AssignNewStablyNamedObjectNetGUID_resolves_outer_chain sampleClientEnv sampleLevel
      FSpatialNetGUIDCache.empty sampleCacheAfterStable ⟨3⟩ rfl WellFormed_empty
      (Or.inr (fun _ => by simp [FSpatialNetGUIDCache.empty, TMap.Find]))
      (by decide!)).2.2.2
  have h := C9_AssignNewStablyNamedObjectNetGUID_resolves_outer_chain sampleClientEnv
    sampleStaticMesh sampleCacheAfterStable sampleCacheAfterMesh ⟨7⟩ rfl hw
    (Or.inr (TMap.Find_ne_of_values _ _ (by decide!))) (by decide!)
  ⟨by decide!, h.1 sampleStaticMesh (by decide!), h.2.1 sampleLevel (by decide!),
    h.2.1 samplePackage (by decide!), by decide!⟩

/-! ## Round trip of a stably named reference -/

/-- A record whose paths the remapping leaves alone does round-trip: the lookup returns
the id it is stored under and leaves the cache as it was. -/
theorem GetNetGUIDFromUnrealObjectRef_roundtrip_of_fixed (env : Env)
    (c : FSpatialNetGUIDCache) (g : FNetworkGUID) (r : FUnrealObjectRef)
    (hr : TMap.Find c.NetGUIDToUnrealObjectRef g = some r)
    (h2 : TMap.Find c.UnrealObjectRefToNetGUID r = some g)
    (hv : g.IsValid = true) (hfix : NetworkRemapObjectRefPaths env r = r) :
    GetNetGUIDFromUnrealObjectRef env (GetUnrealObjectRefFromNetGUID env c g) c = ok g c := by
  unfold GetNetGUIDFromUnrealObjectRef GetNetGUIDFromUnrealObjectRefFuel
  simp [GetUnrealObjectRefFromNetGUID, hr, hfix, GetNetGUIDFromUnrealObjectRefInternal, h2, hv]

/-- The hypothesis on the remapping cannot be dropped here, where `NetworkRemapPath` is an
arbitrary function (the engine's remapping of incoming paths is not part of the
sources): were it to change the name `UEDPIE_0_Map` of a local object, that object would
be resolved to id `3` with the record `{path "UEDPIE_0_Map"}`, and looking that record up
again would normalise the path first, miss the record, return the new id `2` and add a
second record `{path "Map"}`. -/
theorem GetNetGUIDFromUnrealObjectRef_roundtrip_needs_fixed :
    AssignNewStablyNamedObjectNetGUID samplePieEnv samplePieMap FSpatialNetGUIDCache.empty =
        ok ⟨3⟩ sampleCacheAfterPieMap ∧
      GetUnrealObjectRefFromNetGUID samplePieEnv sampleCacheAfterPieMap ⟨3⟩ =
        FUnrealObjectRef.ofPath 0 0 "UEDPIE_0_Map" FUnrealObjectRef.empty ∧
      (GetNetGUIDFromUnrealObjectRef samplePieEnv
        (GetUnrealObjectRefFromNetGUID samplePieEnv sampleCacheAfterPieMap ⟨3⟩)
        sampleCacheAfterPieMap).value? = some ⟨2⟩ ∧
      sampleCacheAfterPieMap.NetGUIDToUnrealObjectRef =
        [(⟨3⟩, FUnrealObjectRef.ofPath 0 0 "UEDPIE_0_Map" FUnrealObjectRef.empty)] ∧
      (GetNetGUIDFromUnrealObjectRef samplePieEnv
        (GetUnrealObjectRefFromNetGUID samplePieEnv sampleCacheAfterPieMap ⟨3⟩)
        sampleCacheAfterPieMap).state.NetGUIDToUnrealObjectRef =
        [(⟨3⟩, FUnrealObjectRef.ofPath 0 0 "UEDPIE_0_Map" FUnrealObjectRef.empty),
         (⟨2⟩, FUnrealObjectRef.ofPath 0 0 "Map" FUnrealObjectRef.empty)] := by
  decide!

/-- After `AssignNewStablyNamedObjectNetGUID` has returned for an object, on a cache with
mutually inverse maps, the returned id is valid and its record is in both maps. -/
theorem AssignNewStablyNamedObjectNetGUID_record {env : Env} {Object : UObjectPtr}
    {c c1 : FSpatialNetGUIDCache} {g : FNetworkGUID} (hO : Object ≠ UObjectPtr.nullptr)
    (hinv : MutualInverses c)
    (h : AssignNewStablyNamedObjectNetGUID env Object c = ok g c1) :
    g.IsValid = true ∧ TMap.Find c1.NetGUIDLookup Object = some g ∧
      ∃ r, TMap.Find c1.NetGUIDToUnrealObjectRef g = some r ∧
        TMap.Find c1.UnrealObjectRefToNetGUID r = some g := by
  cases Object with
  | nullptr => exact absurd rfl hO
  | obj a n d u =>
    unfold AssignNewStablyNamedObjectNetGUID at h
    obtain ⟨g1, s1, h1, h2⟩ := Result.bind_eq_ok.1 h
    have f1 := GetOrAssignNetGUID_SpatialGDK_ok env _ c s1 g1 h1 (by simp)
    have hmaps := GetOrAssignNetGUID_SpatialGDK_sameRefMaps env (UObjectPtr.obj a n d u) c
    rw [Result.state_of_eq_ok h1] at hmaps
    split at h2
    · rename_i hne
      injection h2 with e1 e2
      subst e1; subst e2
      have hne2 : GetUnrealObjectRefFromNetGUID env s1 g1 ≠ env.UNRESOLVED_OBJECT_REF := by
        simpa [FUnrealObjectRef.ne_eq_decide] using hne
      obtain ⟨r, hr⟩ : ∃ r, TMap.Find s1.NetGUIDToUnrealObjectRef g1 = some r := by
        cases hf : TMap.Find s1.NetGUIDToUnrealObjectRef g1 with
        | none => exact absurd (by simp [GetUnrealObjectRefFromNetGUID, hf]) hne2
        | some r => exact ⟨r, rfl⟩
      refine ⟨f1.2.1, f1.1, r, hr, ?_⟩
      rw [hmaps.1] at hr
      rw [hmaps.2]
      exact (hinv g1 r).1 hr
    · obtain ⟨og, s2, h3, h4⟩ := Result.bind_eq_ok.1 h2
      obtain ⟨_, s3, h5, h6⟩ := Result.bind_eq_ok.1 h4
      injection h6 with e1 e2
      subst e1; subst e2
      have e5 := RegisterObjectRef_ok h5
      have x12 : ExtendsUnder env.DO_GUARD_SLOW s1 s2 := by
        cases u with
        | nullptr =>
          simp only [] at h3
          injection h3 with _ h9
          subst h9
          exact ExtendsUnder.unchanged_under _ _
        | obj a2 n2 d2 o2 =>
          simp only [] at h3
          have := AssignNewStablyNamedObjectNetGUID_extends env (UObjectPtr.obj a2 n2 d2 o2) s1
          rw [Result.state_of_eq_ok h3] at this
          exact this
      refine ⟨f1.2.1, ?_, _, e5.1, e5.2.1⟩
      rw [e5.2.2.1]
      exact x12.1.1 _ _ f1.1

theorem NetworkRemapObjectRefPaths_of_loop {env : Env} {r : FUnrealObjectRef}
    (h : NetworkRemapObjectRefPaths.loop env r = r) : NetworkRemapObjectRefPaths env r = r := by
  unfold NetworkRemapObjectRefPaths
  split
  · rfl
  · exact h

/-- When the remapping leaves the names of the objects of the outer chain alone, and the
records the chain already had, then it leaves every record of the chain alone after
`AssignNewStablyNamedObjectNetGUID`: the stored paths are in normalised form. -/
theorem AssignNewStablyNamedObjectNetGUID_paths_fixed (env : Env) (Object : UObjectPtr)
    (c c1 : FSpatialNetGUIDCache) (g : FNetworkGUID)
    (hU : env.UNRESOLVED_OBJECT_REF.Path = none) (hw : WellFormed c)
    (hS : env.DO_GUARD_SLOW = true ∨
      ∀ g0, TMap.Find c.NetGUIDToUnrealObjectRef g0 ≠ some env.UNRESOLVED_OBJECT_REF)
    (h : AssignNewStablyNamedObjectNetGUID env Object c = ok g c1)
    (hLocal : ∀ y ∈ UObjectPtr.chain Object, env.NetworkRemapPath y.GetFName = y.GetFName)
    (hStored : ∀ y ∈ UObjectPtr.chain Object, ∀ r, RecordOf c y = some r →
      NetworkRemapObjectRefPaths.loop env r = r) :
    ∀ y ∈ UObjectPtr.chain Object, ∀ r, RecordOf c1 y = some r →
      NetworkRemapObjectRefPaths.loop env r = r := by
  obtain ⟨_, _, h34⟩ := AssignNewStablyNamedObjectNetGUID_spec env hU Object c c1 g hw h
  obtain ⟨h3, h4⟩ := h34 hS
  have key : ∀ o : UObjectPtr, (∀ y ∈ UObjectPtr.chain o, y ∈ UObjectPtr.chain Object) →
      ∀ y ∈ UObjectPtr.chain o, ∀ r, RecordOf c1 y = some r →
        NetworkRemapObjectRefPaths.loop env r = r := by
    intro o
    induction o with
    | nullptr => intro _ y hy; simp [UObjectPtr.chain] at hy
    | obj a n d u ih =>
      intro hsub y hy r hr
      have ihu := ih (fun z hz => hsub z (by
        simp only [UObjectPtr.chain, List.mem_cons]
        exact Or.inr hz))
      simp only [UObjectPtr.chain, List.mem_cons] at hy
      rcases hy with hy | hy
      · subst hy
        have hmem : UObjectPtr.obj a n d u ∈ UObjectPtr.chain Object :=
          hsub _ (UObjectPtr.self_mem_chain a n d u)
        rw [← List.takeWhile_append_dropWhile (fun y => (RecordOf c y).isNone)
          (UObjectPtr.chain Object)] at hmem
        rcases List.mem_append.1 hmem with hT | hD
        · obtain ⟨r2, hr2, ro, e, hro⟩ := h3 _ hT
          rw [hr] at hr2
          have e2 : r = r2 := Option.some.inj hr2
          subst e2
          have hname := hLocal _ (hsub _ (UObjectPtr.self_mem_chain a n d u))
          simp only [UObjectPtr.GetFName] at hname e
          have hro2 : NetworkRemapObjectRefPaths.loop env ro = ro := by
            by_cases hu : u = UObjectPtr.nullptr
            · subst hu
              simp only [UObjectPtr.GetOuter, if_true] at hro
              subst hro
              rfl
            · have hu2 : (UObjectPtr.obj a n d u).GetOuter = u := rfl
              rw [hu2, if_neg hu] at hro
              have humem : u ∈ UObjectPtr.chain u := by
                cases u with
                | nullptr => exact absurd rfl hu
                | obj a2 n2 d2 o2 => exact UObjectPtr.self_mem_chain _ _ _ _
              exact ihu u humem ro hro
          rw [e]
          unfold FUnrealObjectRef.ofPath NetworkRemapObjectRefPaths.loop
          simp only [Option.map_some', hname, hro2]
        · have := h4 _ hD
          rw [hr] at this
          exact hStored _ (hsub _ (UObjectPtr.self_mem_chain a n d u)) r this.symm
      · exact ihu y hy r hr
  exact key Object (fun _ hy => hy)

theorem Result.bind_fault_ne {σ α β : Type} {r : Result σ α} {f : α → σ → Result σ β}
    {e : Fault} (h1 : r.fault? ≠ some e) (h2 : ∀ v s, (f v s).fault? ≠ some e) :
    (r.bind f).fault? ≠ some e := by
  cases r with
  | ok v s => exact h2 v s
  | fatal e2 s => exact h1

theorem check_fault_ne_outOfFuel {σ : Type} (b : Bool) (s : σ) :
    (check b s).fault? ≠ some Fault.outOfFuel := by
  cases b <;> simp [check, Result.fault?]

theorem RegisterNetGUID_Internal_fault (c : FSpatialNetGUIDCache) (g : FNetworkGUID)
    (x : FNetGuidCacheObject) :
    (RegisterNetGUID_Internal c g x).fault? ≠ some Fault.outOfFuel := by
  unfold RegisterNetGUID_Internal
  refine Result.bind_fault_ne (check_fault_ne_outOfFuel _ _) (fun _ s => ?_)
  simp only []
  split
  · simp [Result.fault?]
  · exact Result.bind_fault_ne (check_fault_ne_outOfFuel _ _) (fun _ _ => by simp [Result.fault?])

theorem RegisterObjectRef_fault (env : Env) (c : FSpatialNetGUIDCache) (g : FNetworkGUID)
    (r : FUnrealObjectRef) : (RegisterObjectRef env c g r).fault? ≠ some Fault.outOfFuel := by
  rw [RegisterObjectRef_eq]
  split <;> simp [Result.fault?]

theorem FUnrealObjectRef.depth_of_Outer {r u : FUnrealObjectRef} (h : r.Outer = some u) :
    r.depth = u.depth + 1 := by
  cases r with
  | mk e o p out =>
    simp only [FUnrealObjectRef.Outer] at h
    subst h
    simp [FUnrealObjectRef.depth]

theorem NetworkRemapObjectRefPaths_loop_depth (env : Env) :
    ∀ r : FUnrealObjectRef, (NetworkRemapObjectRefPaths.loop env r).depth = r.depth
  | FUnrealObjectRef.mk e o p none => by
    simp [NetworkRemapObjectRefPaths.loop, FUnrealObjectRef.depth]
  | FUnrealObjectRef.mk e o p (some u) => by
    simp [NetworkRemapObjectRefPaths.loop, FUnrealObjectRef.depth,
      NetworkRemapObjectRefPaths_loop_depth env u]

theorem NetworkRemapObjectRefPaths_depth (env : Env) (r : FUnrealObjectRef) :
    (NetworkRemapObjectRefPaths env r).depth = r.depth := by
  unfold NetworkRemapObjectRefPaths
  split
  · rfl
  · exact NetworkRemapObjectRefPaths_loop_depth env r

theorem GetNetGUIDFromUnrealObjectRefFuel_fault (env : Env) (fuel : Nat) :
    ∀ (r : FUnrealObjectRef) (c : FSpatialNetGUIDCache), r.depth < fuel →
      (GetNetGUIDFromUnrealObjectRefFuel env fuel r c).fault? ≠ some Fault.outOfFuel := by
  induction fuel with
  | zero => intro r c h; omega
  | succ k ih =>
    intro r c h
    unfold GetNetGUIDFromUnrealObjectRefFuel GetNetGUIDFromUnrealObjectRefInternal
    simp only []
    split
    · refine Result.bind_fault_ne ?_ (fun og s1 => ?_)
      · split
        · rename_i u hu
          have h1 := FUnrealObjectRef.depth_of_Outer hu
          rw [NetworkRemapObjectRefPaths_depth] at h1
          exact ih u c (by omega)
        · simp [Result.fault?]
      · refine Result.bind_fault_ne ?_ (fun g2 s2 => ?_)
        · unfold RegisterNetGUIDFromPathForStaticObject
          exact Result.bind_fault_ne (RegisterNetGUID_Internal_fault _ _ _)
            (fun _ _ => by simp [Result.fault?])
        · exact Result.bind_fault_ne (RegisterObjectRef_fault _ _ _ _)
            (fun _ _ => by simp [Result.fault?])
    · simp [Result.fault?]

/-- The call `GetNetGUIDFromUnrealObjectRef` always ends by itself: its recursion follows
the `Outer` chain of the reference and never reaches the bound of the model. -/
theorem GetNetGUIDFromUnrealObjectRef_fuel_suffices (env : Env) (r : FUnrealObjectRef)
    (c : FSpatialNetGUIDCache) :
    (GetNetGUIDFromUnrealObjectRef env r c).fault? ≠ some Fault.outOfFuel :=
  GetNetGUIDFromUnrealObjectRefFuel_fault env _ r c (Nat.lt_succ_self _)

/-! ## Well-formedness along call sequences -/

theorem WellFormed_of_eq {c c1 : FSpatialNetGUIDCache} (h1 : c1.ObjectLookup = c.ObjectLookup)
    (h2 : c1.NetGUIDLookup = c.NetGUIDLookup)
    (h3 : c1.NetGUIDToUnrealObjectRef = c.NetGUIDToUnrealObjectRef) (hw : WellFormed c) :
    WellFormed c1 := by
  unfold WellFormed
  rw [h1, h2, h3]
  exact hw

theorem WellFormed_remove (c : FSpatialNetGUIDCache) {c1 : FSpatialNetGUIDCache}
    (g : FNetworkGUID)
    (h1 : c1.ObjectLookup = c.ObjectLookup) (h2 : c1.NetGUIDLookup = c.NetGUIDLookup)
    (h3 : c1.NetGUIDToUnrealObjectRef = TMap.Remove c.NetGUIDToUnrealObjectRef g)
    (hw : WellFormed c) : WellFormed c1 := by
  unfold WellFormed
  rw [h1, h2, h3]
  refine ⟨?_, hw.2.1, hw.2.2⟩
  intro g2 r hr
  rw [TMap.Find_Remove] at hr
  split at hr
  · cases hr
  · exact hw.1 g2 r hr

theorem GetOrAssignNetGUID_SpatialGDK_wellFormed {env : Env} {o : UObjectPtr}
    {c c1 : FSpatialNetGUIDCache} {g : FNetworkGUID}
    (h : GetOrAssignNetGUID_SpatialGDK env o c = ok g c1) (hw : WellFormed c) :
    WellFormed c1 := by
  have k := GetOrAssignNetGUID_SpatialGDK_keepsRecords env o c
  rw [Result.state_of_eq_ok h] at k
  exact (k hw).1

theorem ResolvePendingOperations_wellFormed {env : Env} {c c1 : FSpatialNetGUIDCache}
    {o : UObjectPtr} {r : FUnrealObjectRef} {u : Unit}
    (h : ResolvePendingOperations env c o r = ok u c1) (hw : WellFormed c) : WellFormed c1 := by
  unfold ResolvePendingOperations at h
  split at h
  · injection h with _ h2; subst h2; exact WellFormed_of_eq rfl rfl rfl hw
  · split at h
    · injection h with _ h2; subst h2; exact hw
    · cases h

theorem RegisterObjectRef_after_GetOrAssign {env : Env} {o : UObjectPtr}
    {c s1 s2 : FSpatialNetGUIDCache} {g : FNetworkGUID} {r : FUnrealObjectRef} {u : Unit}
    (ho : o ≠ UObjectPtr.nullptr) (h1 : GetOrAssignNetGUID_SpatialGDK env o c = ok g s1)
    (h2 : RegisterObjectRef env s1 g r = ok u s2) (hw : WellFormed c) : WellFormed s2 := by
  have hw1 := GetOrAssignNetGUID_SpatialGDK_wellFormed h1 hw
  have f1 := GetOrAssignNetGUID_SpatialGDK_ok env o c s1 g h1 ho
  exact RegisterObjectRef_wellFormed h2 hw1 (hw1.2.1 _ _ f1.1)

theorem AssignNewEntityActorNetGUID_loop_wellFormed (env : Env) (e : Worker_EntityId)
    (l : List (UObjectPtr × Nat)) :
    ∀ (c c1 : FSpatialNetGUIDCache) (u : Unit), WellFormed c →
      (∀ p ∈ l, p.1 ≠ UObjectPtr.nullptr) →
      AssignNewEntityActorNetGUID.loop env e l c = ok u c1 → WellFormed c1 := by
  induction l with
  | nil =>
    intro c c1 u hw _ h
    unfold AssignNewEntityActorNetGUID.loop at h
    injection h with _ h2; subst h2; exact hw
  | cons q rest ih =>
    intro c c1 u hw hnn h
    obtain ⟨so, off⟩ := q
    unfold AssignNewEntityActorNetGUID.loop at h
    obtain ⟨sg, s1, h1, h2⟩ := Result.bind_eq_ok.1 h
    obtain ⟨_, s2, h3, h4⟩ := Result.bind_eq_ok.1 h2
    obtain ⟨_, s3, h5, h6⟩ := Result.bind_eq_ok.1 h4
    have hw2 := RegisterObjectRef_after_GetOrAssign (hnn (so, off) (List.mem_cons_self _ _))
      h1 h3 hw
    exact ih s3 c1 u (ResolvePendingOperations_wellFormed h5 hw2)
      (fun p hp => hnn p (List.mem_cons_of_mem _ hp)) h6

theorem AssignNewEntityActorNetGUID_wellFormed {env : Env} {Actor : UObjectPtr}
    {l : List (UObjectPtr × Nat)} {c c1 : FSpatialNetGUIDCache} {g : FNetworkGUID}
    (hw : WellFormed c) (hA : Actor ≠ UObjectPtr.nullptr)
    (hnn : ∀ p ∈ l, p.1 ≠ UObjectPtr.nullptr)
    (h : AssignNewEntityActorNetGUID env Actor l c = ok g c1) : WellFormed c1 := by
  unfold AssignNewEntityActorNetGUID at h
  simp only [] at h
  obtain ⟨_, s0, h0, h1⟩ := Result.bind_eq_ok.1 h
  obtain ⟨_, rfl⟩ := check_eq_ok.1 h0
  obtain ⟨g1, s1, h2, h3⟩ := Result.bind_eq_ok.1 h1
  obtain ⟨_, s2, h4, h5⟩ := Result.bind_eq_ok.1 h3
  obtain ⟨_, s3, h6, h7⟩ := Result.bind_eq_ok.1 h5
  obtain ⟨u4, s4, h8, h9⟩ := Result.bind_eq_ok.1 h7
  injection h9 with _ h11
  subst h11
  have hw2 := RegisterObjectRef_after_GetOrAssign hA h2 h4 hw
  exact AssignNewEntityActorNetGUID_loop_wellFormed env _ l s3 s4 u4
    (ResolvePendingOperations_wellFormed h6 hw2) hnn h8

theorem RegisterNetGUIDFromPathForStaticObject_wellFormed {c c1 : FSpatialNetGUIDCache}
    {p : String} {og g : FNetworkGUID}
    (h : RegisterNetGUIDFromPathForStaticObject c p og = ok g c1) (hw : WellFormed c) :
    WellFormed c1 ∧ TMap.Contains c1.ObjectLookup g = true := by
  have k : KeepsRecords c (RegisterNetGUIDFromPathForStaticObject c p og).state := by
    unfold RegisterNetGUIDFromPathForStaticObject
    refine (GenerateNewNetGUID_keepsRecords c 0).andThen ?_
    exact Result.bind_rel KeepsRecords.andThen3 (RegisterNetGUID_Internal_keepsRecords _ _ _)
      (fun _ s3 _ => KeepsRecords.unchanged _)
  rw [Result.state_of_eq_ok h] at k
  refine ⟨(k hw).1, ?_⟩
  unfold RegisterNetGUIDFromPathForStaticObject at h
  simp only [] at h
  obtain ⟨_, s1, h1, h2⟩ := Result.bind_eq_ok.1 h
  injection h2 with h3 h4
  subst h3; subst h4
  unfold RegisterNetGUID_Internal at h1
  obtain ⟨_, s2, h5, h6⟩ := Result.bind_eq_ok.1 h1
  obtain ⟨_, rfl⟩ := check_eq_ok.1 h5
  simp only [if_true] at h6
  injection h6 with _ h7
  subst h7
  simp [TMap.Contains, TMap.Find_Emplace_self]

theorem GetNetGUIDFromUnrealObjectRefFuel_wellFormed (env : Env) (fuel : Nat) :
    ∀ (r : FUnrealObjectRef) (c c1 : FSpatialNetGUIDCache) (g : FNetworkGUID),
      WellFormed c → GetNetGUIDFromUnrealObjectRefFuel env fuel r c = ok g c1 →
      WellFormed c1 := by
  induction fuel with
  | zero =>
    intro r c c1 g _ h
    unfold GetNetGUIDFromUnrealObjectRefFuel at h
    cases h
  | succ k ih =>
    intro r c c1 g hw h
    unfold GetNetGUIDFromUnrealObjectRefFuel GetNetGUIDFromUnrealObjectRefInternal at h
    simp only [] at h
    split at h
    · obtain ⟨og, s1, h1, h2⟩ := Result.bind_eq_ok.1 h
      obtain ⟨g2, s2, h3, h4⟩ := Result.bind_eq_ok.1 h2
      obtain ⟨_, s3, h5, h6⟩ := Result.bind_eq_ok.1 h4
      injection h6 with h7 h8
      subst h7; subst h8
      have hw1 : WellFormed s1 := by
        split at h1
        · exact ih _ _ _ _ hw h1
        · injection h1 with _ h9; subst h9; exact hw
      obtain ⟨hw2, hc⟩ := RegisterNetGUIDFromPathForStaticObject_wellFormed h3 hw1
      exact RegisterObjectRef_wellFormed h5 hw2 hc
    · injection h with _ h2; subst h2; exact hw

theorem RemoveEntityNetGUID_loop_wellFormed (e : Worker_EntityId) (Keys : List Nat) :
    ∀ c, WellFormed c → WellFormed (RemoveEntityNetGUID.loop e Keys c) := by
  induction Keys with
  | nil => intro c hw; exact hw
  | cons k rest ih =>
    intro c hw
    unfold RemoveEntityNetGUID.loop
    split
    · rename_i g _
      exact ih _ (WellFormed_remove c g rfl rfl rfl hw)
    · exact ih _ hw

theorem RemoveEntityNetGUID_wellFormed (env : Env) (e : Worker_EntityId)
    (c : FSpatialNetGUIDCache) (hw : WellFormed c) :
    WellFormed (RemoveEntityNetGUID env e c).state := by
  unfold RemoveEntityNetGUID
  split
  · exact hw
  · split
    · exact hw
    · rename_i Keys _
      have h1 := RemoveEntityNetGUID_loop_wellFormed e Keys c hw
      simp only []
      split
      · exact WellFormed_remove (RemoveEntityNetGUID.loop e Keys c) _ rfl rfl rfl h1
      · exact WellFormed_remove (RemoveEntityNetGUID.loop e Keys c) _ rfl rfl rfl h1

/-- Every cache reached from a well-formed one by calls that end normally, pass no null
actor or sub-object and are made with a path-less unresolved sentinel is well-formed. In
particular every cache so reached from the empty cache is. -/
theorem runCalls_wellFormed (calls : List (Env × CacheCall)) :
    ∀ (c c1 : FSpatialNetGUIDCache), WellFormed c →
      (∀ p ∈ calls, p.1.UNRESOLVED_OBJECT_REF.Path = none ∧ p.2.NonNull) →
      runCalls calls c = ok () c1 → WellFormed c1 := by
  induction calls with
  | nil =>
    intro c c1 hw _ h
    unfold runCalls at h
    injection h with _ h2; subst h2; exact hw
  | cons q rest ih =>
    intro c c1 hw hq h
    obtain ⟨env, call⟩ := q
    unfold runCalls at h
    obtain ⟨_, s1, h1, h2⟩ := Result.bind_eq_ok.1 h
    obtain ⟨hU, hnn⟩ := hq (env, call) (List.mem_cons_self _ _)
    refine ih s1 c1 ?_ (fun p hp => hq p (List.mem_cons_of_mem _ hp)) h2
    cases call with
    | assignEntityActor Actor l =>
      unfold CacheCall.run at h1
      obtain ⟨g, s2, h3, h4⟩ := Result.bind_eq_ok.1 h1
      injection h4 with _ h5; subst h5
      exact AssignNewEntityActorNetGUID_wellFormed hw hnn.1 hnn.2 h3
    | assignStablyNamed o =>
      unfold CacheCall.run at h1
      obtain ⟨g, s2, h3, h4⟩ := Result.bind_eq_ok.1 h1
      injection h4 with _ h5; subst h5
      exact (AssignNewStablyNamedObjectNetGUID_spec env hU o c s2 g hw h3).1
    | getNetGUID r =>
      unfold CacheCall.run at h1
      obtain ⟨g, s2, h3, h4⟩ := Result.bind_eq_ok.1 h1
      injection h4 with _ h5; subst h5
      exact GetNetGUIDFromUnrealObjectRefFuel_wellFormed env _ r c s2 g hw h3
    | removeEntity e =>
      unfold CacheCall.run at h1
      have := RemoveEntityNetGUID_wellFormed env e c hw
      rw [Result.state_of_eq_ok h1] at this
      exact this

/-! ## `AssignNewEntityActorNetGUID` on distinct sub-objects and distinct non-zero offsets -/

/-- A successful `RegisterObjectRef(g, r)` changes the reference maps at the keys `g` and
`r` only. -/
theorem RegisterObjectRef_other {env : Env} {c c1 : FSpatialNetGUIDCache} {g : FNetworkGUID}
    {r : FUnrealObjectRef} {u : Unit} (h : RegisterObjectRef env c g r = ok u c1) :
    (∀ g0, g0 ≠ g → TMap.Find c1.NetGUIDToUnrealObjectRef g0 =
        TMap.Find c.NetGUIDToUnrealObjectRef g0) ∧
      (∀ r0, r0 ≠ r → TMap.Find c1.UnrealObjectRefToNetGUID r0 =
        TMap.Find c.UnrealObjectRefToNetGUID r0) := by
  rw [RegisterObjectRef_eq] at h
  split at h
  · injection h with _ h2
    subst h2
    exact ⟨fun g0 hg => TMap.Find_Emplace_ne _ _ hg, fun r0 hr => TMap.Find_Emplace_ne _ _ hr⟩
  · cases h

/-- One pass of the loop of `AssignNewEntityActorNetGUID`, for a sub-object other than
`o0` and a reference other than `r0`, keeps the association of `o0` and the pair
`g0 ↔ r0` of its id, in every build. -/
theorem AssignNewEntityActorNetGUID_loop_keeps (env : Env) (e : Worker_EntityId)
    (o0 : UObjectPtr) (g0 : FNetworkGUID) (r0 : FUnrealObjectRef)
    (l : List (UObjectPtr × Nat)) :
    ∀ (c c1 : FSpatialNetGUIDCache) (u : Unit), WellFormed c →
      (∀ p ∈ l, p.1 ≠ UObjectPtr.nullptr) → (∀ p ∈ l, p.1 ≠ o0) →
      (∀ p ∈ l, FUnrealObjectRef.ofEntity e p.2 ≠ r0) →
      AssignNewEntityActorNetGUID.loop env e l c = ok u c1 →
      TMap.Find c.NetGUIDLookup o0 = some g0 →
      TMap.Find c.NetGUIDToUnrealObjectRef g0 = some r0 →
      TMap.Find c.UnrealObjectRefToNetGUID r0 = some g0 →
      TMap.Find c1.NetGUIDLookup o0 = some g0 ∧
        TMap.Find c1.NetGUIDToUnrealObjectRef g0 = some r0 ∧
        TMap.Find c1.UnrealObjectRefToNetGUID r0 = some g0 := by
  induction l with
  | nil =>
    intro c c1 u _ _ _ _ h k1 k2 k3
    unfold AssignNewEntityActorNetGUID.loop at h
    injection h with _ h2; subst h2; exact ⟨k1, k2, k3⟩
  | cons q rest ih =>
    intro c c1 u hw hnn hno hnr h k1 k2 k3
    obtain ⟨so, off⟩ := q
    unfold AssignNewEntityActorNetGUID.loop at h
    obtain ⟨sg, s1, h1, h2⟩ := Result.bind_eq_ok.1 h
    obtain ⟨_, s2, h3, h4⟩ := Result.bind_eq_ok.1 h2
    obtain ⟨_, s3, h5, h6⟩ := Result.bind_eq_ok.1 h4
    have hso := hnn (so, off) (List.mem_cons_self _ _)
    have hw1 := GetOrAssignNetGUID_SpatialGDK_wellFormed h1 hw
    have f1 := GetOrAssignNetGUID_SpatialGDK_ok env so c s1 sg h1 hso
    have x1 := GetOrAssignNetGUID_SpatialGDK_extends env so c
    rw [Result.state_of_eq_ok h1] at x1
    have m1 := GetOrAssignNetGUID_SpatialGDK_sameRefMaps env so c
    rw [Result.state_of_eq_ok h1] at m1
    have k1a := x1.1 _ _ k1
    have hne : g0 ≠ sg := by
      intro hg
      subst hg
      exact hno (so, off) (List.mem_cons_self _ _) (hw1.2.2 _ _ _ f1.1 k1a)
    have e3 := RegisterObjectRef_ok h3
    have o3 := RegisterObjectRef_other h3
    have hw2 := RegisterObjectRef_after_GetOrAssign hso h1 h3 hw
    have x5 := ResolvePendingOperations_extends env s2 so (FUnrealObjectRef.ofEntity e off)
    rw [Result.state_of_eq_ok h5] at x5
    refine ih s3 c1 u (ResolvePendingOperations_wellFormed h5 hw2)
      (fun p hp => hnn p (List.mem_cons_of_mem _ hp))
      (fun p hp => hno p (List.mem_cons_of_mem _ hp))
      (fun p hp => hnr p (List.mem_cons_of_mem _ hp)) h6 ?_ ?_ ?_
    · apply x5.1
      rw [e3.2.2.1]
      exact k1a
    · apply x5.2.2.1
      rw [o3.1 g0 hne, m1.1]
      exact k2
    · apply x5.2.2.2
      rw [o3.2 r0 (fun hr => hnr (so, off) (List.mem_cons_self _ _) hr.symm), m1.2]
      exact k3

/-- After the loop of `AssignNewEntityActorNetGUID` over distinct sub-objects with
distinct offsets, every sub-object is associated with an id that is mapped to
`(e, offset)`, and `(e, offset)` back to that id, in every build. -/
theorem AssignNewEntityActorNetGUID_loop_registers (env : Env) (e : Worker_EntityId)
    (l : List (UObjectPtr × Nat)) :
    ∀ (c c1 : FSpatialNetGUIDCache) (u : Unit), WellFormed c →
      (∀ p ∈ l, p.1 ≠ UObjectPtr.nullptr) → (l.map Prod.fst).Nodup →
      (l.map Prod.snd).Nodup →
      AssignNewEntityActorNetGUID.loop env e l c = ok u c1 →
      ∀ p ∈ l, ∃ sg : FNetworkGUID, TMap.Find c1.NetGUIDLookup p.1 = some sg ∧
        TMap.Find c1.NetGUIDToUnrealObjectRef sg = some (FUnrealObjectRef.ofEntity e p.2) ∧
        TMap.Find c1.UnrealObjectRefToNetGUID (FUnrealObjectRef.ofEntity e p.2) = some sg := by
  induction l with
  | nil => intro _ _ _ _ _ _ _ _ p hp; cases hp
  | cons q rest ih =>
    intro c c1 u hw hnn hobj hoff h p hp
    obtain ⟨so, off⟩ := q
    have hloop := h
    unfold AssignNewEntityActorNetGUID.loop at h
    obtain ⟨sg, s1, h1, h2⟩ := Result.bind_eq_ok.1 h
    obtain ⟨_, s2, h3, h4⟩ := Result.bind_eq_ok.1 h2
    obtain ⟨_, s3, h5, h6⟩ := Result.bind_eq_ok.1 h4
    have hso := hnn (so, off) (List.mem_cons_self _ _)
    have f1 := GetOrAssignNetGUID_SpatialGDK_ok env so c s1 sg h1 hso
    have e3 := RegisterObjectRef_ok h3
    have hw2 := RegisterObjectRef_after_GetOrAssign hso h1 h3 hw
    have hw3 := ResolvePendingOperations_wellFormed h5 hw2
    have x5 := ResolvePendingOperations_extends env s2 so (FUnrealObjectRef.ofEntity e off)
    rw [Result.state_of_eq_ok h5] at x5
    simp only [List.map_cons, List.nodup_cons, List.mem_map, not_exists, not_and] at hobj hoff
    rcases List.mem_cons.1 hp with hp | hp
    · subst hp
      refine ⟨sg, ?_⟩
      refine AssignNewEntityActorNetGUID_loop_keeps env e so sg
        (FUnrealObjectRef.ofEntity e off) rest s3 c1 u hw3
        (fun p hp => hnn p (List.mem_cons_of_mem _ hp))
        (fun p hp he => hobj.1 p hp he)
        (fun p hp he => hoff.1 p hp (FUnrealObjectRef.ofEntity_inj he).2) h6 ?_ ?_ ?_
      · apply x5.1
        rw [e3.2.2.1]
        exact f1.1
      · exact x5.2.2.1 _ _ e3.1
      · exact x5.2.2.2 _ _ e3.2.1
    · exact ih s3 c1 u hw3 (fun p hp => hnn p (List.mem_cons_of_mem _ hp)) hobj.2 hoff.2 h6
        p hp

/-- After `AssignNewEntityActorNetGUID` has returned the id `g` on a well-formed cache,
for distinct non-null objects and distinct non-zero offsets, the actor is associated with
`g`, the pair `g ↔ (e, 0)` is in both maps, and so is the pair of every sub-object, in
every build. -/
theorem AssignNewEntityActorNetGUID_registers {env : Env}
    {Actor : UObjectPtr} {SubobjectToOffset : List (UObjectPtr × Nat)}
    {c c1 : FSpatialNetGUIDCache} {g : FNetworkGUID} (hw : WellFormed c)
    (hnn : ∀ o ∈ Actor :: SubobjectToOffset.map Prod.fst, o ≠ UObjectPtr.nullptr)
    (hobj : (Actor :: SubobjectToOffset.map Prod.fst).Nodup)
    (hoff : (0 :: SubobjectToOffset.map Prod.snd).Nodup)
    (h : AssignNewEntityActorNetGUID env Actor SubobjectToOffset c = ok g c1) :
    (TMap.Find c1.NetGUIDLookup Actor = some g ∧
      TMap.Find c1.NetGUIDToUnrealObjectRef g =
        some (FUnrealObjectRef.ofEntity (env.GetEntityIdFromActor Actor) 0) ∧
      TMap.Find c1.UnrealObjectRefToNetGUID
        (FUnrealObjectRef.ofEntity (env.GetEntityIdFromActor Actor) 0) = some g) ∧
    ∀ p ∈ SubobjectToOffset, ∃ sg : FNetworkGUID,
      TMap.Find c1.NetGUIDLookup p.1 = some sg ∧
      TMap.Find c1.NetGUIDToUnrealObjectRef sg =
        some (FUnrealObjectRef.ofEntity (env.GetEntityIdFromActor Actor) p.2) ∧
      TMap.Find c1.UnrealObjectRefToNetGUID
        (FUnrealObjectRef.ofEntity (env.GetEntityIdFromActor Actor) p.2) = some sg := by
  unfold AssignNewEntityActorNetGUID at h
  simp only [] at h
  obtain ⟨_, s0, h0, h1⟩ := Result.bind_eq_ok.1 h
  obtain ⟨_, rfl⟩ := check_eq_ok.1 h0
  obtain ⟨g1, s1, h2, h3⟩ := Result.bind_eq_ok.1 h1
  obtain ⟨_, s2, h4, h5⟩ := Result.bind_eq_ok.1 h3
  obtain ⟨_, s3, h6, h7⟩ := Result.bind_eq_ok.1 h5
  obtain ⟨u4, s4, h8, h9⟩ := Result.bind_eq_ok.1 h7
  injection h9 with h10 h11
  subst h10; subst h11
  have hA : Actor ≠ UObjectPtr.nullptr := hnn Actor (List.mem_cons_self _ _)
  have hsub : ∀ p ∈ SubobjectToOffset, p.1 ≠ UObjectPtr.nullptr := fun p hp =>
    hnn p.1 (List.mem_cons_of_mem _ (List.mem_map_of_mem _ hp))
  have f1 := GetOrAssignNetGUID_SpatialGDK_ok env Actor s0 s1 g1 h2 hA
  have e1 := RegisterObjectRef_ok h4
  have hw2 := RegisterObjectRef_after_GetOrAssign hA h2 h4 hw
  have hw3 := ResolvePendingOperations_wellFormed h6 hw2
  have x2 := ResolvePendingOperations_extends env s2 Actor
    (FUnrealObjectRef.ofEntity (env.GetEntityIdFromActor Actor) 0)
  rw [Result.state_of_eq_ok h6] at x2
  simp only [List.nodup_cons, List.mem_map, not_exists, not_and] at hobj hoff
  exact ⟨AssignNewEntityActorNetGUID_loop_keeps env (env.GetEntityIdFromActor Actor)
    Actor g1 (FUnrealObjectRef.ofEntity (env.GetEntityIdFromActor Actor) 0)
    SubobjectToOffset s3 s4 u4 hw3 hsub
    (fun p hp he => hobj.1 p hp he)
    (fun p hp he => hoff.1 p hp (FUnrealObjectRef.ofEntity_inj he).2) h8
    (x2.1 _ _ (by rw [e1.2.2.1]; exact f1.1)) (x2.2.2.1 _ _ e1.1) (x2.2.2.2 _ _ e1.2.1),
    AssignNewEntityActorNetGUID_loop_registers env _ SubobjectToOffset
      s3 s4 u4 hw3 hsub hobj.2 hoff.2 h8⟩

/-- C6: let `AssignNewEntityActorNetGUID(actor, subobjectToOffset)` return the id `g`
for an actor with entity id `e`, on a well-formed cache, where the actor and the
sub-objects are distinct non-null objects and the offsets are distinct and non-zero.
Then, whether or not the build compiles the `checkSlow` lines in,
`GetNetGUIDFromEntityId(e) = g`, `GetUnrealObjectRefFromNetGUID(g) = (e, 0)`, `g` is the
id the actor is associated with, and for every `(subobject, offset)` pair of the map the
sub-object's id is mapped to `(e, offset)` and `(e, offset)` back to that id. -/
theorem C6_AssignNewEntityActorNetGUID_registers_root_and_subobjects (env : Env)
    (Actor : UObjectPtr) (SubobjectToOffset : List (UObjectPtr × Nat))
    (c c1 : FSpatialNetGUIDCache) (g : FNetworkGUID) (hw : WellFormed c)
    (hnn : ∀ o ∈ Actor :: SubobjectToOffset.map Prod.fst, o ≠ UObjectPtr.nullptr)
    (hobj : (Actor :: SubobjectToOffset.map Prod.fst).Nodup)
    (hoff : (0 :: SubobjectToOffset.map Prod.snd).Nodup)
    (h : AssignNewEntityActorNetGUID env Actor SubobjectToOffset c = ok g c1) :
    GetNetGUIDFromEntityId c1 (env.GetEntityIdFromActor Actor) = g ∧
    GetUnrealObjectRefFromNetGUID env c1 g =
      FUnrealObjectRef.ofEntity (env.GetEntityIdFromActor Actor) 0 ∧
    TMap.Find c1.NetGUIDLookup Actor = some g ∧
    ∀ p ∈ SubobjectToOffset, ∃ sg : FNetworkGUID,
      TMap.Find c1.NetGUIDLookup p.1 = some sg ∧
      TMap.Find c1.NetGUIDToUnrealObjectRef sg =
        some (FUnrealObjectRef.ofEntity (env.GetEntityIdFromActor Actor) p.2) ∧
      TMap.Find c1.UnrealObjectRefToNetGUID
        (FUnrealObjectRef.ofEntity (env.GetEntityIdFromActor Actor) p.2) = some sg := by
  obtain ⟨root, subs⟩ := AssignNewEntityActorNetGUID_registers hw hnn hobj hoff h
  refine ⟨?_, ?_, root.1, subs⟩
  · simp [GetNetGUIDFromEntityId, root.2.2]
  · simp [GetUnrealObjectRefFromNetGUID, root.2.1]

/-- C6 on a client with an empty cache, in a build without `DO_GUARD_SLOW`: `sampleActor`
(entity `3`) with its component at offset `1` gets id `2`, the component id `4`. -/
theorem C6_AssignNewEntityActorNetGUID_registers_root_and_subobjects_witness :
    AssignNewEntityActorNetGUID sampleClientEnv sampleActor [(sampleComponent, 1)]
        FSpatialNetGUIDCache.empty = ok ⟨2⟩ sampleCacheAfterAssign ∧
      GetNetGUIDFromEntityId sampleCacheAfterAssign 3 = ⟨2⟩ ∧
      GetUnrealObjectRefFromNetGUID sampleClientEnv sampleCacheAfterAssign ⟨2⟩ =
        FUnrealObjectRef.ofEntity 3 0 ∧
      TMap.Find sampleCacheAfterAssign.NetGUIDLookup sampleActor = some ⟨2⟩ ∧
      TMap.Find sampleCacheAfterAssign.NetGUIDToUnrealObjectRef ⟨4⟩ =
        some (FUnrealObjectRef.ofEntity 3 1) ∧
      TMap.Find sampleCacheAfterAssign.UnrealObjectRefToNetGUID
        (FUnrealObjectRef.ofEntity 3 1) = some ⟨4⟩ :=
  have h := C6_AssignNewEntityActorNetGUID_registers_root_and_subobjects sampleClientEnv
    sampleActor [(sampleComponent, 1)] FSpatialNetGUIDCache.empty sampleCacheAfterAssign ⟨2⟩
    WellFormed_empty (by decide) (by decide) (by decide) (by decide)
  ⟨by decide, h.1, h.2.1, h.2.2.1, by decide, by decide⟩

/-! ## Calls of `ResolvePendingOperations` -/

theorem SameResolveCalls.noCalls (c : FSpatialNetGUIDCache) : SameResolveCalls c c := rfl

theorem SameResolveCalls.thenCalls {a b c : FSpatialNetGUIDCache} (h1 : SameResolveCalls a b)
    (h2 : SameResolveCalls b c) : SameResolveCalls a c :=
  h2.trans h1

theorem SameResolveCalls.thenCalls3 : ∀ a b c : FSpatialNetGUIDCache,
    SameResolveCalls a b → SameResolveCalls b c → SameResolveCalls a c :=
  fun _ _ _ h1 h2 => h1.thenCalls h2

theorem GenerateNewNetGUID_sameCalls (c : FSpatialNetGUIDCache) (s : Fin 2) :
    SameResolveCalls c (GenerateNewNetGUID c s).2 := by
  unfold GenerateNewNetGUID
  split <;> rfl

theorem RegisterNetGUID_Internal_sameCalls (c : FSpatialNetGUIDCache) (g : FNetworkGUID)
    (o : FNetGuidCacheObject) : SameResolveCalls c (RegisterNetGUID_Internal c g o).state := by
  unfold RegisterNetGUID_Internal
  refine check_bind_pred (SameResolveCalls.noCalls c) (fun _ => ?_)
  simp only []
  split
  · rfl
  · exact check_bind_pred rfl (fun _ => rfl)

theorem GetOrAssignNetGUID_sameCalls (env : Env) (o : UObjectPtr) :
    ∀ c, SameResolveCalls c (GetOrAssignNetGUID env o c).state := by
  induction o with
  | nullptr => intro c; rfl
  | obj a n d outer ih =>
    intro c
    unfold GetOrAssignNetGUID
    simp only []
    split
    · rfl
    split
    · rfl
    refine (GenerateNewNetGUID_sameCalls c (if d then 0 else 1)).thenCalls ?_
    refine check_bind_pred (SameResolveCalls.noCalls _) (fun _ => ?_)
    refine check_bind_pred (SameResolveCalls.noCalls _) (fun _ => ?_)
    refine Result.bind_rel SameResolveCalls.thenCalls3 (ih _) (fun v s _ => ?_)
    exact Result.bind_rel SameResolveCalls.thenCalls3 (RegisterNetGUID_Internal_sameCalls _ _ _)
      (fun _ s3 _ => SameResolveCalls.noCalls _)

theorem GetOrAssignNetGUID_SpatialGDK_sameCalls (env : Env) (o : UObjectPtr) :
    ∀ c, SameResolveCalls c (GetOrAssignNetGUID_SpatialGDK env o c).state := by
  induction o with
  | nullptr =>
    intro c
    unfold GetOrAssignNetGUID_SpatialGDK
    refine Result.bind_rel SameResolveCalls.thenCalls3 (GetOrAssignNetGUID_sameCalls _ _ _)
      (fun v s _ => ?_)
    exact check_bind_pred (SameResolveCalls.noCalls _) (fun _ => SameResolveCalls.noCalls _)
  | obj a n d outer ih =>
    intro c
    unfold GetOrAssignNetGUID_SpatialGDK
    refine Result.bind_rel SameResolveCalls.thenCalls3 (GetOrAssignNetGUID_sameCalls _ _ _)
      (fun v s _ => ?_)
    refine Result.bind_rel SameResolveCalls.thenCalls3 ?_
      (fun v2 s2 _ =>
        check_bind_pred (SameResolveCalls.noCalls _) (fun _ => SameResolveCalls.noCalls _))
    split
    · refine (GenerateNewNetGUID_sameCalls s (if d then 0 else 1)).thenCalls ?_
      refine Result.bind_rel SameResolveCalls.thenCalls3 (ih _) (fun v3 s3 _ => ?_)
      exact Result.bind_rel SameResolveCalls.thenCalls3
        (RegisterNetGUID_Internal_sameCalls _ _ _) (fun _ s3 _ => SameResolveCalls.noCalls _)
    · exact SameResolveCalls.noCalls _

theorem RegisterObjectRef_sameCalls (env : Env) (c : FSpatialNetGUIDCache)
    (g : FNetworkGUID)
    (r : FUnrealObjectRef) : SameResolveCalls c (RegisterObjectRef env c g r).state := by
  rw [RegisterObjectRef_eq]
  split <;> rfl

theorem AssignNewStablyNamedObjectNetGUID_sameCalls (env : Env) (o : UObjectPtr) :
    ∀ c, SameResolveCalls c (AssignNewStablyNamedObjectNetGUID env o c).state := by
  induction o with
  | nullptr =>
    intro c
    unfold AssignNewStablyNamedObjectNetGUID
    refine Result.bind_rel SameResolveCalls.thenCalls3
      (GetOrAssignNetGUID_SpatialGDK_sameCalls _ _ _) (fun v s _ => ?_)
    split <;> rfl
  | obj a n d outer ih =>
    intro c
    unfold AssignNewStablyNamedObjectNetGUID
    refine Result.bind_rel SameResolveCalls.thenCalls3
      (GetOrAssignNetGUID_SpatialGDK_sameCalls _ _ _) (fun v s _ => ?_)
    split
    · rfl
    · refine Result.bind_rel SameResolveCalls.thenCalls3 ?_ (fun v2 s2 _ => ?_)
      · split
        · rfl
        · exact ih s
      · exact Result.bind_rel SameResolveCalls.thenCalls3 (RegisterObjectRef_sameCalls _ _ _ _)
          (fun _ s3 _ => SameResolveCalls.noCalls _)

theorem RegisterNetGUIDFromPathForStaticObject_sameCalls (c : FSpatialNetGUIDCache)
    (p : String) (g : FNetworkGUID) :
    SameResolveCalls c (RegisterNetGUIDFromPathForStaticObject c p g).state := by
  unfold RegisterNetGUIDFromPathForStaticObject
  refine (GenerateNewNetGUID_sameCalls c 0).thenCalls ?_
  exact Result.bind_rel SameResolveCalls.thenCalls3 (RegisterNetGUID_Internal_sameCalls _ _ _)
    (fun _ s3 _ => SameResolveCalls.noCalls _)

theorem GetNetGUIDFromUnrealObjectRefInternal_sameCalls (env : Env)
    (recurse : FUnrealObjectRef → FSpatialNetGUIDCache → CacheResult FNetworkGUID)
    (hrec : ∀ r c, SameResolveCalls c (recurse r c).state)
    (r : FUnrealObjectRef) (c : FSpatialNetGUIDCache) :
    SameResolveCalls c (GetNetGUIDFromUnrealObjectRefInternal env recurse r c).state := by
  unfold GetNetGUIDFromUnrealObjectRefInternal
  simp only []
  split
  · refine Result.bind_rel SameResolveCalls.thenCalls3 ?_ (fun v s _ => ?_)
    · split
      · exact hrec _ _
      · rfl
    · refine Result.bind_rel SameResolveCalls.thenCalls3
        (RegisterNetGUIDFromPathForStaticObject_sameCalls _ _ _) (fun v2 s2 _ => ?_)
      exact Result.bind_rel SameResolveCalls.thenCalls3 (RegisterObjectRef_sameCalls _ _ _ _)
        (fun _ s3 _ => SameResolveCalls.noCalls _)
  · rfl

theorem GetNetGUIDFromUnrealObjectRefFuel_sameCalls (env : Env) (fuel : Nat) :
    ∀ r c, SameResolveCalls c (GetNetGUIDFromUnrealObjectRefFuel env fuel r c).state := by
  induction fuel with
  | zero => intro r c; rfl
  | succ k ih =>
    intro r c
    unfold GetNetGUIDFromUnrealObjectRefFuel
    exact GetNetGUIDFromUnrealObjectRefInternal_sameCalls env _ ih _ _

theorem GetNetGUIDFromUnrealObjectRef_sameCalls (env : Env) (r : FUnrealObjectRef)
    (c : FSpatialNetGUIDCache) :
    SameResolveCalls c (GetNetGUIDFromUnrealObjectRef env r c).state :=
  GetNetGUIDFromUnrealObjectRefFuel_sameCalls env _ r c
theorem HasRecord.of_extends {c c1 : FSpatialNetGUIDCache} {r : FUnrealObjectRef}
    (h : HasRecord c r) (he : Extends c c1) : HasRecord c1 r := by
  obtain ⟨g, h1, h2⟩ := h
  exact ⟨g, he.2.2.1 _ _ h1, he.2.2.2 _ _ h2⟩

theorem ResolvesRegistered.of_sameCalls {c c1 : FSpatialNetGUIDCache} (he : Extends c c1)
    (hs : SameResolveCalls c c1) : ResolvesRegistered c c1 :=
  ⟨he, [], by rw [hs, List.append_nil], by intro p hp; cases hp⟩

theorem ResolvesRegistered.compose_calls : ∀ a b c : FSpatialNetGUIDCache,
    ResolvesRegistered a b → ResolvesRegistered b c → ResolvesRegistered a c := by
  rintro a b c ⟨he1, l1, hl1, hr1⟩ ⟨he2, l2, hl2, hr2⟩
  refine ⟨he1.compose he2, l1 ++ l2, by rw [hl2, hl1, List.append_assoc], ?_⟩
  intro p hp
  rcases List.mem_append.1 hp with h | h
  · exact (hr1 p h).of_extends he2
  · exact hr2 p h

theorem ResolvePendingOperations_resolvesRegistered (env : Env) (c : FSpatialNetGUIDCache)
    (o : UObjectPtr) (r : FUnrealObjectRef) (h : HasRecord c r) :
    ResolvesRegistered c (ResolvePendingOperations env c o r).state := by
  unfold ResolvePendingOperations
  split
  · refine ⟨⟨fun _ _ h => h, fun _ _ h => h, fun _ _ h => h, fun _ _ h => h⟩, [(o, r)], rfl, ?_⟩
    intro p hp
    rw [List.mem_singleton] at hp
    subst hp
    exact h
  · split <;> exact ResolvesRegistered.of_sameCalls (Extends.self _) rfl

theorem AssignNewEntityActorNetGUID_loop_resolvesRegistered (env : Env)
    (hSlow : env.DO_GUARD_SLOW = true) (e : Worker_EntityId)
    (l : List (UObjectPtr × Nat)) :
    ∀ c, ResolvesRegistered c (AssignNewEntityActorNetGUID.loop env e l c).state := by
  induction l with
  | nil => intro c; exact ResolvesRegistered.of_sameCalls (Extends.self _) rfl
  | cons p rest ih =>
    intro c
    obtain ⟨so, off⟩ := p
    unfold AssignNewEntityActorNetGUID.loop
    refine Result.bind_rel ResolvesRegistered.compose_calls
      (ResolvesRegistered.of_sameCalls (GetOrAssignNetGUID_SpatialGDK_extends _ _ _)
        (GetOrAssignNetGUID_SpatialGDK_sameCalls _ _ _)) (fun v s _ => ?_)
    refine Result.bind_rel ResolvesRegistered.compose_calls
      (ResolvesRegistered.of_sameCalls ((RegisterObjectRef_extends _ _ _ _).2 hSlow)
        (RegisterObjectRef_sameCalls _ _ _ _)) (fun v2 s2 h2 => ?_)
    have hreg := RegisterObjectRef_ok h2
    refine Result.bind_rel ResolvesRegistered.compose_calls
      (ResolvePendingOperations_resolvesRegistered _ _ _ _ ⟨v, hreg.1, hreg.2.1⟩)
      (fun v3 s3 _ => ?_)
    exact ih s3

theorem AssignNewEntityActorNetGUID_resolvesRegistered (env : Env)
    (hSlow : env.DO_GUARD_SLOW = true) (Actor : UObjectPtr)
    (l : List (UObjectPtr × Nat)) (c : FSpatialNetGUIDCache) :
    ResolvesRegistered c (AssignNewEntityActorNetGUID env Actor l c).state := by
  unfold AssignNewEntityActorNetGUID
  simp only []
  refine check_bind_pred (ResolvesRegistered.of_sameCalls (Extends.self _) rfl) (fun _ => ?_)
  refine Result.bind_rel ResolvesRegistered.compose_calls
    (ResolvesRegistered.of_sameCalls (GetOrAssignNetGUID_SpatialGDK_extends _ _ _)
      (GetOrAssignNetGUID_SpatialGDK_sameCalls _ _ _)) (fun v s _ => ?_)
  refine Result.bind_rel ResolvesRegistered.compose_calls
    (ResolvesRegistered.of_sameCalls ((RegisterObjectRef_extends _ _ _ _).2 hSlow)
      (RegisterObjectRef_sameCalls _ _ _ _)) (fun v2 s2 h2 => ?_)
  have hreg := RegisterObjectRef_ok h2
  refine Result.bind_rel ResolvesRegistered.compose_calls
    (ResolvePendingOperations_resolvesRegistered _ _ _ _ ⟨v, hreg.1, hreg.2.1⟩)
    (fun v3 s3 _ => ?_)
  exact Result.bind_rel ResolvesRegistered.compose_calls
    (AssignNewEntityActorNetGUID_loop_resolvesRegistered _ hSlow _ _ _)
    (fun _ s4 _ => ResolvesRegistered.of_sameCalls (Extends.self _) rfl)

theorem Result.bind_assoc {σ α β γ : Type} (r : Result σ α) (f : α → σ → Result σ β)
    (k : β → σ → Result σ γ) :
    (r.bind f).bind k = r.bind fun v s => (f v s).bind k := by
  cases r <;> rfl

/-- The loop of `AssignNewEntityActorNetGUID` over a list is the loop over a front part
followed by the loop over the rest. -/
theorem AssignNewEntityActorNetGUID_loop_append (env : Env) (e : Worker_EntityId)
    (l1 l2 : List (UObjectPtr × Nat)) :
    ∀ c, AssignNewEntityActorNetGUID.loop env e (l1 ++ l2) c =
      (AssignNewEntityActorNetGUID.loop env e l1 c).bind fun _ s =>
        AssignNewEntityActorNetGUID.loop env e l2 s := by
  induction l1 with
  | nil => intro c; rfl
  | cons q rest ih =>
    intro c
    obtain ⟨so, off⟩ := q
    simp only [List.cons_append, List.append_eq, AssignNewEntityActorNetGUID.loop,
      Result.bind_assoc, ih]

/-- A call of `AssignNewEntityActorNetGUID` that returns has passed through the state the
call returns with on a front part of the list. -/
theorem AssignNewEntityActorNetGUID_front {env : Env} {Actor : UObjectPtr}
    {l1 l2 : List (UObjectPtr × Nat)} {c c1 : FSpatialNetGUIDCache} {g : FNetworkGUID}
    (h : AssignNewEntityActorNetGUID env Actor (l1 ++ l2) c = ok g c1) :
    ∃ s, AssignNewEntityActorNetGUID env Actor l1 c = ok g s ∧
      AssignNewEntityActorNetGUID.loop env (env.GetEntityIdFromActor Actor) l2 s = ok () c1 := by
  unfold AssignNewEntityActorNetGUID at h ⊢
  simp only [] at h ⊢
  obtain ⟨_, s0, h0, h1⟩ := Result.bind_eq_ok.1 h
  obtain ⟨g1, s1, h2, h3⟩ := Result.bind_eq_ok.1 h1
  obtain ⟨_, s2, h4, h5⟩ := Result.bind_eq_ok.1 h3
  obtain ⟨_, s3, h6, h7⟩ := Result.bind_eq_ok.1 h5
  obtain ⟨u4, s4, h8, h9⟩ := Result.bind_eq_ok.1 h7
  injection h9 with h10 h11
  subst h10; subst h11
  rw [AssignNewEntityActorNetGUID_loop_append] at h8
  obtain ⟨_, s, ha, hb⟩ := Result.bind_eq_ok.1 h8
  refine ⟨s, ?_, hb⟩
  rw [h0]
  simp only [Result.bind, h2, h4, h6, ha]

/-- When `AssignNewEntityActorNetGUID` returns, the reference of the last pair of the
list (of the actor, for an empty list) has its record in both maps. -/
theorem AssignNewEntityActorNetGUID_last {env : Env} {Actor : UObjectPtr}
    {l : List (UObjectPtr × Nat)} {c c1 : FSpatialNetGUIDCache} {g : FNetworkGUID}
    (h : AssignNewEntityActorNetGUID env Actor l c = ok g c1) :
    ∀ q ∈ (EntityResolveCalls env Actor l).getLast?, HasRecord c1 q.2 := by
  rcases List.eq_nil_or_concat l with hl | ⟨l1, p, hl⟩
  · subst hl
    unfold AssignNewEntityActorNetGUID at h
    simp only [] at h
    obtain ⟨_, s0, h0, h1⟩ := Result.bind_eq_ok.1 h
    obtain ⟨g1, s1, h2, h3⟩ := Result.bind_eq_ok.1 h1
    obtain ⟨_, s2, h4, h5⟩ := Result.bind_eq_ok.1 h3
    obtain ⟨_, s3, h6, h7⟩ := Result.bind_eq_ok.1 h5
    obtain ⟨u4, s4, h8, h9⟩ := Result.bind_eq_ok.1 h7
    unfold AssignNewEntityActorNetGUID.loop at h8
    injection h8 with _ h8
    injection h9 with h10 h11
    subst h8; subst h10; subst h11
    have e1 := RegisterObjectRef_ok h4
    have x2 := ResolvePendingOperations_extends env s2 Actor
      (FUnrealObjectRef.ofEntity (env.GetEntityIdFromActor Actor) 0)
    rw [Result.state_of_eq_ok h6] at x2
    intro q hq
    simp only [EntityResolveCalls, List.map_nil, List.getLast?_singleton,
      Option.mem_def, Option.some.injEq] at hq
    subst hq
    exact ⟨g1, x2.2.2.1 _ _ e1.1, x2.2.2.2 _ _ e1.2.1⟩
  · subst hl
    rw [List.concat_eq_append] at h ⊢
    obtain ⟨s, _, hb⟩ := AssignNewEntityActorNetGUID_front h
    obtain ⟨so, off⟩ := p
    unfold AssignNewEntityActorNetGUID.loop at hb
    obtain ⟨sg, s1, h1, h2⟩ := Result.bind_eq_ok.1 hb
    obtain ⟨_, s2, h3, h4⟩ := Result.bind_eq_ok.1 h2
    obtain ⟨_, s3, h5, h6⟩ := Result.bind_eq_ok.1 h4
    unfold AssignNewEntityActorNetGUID.loop at h6
    injection h6 with _ h6
    subst h6
    have e3 := RegisterObjectRef_ok h3
    have x5 := ResolvePendingOperations_extends env s2 so
      (FUnrealObjectRef.ofEntity (env.GetEntityIdFromActor Actor) off)
    rw [Result.state_of_eq_ok h5] at x5
    intro q hq
    simp only [EntityResolveCalls, List.map_append, List.map_cons, List.map_nil,
      ← List.cons_append, List.getLast?_append, List.getLast?_singleton, Option.or,
      Option.mem_def, Option.some.injEq] at hq
    subst hq
    exact ⟨sg, x5.2.2.1 _ _ e3.1, x5.2.2.2 _ _ e3.2.1⟩

theorem ResolvePendingOperations_calls {env : Env} {c c1 : FSpatialNetGUIDCache}
    {o : UObjectPtr} {r : FUnrealObjectRef} {u : Unit} (hr : env.bReceiver = true)
    (h : ResolvePendingOperations env c o r = ok u c1) :
    c1.ResolveCalls = c.ResolveCalls ++ [(o, r)] := by
  unfold ResolvePendingOperations at h
  rw [if_pos hr] at h
  injection h with _ h2
  subst h2
  rfl

theorem AssignNewEntityActorNetGUID_loop_calls (env : Env) (hr : env.bReceiver = true)
    (e : Worker_EntityId) (l : List (UObjectPtr × Nat)) :
    ∀ c c1 u, AssignNewEntityActorNetGUID.loop env e l c = ok u c1 →
      c1.ResolveCalls =
        c.ResolveCalls ++ l.map fun p => (p.1, FUnrealObjectRef.ofEntity e p.2) := by
  induction l with
  | nil =>
    intro c c1 u h
    unfold AssignNewEntityActorNetGUID.loop at h
    injection h with _ h2
    subst h2
    simp
  | cons p rest ih =>
    intro c c1 u h
    obtain ⟨so, off⟩ := p
    unfold AssignNewEntityActorNetGUID.loop at h
    obtain ⟨g, s1, h1, h⟩ := Result.bind_eq_ok.1 h
    obtain ⟨u2, s2, h2, h⟩ := Result.bind_eq_ok.1 h
    obtain ⟨u3, s3, h3, h⟩ := Result.bind_eq_ok.1 h
    have e1 := Result.state_of_eq_ok h1 ▸ GetOrAssignNetGUID_SpatialGDK_sameCalls env so c
    have e2 := Result.state_of_eq_ok h2 ▸ RegisterObjectRef_sameCalls env s1 g _
    have e3 := ResolvePendingOperations_calls hr h3
    rw [ih s3 c1 u h, e3, e2, e1]
    simp

theorem AssignNewEntityActorNetGUID_calls {env : Env} (hr : env.bReceiver = true)
    {Actor : UObjectPtr} {l : List (UObjectPtr × Nat)} {c c1 : FSpatialNetGUIDCache}
    {g : FNetworkGUID} (h : AssignNewEntityActorNetGUID env Actor l c = ok g c1) :
    c1.ResolveCalls = c.ResolveCalls ++ EntityResolveCalls env Actor l := by
  unfold AssignNewEntityActorNetGUID at h
  simp only [] at h
  obtain ⟨u0, s0, h0, k1⟩ := Result.bind_eq_ok.1 h
  obtain ⟨_, hs0⟩ := check_eq_ok.1 h0
  obtain ⟨g1, s1, h1, k2⟩ := Result.bind_eq_ok.1 k1
  obtain ⟨u2, s2, h2, k3⟩ := Result.bind_eq_ok.1 k2
  obtain ⟨u3, s3, h3, k4⟩ := Result.bind_eq_ok.1 k3
  obtain ⟨u4, s4, h4, k5⟩ := Result.bind_eq_ok.1 k4
  injection k5 with _ h5
  have e1 := Result.state_of_eq_ok h1 ▸ GetOrAssignNetGUID_SpatialGDK_sameCalls env Actor s0
  have e2 := Result.state_of_eq_ok h2 ▸ RegisterObjectRef_sameCalls env s1 g1 _
  have e3 := ResolvePendingOperations_calls hr h3
  rw [← h5, AssignNewEntityActorNetGUID_loop_calls env hr _ l s3 s4 u4 h4, e3, e2, e1, hs0]
  simp [EntityResolveCalls]
/-- C11 as stated fails: on a client with a receiver and an empty cache,
`AssignNewStablyNamedObjectNetGUID(sampleLevel)` succeeds and registers the new record
`3 ↔ {path "Level", outer {path "Pkg"}}`, and the path branch of
`GetNetGUIDFromUnrealObjectRef` registers the new record `2 ↔ {path "Map"}`, yet neither
call reaches `Receiver->ResolvePendingOperations`: the log of calls stays empty. -/
theorem C11_path_registrations_trigger_no_resolution :
    sampleClientEnv.bReceiver = true ∧
      (AssignNewStablyNamedObjectNetGUID sampleClientEnv sampleLevel
        FSpatialNetGUIDCache.empty).isOk = true ∧
      TMap.Find FSpatialNetGUIDCache.empty.UnrealObjectRefToNetGUID
        (FUnrealObjectRef.ofPath 0 0 "Level"
          (FUnrealObjectRef.ofPath 0 0 "Pkg" FUnrealObjectRef.empty)) = none ∧
      TMap.Find sampleCacheAfterStable.UnrealObjectRefToNetGUID
        (FUnrealObjectRef.ofPath 0 0 "Level"
          (FUnrealObjectRef.ofPath 0 0 "Pkg" FUnrealObjectRef.empty)) = some ⟨3⟩ ∧
      TMap.Find sampleCacheAfterStable.NetGUIDToUnrealObjectRef ⟨3⟩ =
        some (FUnrealObjectRef.ofPath 0 0 "Level"
          (FUnrealObjectRef.ofPath 0 0 "Pkg" FUnrealObjectRef.empty)) ∧
      sampleCacheAfterStable.ResolveCalls = [] ∧
      (GetNetGUIDFromUnrealObjectRef sampleClientEnv
        (FUnrealObjectRef.ofPath 0 0 "Map" FUnrealObjectRef.empty)
        FSpatialNetGUIDCache.empty).state.UnrealObjectRefToNetGUID =
          [(FUnrealObjectRef.ofPath 0 0 "Map" FUnrealObjectRef.empty, ⟨2⟩)] ∧
      (GetNetGUIDFromUnrealObjectRef sampleClientEnv
        (FUnrealObjectRef.ofPath 0 0 "Map" FUnrealObjectRef.empty)
        FSpatialNetGUIDCache.empty).state.ResolveCalls = [] := by
  decide!

/-- C11 (amended): deferred resolution is triggered by `AssignNewEntityActorNetGUID`
alone. With a receiver present, a successful call makes exactly one
`Receiver->ResolvePendingOperations` call for the actor at offset `0` and then one per
pair of `SubobjectToOffset`, in order. Each call is made after its record has been
registered, in every build: for every front part of the list the call passes through the
state it returns with on that front part, where the log ends with the call for the
last pair of the front part (for the actor, when it is empty) and that reference has its
record in both maps. At the end of the call every resolved reference has its record in
both maps, in a build with `DO_GUARD_SLOW` and, in every build, on a well-formed cache
for distinct non-null objects and distinct non-zero offsets; in a build with
`DO_GUARD_SLOW`, however the call ends, no reference is logged without its record.
`AssignNewStablyNamedObjectNetGUID` and `GetNetGUIDFromUnrealObjectRef` register their
records without any call to the receiver. -/
theorem C11_AssignNewEntityActorNetGUID_alone_triggers_resolution (env : Env)
    (Actor : UObjectPtr) (SubobjectToOffset : List (UObjectPtr × Nat))
    (c c1 : FSpatialNetGUIDCache) (NetGUID : FNetworkGUID) (o : UObjectPtr)
    (r : FUnrealObjectRef) (hr : env.bReceiver = true)
    (h : AssignNewEntityActorNetGUID env Actor SubobjectToOffset c = ok NetGUID c1) :
    c1.ResolveCalls = c.ResolveCalls ++ EntityResolveCalls env Actor SubobjectToOffset ∧
      (∀ l1 l2, SubobjectToOffset = l1 ++ l2 → ∃ s,
        AssignNewEntityActorNetGUID env Actor l1 c = ok NetGUID s ∧
        AssignNewEntityActorNetGUID.loop env (env.GetEntityIdFromActor Actor) l2 s =
          ok () c1 ∧
        s.ResolveCalls = c.ResolveCalls ++ EntityResolveCalls env Actor l1 ∧
        ∀ q ∈ (EntityResolveCalls env Actor l1).getLast?, HasRecord s q.2) ∧
      ((env.DO_GUARD_SLOW = true ∨
          (WellFormed c ∧
            (∀ x ∈ Actor :: SubobjectToOffset.map Prod.fst, x ≠ UObjectPtr.nullptr) ∧
            (Actor :: SubobjectToOffset.map Prod.fst).Nodup ∧
            (0 :: SubobjectToOffset.map Prod.snd).Nodup)) →
        ∀ p ∈ EntityResolveCalls env Actor SubobjectToOffset, HasRecord c1 p.2) ∧
      (env.DO_GUARD_SLOW = true → ∀ Actor2 l2 c2,
        ResolvesRegistered c2 (AssignNewEntityActorNetGUID env Actor2 l2 c2).state) ∧
      (AssignNewStablyNamedObjectNetGUID env o c).state.ResolveCalls = c.ResolveCalls ∧
      (GetNetGUIDFromUnrealObjectRef env r c).state.ResolveCalls = c.ResolveCalls := by
  have hcalls := AssignNewEntityActorNetGUID_calls hr h
  refine ⟨hcalls, ?_, ?_,
    fun hSlow a l2 c2 => AssignNewEntityActorNetGUID_resolvesRegistered env hSlow a l2 c2,
    AssignNewStablyNamedObjectNetGUID_sameCalls env o c,
    GetNetGUIDFromUnrealObjectRef_sameCalls env r c⟩
  · intro l1 l2 hl
    subst hl
    obtain ⟨s, hs, hrest⟩ := AssignNewEntityActorNetGUID_front h
    exact ⟨s, hs, hrest, AssignNewEntityActorNetGUID_calls hr hs,
      AssignNewEntityActorNetGUID_last hs⟩
  · rintro (hSlow | ⟨hw, hnn, hobj, hoff⟩)
    · have hreg :=
        AssignNewEntityActorNetGUID_resolvesRegistered env hSlow Actor SubobjectToOffset c
      rw [Result.state_of_eq_ok h] at hreg
      obtain ⟨_, calls, hc, hrec⟩ := hreg
      have : calls = EntityResolveCalls env Actor SubobjectToOffset :=
        List.append_cancel_left (hc.symm.trans hcalls)
      rw [← this]
      exact hrec
    · obtain ⟨root, subs⟩ := AssignNewEntityActorNetGUID_registers hw hnn hobj hoff h
      intro p hp
      simp only [EntityResolveCalls, List.mem_cons, List.mem_map] at hp
      rcases hp with hp | ⟨q, hq, hp⟩
      · subst hp
        exact ⟨NetGUID, root.2.1, root.2.2⟩
      · subst hp
        obtain ⟨sg, _, h1, h2⟩ := subs q hq
        exact ⟨sg, h1, h2⟩

/-- C11 (amended) on a client with an empty cache: registering `sampleActor` (entity `3`)
with its component at offset `1` logs the two calls, in order, and both references have
their records at the end; the call passes through the state after the actor alone, where
the log holds the call for the actor, whose record is there; resolving `sampleLevel` or
looking up a path logs no call; and in the build with `DO_GUARD_SLOW` no reference is
logged without its record. -/
theorem C11_AssignNewEntityActorNetGUID_alone_triggers_resolution_witness :
    sampleCacheAfterAssign.ResolveCalls =
        [(sampleActor, FUnrealObjectRef.ofEntity 3 0),
         (sampleComponent, FUnrealObjectRef.ofEntity 3 1)] ∧
      (∃ s, AssignNewEntityActorNetGUID sampleClientEnv sampleActor []
          FSpatialNetGUIDCache.empty = ok ⟨2⟩ s ∧
        AssignNewEntityActorNetGUID.loop sampleClientEnv
          (sampleClientEnv.GetEntityIdFromActor sampleActor) [(sampleComponent, 1)] s =
            ok () sampleCacheAfterAssign ∧
        s.ResolveCalls = FSpatialNetGUIDCache.empty.ResolveCalls ++
          EntityResolveCalls sampleClientEnv sampleActor [] ∧
        ∀ q ∈ (EntityResolveCalls sampleClientEnv sampleActor []).getLast?,
          HasRecord s q.2) ∧
      HasRecord sampleCacheAfterAssign (FUnrealObjectRef.ofEntity 3 0) ∧
      HasRecord sampleCacheAfterAssign (FUnrealObjectRef.ofEntity 3 1) ∧
      ResolvesRegistered FSpatialNetGUIDCache.empty
        (AssignNewEntityActorNetGUID sampleDebugEnv sampleActor [(sampleComponent, 0)]
          FSpatialNetGUIDCache.empty).state ∧
      (AssignNewStablyNamedObjectNetGUID sampleClientEnv sampleLevel
        FSpatialNetGUIDCache.empty).state.ResolveCalls = [] ∧
      (GetNetGUIDFromUnrealObjectRef sampleClientEnv
        (FUnrealObjectRef.ofPath 0 0 "Map" FUnrealObjectRef.empty)
        FSpatialNetGUIDCache.empty).state.ResolveCalls = [] :=
  have h := C11_AssignNewEntityActorNetGUID_alone_triggers_resolution sampleClientEnv
    sampleActor [(sampleComponent, 1)] FSpatialNetGUIDCache.empty sampleCacheAfterAssign ⟨2⟩
    sampleLevel (FUnrealObjectRef.ofPath 0 0 "Map" FUnrealObjectRef.empty) rfl (by decide)
  have hrec := h.2.2.1 (Or.inr ⟨WellFormed_empty, by decide, by decide, by decide⟩)
  have hd := C11_AssignNewEntityActorNetGUID_alone_triggers_resolution sampleDebugEnv
    sampleActor [(sampleComponent, 1)] FSpatialNetGUIDCache.empty sampleCacheAfterAssign ⟨2⟩
    sampleLevel (FUnrealObjectRef.ofPath 0 0 "Map" FUnrealObjectRef.empty) rfl (by decide)
  ⟨h.1, h.2.1 [] [(sampleComponent, 1)] rfl,
    hrec (sampleActor, FUnrealObjectRef.ofEntity 3 0) (by decide),
    hrec (sampleComponent, FUnrealObjectRef.ofEntity 3 1) (by decide),
    hd.2.2.2.1 rfl sampleActor [(sampleComponent, 0)] FSpatialNetGUIDCache.empty,
    h.2.2.2.2.1, h.2.2.2.2.2⟩

/-! ## Player-spawn retries -/

/-- What holds of every world reached from `SpawnerWorld.start`. -/
theorem SpawnerWorld.run_invariant (env : SpawnerEnv)
    (h1 : 1 ≤ env.MAX_NUMBER_COMMAND_ATTEMPTS) (h2 : env.MAX_NUMBER_COMMAND_ATTEMPTS < 2147483648)
    (events : List SpawnerEvent) :
    ∀ w : SpawnerWorld,
      (0 ≤ w.Spawner.NumberOfAttempts ∧
        w.Spawner.NumberOfAttempts + w.Spawner.RetryTimers.length ≤
          env.MAX_NUMBER_COMMAND_ATTEMPTS ∧
        w.Spawner.RetryTimers.length + w.Outstanding ≤ 1 ∧
        (w.Spawner.EntityQueries : Int) = w.Spawner.NumberOfAttempts) →
      (0 ≤ (SpawnerWorld.run env events w).Spawner.NumberOfAttempts ∧
        (SpawnerWorld.run env events w).Spawner.NumberOfAttempts +
            (SpawnerWorld.run env events w).Spawner.RetryTimers.length ≤
          env.MAX_NUMBER_COMMAND_ATTEMPTS ∧
        (SpawnerWorld.run env events w).Spawner.RetryTimers.length +
          (SpawnerWorld.run env events w).Outstanding ≤ 1 ∧
        ((SpawnerWorld.run env events w).Spawner.EntityQueries : Int) =
          (SpawnerWorld.run env events w).Spawner.NumberOfAttempts) := by
  induction events with
  | nil => intro w h; exact h
  | cons e rest ih =>
    intro w h
    obtain ⟨ha, hb, hc, hd⟩ := h
    show _ ∧ _ ∧ _ ∧ _
    unfold SpawnerWorld.run
    rw [List.foldl_cons]
    refine ih _ ?_
    cases e with
    | response st =>
      unfold SpawnerWorld.step
      by_cases ho : w.Outstanding = 0
      · simp only [ho, if_true]
        exact ⟨ha, hb, by omega, hd⟩
      · simp only [ho, if_false]
        unfold USpatialPlayerSpawner.ReceivePlayerSpawnResponse
        by_cases hs : st = env.WORKER_STATUS_CODE_SUCCESS
        · simp only [hs, if_true]
          exact ⟨ha, hb, by omega, hd⟩
        · simp only [hs, if_false]
          by_cases hlt : (w.Spawner.NumberOfAttempts % 4294967296).toNat <
              env.MAX_NUMBER_COMMAND_ATTEMPTS
          · simp only [hlt, if_true, List.length_append, List.length_singleton]
            refine ⟨ha, ?_, by omega, hd⟩
            have : w.Spawner.RetryTimers.length = 0 := by omega
            rw [this]
            omega
          · simp only [hlt, if_false]
            exact ⟨ha, hb, by omega, hd⟩
    | timer =>
      unfold SpawnerWorld.step
      cases ht : w.Spawner.RetryTimers with
      | nil =>
        simp only []
        rw [ht] at hb hc
        exact ⟨ha, by rw [ht]; exact hb, by rw [ht]; exact hc, hd⟩
      | cons t ts =>
        simp only [USpatialPlayerSpawner.SendPlayerSpawnRequest]
        rw [ht] at hb hc
        simp only [List.length_cons] at hb hc
        refine ⟨by omega, by push_cast at hb ⊢; omega, by omega, by push_cast; omega⟩
/-- C18: in every state `s` the spawner reaches after `Init`, the one initial
`SendPlayerSpawnRequest` and any sequence of responses and retry timers,
`ReceivePlayerSpawnResponse` sets a retry timer (whose lambda is
`SendPlayerSpawnRequest`) exactly when the status is not success and
`NumberOfAttempts < MAX_NUMBER_COMMAND_ATTEMPTS`, and sets none otherwise, in particular
none on success; the number of requests sent equals `NumberOfAttempts` and never exceeds
`MAX_NUMBER_COMMAND_ATTEMPTS`; and a failure with the attempts used up only appends an
error line to the log. The limit is taken to be at least `1` and to fit an `int`. -/
theorem C18_player_spawn_retries_are_bounded (env : SpawnerEnv)
    (h1 : 1 ≤ env.MAX_NUMBER_COMMAND_ATTEMPTS) (h2 : env.MAX_NUMBER_COMMAND_ATTEMPTS < 2147483648)
    (events : List SpawnerEvent) (status_code : Nat) (s : USpatialPlayerSpawner)
    (hs : s = (SpawnerWorld.run env events SpawnerWorld.start).Spawner) :
    ((status_code ≠ env.WORKER_STATUS_CODE_SUCCESS ∧
        s.NumberOfAttempts < env.MAX_NUMBER_COMMAND_ATTEMPTS) →
      (s.ReceivePlayerSpawnResponse env status_code).RetryTimers =
        s.RetryTimers ++ [env.GetCommandRetryWaitTimeSeconds s.NumberOfAttempts]) ∧
    (¬ (status_code ≠ env.WORKER_STATUS_CODE_SUCCESS ∧
        s.NumberOfAttempts < env.MAX_NUMBER_COMMAND_ATTEMPTS) →
      (s.ReceivePlayerSpawnResponse env status_code).RetryTimers = s.RetryTimers) ∧
    (s.EntityQueries : Int) = s.NumberOfAttempts ∧
    s.EntityQueries ≤ env.MAX_NUMBER_COMMAND_ATTEMPTS ∧
    ((status_code ≠ env.WORKER_STATUS_CODE_SUCCESS ∧
        ¬ s.NumberOfAttempts < env.MAX_NUMBER_COMMAND_ATTEMPTS) →
      s.ReceivePlayerSpawnResponse env status_code =
        { s with LogLines := s.LogLines ++ [ELogVerbosity.Error] }) := by
  have hinv := SpawnerWorld.run_invariant env h1 h2 events SpawnerWorld.start
    ⟨by decide, by
      simp only [SpawnerWorld.start, USpatialPlayerSpawner.SendPlayerSpawnRequest,
        USpatialPlayerSpawner.Init, USpatialPlayerSpawner.fresh, List.length_nil]
      omega, by decide, by decide⟩
  rw [← hs] at hinv
  obtain ⟨ha, hb, _, hd⟩ := hinv
  have hcmp : (s.NumberOfAttempts % 4294967296).toNat < env.MAX_NUMBER_COMMAND_ATTEMPTS ↔
      s.NumberOfAttempts < env.MAX_NUMBER_COMMAND_ATTEMPTS := by
    have : s.NumberOfAttempts % 4294967296 = s.NumberOfAttempts := by omega
    rw [this]
    omega
  refine ⟨?_, ?_, hd, by omega, ?_⟩
  · rintro ⟨hne, hlt⟩
    simp [USpatialPlayerSpawner.ReceivePlayerSpawnResponse, hne, hcmp.2 hlt]
  · intro hn
    unfold USpatialPlayerSpawner.ReceivePlayerSpawnResponse
    by_cases hst : status_code = env.WORKER_STATUS_CODE_SUCCESS
    · simp [hst]
    · have hnl : ¬ (s.NumberOfAttempts % 4294967296).toNat < env.MAX_NUMBER_COMMAND_ATTEMPTS :=
        fun h => hn ⟨hst, hcmp.1 h⟩
      simp [hst, hnl]
  · rintro ⟨hne, hnl⟩
    have hnl2 : ¬ (s.NumberOfAttempts % 4294967296).toNat < env.MAX_NUMBER_COMMAND_ATTEMPTS :=
      fun h => hnl (hcmp.1 h)
    simp [USpatialPlayerSpawner.ReceivePlayerSpawnResponse, hne, hnl2]

/-- C18 with a limit of five attempts: after five failed responses, each followed by
the retry timer, five requests have been sent, no timer is pending, and a sixth failure
sets no timer. -/
theorem C18_player_spawn_retries_are_bounded_witness :
    ((SpawnerWorld.run sampleSpawnerEnv sampleSpawnerEvents
          SpawnerWorld.start).Spawner.EntityQueries : Int) = 5 ∧
      (SpawnerWorld.run sampleSpawnerEnv sampleSpawnerEvents
          SpawnerWorld.start).Spawner.EntityQueries ≤ 5 ∧
      ((SpawnerWorld.run sampleSpawnerEnv sampleSpawnerEvents
          SpawnerWorld.start).Spawner.ReceivePlayerSpawnResponse sampleSpawnerEnv
            2).RetryTimers = [] :=
  have h := C18_player_spawn_retries_are_bounded sampleSpawnerEnv (by decide) (by decide)
    sampleSpawnerEvents 2 _ rfl
  ⟨h.2.2.1.trans (by decide), h.2.2.2.1, (h.2.1 (by decide)).trans (by decide)⟩

/-! ## The critical section of the receiver -/

theorem USpatialReceiver.DispatchAll_in_critical_section (Ops : List LifecycleOp) :
    ∀ s : USpatialReceiver, s.bInCriticalSection = true →
      (s.DispatchAll Ops).bInCriticalSection = true ∧
      (s.DispatchAll Ops).Applied = s.Applied ∧
      (s.DispatchAll Ops).PendingRemoveEntities =
        s.PendingRemoveEntities ++ Ops.filterMap LifecycleOp.removeEntity? ∧
      (s.DispatchAll Ops).PendingAddEntities =
        s.PendingAddEntities ++ Ops.filterMap LifecycleOp.addEntity? ∧
      (s.DispatchAll Ops).PendingAddComponents =
        s.PendingAddComponents ++ Ops.filterMap LifecycleOp.addComponent? ∧
      (s.DispatchAll Ops).PendingAuthorityChanges =
        s.PendingAuthorityChanges ++ Ops.filterMap LifecycleOp.authorityChange? := by
  induction Ops with
  | nil => intro s h; simp [USpatialReceiver.DispatchAll, h]
  | cons op rest ih =>
    intro s h
    have hstep : s.DispatchAll (op :: rest) = (s.Dispatch op).DispatchAll rest := rfl
    rw [hstep]
    cases op with
    | RemoveEntity e =>
      have := ih (s.Dispatch (LifecycleOp.RemoveEntity e))
        (by simp [USpatialReceiver.Dispatch, USpatialReceiver.OnRemoveEntity, h])
      simpa [USpatialReceiver.Dispatch, USpatialReceiver.OnRemoveEntity, h,
        LifecycleOp.removeEntity?, LifecycleOp.addEntity?, LifecycleOp.addComponent?,
        LifecycleOp.authorityChange?] using this
    | AddEntity e =>
      have := ih (s.Dispatch (LifecycleOp.AddEntity e))
        (by simp [USpatialReceiver.Dispatch, USpatialReceiver.OnAddEntity, h])
      simpa [USpatialReceiver.Dispatch, USpatialReceiver.OnAddEntity, h,
        LifecycleOp.removeEntity?, LifecycleOp.addEntity?, LifecycleOp.addComponent?,
        LifecycleOp.authorityChange?] using this
    | AddComponent w =>
      have := ih (s.Dispatch (LifecycleOp.AddComponent w))
        (by simp [USpatialReceiver.Dispatch, USpatialReceiver.OnAddComponent, h])
      simpa [USpatialReceiver.Dispatch, USpatialReceiver.OnAddComponent, h,
        LifecycleOp.removeEntity?, LifecycleOp.addEntity?, LifecycleOp.addComponent?,
        LifecycleOp.authorityChange?] using this
    | AuthorityChange w =>
      have := ih (s.Dispatch (LifecycleOp.AuthorityChange w))
        (by simp [USpatialReceiver.Dispatch, USpatialReceiver.OnAuthorityChange, h])
      simpa [USpatialReceiver.Dispatch, USpatialReceiver.OnAuthorityChange, h,
        LifecycleOp.removeEntity?, LifecycleOp.addEntity?, LifecycleOp.addComponent?,
        LifecycleOp.authorityChange?] using this

theorem insertionSort_ComponentId_sorted (l : List PendingAddComponentWrapper) :
    (l.insertionSort fun a b => a.ComponentId ≤ b.ComponentId).Pairwise
      fun a b => a.ComponentId ≤ b.ComponentId := by
  haveI : IsTotal PendingAddComponentWrapper (fun a b => a.ComponentId ≤ b.ComponentId) :=
    ⟨fun a b => Nat.le_total _ _⟩
  haveI : IsTrans PendingAddComponentWrapper (fun a b => a.ComponentId ≤ b.ComponentId) :=
    ⟨fun a b c h1 h2 => Nat.le_trans h1 h2⟩
  exact List.sorted_insertionSort _ l

/-- C19: a receiver with empty buffers enters a critical section, receives any sequence
`Ops` of lifecycle events, and leaves. While inside, nothing is applied and each event
sits in the buffer of its kind in arrival order; on leaving, the events applied are all
RemoveEntity, then all AddEntity, then all AddComponent, then all AuthorityChange, the
AddComponent events being the buffered ones rearranged by ascending component id, and
all four buffers are empty. -/
theorem C19_critical_section_flush_order (Applied : List LifecycleOp)
    (Ops : List LifecycleOp) :
    (((USpatialReceiver.idle Applied).OnCriticalSection true).DispatchAll Ops).Applied =
        Applied ∧
    (((USpatialReceiver.idle Applied).OnCriticalSection true).DispatchAll
        Ops).PendingRemoveEntities = Ops.filterMap LifecycleOp.removeEntity? ∧
    (((USpatialReceiver.idle Applied).OnCriticalSection true).DispatchAll
        Ops).PendingAddEntities = Ops.filterMap LifecycleOp.addEntity? ∧
    (((USpatialReceiver.idle Applied).OnCriticalSection true).DispatchAll
        Ops).PendingAddComponents = Ops.filterMap LifecycleOp.addComponent? ∧
    (((USpatialReceiver.idle Applied).OnCriticalSection true).DispatchAll
        Ops).PendingAuthorityChanges = Ops.filterMap LifecycleOp.authorityChange? ∧
    ∃ Components : List PendingAddComponentWrapper,
      Components.Perm (Ops.filterMap LifecycleOp.addComponent?) ∧
      Components.Pairwise (fun a b => a.ComponentId ≤ b.ComponentId) ∧
      (((USpatialReceiver.idle Applied).OnCriticalSection true).DispatchAll
          Ops).OnCriticalSection false =
        USpatialReceiver.idle (Applied ++
          ((Ops.filterMap LifecycleOp.removeEntity?).map LifecycleOp.RemoveEntity ++
            ((Ops.filterMap LifecycleOp.addEntity?).map LifecycleOp.AddEntity ++
              (Components.map LifecycleOp.AddComponent ++
                (Ops.filterMap LifecycleOp.authorityChange?).map
                  LifecycleOp.AuthorityChange)))) := by
  have h := USpatialReceiver.DispatchAll_in_critical_section Ops
    ((USpatialReceiver.idle Applied).OnCriticalSection true) rfl
  obtain ⟨h1, h2, h3, h4, h5, h6⟩ := h
  have e3 : (((USpatialReceiver.idle Applied).OnCriticalSection true).DispatchAll
      Ops).PendingRemoveEntities = Ops.filterMap LifecycleOp.removeEntity? := by
    rw [h3]; rfl
  have e4 : (((USpatialReceiver.idle Applied).OnCriticalSection true).DispatchAll
      Ops).PendingAddEntities = Ops.filterMap LifecycleOp.addEntity? := by
    rw [h4]; rfl
  have e5 : (((USpatialReceiver.idle Applied).OnCriticalSection true).DispatchAll
      Ops).PendingAddComponents = Ops.filterMap LifecycleOp.addComponent? := by
    rw [h5]; rfl
  have e6 : (((USpatialReceiver.idle Applied).OnCriticalSection true).DispatchAll
      Ops).PendingAuthorityChanges = Ops.filterMap LifecycleOp.authorityChange? := by
    rw [h6]; rfl
  refine ⟨h2, e3, e4, e5, e6,
    (Ops.filterMap LifecycleOp.addComponent?).insertionSort
      (fun a b => a.ComponentId ≤ b.ComponentId),
    List.perm_insertionSort _ _, insertionSort_ComponentId_sorted _, ?_⟩
  have hleave : ∀ t : USpatialReceiver, t.OnCriticalSection false = t.LeaveCriticalSection :=
    fun _ => rfl
  rw [hleave]
  unfold USpatialReceiver.LeaveCriticalSection
  rw [e3, e4, e5, e6, h2]
  rfl

/-- The flush of `sampleLifecycleOps`: the removal first, then the entity, then its
components by ascending id, then the authority change. -/
theorem USpatialReceiver.flush_of_sampleLifecycleOps :
    (((USpatialReceiver.idle []).OnCriticalSection true).DispatchAll
        sampleLifecycleOps).OnCriticalSection false =
      USpatialReceiver.idle
        [LifecycleOp.RemoveEntity 6,
         LifecycleOp.AddEntity 7,
         LifecycleOp.AddComponent { EntityId := 7, ComponentId := 3, Data := 1 },
         LifecycleOp.AddComponent { EntityId := 7, ComponentId := 5, Data := 0 },
         LifecycleOp.AuthorityChange { entity_id := 7, component_id := 3, authority := 1 }] := by
  decide

/-! ## What `ServerReplicateActors_PrioritizeActors` collects -/

theorem SameActors.unchanged_actors (d : USpatialNetDriver) : SameActors d d :=
  ⟨rfl, rfl, rfl, rfl, rfl, fun _ => rfl⟩

theorem SameActors.then_actors {a b c : USpatialNetDriver} (h1 : SameActors a b)
    (h2 : SameActors b c) : SameActors a c :=
  ⟨h2.1.trans h1.1, h2.2.1.trans h1.2.1, h2.2.2.1.trans h1.2.2.1,
    h2.2.2.2.1.trans h1.2.2.2.1, h2.2.2.2.2.1.trans h1.2.2.2.2.1,
    fun x => (h2.2.2.2.2.2 x).trans (h1.2.2.2.2.2 x)⟩

theorem SameActors.of_net (d : USpatialNetDriver) (net : FNetState) :
    SameActors d { d with Net := net } :=
  ⟨rfl, rfl, rfl, rfl, rfl, fun _ => rfl⟩

theorem SameActors.of_tag (d : USpatialNetDriver) (Actor Tag : Nat) :
    SameActors d
      { d with Actors := Function.update d.Actors Actor { d.Actors Actor with NetTag := Tag } } := by
  refine ⟨rfl, rfl, rfl, rfl, rfl, fun x => ?_⟩
  by_cases hx : x = Actor
  · subst hx; simp
  · simp [Function.update_noteq hx]

theorem IsConsideredEntry.of_sameActors {d d1 : USpatialNetDriver} {C : Nat} {CL : List Nat}
    {e : FActorPriority} (hs : SameActors d d1) (h : IsConsideredEntry d1 C CL e) :
    IsConsideredEntry d C CL e := by
  obtain ⟨h1, p, hp, h2, h3, h4⟩ := h
  obtain ⟨s1, s2, _, _, _, s6⟩ := hs
  refine ⟨h1, p, hp, h2, ?_, ?_⟩
  · rw [← s1]; exact h3
  · rw [s1, s6, s2] at h4; exact h4

theorem IsConsideredEntry.of_tail {d : USpatialNetDriver} {C p : Nat} {CL : List Nat}
    {e : FActorPriority} (h : IsConsideredEntry d C CL e) : IsConsideredEntry d C (p :: CL) e := by
  obtain ⟨h1, q, hq, h2⟩ := h
  exact ⟨h1, q, List.mem_cons_of_mem _ hq, h2⟩

theorem ServerReplicateActors_PrioritizeActors.startDormancy_sameActors (env : Engine)
    (Actor : Nat) (V : List FNetViewer) (Channel : Option Nat) (d : USpatialNetDriver) :
    SameActors d (ServerReplicateActors_PrioritizeActors.startDormancy env Actor V Channel d) := by
  unfold ServerReplicateActors_PrioritizeActors.startDormancy
  split
  · split
    · exact SameActors.of_net _ _
    · exact SameActors.unchanged_actors _
  · exact SameActors.unchanged_actors _

theorem ServerReplicateActors_PrioritizeActors.replicatesOn_ok {C Actor : Nat}
    {d d1 : USpatialNetDriver} {b : Bool}
    (h : ServerReplicateActors_PrioritizeActors.replicatesOn C Actor d = ok b d1) :
    d1 = d ∧ (b = true →
      ((d.Actors Actor).NetConnection = some C ∨
        ((d.Actors Actor).NetConnection = none ∧ d.ClientConnections.head? = some C))) := by
  unfold ServerReplicateActors_PrioritizeActors.replicatesOn at h
  simp only [] at h
  by_cases hc : (d.Actors Actor).NetConnection = some C
  · rw [if_neg (not_not.2 hc)] at h
    injection h with h1 h2
    exact ⟨h2.symm, fun _ => Or.inl hc⟩
  · rw [if_pos hc] at h
    by_cases hn : (d.Actors Actor).NetConnection = none
    · rw [if_pos hn] at h
      cases hcc : d.ClientConnections with
      | nil => rw [hcc] at h; cases h
      | cons First more =>
        rw [hcc] at h
        injection h with h1 h2
        refine ⟨h2.symm, fun hbt => Or.inr ⟨hn, ?_⟩⟩
        rw [← h1] at hbt
        simp only [List.head?_cons]
        rw [of_decide_eq_true hbt]
    · rw [if_neg hn] at h
      injection h with h1 h2
      refine ⟨h2.symm, fun hbt => ?_⟩
      rw [← h1] at hbt
      cases hbt

theorem ServerReplicateActors_PrioritizeActors.consider_entries (env : Engine) (C : Nat)
    (V : List FNetViewer) (M : Nat) :
    ∀ (CL : List Nat) (out : List FActorPriority) (d : USpatialNetDriver)
      (L : List FActorPriority) (d1 : USpatialNetDriver),
      ServerReplicateActors_PrioritizeActors.consider env C V M CL out d = ok L d1 →
      SameActors d d1 ∧ ∃ added, L = out ++ added ∧ ∀ e ∈ added, IsConsideredEntry d C CL e := by
  intro CL
  induction CL with
  | nil =>
    intro out d L d1 h
    unfold ServerReplicateActors_PrioritizeActors.consider at h
    injection h with h1 h2
    subst h1; subst h2
    exact ⟨SameActors.unchanged_actors _, [], by simp, by intro e he; cases he⟩
  | cons p rest ih =>
    intro out d L d1 h
    have keep : ∀ (d2 : USpatialNetDriver), SameActors d d2 →
        ServerReplicateActors_PrioritizeActors.consider env C V M rest out d2 = ok L d1 →
        SameActors d d1 ∧
          ∃ added, L = out ++ added ∧ ∀ e ∈ added, IsConsideredEntry d C (p :: rest) e := by
      intro d2 hs hk
      obtain ⟨hs2, added, hL, hadd⟩ := ih out d2 L d1 hk
      exact ⟨hs.then_actors hs2, added, hL,
        fun e he => ((hadd e he).of_sameActors hs).of_tail⟩
    unfold ServerReplicateActors_PrioritizeActors.consider at h
    simp only [] at h
    by_cases hdorm : IsActorDormant (d.NetworkObjectInfos p) C = true
    · rw [if_pos hdorm] at h
      exact keep d (SameActors.unchanged_actors d) h
    · rw [if_neg hdorm] at h
      obtain ⟨b, dB, hb, hrest⟩ := Result.bind_eq_ok.1 h
      have hsA := ServerReplicateActors_PrioritizeActors.startDormancy_sameActors env
        (d.NetworkObjectInfos p).Actor V
        (TMap.Find (d.Net.Connections C).ActorChannelMap (d.NetworkObjectInfos p).Actor) d
      obtain ⟨hdB, hconn⟩ := ServerReplicateActors_PrioritizeActors.replicatesOn_ok hb
      rw [hsA.2.2.2.2.2, hsA.2.1] at hconn
      rw [← hdB] at hsA
      cases b with
      | false =>
        simp only [Bool.not_false, if_true] at hrest
        exact keep dB hsA hrest
      | true =>
        simp only [Bool.not_true, Bool.false_eq_true, if_false, IsActorRelevantToConnection]
          at hrest
        by_cases htag : (dB.Actors (d.NetworkObjectInfos p).Actor).NetTag ≠ dB.NetTag
        · rw [if_pos htag] at hrest
          by_cases hlen : out.length < M
          · rw [if_pos hlen] at hrest
            obtain ⟨hs2, added, hL, hadd⟩ := ih _ _ L d1 hrest
            have hsT := hsA.then_actors
              (SameActors.of_tag dB (d.NetworkObjectInfos p).Actor dB.NetTag)
            refine ⟨hsT.then_actors hs2, [_] ++ added, by rw [hL, List.append_assoc], ?_⟩
            intro e he
            rw [List.singleton_append] at he
            rcases List.mem_cons.1 he with he1 | he1
            · subst he1
              refine ⟨rfl, p, List.mem_cons_self _ _, rfl, ?_, hconn rfl⟩
              simpa using hdorm
            · exact ((hadd e he1).of_sameActors hsT).of_tail
          · rw [if_neg hlen] at hrest
            cases hrest
        · rw [if_neg htag] at hrest
          exact keep dB hsA hrest
theorem ServerReplicateActors_PrioritizeActors.addDeleted_entries (env : Engine) (C M : Nat) :
    ∀ (GUIDs : List FNetworkGUID) (out : List FActorPriority) (d : USpatialNetDriver)
      (L : List FActorPriority) (d1 : USpatialNetDriver),
      ServerReplicateActors_PrioritizeActors.addDeleted env C M GUIDs out d = ok L d1 →
      d1 = d ∧ ∃ added, L = out ++ added ∧ ∀ e ∈ added, IsDeletionEntry d e := by
  intro GUIDs
  induction GUIDs with
  | nil =>
    intro out d L d1 h
    unfold ServerReplicateActors_PrioritizeActors.addDeleted at h
    injection h with h1 h2
    subst h1; subst h2
    exact ⟨rfl, [], by simp, by intro e he; cases he⟩
  | cons g rest ih =>
    intro out d L d1 h
    unfold ServerReplicateActors_PrioritizeActors.addDeleted at h
    cases hf : TMap.Find d.DestroyedStartupOrDormantActors g with
    | none => rw [hf] at h; cases h
    | some DInfo =>
      rw [hf] at h
      simp only [] at h
      by_cases hlen : out.length < M
      · rw [if_pos hlen] at h
        obtain ⟨hd, added, hL, hadd⟩ := ih _ _ L d1 h
        refine ⟨hd, [_] ++ added, by rw [hL, List.append_assoc], ?_⟩
        intro e he
        rw [List.singleton_append] at he
        rcases List.mem_cons.1 he with he1 | he1
        · subst he1
          exact ⟨rfl, g, DInfo, hf, rfl⟩
        · exact hadd e he1
      · rw [if_neg hlen] at h
        cases h

theorem ServerReplicateActors_PrioritizeActors.tagSentTemporaries_NetConnection (Tag : Nat) :
    ∀ (l : List Nat) (Actors : Nat → AActor) (a : Nat),
      (ServerReplicateActors_PrioritizeActors.tagSentTemporaries Tag l Actors a).NetConnection =
        (Actors a).NetConnection := by
  intro l
  induction l with
  | nil => intro Actors a; rfl
  | cons x rest ih =>
    intro Actors a
    unfold ServerReplicateActors_PrioritizeActors.tagSentTemporaries
    rw [ih]
    by_cases hx : a = x
    · subst hx; simp
    · simp [Function.update_noteq hx]

theorem IsConsideredEntry.of_begin {d : USpatialNetDriver} {C : Nat} {CL : List Nat}
    {e : FActorPriority}
    (h : IsConsideredEntry (ServerReplicateActors_PrioritizeActors.begin C d) C CL e) :
    IsConsideredEntry d C CL e := by
  obtain ⟨h1, p, hp, h2, h3, h4⟩ := h
  refine ⟨h1, p, hp, h2, h3, ?_⟩
  simp only [ServerReplicateActors_PrioritizeActors.begin,
    ServerReplicateActors_PrioritizeActors.tagSentTemporaries_NetConnection] at h4
  exact h4

theorem Sort_FCompareFActorPriority_perm (l : List FActorPriority) :
    (Sort_FCompareFActorPriority l).Perm l :=
  List.perm_insertionSort _ l

theorem Sort_FCompareFActorPriority_sorted (l : List FActorPriority) :
    (Sort_FCompareFActorPriority l).Pairwise fun A B => B.Priority ≤ A.Priority := by
  haveI : IsTotal FActorPriority (fun A B => B.Priority ≤ A.Priority) :=
    ⟨fun a b => Int.le_total _ _⟩
  haveI : IsTrans FActorPriority (fun A B => B.Priority ≤ A.Priority) :=
    ⟨fun a b c h1 h2 => Int.le_trans h2 h1⟩
  exact List.sorted_insertionSort _ l

/-- Two entries that were collected in the order `A`, `B` and are already in descending
order keep that order in the sorted array. -/
theorem Sort_FCompareFActorPriority_stable {A B : FActorPriority} {l : List FActorPriority}
    (hAB : B.Priority ≤ A.Priority) (h : [A, B].Sublist l) :
    [A, B].Sublist (Sort_FCompareFActorPriority l) := by
  haveI : IsTotal FActorPriority (fun A B => B.Priority ≤ A.Priority) :=
    ⟨fun a b => Int.le_total _ _⟩
  haveI : IsTrans FActorPriority (fun A B => B.Priority ≤ A.Priority) :=
    ⟨fun a b c h1 h2 => Int.le_trans h2 h1⟩
  exact List.pair_sublist_insertionSort hAB h

/-- The value of `ServerReplicateActors_PrioritizeActors` is the sorted array of the
entries collected: first the normal entries, then the deletion entries. -/
theorem ServerReplicateActors_PrioritizeActors_entries {env : Engine} {C : Nat}
    {V : List FNetViewer} {CL : List Nat} {d d1 : USpatialNetDriver}
    {L : List FActorPriority}
    (h : ServerReplicateActors_PrioritizeActors env C V CL d = ok L d1) :
    ∃ normal deleted, L = Sort_FCompareFActorPriority (normal ++ deleted) ∧
      (∀ e ∈ normal, IsConsideredEntry d C CL e) ∧
      (∀ e ∈ deleted, IsDeletionEntry d e) ∧
      d1.NetworkObjectInfos = d.NetworkObjectInfos := by
  unfold ServerReplicateActors_PrioritizeActors at h
  simp only [] at h
  split at h
  · obtain ⟨out, d2, hcol, hsort⟩ := Result.bind_eq_ok.1 h
    injection hsort with hs1 hs2
    unfold ServerReplicateActors_PrioritizeActors.collect at hcol
    obtain ⟨nl, d3, hcons, hdel⟩ := Result.bind_eq_ok.1 hcol
    obtain ⟨hsame, normal, hn, hnorm⟩ :=
      ServerReplicateActors_PrioritizeActors.consider_entries env C V _ CL [] _ nl d3 hcons
    obtain ⟨hd, deleted, hL, hdl⟩ :=
      ServerReplicateActors_PrioritizeActors.addDeleted_entries env C _ _ nl d3 out d2 hdel
    rw [List.nil_append] at hn
    refine ⟨normal, deleted, by rw [← hs1, hL, hn], ?_, ?_, ?_⟩
    · intro e he
      exact (hnorm e he).of_begin
    · intro e he
      obtain ⟨h1, g, DInfo, h2, h3⟩ := hdl e he
      refine ⟨h1, g, DInfo, ?_, h3⟩
      rw [hsame.2.2.2.1] at h2
      exact h2
    · rw [← hs2, hd, hsame.1]
      rfl
  · injection h with h1 h2
    refine ⟨[], [], by rw [← h1]; rfl, ?_, ?_, ?_⟩
    · intro e he; cases he
    · intro e he; cases he
    · rw [← h2]
      rfl

theorem IsActorDormant_eq_false {Info : FNetworkObjectInfo} {C : Nat}
    (h : IsActorDormant Info C = false) : C ∉ Info.DormantConnections := by
  intro hm
  have : IsActorDormant Info C = true := by
    unfold IsActorDormant
    simpa using hm
  rw [h] at this
  cases this

theorem ServerReplicateActors_PrioritizeActors_mem {env : Engine} {C : Nat}
    {V : List FNetViewer} {CL : List Nat} {d d1 : USpatialNetDriver}
    {L : List FActorPriority}
    (h : ServerReplicateActors_PrioritizeActors env C V CL d = ok L d1)
    {Entry : FActorPriority} (hE : Entry ∈ L) {ActorInfo : Nat}
    (hA : Entry.ActorInfo = some ActorInfo) : IsConsideredEntry d C CL Entry := by
  obtain ⟨normal, deleted, hL, hn, hd, _⟩ := ServerReplicateActors_PrioritizeActors_entries h
  rw [hL] at hE
  have hE2 := (Sort_FCompareFActorPriority_perm _).mem_iff.1 hE
  rcases List.mem_append.1 hE2 with h1 | h1
  · exact hn Entry h1
  · have := (hd Entry h1).1
    rw [this] at hA
    cases hA

/-- C20: an entry of the array that `ServerReplicateActors_PrioritizeActors` returns for
connection `InConnection` refers to an actor whose own net connection is `InConnection`,
or that has no net connection while `InConnection` is `ClientConnections[0]`. Hence a
call for a different connection `Other`, in any state with the same client connections
in which the actor has the same net connection, returns no entry for that actor. -/
theorem C20_actor_is_prioritized_on_its_own_connection_only (env : Engine)
    (InConnection : Nat) (ConnectionViewers : List FNetViewer) (ConsiderList : List Nat)
    (d d1 : USpatialNetDriver) (PriorityActors : List FActorPriority)
    (Entry : FActorPriority) (ActorInfo : Nat)
    (h : ServerReplicateActors_PrioritizeActors env InConnection ConnectionViewers
      ConsiderList d = ok PriorityActors d1)
    (hE : Entry ∈ PriorityActors) (hA : Entry.ActorInfo = some ActorInfo) :
    ((d.Actors (d.NetworkObjectInfos ActorInfo).Actor).NetConnection = some InConnection ∨
      ((d.Actors (d.NetworkObjectInfos ActorInfo).Actor).NetConnection = none ∧
        d.ClientConnections.head? = some InConnection)) ∧
    ∀ (env2 : Engine) (Other : Nat) (Viewers2 : List FNetViewer) (ConsiderList2 : List Nat)
      (d2 d3 : USpatialNetDriver) (PriorityActors2 : List FActorPriority),
      Other ≠ InConnection →
      d2.ClientConnections = d.ClientConnections →
      (d2.Actors (d.NetworkObjectInfos ActorInfo).Actor).NetConnection =
        (d.Actors (d.NetworkObjectInfos ActorInfo).Actor).NetConnection →
      ServerReplicateActors_PrioritizeActors env2 Other Viewers2 ConsiderList2 d2 =
        ok PriorityActors2 d3 →
      ∀ Entry2 ∈ PriorityActors2, ∀ ActorInfo2, Entry2.ActorInfo = some ActorInfo2 →
        (d2.NetworkObjectInfos ActorInfo2).Actor ≠ (d.NetworkObjectInfos ActorInfo).Actor := by
  obtain ⟨_, p, _, hp, _, hconn⟩ := ServerReplicateActors_PrioritizeActors_mem h hE hA
  rw [hA] at hp
  injection hp with hp
  subst hp
  refine ⟨hconn, ?_⟩
  intro env2 Other V2 CL2 d2 d3 L2 hne hcc hsame h2 Entry2 hE2 q hq hactor
  obtain ⟨_, p2, _, hp2, _, hconn2⟩ := ServerReplicateActors_PrioritizeActors_mem h2 hE2 hq
  rw [hq] at hp2
  injection hp2 with hp2
  subst hp2
  rw [hactor, hsame, hcc] at hconn2
  rcases hconn with h1 | ⟨h1, h1b⟩ <;> rcases hconn2 with h3 | ⟨h3, h3b⟩
  · rw [h1] at h3
    injection h3 with h3
    exact hne h3.symm
  · rw [h1] at h3
    cases h3
  · rw [h1] at h3
    cases h3
  · rw [h1b] at h3b
    injection h3b with h3b
    exact hne h3b.symm

/-- C20 on `sampleDriver`: the actors have no net connection, and connection `1`, for
which the actor of info `0` is prioritized, is `ClientConnections[0]`. -/
theorem C20_actor_is_prioritized_on_its_own_connection_only_witness :
    (sampleDriver.Actors (sampleDriver.NetworkObjectInfos 0).Actor).NetConnection = none ∧
      sampleDriver.ClientConnections.head? = some 1 :=
  have hv : (ServerReplicateActors_PrioritizeActors sampleEngine 1 [] [0, 1, 2, 3]
      sampleDriver).value? =
      some
        [{ Priority := 10, ActorInfo := some 0, Channel := none, DestructionInfo := none },
         { Priority := 8, ActorInfo := some 2, Channel := none, DestructionInfo := none },
         { Priority := 5, ActorInfo := some 1, Channel := none, DestructionInfo := none }] := by
    decide
  have h := (C20_actor_is_prioritized_on_its_own_connection_only sampleEngine 1 []
    [0, 1, 2, 3] sampleDriver _ _
    { Priority := 10, ActorInfo := some 0, Channel := none, DestructionInfo := none } 0
    (Result.eq_ok_of_value hv) (by decide) rfl).1
  h.elim (fun h1 => absurd h1 (by decide)) id
theorem ServerReplicateActors_PrioritizeActors_eq_Sort {env : Engine} {C : Nat}
    {V : List FNetViewer} {CL : List Nat} {d d1 : USpatialNetDriver}
    {L : List FActorPriority}
    (h : ServerReplicateActors_PrioritizeActors env C V CL d = ok L d1) :
    L = Sort_FCompareFActorPriority (CollectedEntries env C V CL d) := by
  unfold ServerReplicateActors_PrioritizeActors at h
  simp only [] at h
  unfold CollectedEntries
  have hlen : (ServerReplicateActors_PrioritizeActors.begin C d).DestroyedStartupOrDormantActors =
      d.DestroyedStartupOrDormantActors := rfl
  rw [hlen] at h
  split at h
  · obtain ⟨out, d2, hcol, hsort⟩ := Result.bind_eq_ok.1 h
    injection hsort with hs1 hs2
    rw [hcol, ← hs1]
    rfl
  · rename_i hmax
    injection h with h1 h2
    have hCL : CL = [] := List.length_eq_zero.1 (by omega)
    have hD : d.DestroyedStartupOrDormantActors = [] := List.length_eq_zero.1 (by omega)
    subst hCL
    rw [← h1]
    unfold ServerReplicateActors_PrioritizeActors.collect
      ServerReplicateActors_PrioritizeActors.consider
    rw [Result.bind_ok]
    cases hg : ((ServerReplicateActors_PrioritizeActors.begin C d).Net.Connections
        C).DestroyedStartupOrDormantActorGUIDs with
    | nil =>
      unfold ServerReplicateActors_PrioritizeActors.addDeleted
      rfl
    | cons g rest =>
      unfold ServerReplicateActors_PrioritizeActors.addDeleted
      rw [hlen, hD]
      rfl

/-- C16: the array returned by `ServerReplicateActors_PrioritizeActors` is a permutation
of the collected entries, it is in descending order of `Priority`, and two entries of
equal priority are in the order in which they were collected. -/
theorem C16_priority_list_is_stably_sorted (env : Engine) (InConnection : Nat)
    (ConnectionViewers : List FNetViewer) (ConsiderList : List Nat)
    (d d1 : USpatialNetDriver) (PriorityActors : List FActorPriority)
    (h : ServerReplicateActors_PrioritizeActors env InConnection ConnectionViewers
      ConsiderList d = ok PriorityActors d1) :
    PriorityActors.Perm (CollectedEntries env InConnection ConnectionViewers ConsiderList d) ∧
      PriorityActors.Pairwise (fun A B => B.Priority ≤ A.Priority) ∧
      ∀ A B : FActorPriority,
        [A, B].Sublist (CollectedEntries env InConnection ConnectionViewers ConsiderList d) →
        A.Priority = B.Priority → [A, B].Sublist PriorityActors := by
  rw [ServerReplicateActors_PrioritizeActors_eq_Sort h]
  exact ⟨Sort_FCompareFActorPriority_perm _, Sort_FCompareFActorPriority_sorted _,
    fun A B hs hp => Sort_FCompareFActorPriority_stable (le_of_eq hp.symm) hs⟩

/-- C16 on `sampleDriverWithDeletion`: the entries are collected with the priorities
`10, 5, 8, 5` and returned as `10, 8, 5, 5`, the two entries of priority `5` in the
order of collection. -/
theorem C16_priority_list_is_stably_sorted_witness :
    (CollectedEntries sampleEngine 1 [] [0, 1, 2, 3] sampleDriverWithDeletion).map
        (fun Entry => Entry.Priority) = [10, 5, 8, 5] ∧
      [({ Priority := 5, ActorInfo := some 1, Channel := none, DestructionInfo := none } :
          FActorPriority),
        { Priority := 5, ActorInfo := none, Channel := none,
          DestructionInfo := some { NetGUID := ⟨7⟩, StreamingLevelName := none } }].Sublist
        [{ Priority := 10, ActorInfo := some 0, Channel := none, DestructionInfo := none },
         { Priority := 8, ActorInfo := some 2, Channel := none, DestructionInfo := none },
         { Priority := 5, ActorInfo := some 1, Channel := none, DestructionInfo := none },
         { Priority := 5, ActorInfo := none, Channel := none,
           DestructionInfo := some { NetGUID := ⟨7⟩, StreamingLevelName := none } }] :=
  have hv : (ServerReplicateActors_PrioritizeActors sampleEngine 1 [] [0, 1, 2, 3]
      sampleDriverWithDeletion).value? =
      some
        [{ Priority := 10, ActorInfo := some 0, Channel := none, DestructionInfo := none },
         { Priority := 8, ActorInfo := some 2, Channel := none, DestructionInfo := none },
         { Priority := 5, ActorInfo := some 1, Channel := none, DestructionInfo := none },
         { Priority := 5, ActorInfo := none, Channel := none,
           DestructionInfo := some { NetGUID := ⟨7⟩, StreamingLevelName := none } }] := by
    decide
  ⟨by decide,
    (C16_priority_list_is_stably_sorted sampleEngine 1 [] [0, 1, 2, 3]
      sampleDriverWithDeletion _ _ (Result.eq_ok_of_value hv)).2.2 _ _ (by decide) rfl⟩

/-- In an array in descending order of `Priority`, an entry precedes every entry of
strictly lower priority; the order of entries of equal priority plays no part. -/
theorem List.pair_sublist_of_descending {A B : FActorPriority} :
    ∀ {L : List FActorPriority}, L.Pairwise (fun X Y => Y.Priority ≤ X.Priority) →
      A ∈ L → B ∈ L → B.Priority < A.Priority → [A, B].Sublist L := by
  intro L
  induction L with
  | nil => intro _ hA; cases hA
  | cons X rest ih =>
    intro hs hA hB hlt
    obtain ⟨hX, hrest⟩ := List.pairwise_cons.1 hs
    rcases List.mem_cons.1 hA with hA1 | hA1
    · subst hA1
      rcases List.mem_cons.1 hB with hB1 | hB1
      · subst hB1
        exact absurd hlt (lt_irrefl _)
      · exact List.Sublist.cons₂ _ (List.singleton_sublist.2 hB1)
    · rcases List.mem_cons.1 hB with hB1 | hB1
      · subst hB1
        exact absurd (hX A hA1) (not_le.2 hlt)
      · exact List.Sublist.cons _ (ih hrest hA1 hB1 hlt)

/-- C17 as stated fails: on `sampleDriverWithDeletion`, with the priorities `10`, `5`, `8`
for the normal entries and `7` for the deletion entry, no two of them equal, the returned
array is in the order `10`, `8`, `7`, `5`: the deletion entry for GUID `7` comes after two
normal entries. -/
theorem C17_deletion_entry_follows_normal_entries :
    (ServerReplicateActors_PrioritizeActors sampleEngineDeletionAtSeven 1 [] [0, 1, 2, 3]
        sampleDriverWithDeletion).value? =
      some
        [{ Priority := 10, ActorInfo := some 0, Channel := none, DestructionInfo := none },
         { Priority := 8, ActorInfo := some 2, Channel := none, DestructionInfo := none },
         { Priority := 7, ActorInfo := none, Channel := none,
           DestructionInfo := some { NetGUID := ⟨7⟩, StreamingLevelName := none } },
         { Priority := 5, ActorInfo := some 1, Channel := none, DestructionInfo := none }] := by
  decide

/-- C17 (amended): the array returned by `ServerReplicateActors_PrioritizeActors` is a
permutation of the normal entries followed by the deletion entries, one kind having an
`ActorInfo` and the other a `DestructionInfo` only, in descending order of `Priority`:
a deletion entry follows every normal entry of strictly higher priority and precedes
every normal entry of strictly lower priority. `ServerReplicateActors_ProcessPrioritizedActors`
handles a deletion entry in its own branch at the index where it falls, and goes on to the
next entry. -/
theorem C17_deletion_entries_are_sorted_with_the_others (env : Engine) (InConnection : Nat)
    (ConnectionViewers : List FNetViewer) (ConsiderList : List Nat)
    (d d1 : USpatialNetDriver) (PriorityActors : List FActorPriority)
    (h : ServerReplicateActors_PrioritizeActors env InConnection ConnectionViewers
      ConsiderList d = ok PriorityActors d1) :
    (∃ normal deleted, PriorityActors.Perm (normal ++ deleted) ∧
      (∀ Entry ∈ normal, Entry.ActorInfo ≠ none ∧ Entry.DestructionInfo = none) ∧
      (∀ Entry ∈ deleted, Entry.ActorInfo = none ∧ Entry.DestructionInfo ≠ none) ∧
      (∀ Normal ∈ normal, ∀ Deleted ∈ deleted, Deleted.Priority < Normal.Priority →
        [Normal, Deleted].Sublist PriorityActors) ∧
      ∀ Normal ∈ normal, ∀ Deleted ∈ deleted, Normal.Priority < Deleted.Priority →
        [Deleted, Normal].Sublist PriorityActors) ∧
    PriorityActors.Pairwise (fun A B => B.Priority ≤ A.Priority) ∧
    ∀ (Entry : FActorPriority) (DestructionInfo : FActorDestructionInfo) (j OutUpdated : Nat)
      (d2 : USpatialNetDriver), Entry.ActorInfo = none →
      Entry.DestructionInfo = some DestructionInfo →
      ServerReplicateActors_ProcessPrioritizedActors.entry env InConnection ConnectionViewers j
          Entry OutUpdated d2 =
        ok (false, OutUpdated)
          (ServerReplicateActors_ProcessPrioritizedActors.deletionEntry env InConnection
            DestructionInfo d2) := by
  obtain ⟨normal, deleted, hL, hn, hd, _⟩ := ServerReplicateActors_PrioritizeActors_entries h
  have hperm : PriorityActors.Perm (normal ++ deleted) := by
    rw [hL]; exact Sort_FCompareFActorPriority_perm _
  have hsorted : PriorityActors.Pairwise (fun A B => B.Priority ≤ A.Priority) := by
    rw [hL]; exact Sort_FCompareFActorPriority_sorted _
  refine ⟨⟨normal, deleted, hperm, ?_, ?_, ?_, ?_⟩, hsorted, ?_⟩
  · intro e he
    obtain ⟨h1, p, _, h2, _⟩ := hn e he
    exact ⟨by rw [h2]; exact Option.some_ne_none p, h1⟩
  · intro e he
    obtain ⟨h1, g, DInfo, _, h2⟩ := hd e he
    exact ⟨h1, by rw [h2]; exact Option.some_ne_none DInfo⟩
  · intro n hn2 x hx hlt
    exact List.pair_sublist_of_descending hsorted
      (hperm.mem_iff.2 (List.mem_append_left _ hn2))
      (hperm.mem_iff.2 (List.mem_append_right _ hx)) hlt
  · intro n hn2 x hx hlt
    exact List.pair_sublist_of_descending hsorted
      (hperm.mem_iff.2 (List.mem_append_right _ hx))
      (hperm.mem_iff.2 (List.mem_append_left _ hn2)) hlt
  · intro e DInfo j U d2 h1 h2
    unfold ServerReplicateActors_ProcessPrioritizedActors.entry
    rw [h1, h2]

/-- C17 (amended) on `sampleDriverWithDeletion` with the deletion priority `7`: the array
is in descending order, with the deletion entry of priority `7` after the normal entries
of priority `10` and `8` and before the one of priority `5`. -/
theorem C17_deletion_entries_are_sorted_with_the_others_witness :
    [({ Priority := 10, ActorInfo := some 0, Channel := none, DestructionInfo := none } :
        FActorPriority),
      { Priority := 8, ActorInfo := some 2, Channel := none, DestructionInfo := none },
      { Priority := 7, ActorInfo := none, Channel := none,
        DestructionInfo := some { NetGUID := ⟨7⟩, StreamingLevelName := none } },
      { Priority := 5, ActorInfo := some 1, Channel := none, DestructionInfo := none }].Pairwise
      (fun A B => B.Priority ≤ A.Priority) :=
  have hv : (ServerReplicateActors_PrioritizeActors sampleEngineDeletionAtSeven 1 []
      [0, 1, 2, 3] sampleDriverWithDeletion).value? =
      some
        [{ Priority := 10, ActorInfo := some 0, Channel := none, DestructionInfo := none },
         { Priority := 8, ActorInfo := some 2, Channel := none, DestructionInfo := none },
         { Priority := 7, ActorInfo := none, Channel := none,
           DestructionInfo := some { NetGUID := ⟨7⟩, StreamingLevelName := none } },
         { Priority := 5, ActorInfo := some 1, Channel := none, DestructionInfo := none }] := by
    decide
  (C17_deletion_entries_are_sorted_with_the_others sampleEngineDeletionAtSeven 1 []
    [0, 1, 2, 3] sampleDriverWithDeletion _ _ (Result.eq_ok_of_value hv)).2.1

/-! ## `ServerReplicateActors_ProcessPrioritizedActors` -/

theorem ServerReplicateActors_ProcessPrioritizedActors.deletionEntry_calls (env : Engine)
    (C : Nat) (D : FActorDestructionInfo) (d : USpatialNetDriver) :
    (ServerReplicateActors_ProcessPrioritizedActors.deletionEntry env C D d).ReplicateActorCalls =
      d.ReplicateActorCalls := by
  unfold ServerReplicateActors_ProcessPrioritizedActors.deletionEntry
  split
  · rfl
  · simp only []
    split <;> rfl

theorem ServerReplicateActors_ProcessPrioritizedActors.createChannel_calls (env : Engine)
    (C p a : Nat) (d : USpatialNetDriver) :
    (ServerReplicateActors_ProcessPrioritizedActors.createChannel env C p a
      d).2.ReplicateActorCalls = d.ReplicateActorCalls := by
  unfold ServerReplicateActors_ProcessPrioritizedActors.createChannel
  split
  · rfl
  · simp only []
    split
    · rfl
    · split <;> rfl

theorem ServerReplicateActors_ProcessPrioritizedActors.closeChannel_calls (env : Engine)
    (a : Nat) (b : Bool) (ch : Option Nat) (d : USpatialNetDriver) :
    (ServerReplicateActors_ProcessPrioritizedActors.closeChannel env a b ch
      d).ReplicateActorCalls = d.ReplicateActorCalls := by
  unfold ServerReplicateActors_ProcessPrioritizedActors.closeChannel
  split
  · split <;> rfl
  · rfl

theorem ServerReplicateActors_ProcessPrioritizedActors.replicate_calls (env : Engine)
    (C j p a ch U : Nat) (d : USpatialNetDriver) :
    ∃ calls,
      (ServerReplicateActors_ProcessPrioritizedActors.replicate env C j p a ch U
        d).2.ReplicateActorCalls = d.ReplicateActorCalls ++ calls ∧
      (ServerReplicateActors_ProcessPrioritizedActors.replicate env C j p a ch U d).1 =
        U + calls.length ∧
      calls.length ≤ 1 ∧
      ∀ c ∈ calls, c.Connection = C ∧ c.Index = j ∧ c.ActorInfo = p := by
  unfold ServerReplicateActors_ProcessPrioritizedActors.replicate
  split
  · simp only []
    split
    · refine ⟨[_], rfl, rfl, Nat.le_refl 1, ?_⟩
      intro c hc
      rw [List.mem_singleton] at hc
      subst hc
      exact ⟨rfl, rfl, rfl⟩
    · refine ⟨[_], rfl, rfl, Nat.le_refl 1, ?_⟩
      intro c hc
      rw [List.mem_singleton] at hc
      subst hc
      exact ⟨rfl, rfl, rfl⟩
  · exact ⟨[], by simp, rfl, Nat.zero_le 1, by intro c hc; cases hc⟩

theorem ServerReplicateActors_ProcessPrioritizedActors.findChannel_calls (env : Engine)
    (C p a : Nat) (ch : Option Nat) (d : USpatialNetDriver) :
    (ServerReplicateActors_ProcessPrioritizedActors.findChannel env C p a ch
      d).2.ReplicateActorCalls = d.ReplicateActorCalls := by
  unfold ServerReplicateActors_ProcessPrioritizedActors.findChannel
  split
  · exact ServerReplicateActors_ProcessPrioritizedActors.createChannel_calls env C p a d
  · rfl

theorem ServerReplicateActors_ProcessPrioritizedActors.markRelevant_calls (env : Engine)
    (b : Bool) (ch : Nat) (d : USpatialNetDriver) :
    (ServerReplicateActors_ProcessPrioritizedActors.markRelevant env b ch
      d).ReplicateActorCalls = d.ReplicateActorCalls := by
  unfold ServerReplicateActors_ProcessPrioritizedActors.markRelevant
  split <;> rfl

/-- The normal-actor part of the loop body always ends normally; it logs at most one
call, for this connection, index and info, counted in `OutUpdated`, and ends in
`return j` only with the connection not ready. -/
theorem ServerReplicateActors_ProcessPrioritizedActors.actorEntry_post (env : Engine)
    (C : Nat) (V : List FNetViewer) (j p : Nat) (ch : Option Nat) (U : Nat)
    (d : USpatialNetDriver) :
    ∃ Done d1,
      ServerReplicateActors_ProcessPrioritizedActors.actorEntry env C V j p ch U d =
        ok Done d1 ∧
      (∃ calls, d1.ReplicateActorCalls = d.ReplicateActorCalls ++ calls ∧
        Done.2 = U + calls.length ∧ calls.length ≤ 1 ∧
        ∀ c ∈ calls, c.Connection = C ∧ c.Index = j ∧ c.ActorInfo = p) ∧
      (Done.1 = true → env.IsNetReady d1.Net C = false) := by
  have none_calls : ∀ d1 : USpatialNetDriver, d1.ReplicateActorCalls = d.ReplicateActorCalls →
      ∃ calls : List FReplicateActorCall,
        d1.ReplicateActorCalls = d.ReplicateActorCalls ++ calls ∧
        U = U + calls.length ∧ calls.length ≤ 1 ∧
        ∀ c ∈ calls, c.Connection = C ∧ c.Index = j ∧ c.ActorInfo = p := by
    intro d1 h1
    exact ⟨[], by simp [h1], rfl, Nat.zero_le 1, by intro c hc; cases hc⟩
  unfold ServerReplicateActors_ProcessPrioritizedActors.actorEntry
  split
  · simp only []
    split
    · split
      · rename_i Ch dF hF
        have hdF : dF.ReplicateActorCalls = d.ReplicateActorCalls := by
          have := ServerReplicateActors_ProcessPrioritizedActors.findChannel_calls env C p
            (d.NetworkObjectInfos p).Actor ch d
          rw [hF] at this
          exact this
        unfold ServerReplicateActors_ProcessPrioritizedActors.withChannel
        simp only []
        obtain ⟨calls, hc1, hc2, hc3, hc4⟩ :=
          ServerReplicateActors_ProcessPrioritizedActors.replicate_calls env C j p
            (d.NetworkObjectInfos p).Actor Ch U
            (ServerReplicateActors_ProcessPrioritizedActors.markRelevant env
              (ServerReplicateActors_ProcessPrioritizedActors.bIsRelevant
                (d.NetworkObjectInfos p).Actor V ch d) Ch dF)
        rw [ServerReplicateActors_ProcessPrioritizedActors.markRelevant_calls, hdF] at hc1
        split
        · rename_i hnr
          exact ⟨_, _, rfl, ⟨calls, hc1, hc2, hc3, hc4⟩, fun _ => by simpa using hnr⟩
        · refine ⟨_, _, rfl, ⟨calls, ?_, hc2, hc3, hc4⟩, fun h => by cases h⟩
          rw [ServerReplicateActors_ProcessPrioritizedActors.closeChannel_calls, hc1]
      · rename_i dF hF
        have hdF : dF.ReplicateActorCalls = d.ReplicateActorCalls := by
          have := ServerReplicateActors_ProcessPrioritizedActors.findChannel_calls env C p
            (d.NetworkObjectInfos p).Actor ch d
          rw [hF] at this
          exact this
        refine ⟨_, _, rfl, none_calls _ ?_, fun h => by cases h⟩
        rw [ServerReplicateActors_ProcessPrioritizedActors.closeChannel_calls, hdF]
    · refine ⟨_, _, rfl, none_calls _ ?_, fun h => by cases h⟩
      rw [ServerReplicateActors_ProcessPrioritizedActors.closeChannel_calls]
  · exact ⟨_, _, rfl, none_calls d rfl, fun h => by cases h⟩

theorem ServerReplicateActors_ProcessPrioritizedActors.entry_post (env : Engine) (C : Nat)
    (V : List FNetViewer) (j : Nat) (E : FActorPriority) (U : Nat) (d : USpatialNetDriver) :
    EntryPost env C j E U d
      (ServerReplicateActors_ProcessPrioritizedActors.entry env C V j E U d) := by
  unfold ServerReplicateActors_ProcessPrioritizedActors.entry
  split
  · rename_i D h1 h2
    refine ⟨⟨[], ?_, rfl, Nat.zero_le 1, (by intro c hc; cases hc)⟩, (by intro h; cases h),
      Or.inr (by rw [h2]; exact Option.some_ne_none D)⟩
    rw [ServerReplicateActors_ProcessPrioritizedActors.deletionEntry_calls]
    simp
  · rename_i h1 h2
    exact ⟨rfl, h1, h2⟩
  · rename_i p hp
    obtain ⟨Done, d1, hr, ⟨calls, hc1, hc2, hc3, hc4⟩, hb⟩ :=
      ServerReplicateActors_ProcessPrioritizedActors.actorEntry_post env C V j p E.Channel U d
    rw [hr]
    refine ⟨⟨calls, hc1, hc2, hc3, ?_⟩, hb, Or.inl (by rw [hp]; exact Option.some_ne_none p)⟩
    intro c hc
    obtain ⟨k1, k2, k3⟩ := hc4 c hc
    exact ⟨k1, k2, by rw [hp, k3]⟩
/-- The loop of `ServerReplicateActors_ProcessPrioritizedActors` over entries that each
have an info or a destruction info ends normally. The calls it logs are for this
connection, at increasing indices of the array that do not exceed the returned index,
each for the info of the entry at its index, and `OutUpdated` counts them. The returned
index is at most `FinalSortedCount`; it is smaller only if the connection ends not
ready, and it is `FinalSortedCount` if the connection is ready whenever asked. -/
theorem ServerReplicateActors_ProcessPrioritizedActors.loop_post (env : Engine) (C : Nat)
    (V : List FNetViewer) :
    ∀ (L : List FActorPriority) (j U : Nat) (d : USpatialNetDriver),
      (∀ e ∈ L, e.ActorInfo ≠ none ∨ e.DestructionInfo ≠ none) →
      ∃ r U1 d1 calls,
        ServerReplicateActors_ProcessPrioritizedActors.loop env C V j L U d = ok (r, U1) d1 ∧
        d1.ReplicateActorCalls = d.ReplicateActorCalls ++ calls ∧
        U1 = U + calls.length ∧
        (∀ c ∈ calls, c.Connection = C ∧ j ≤ c.Index ∧ c.Index ≤ r ∧
          c.Index < j + L.length ∧
          (L[c.Index - j]?).bind (fun e => e.ActorInfo) = some c.ActorInfo) ∧
        calls.Pairwise (fun a b => a.Index < b.Index) ∧
        j ≤ r ∧ r ≤ j + L.length ∧
        (r < j + L.length → env.IsNetReady d1.Net C = false) ∧
        ((∀ net, env.IsNetReady net C = true) → r = j + L.length) := by
  intro L
  induction L with
  | nil =>
    intro j U d _
    refine ⟨j, U, d, [], rfl, by simp, rfl, (by intro c hc; cases hc), List.Pairwise.nil,
      Nat.le_refl _, Nat.le_refl _, ?_, fun _ => rfl⟩
    intro h
    simp at h
  | cons E rest ih =>
    intro j U d hwf
    have hpost := ServerReplicateActors_ProcessPrioritizedActors.entry_post env C V j E U d
    unfold ServerReplicateActors_ProcessPrioritizedActors.loop
    cases hentry : ServerReplicateActors_ProcessPrioritizedActors.entry env C V j E U d with
    | fatal f s =>
      rw [hentry] at hpost
      obtain ⟨_, h1, h2⟩ := hpost
      rcases hwf E (List.mem_cons_self _ _) with h | h
      · exact absurd h1 h
      · exact absurd h2 h
    | ok Done dE =>
      rw [hentry] at hpost
      obtain ⟨⟨calls, hc1, hc2, hc3, hc4⟩, hb, _⟩ := hpost
      rw [Result.bind_ok]
      have hcalls : ∀ c ∈ calls, c.Connection = C ∧ c.Index = j ∧
          (((E :: rest)[c.Index - j]?).bind fun e => e.ActorInfo) = some c.ActorInfo := by
        intro c hc
        obtain ⟨k1, k2, k3⟩ := hc4 c hc
        refine ⟨k1, k2, ?_⟩
        rw [k2, Nat.sub_self]
        simpa using k3
      have hpw : calls.Pairwise (fun a b => a.Index < b.Index) := by
        match calls, hc3 with
        | [], _ => exact List.Pairwise.nil
        | [c], _ => exact List.pairwise_singleton _ _
        | _ :: _ :: _, h => simp at h
      by_cases hdone : Done.1 = true
      · rw [if_pos hdone]
        refine ⟨j, Done.2, dE, calls, rfl, hc1, hc2, ?_, hpw, Nat.le_refl _, Nat.le_add_right _ _,
          fun _ => hb hdone, ?_⟩
        · intro c hc
          obtain ⟨k1, k2, k3⟩ := hcalls c hc
          refine ⟨k1, by omega, by omega, ?_, k3⟩
          simp only [List.length_cons]
          omega
        · intro hready
          have := hb hdone
          rw [hready] at this
          cases this
      · rw [if_neg hdone]
        obtain ⟨r, U1, d1, calls2, hl, hd1, hU1, hcs, hpw2, hjr, hrl, hsat, hall⟩ :=
          ih (j + 1) Done.2 dE (fun e he => hwf e (List.mem_cons_of_mem _ he))
        refine ⟨r, U1, d1, calls ++ calls2, hl, by rw [hd1, hc1, List.append_assoc], ?_, ?_,
          ?_, by omega, by simp only [List.length_cons]; omega, ?_, ?_⟩
        · rw [hU1, hc2, List.length_append]
          omega
        · intro c hc
          rcases List.mem_append.1 hc with h | h
          · obtain ⟨k1, k2, k3⟩ := hcalls c h
            refine ⟨k1, by omega, by omega, ?_, k3⟩
            simp only [List.length_cons]
            omega
          · obtain ⟨k1, k2, k3, k4, k5⟩ := hcs c h
            refine ⟨k1, by omega, k3, by simp only [List.length_cons]; omega, ?_⟩
            have hidx : c.Index - j = (c.Index - (j + 1)) + 1 := by omega
            rw [hidx, List.getElem?_cons_succ]
            exact k5
        · rw [List.pairwise_append]
          refine ⟨hpw, hpw2, ?_⟩
          intro a ha b hb2
          have h1 := (hcalls a ha).2.1
          have h2 := (hcs b hb2).2.1
          omega
        · intro hlt
          exact hsat (by simp only [List.length_cons] at hlt; omega)
        · intro hready
          rw [hall hready]
          simp only [List.length_cons]
          omega
/-- A pass that ends in `return j` ends the loop with the index `j` of its entry. -/
theorem ServerReplicateActors_ProcessPrioritizedActors.loop_of_return {env : Engine} {C : Nat}
    {V : List FNetViewer} {j : Nat} {E : FActorPriority} {U U1 : Nat}
    {d d1 : USpatialNetDriver} (rest : List FActorPriority)
    (h : ServerReplicateActors_ProcessPrioritizedActors.entry env C V j E U d =
      ok (true, U1) d1) :
    ServerReplicateActors_ProcessPrioritizedActors.loop env C V j (E :: rest) U d =
      ok (j, U1) d1 := by
  unfold ServerReplicateActors_ProcessPrioritizedActors.loop
  rw [h, Result.bind_ok]
  rfl

/-- A pass that comes to the second readiness check and finds the connection saturated
ends in `return j`, with the state right after the replicate block. -/
theorem ServerReplicateActors_ProcessPrioritizedActors.entry_of_saturates {env : Engine}
    {C : Nat} {V : List FNetViewer} {j : Nat} {E : FActorPriority} {U : Nat}
    {d : USpatialNetDriver} (h : SaturatesAt env C V j E U d) :
    ∃ U1 dS, ServerReplicateActors_ProcessPrioritizedActors.entry env C V j E U d =
        ok (true, U1) dS ∧ env.IsNetReady dS.Net C = false := by
  obtain ⟨p, Ch, hp, hc, hrr, hf, hn⟩ := h
  unfold ServerReplicateActors_ProcessPrioritizedActors.entry
  split
  · rename_i h1 _
    rw [hp] at h1
    cases h1
  · rename_i h1 _
    rw [hp] at h1
    cases h1
  · rename_i p2 h1
    rw [hp] at h1
    injection h1 with h1
    subst h1
    unfold ServerReplicateActors_ProcessPrioritizedActors.actorEntry
    rw [if_pos hc]
    simp only []
    rw [if_pos hrr]
    rcases hF : ServerReplicateActors_ProcessPrioritizedActors.findChannel env C p
      (d.NetworkObjectInfos p).Actor E.Channel d with ⟨o, dF⟩
    rw [hF] at hf hn
    simp only at hf hn
    subst hf
    simp only []
    unfold ServerReplicateActors_ProcessPrioritizedActors.withChannel
    simp only []
    rw [if_pos (by rw [hn]; rfl)]
    exact ⟨_, _, rfl, hn⟩

/-- When the loop has gone through the entries `Before` without returning early, and the
pass for the next entry ends in `return j`, the loop over the whole array returns the
index of that entry with the state and the count of that pass: no later entry is
looked at. -/
theorem ServerReplicateActors_ProcessPrioritizedActors.loop_stops (env : Engine) (C : Nat)
    (V : List FNetViewer) (Entry : FActorPriority) (After : List FActorPriority) :
    ∀ (Before : List FActorPriority) (j U k k1 : Nat) (d dB dE : USpatialNetDriver),
      ServerReplicateActors_ProcessPrioritizedActors.loop env C V j Before U d =
        ok (j + Before.length, k) dB →
      ServerReplicateActors_ProcessPrioritizedActors.entry env C V (j + Before.length) Entry
        k dB = ok (true, k1) dE →
      ServerReplicateActors_ProcessPrioritizedActors.loop env C V j
        (Before ++ Entry :: After) U d = ok (j + Before.length, k1) dE := by
  intro Before
  induction Before with
  | nil =>
    intro j U k k1 d dB dE hB hE
    unfold ServerReplicateActors_ProcessPrioritizedActors.loop at hB
    injection hB with h1 h2
    injection h1 with _ h3
    subst h2; subst h3
    simp only [List.length_nil, Nat.add_zero, List.nil_append] at hE ⊢
    exact ServerReplicateActors_ProcessPrioritizedActors.loop_of_return After hE
  | cons E rest ih =>
    intro j U k k1 d dB dE hB hE
    unfold ServerReplicateActors_ProcessPrioritizedActors.loop at hB
    obtain ⟨Done, d1, hentry, hrest⟩ := Result.bind_eq_ok.1 hB
    simp only [List.length_cons] at hrest hE ⊢
    by_cases hdone : Done.1 = true
    · rw [if_pos hdone] at hrest
      injection hrest with h1 _
      injection h1 with h1 _
      omega
    · rw [if_neg hdone] at hrest
      have e : j + (rest.length + 1) = j + 1 + rest.length := by omega
      rw [e] at hrest hE ⊢
      have := ih (j + 1) Done.2 k k1 d1 dB dE hrest hE
      rw [List.cons_append]
      unfold ServerReplicateActors_ProcessPrioritizedActors.loop
      rw [hentry, Result.bind_ok, if_neg hdone]
      exact this

/-- When `ServerReplicateActors_ProcessPrioritizedActors`, entered with the connection
ready, has gone through the entries `Before` without returning early, and the pass for
the next entry finds the connection saturated at its second readiness check, the call on
the whole array returns the index of that entry, with the state right after the check. -/
theorem ServerReplicateActors_ProcessPrioritizedActors_stops {env : Engine} {C : Nat}
    {V : List FNetViewer} {Before : List FActorPriority} {Entry : FActorPriority}
    {U k : Nat} {d dB : USpatialNetDriver} (After : List FActorPriority)
    (hReady : env.IsNetReady d.Net C = true)
    (hB : ServerReplicateActors_ProcessPrioritizedActors env C V Before U d =
      ok (Before.length, k) dB)
    (hS : SaturatesAt env C V Before.length Entry k dB) :
    ∃ U1 dS,
      ServerReplicateActors_ProcessPrioritizedActors.entry env C V Before.length Entry k dB =
        ok (true, U1) dS ∧
      ServerReplicateActors_ProcessPrioritizedActors env C V (Before ++ Entry :: After) U d =
        ok (Before.length, U1) dS ∧
      env.IsNetReady dS.Net C = false := by
  obtain ⟨U1, dS, hE, hN⟩ :=
    ServerReplicateActors_ProcessPrioritizedActors.entry_of_saturates hS
  refine ⟨U1, dS, hE, ?_, hN⟩
  unfold ServerReplicateActors_ProcessPrioritizedActors at hB ⊢
  rw [hReady] at hB ⊢
  simp only [Bool.not_true, Bool.false_eq_true, if_false] at hB ⊢
  have := ServerReplicateActors_ProcessPrioritizedActors.loop_stops env C V Entry After
    Before 0 U k U1 d dB dS (by rw [Nat.zero_add]; exact hB) (by rw [Nat.zero_add]; exact hE)
  rw [Nat.zero_add] at this
  exact this

/-- C13: on an array whose entries each have an info or a destruction info,
`ServerReplicateActors_ProcessPrioritizedActors` returns. If the connection is not ready
on entry it returns `0` and changes nothing, `OutUpdated` included. Otherwise every
`ReplicateActor` call it makes is for this connection and for the entry at an index of
the array that is not greater than the returned index, the calls are made at increasing
indices, and `OutUpdated` grows by their number; the returned index is below
`FinalSortedCount` only if the connection ends not ready, and it is `FinalSortedCount`
if the connection is ready whenever asked. A failed readiness check ends the call: when
the entries before index `j` have been gone through without an early return and the pass
for the entry at index `j` finds the connection saturated at its second readiness check,
the call returns `j` with the state right after that check, so that no channel is closed
and no entry behind `j` is looked at. -/
theorem C13_ProcessPrioritizedActors_stops_at_saturation (env : Engine) (InConnection : Nat)
    (ConnectionViewers : List FNetViewer) (PriorityActors : List FActorPriority)
    (OutUpdated : Nat) (d : USpatialNetDriver)
    (hEntries : ∀ Entry ∈ PriorityActors,
      Entry.ActorInfo ≠ none ∨ Entry.DestructionInfo ≠ none) :
    (env.IsNetReady d.Net InConnection = false →
      ServerReplicateActors_ProcessPrioritizedActors env InConnection ConnectionViewers
        PriorityActors OutUpdated d = ok (0, OutUpdated) d) ∧
    (env.IsNetReady d.Net InConnection = true →
      ∃ LastProcessedActor Updated d1 calls,
        ServerReplicateActors_ProcessPrioritizedActors env InConnection ConnectionViewers
          PriorityActors OutUpdated d = ok (LastProcessedActor, Updated) d1 ∧
        d1.ReplicateActorCalls = d.ReplicateActorCalls ++ calls ∧
        Updated = OutUpdated + calls.length ∧
        (∀ c ∈ calls, c.Connection = InConnection ∧ c.Index ≤ LastProcessedActor ∧
          c.Index < PriorityActors.length ∧
          (PriorityActors[c.Index]?).bind (fun Entry => Entry.ActorInfo) = some c.ActorInfo) ∧
        calls.Pairwise (fun a b => a.Index < b.Index) ∧
        LastProcessedActor ≤ PriorityActors.length ∧
        (LastProcessedActor < PriorityActors.length →
          env.IsNetReady d1.Net InConnection = false) ∧
        ((∀ net, env.IsNetReady net InConnection = true) →
          LastProcessedActor = PriorityActors.length)) ∧
    (∀ (Before : List FActorPriority) (Entry : FActorPriority) (After : List FActorPriority)
        (k : Nat) (dB : USpatialNetDriver),
      PriorityActors = Before ++ Entry :: After →
      env.IsNetReady d.Net InConnection = true →
      ServerReplicateActors_ProcessPrioritizedActors env InConnection ConnectionViewers
        Before OutUpdated d = ok (Before.length, k) dB →
      SaturatesAt env InConnection ConnectionViewers Before.length Entry k dB →
      ∃ Updated dS,
        ServerReplicateActors_ProcessPrioritizedActors.entry env InConnection
          ConnectionViewers Before.length Entry k dB = ok (true, Updated) dS ∧
        ServerReplicateActors_ProcessPrioritizedActors env InConnection ConnectionViewers
          PriorityActors OutUpdated d = ok (Before.length, Updated) dS ∧
        env.IsNetReady dS.Net InConnection = false) := by
  refine ⟨?_, ?_, ?_⟩
  · intro h
    unfold ServerReplicateActors_ProcessPrioritizedActors
    rw [h]
    rfl
  · intro h
    unfold ServerReplicateActors_ProcessPrioritizedActors
    rw [h]
    simp only [Bool.not_true, Bool.false_eq_true, if_false]
    obtain ⟨r, U1, d1, calls, hl, hd1, hU1, hcs, hpw, _, hrl, hsat, hall⟩ :=
      ServerReplicateActors_ProcessPrioritizedActors.loop_post env InConnection
        ConnectionViewers PriorityActors 0 OutUpdated d hEntries
    rw [Nat.zero_add] at hrl hsat hall
    refine ⟨r, U1, d1, calls, hl, hd1, hU1, ?_, hpw, hrl, hsat, hall⟩
    intro c hc
    obtain ⟨k1, _, k3, k4, k5⟩ := hcs c hc
    rw [Nat.zero_add] at k4
    rw [Nat.sub_zero] at k5
    exact ⟨k1, k3, k4, k5⟩
  · intro Before Entry After k dB hL hReady hB hS
    rw [hL]
    exact ServerReplicateActors_ProcessPrioritizedActors_stops After hReady hB hS

/-- C13 on the sample: connection `1` takes two sends, so of the entries of priority
`10`, `8`, `5` the first two are replicated and the call returns index `1` with
`OutUpdated = 2`: the first entry is gone through without an early return, the pass for
the second entry finds the connection saturated, and the call ends there. On a
connection that is not ready the call returns `0`. -/
theorem C13_ProcessPrioritizedActors_stops_at_saturation_witness :
    (ServerReplicateActors_ProcessPrioritizedActors sampleEngine 1 [] samplePriorityActors 0
        samplePrioritized).value? = some (1, 2) ∧
      sampleProcessed.ReplicateActorCalls =
        [{ Connection := 1, Index := 0, ActorInfo := 0, Channel := 100, bSent := true },
         { Connection := 1, Index := 1, ActorInfo := 2, Channel := 101, bSent := true }] ∧
      sampleEngine.IsNetReady sampleProcessed.Net 1 = false ∧
      ServerReplicateActors_ProcessPrioritizedActors sampleEngine 1 [] samplePriorityActors 7
        sampleProcessed = ok (0, 7) sampleProcessed ∧
      SaturatesAt sampleEngine 1 [] 1
        { Priority := 8, ActorInfo := some 2, Channel := none, DestructionInfo := none } 1
        (ServerReplicateActors_ProcessPrioritizedActors sampleEngine 1 []
          [{ Priority := 10, ActorInfo := some 0, Channel := none, DestructionInfo := none }]
          0 samplePrioritized).state ∧
      ∃ Updated dS,
        ServerReplicateActors_ProcessPrioritizedActors.entry sampleEngine 1 [] 1
          { Priority := 8, ActorInfo := some 2, Channel := none, DestructionInfo := none } 1
          (ServerReplicateActors_ProcessPrioritizedActors sampleEngine 1 []
            [{ Priority := 10, ActorInfo := some 0, Channel := none,
               DestructionInfo := none }]
            0 samplePrioritized).state = ok (true, Updated) dS ∧
        ServerReplicateActors_ProcessPrioritizedActors sampleEngine 1 []
          samplePriorityActors 0 samplePrioritized = ok (1, Updated) dS ∧
        sampleEngine.IsNetReady dS.Net 1 = false :=
  have hv : (ServerReplicateActors_ProcessPrioritizedActors sampleEngine 1 []
      [{ Priority := 10, ActorInfo := some 0, Channel := none, DestructionInfo := none }]
      0 samplePrioritized).value? = some (1, 1) := by decide
  have hS : SaturatesAt sampleEngine 1 [] 1
      { Priority := 8, ActorInfo := some 2, Channel := none, DestructionInfo := none } 1
      (ServerReplicateActors_ProcessPrioritizedActors sampleEngine 1 []
        [{ Priority := 10, ActorInfo := some 0, Channel := none, DestructionInfo := none }]
        0 samplePrioritized).state :=
    ⟨2, 101, rfl, Or.inl rfl, by decide, by decide, by decide⟩
  ⟨by decide, by decide, by decide,
    (C13_ProcessPrioritizedActors_stops_at_saturation sampleEngine 1 [] samplePriorityActors 7
      sampleProcessed (by decide)).1 (by decide),
    hS,
    (C13_ProcessPrioritizedActors_stops_at_saturation sampleEngine 1 [] samplePriorityActors 0
      samplePrioritized (by decide)).2.2
      [{ Priority := 10, ActorInfo := some 0, Channel := none, DestructionInfo := none }]
      { Priority := 8, ActorInfo := some 2, Channel := none, DestructionInfo := none }
      [{ Priority := 5, ActorInfo := some 1, Channel := none, DestructionInfo := none }]
      1 _ rfl (by decide) (Result.eq_ok_of_value hv) hS⟩

/-! ## The update interval after a successful send -/

theorem FMath.le_Max_right (A B : ℚ) : B ≤ FMath.Max A B := by
  unfold FMath.Max
  split
  · assumption
  · exact le_refl B

theorem FMath.Clamp_mem (X Min Max : ℚ) (h : Min ≤ Max) :
    Min ≤ FMath.Clamp X Min Max ∧ FMath.Clamp X Min Max ≤ Max := by
  unfold FMath.Clamp
  split
  · exact ⟨le_refl _, h⟩
  · rename_i h1
    split
    · rename_i h2
      exact ⟨not_lt.1 h1, le_of_lt h2⟩
    · exact ⟨h, le_refl _⟩

theorem ServerReplicateActors_ProcessPrioritizedActors.replicate_sent (env : Engine)
    (C j p ch U : Nat) (d : USpatialNetDriver) (c : FReplicateActorCall)
    (hc : (ServerReplicateActors_ProcessPrioritizedActors.replicate env C j p
      (d.NetworkObjectInfos p).Actor ch U d).2.ReplicateActorCalls =
        d.ReplicateActorCalls ++ [c])
    (hsent : c.bSent = true) :
    c.ActorInfo = p ∧
    IsUpdatedAfterSend d p
      ((ServerReplicateActors_ProcessPrioritizedActors.replicate env C j p
        (d.NetworkObjectInfos p).Actor ch U d).2.NetworkObjectInfos p) := by
  unfold ServerReplicateActors_ProcessPrioritizedActors.replicate at hc ⊢
  by_cases hready : env.ChannelIsNetReady d.Net ch = true
  · rw [if_pos hready] at hc ⊢
    simp only [] at hc ⊢
    by_cases hs : (env.ReplicateActor d.Net ch).1 = true
    · rw [if_pos hs] at hc ⊢
      simp only [] at hc
      have hcc := List.append_cancel_left hc
      injection hcc with hcc _
      refine ⟨by rw [← hcc], ?_⟩
      simp only [Function.update_same]
      exact ⟨rfl, rfl⟩
    · rw [if_neg hs] at hc
      simp only [] at hc
      have hcc := List.append_cancel_left hc
      injection hcc with hcc _
      rw [← hcc] at hsent
      exact absurd hsent hs
  · rw [if_neg hready] at hc
    simp only [] at hc
    have := congrArg List.length hc
    simp at this

theorem ServerReplicateActors_ProcessPrioritizedActors.createChannel_some {env : Engine}
    {C p a Ch : Nat} {d dF : USpatialNetDriver}
    (h : ServerReplicateActors_ProcessPrioritizedActors.createChannel env C p a d =
      (some Ch, dF)) :
    dF.NetworkObjectInfos = d.NetworkObjectInfos ∧ dF.Actors = d.Actors ∧
      dF.WorldTimeSeconds = d.WorldTimeSeconds := by
  unfold ServerReplicateActors_ProcessPrioritizedActors.createChannel at h
  split at h
  · injection h with _ h2
    rw [← h2]
    exact ⟨rfl, rfl, rfl⟩
  · simp only [] at h
    split at h
    · injection h with _ h2
      rw [← h2]
      exact ⟨rfl, rfl, rfl⟩
    · split at h <;> · injection h with h1 _; cases h1

theorem ServerReplicateActors_ProcessPrioritizedActors.findChannel_some {env : Engine}
    {C p a Ch : Nat} {ch : Option Nat} {d dF : USpatialNetDriver}
    (h : ServerReplicateActors_ProcessPrioritizedActors.findChannel env C p a ch d =
      (some Ch, dF)) :
    dF.NetworkObjectInfos = d.NetworkObjectInfos ∧ dF.Actors = d.Actors ∧
      dF.WorldTimeSeconds = d.WorldTimeSeconds := by
  unfold ServerReplicateActors_ProcessPrioritizedActors.findChannel at h
  split at h
  · exact ServerReplicateActors_ProcessPrioritizedActors.createChannel_some h
  · injection h with _ h2
    rw [← h2]
    exact ⟨rfl, rfl, rfl⟩
theorem IsUpdatedAfterSend.of_same {d d0 : USpatialNetDriver} {p : Nat}
    {Info : FNetworkObjectInfo} (h : IsUpdatedAfterSend d p Info)
    (h1 : d.NetworkObjectInfos = d0.NetworkObjectInfos) (h2 : d.Actors = d0.Actors)
    (h3 : d.WorldTimeSeconds = d0.WorldTimeSeconds) : IsUpdatedAfterSend d0 p Info := by
  unfold IsUpdatedAfterSend at h ⊢
  rw [h1, h2, h3] at h
  exact h

theorem List.ne_append_singleton_self {α : Type} (l : List α) (c : α) : l ≠ l ++ [c] := by
  intro h
  have := congrArg List.length h
  simp at this

theorem ServerReplicateActors_ProcessPrioritizedActors.withChannel_sent {env : Engine}
    {C j p Ch : Nat} {b1 b2 : Bool} {U : Nat} {d d1 : USpatialNetDriver} {Done : Bool × Nat}
    {c : FReplicateActorCall}
    (h : ServerReplicateActors_ProcessPrioritizedActors.withChannel env C j p
      (d.NetworkObjectInfos p).Actor Ch b1 b2 U d = ok Done d1)
    (hc : d1.ReplicateActorCalls = d.ReplicateActorCalls ++ [c]) (hsent : c.bSent = true) :
    c.ActorInfo = p ∧ IsUpdatedAfterSend d p (d1.NetworkObjectInfos p) := by
  unfold ServerReplicateActors_ProcessPrioritizedActors.withChannel at h
  simp only [] at h
  have hM1 : (ServerReplicateActors_ProcessPrioritizedActors.markRelevant env b1 Ch
      d).NetworkObjectInfos = d.NetworkObjectInfos := by
    unfold ServerReplicateActors_ProcessPrioritizedActors.markRelevant
    split <;> rfl
  have hM2 : (ServerReplicateActors_ProcessPrioritizedActors.markRelevant env b1 Ch
      d).Actors = d.Actors := by
    unfold ServerReplicateActors_ProcessPrioritizedActors.markRelevant
    split <;> rfl
  have hM3 : (ServerReplicateActors_ProcessPrioritizedActors.markRelevant env b1 Ch
      d).WorldTimeSeconds = d.WorldTimeSeconds := by
    unfold ServerReplicateActors_ProcessPrioritizedActors.markRelevant
    split <;> rfl
  have hM4 := ServerReplicateActors_ProcessPrioritizedActors.markRelevant_calls env b1 Ch d
  have key : ∀ dS : USpatialNetDriver,
      dS = (ServerReplicateActors_ProcessPrioritizedActors.replicate env C j p
        (d.NetworkObjectInfos p).Actor Ch U
        (ServerReplicateActors_ProcessPrioritizedActors.markRelevant env b1 Ch d)).2 →
      dS.ReplicateActorCalls = d.ReplicateActorCalls ++ [c] →
      c.ActorInfo = p ∧ IsUpdatedAfterSend d p (dS.NetworkObjectInfos p) := by
    intro dS hdS hcS
    rw [hdS, ← hM4] at hcS
    have hA : (d.NetworkObjectInfos p).Actor =
        ((ServerReplicateActors_ProcessPrioritizedActors.markRelevant env b1 Ch
          d).NetworkObjectInfos p).Actor := by rw [hM1]
    rw [hA] at hcS
    have := ServerReplicateActors_ProcessPrioritizedActors.replicate_sent env C j p Ch U _ c
      hcS hsent
    rw [← hA] at this
    rw [hdS]
    exact ⟨this.1, this.2.of_same hM1 hM2 hM3⟩
  split at h
  · injection h with _ h2
    exact key d1 h2.symm hc
  · injection h with _ h2
    have hcl := ServerReplicateActors_ProcessPrioritizedActors.closeChannel_calls env
      (d.NetworkObjectInfos p).Actor b2 (some Ch)
      (ServerReplicateActors_ProcessPrioritizedActors.replicate env C j p
        (d.NetworkObjectInfos p).Actor Ch U
        (ServerReplicateActors_ProcessPrioritizedActors.markRelevant env b1 Ch d)).2
    rw [h2] at hcl
    have hinfo : d1.NetworkObjectInfos =
        (ServerReplicateActors_ProcessPrioritizedActors.replicate env C j p
          (d.NetworkObjectInfos p).Actor Ch U
          (ServerReplicateActors_ProcessPrioritizedActors.markRelevant env b1 Ch
            d)).2.NetworkObjectInfos := by
      rw [← h2]
      unfold ServerReplicateActors_ProcessPrioritizedActors.closeChannel
      simp only []
      split <;> rfl
    rw [hinfo]
    exact key _ rfl (hcl.symm.trans hc)

theorem ServerReplicateActors_ProcessPrioritizedActors.actorEntry_sent {env : Engine}
    {C : Nat} {V : List FNetViewer} {j p : Nat} {ch : Option Nat} {U : Nat}
    {d d1 : USpatialNetDriver} {Done : Bool × Nat} {c : FReplicateActorCall}
    (h : ServerReplicateActors_ProcessPrioritizedActors.actorEntry env C V j p ch U d =
      ok Done d1)
    (hc : d1.ReplicateActorCalls = d.ReplicateActorCalls ++ [c]) (hsent : c.bSent = true) :
    c.ActorInfo = p ∧ IsUpdatedAfterSend d p (d1.NetworkObjectInfos p) := by
  unfold ServerReplicateActors_ProcessPrioritizedActors.actorEntry at h
  split at h
  · simp only [] at h
    split at h
    · split at h
      · rename_i Ch dF hF
        obtain ⟨f1, f2, f3⟩ := ServerReplicateActors_ProcessPrioritizedActors.findChannel_some hF
        have hFc := ServerReplicateActors_ProcessPrioritizedActors.findChannel_calls env C p
          (d.NetworkObjectInfos p).Actor ch d
        rw [hF] at hFc
        have hA : (d.NetworkObjectInfos p).Actor = (dF.NetworkObjectInfos p).Actor := by rw [f1]
        rw [hA] at h
        have := ServerReplicateActors_ProcessPrioritizedActors.withChannel_sent h
          (by rw [hFc]; exact hc) hsent
        exact ⟨this.1, this.2.of_same f1 f2 f3⟩
      · rename_i dF hF
        injection h with _ h2
        have hFc := ServerReplicateActors_ProcessPrioritizedActors.findChannel_calls env C p
          (d.NetworkObjectInfos p).Actor ch d
        rw [hF] at hFc
        rw [← h2, ServerReplicateActors_ProcessPrioritizedActors.closeChannel_calls, hFc] at hc
        exact absurd hc (List.ne_append_singleton_self _ _)
    · injection h with _ h2
      rw [← h2, ServerReplicateActors_ProcessPrioritizedActors.closeChannel_calls] at hc
      exact absurd hc (List.ne_append_singleton_self _ _)
  · injection h with _ h2
    rw [← h2] at hc
    exact absurd hc (List.ne_append_singleton_self _ _)

/-- When one pass through the loop body of
`ServerReplicateActors_ProcessPrioritizedActors` makes a `ReplicateActor` call that
returns true, the call is for the info of the entry, and that info afterwards stores the
interval and the send time computed from the state before the pass. -/
theorem ServerReplicateActors_ProcessPrioritizedActors.entry_sent (env : Engine)
    (InConnection : Nat) (ConnectionViewers : List FNetViewer) (j : Nat)
    (Entry : FActorPriority) (OutUpdated : Nat) (d d1 : USpatialNetDriver)
    (Done : Bool × Nat) (c : FReplicateActorCall)
    (h : ServerReplicateActors_ProcessPrioritizedActors.entry env InConnection
      ConnectionViewers j Entry OutUpdated d = ok Done d1)
    (hCall : d1.ReplicateActorCalls = d.ReplicateActorCalls ++ [c])
    (hSent : c.bSent = true) :
    Entry.ActorInfo = some c.ActorInfo ∧
    IsUpdatedAfterSend d c.ActorInfo (d1.NetworkObjectInfos c.ActorInfo) := by
  unfold ServerReplicateActors_ProcessPrioritizedActors.entry at h
  split at h
  · injection h with _ h2
    rw [← h2, ServerReplicateActors_ProcessPrioritizedActors.deletionEntry_calls] at hCall
    exact absurd hCall (List.ne_append_singleton_self _ _)
  · cases h
  · rename_i p hp
    obtain ⟨hcp, hupd⟩ :=
      ServerReplicateActors_ProcessPrioritizedActors.actorEntry_sent h hCall hSent
    subst hcp
    exact ⟨hp, hupd⟩

/-- On the sample, one pass of the loop body for the entry of info `0` sends it and
stores the interval `0.35` and the send time `10`. -/
theorem ServerReplicateActors_ProcessPrioritizedActors.entry_sent_of_samplePrioritized :
    (sampleAfterFirstEntry.NetworkObjectInfos 0).OptimalNetUpdateDelta = 35 / 100 ∧
      (sampleAfterFirstEntry.NetworkObjectInfos 0).LastNetReplicateTime = 10 :=
  have hv : (ServerReplicateActors_ProcessPrioritizedActors.entry sampleEngine 1 [] 0
      { Priority := 10, ActorInfo := some 0, Channel := none, DestructionInfo := none } 0
      samplePrioritized).value? = some (false, 1) := by decide
  have h := ServerReplicateActors_ProcessPrioritizedActors.entry_sent sampleEngine 1 [] 0
    { Priority := 10, ActorInfo := some 0, Channel := none, DestructionInfo := none } 0
    samplePrioritized sampleAfterFirstEntry (false, 1)
    { Connection := 1, Index := 0, ActorInfo := 0, Channel := 100, bSent := true }
    (Result.eq_ok_of_value hv) (by decide) rfl
  ⟨h.2.1.trans (by decide!), h.2.2.trans (by decide!)⟩

/-! ## The update interval at the end of `ServerReplicateActors_ProcessPrioritizedActors` -/

theorem OnlyInfo.of_infos_same {p : Option Nat} {d d1 : USpatialNetDriver}
    (h1 : d1.Actors = d.Actors) (h2 : d1.WorldTimeSeconds = d.WorldTimeSeconds)
    (h3 : d1.NetworkObjectInfos = d.NetworkObjectInfos) : OnlyInfo p d d1 :=
  ⟨h1, h2, fun q _ => by rw [h3]⟩

theorem OnlyInfo.of_update_info {p : Nat} {d d1 : USpatialNetDriver} {Info : FNetworkObjectInfo}
    (h1 : d1.Actors = d.Actors) (h2 : d1.WorldTimeSeconds = d.WorldTimeSeconds)
    (h3 : d1.NetworkObjectInfos = Function.update d.NetworkObjectInfos p Info) :
    OnlyInfo (some p) d d1 := by
  refine ⟨h1, h2, fun q hq => ?_⟩
  rw [h3, Function.update_noteq]
  intro hqp
  exact hq (by rw [hqp])

theorem OnlyInfo.then_only {p : Option Nat} : ∀ a b c : USpatialNetDriver,
    OnlyInfo p a b → OnlyInfo p b c → OnlyInfo p a c := by
  intro a b c h1 h2
  exact ⟨h2.1.trans h1.1, h2.2.1.trans h1.2.1, fun q hq => (h2.2.2 q hq).trans (h1.2.2 q hq)⟩

theorem ServerReplicateActors_ProcessPrioritizedActors.deletionEntry_only (env : Engine)
    (C : Nat) (D : FActorDestructionInfo) (d : USpatialNetDriver) :
    OnlyInfo none d
      (ServerReplicateActors_ProcessPrioritizedActors.deletionEntry env C D d) := by
  unfold ServerReplicateActors_ProcessPrioritizedActors.deletionEntry
  split
  · exact OnlyInfo.of_infos_same rfl rfl rfl
  · simp only []
    split <;> exact OnlyInfo.of_infos_same rfl rfl rfl

theorem ServerReplicateActors_ProcessPrioritizedActors.createChannel_only (env : Engine)
    (C p a : Nat) (d : USpatialNetDriver) :
    OnlyInfo (some p) d
      (ServerReplicateActors_ProcessPrioritizedActors.createChannel env C p a d).2 := by
  unfold ServerReplicateActors_ProcessPrioritizedActors.createChannel
  split
  · exact OnlyInfo.of_infos_same rfl rfl rfl
  · simp only []
    split
    · exact OnlyInfo.of_infos_same rfl rfl rfl
    · split
      · exact OnlyInfo.of_update_info rfl rfl rfl
      · exact OnlyInfo.of_infos_same rfl rfl rfl

theorem ServerReplicateActors_ProcessPrioritizedActors.findChannel_only (env : Engine)
    (C p a : Nat) (ch : Option Nat) (d : USpatialNetDriver) :
    OnlyInfo (some p) d
      (ServerReplicateActors_ProcessPrioritizedActors.findChannel env C p a ch d).2 := by
  unfold ServerReplicateActors_ProcessPrioritizedActors.findChannel
  split
  · exact ServerReplicateActors_ProcessPrioritizedActors.createChannel_only env C p a d
  · exact OnlyInfo.of_infos_same rfl rfl rfl

theorem ServerReplicateActors_ProcessPrioritizedActors.markRelevant_only (env : Engine)
    (p : Option Nat) (b : Bool) (ch : Nat) (d : USpatialNetDriver) :
    OnlyInfo p d (ServerReplicateActors_ProcessPrioritizedActors.markRelevant env b ch d) := by
  unfold ServerReplicateActors_ProcessPrioritizedActors.markRelevant
  split <;> exact OnlyInfo.of_infos_same rfl rfl rfl

theorem ServerReplicateActors_ProcessPrioritizedActors.replicate_only (env : Engine)
    (C j p a ch U : Nat) (d : USpatialNetDriver) :
    OnlyInfo (some p) d
      (ServerReplicateActors_ProcessPrioritizedActors.replicate env C j p a ch U d).2 := by
  unfold ServerReplicateActors_ProcessPrioritizedActors.replicate
  split
  · simp only []
    split
    · exact OnlyInfo.of_update_info rfl rfl rfl
    · exact OnlyInfo.of_infos_same rfl rfl rfl
  · exact OnlyInfo.of_infos_same rfl rfl rfl

theorem ServerReplicateActors_ProcessPrioritizedActors.closeChannel_only (env : Engine)
    (p : Option Nat) (a : Nat) (b : Bool) (ch : Option Nat) (d : USpatialNetDriver) :
    OnlyInfo p d (ServerReplicateActors_ProcessPrioritizedActors.closeChannel env a b ch d) := by
  unfold ServerReplicateActors_ProcessPrioritizedActors.closeChannel
  split
  · split <;> exact OnlyInfo.of_infos_same rfl rfl rfl
  · exact OnlyInfo.of_infos_same rfl rfl rfl

theorem ServerReplicateActors_ProcessPrioritizedActors.withChannel_only (env : Engine)
    (C j p a ch : Nat) (b1 b2 : Bool) (U : Nat) (d : USpatialNetDriver) :
    OnlyInfo (some p) d
      (ServerReplicateActors_ProcessPrioritizedActors.withChannel env C j p a ch b1 b2 U
        d).state := by
  unfold ServerReplicateActors_ProcessPrioritizedActors.withChannel
  simp only []
  have h1 := OnlyInfo.then_only _ _ _
    (ServerReplicateActors_ProcessPrioritizedActors.markRelevant_only env (some p) b1 ch d)
    (ServerReplicateActors_ProcessPrioritizedActors.replicate_only env C j p a ch U _)
  split
  · exact h1
  · exact OnlyInfo.then_only _ _ _ h1
      (ServerReplicateActors_ProcessPrioritizedActors.closeChannel_only env (some p) a b2
        (some ch) _)

theorem ServerReplicateActors_ProcessPrioritizedActors.actorEntry_only (env : Engine)
    (C : Nat) (V : List FNetViewer) (j p : Nat) (ch : Option Nat) (U : Nat)
    (d : USpatialNetDriver) :
    OnlyInfo (some p) d
      (ServerReplicateActors_ProcessPrioritizedActors.actorEntry env C V j p ch U d).state := by
  unfold ServerReplicateActors_ProcessPrioritizedActors.actorEntry
  split
  · simp only []
    split
    · split
      · rename_i Ch dF hF
        have hf := ServerReplicateActors_ProcessPrioritizedActors.findChannel_only env C p
          (d.NetworkObjectInfos p).Actor ch d
        rw [hF] at hf
        exact OnlyInfo.then_only _ _ _ hf
          (ServerReplicateActors_ProcessPrioritizedActors.withChannel_only env C j p _ Ch _ _
            U dF)
      · rename_i dF hF
        have hf := ServerReplicateActors_ProcessPrioritizedActors.findChannel_only env C p
          (d.NetworkObjectInfos p).Actor ch d
        rw [hF] at hf
        simp only [Result.state_ok]
        exact OnlyInfo.then_only _ _ _ hf
          (ServerReplicateActors_ProcessPrioritizedActors.closeChannel_only env _ _ _ none dF)
    · simp only [Result.state_ok]
      exact ServerReplicateActors_ProcessPrioritizedActors.closeChannel_only env _ _ _ ch d
  · exact OnlyInfo.of_infos_same rfl rfl rfl

theorem ServerReplicateActors_ProcessPrioritizedActors.entry_only (env : Engine) (C : Nat)
    (V : List FNetViewer) (j : Nat) (E : FActorPriority) (U : Nat) (d : USpatialNetDriver) :
    OnlyInfo E.ActorInfo d
      (ServerReplicateActors_ProcessPrioritizedActors.entry env C V j E U d).state := by
  unfold ServerReplicateActors_ProcessPrioritizedActors.entry
  split
  · rename_i h1 _
    rw [h1]
    exact ServerReplicateActors_ProcessPrioritizedActors.deletionEntry_only env C _ d
  · exact OnlyInfo.of_infos_same rfl rfl rfl
  · rename_i p hp
    rw [hp]
    exact ServerReplicateActors_ProcessPrioritizedActors.actorEntry_only env C V j p _ U d

/-- The loop changes no info other than those of its entries. -/
theorem ServerReplicateActors_ProcessPrioritizedActors.loop_only (env : Engine) (C : Nat)
    (V : List FNetViewer) :
    ∀ (L : List FActorPriority) (j U : Nat) (d : USpatialNetDriver),
      (ServerReplicateActors_ProcessPrioritizedActors.loop env C V j L U d).state.Actors =
        d.Actors ∧
      (ServerReplicateActors_ProcessPrioritizedActors.loop env C V j L U
        d).state.WorldTimeSeconds = d.WorldTimeSeconds ∧
      ∀ q, (∀ e ∈ L, e.ActorInfo ≠ some q) →
        (ServerReplicateActors_ProcessPrioritizedActors.loop env C V j L U
          d).state.NetworkObjectInfos q = d.NetworkObjectInfos q := by
  intro L
  induction L with
  | nil => intro j U d; exact ⟨rfl, rfl, fun _ _ => rfl⟩
  | cons E rest ih =>
    intro j U d
    have hE := ServerReplicateActors_ProcessPrioritizedActors.entry_only env C V j E U d
    unfold ServerReplicateActors_ProcessPrioritizedActors.loop
    cases hentry : ServerReplicateActors_ProcessPrioritizedActors.entry env C V j E U d with
    | fatal f s =>
      rw [hentry] at hE
      exact ⟨hE.1, hE.2.1, fun q hq => hE.2.2 q (hq E (List.mem_cons_self _ _))⟩
    | ok Done dE =>
      rw [hentry] at hE
      rw [Result.bind_ok]
      split
      · exact ⟨hE.1, hE.2.1, fun q hq => hE.2.2 q (hq E (List.mem_cons_self _ _))⟩
      · obtain ⟨k1, k2, k3⟩ := ih (j + 1) Done.2 dE
        refine ⟨k1.trans hE.1, k2.trans hE.2.1, fun q hq => ?_⟩
        rw [k3 q (fun e he => hq e (List.mem_cons_of_mem _ he))]
        exact hE.2.2 q (hq E (List.mem_cons_self _ _))

theorem IsUpdatedAfterSend.of_only {d d0 : USpatialNetDriver} {p : Nat}
    {Info : FNetworkObjectInfo} (h : IsUpdatedAfterSend d p Info)
    (h1 : d.NetworkObjectInfos p = d0.NetworkObjectInfos p) (h2 : d.Actors = d0.Actors)
    (h3 : d.WorldTimeSeconds = d0.WorldTimeSeconds) : IsUpdatedAfterSend d0 p Info := by
  unfold IsUpdatedAfterSend at h ⊢
  rw [h1, h2, h3] at h
  exact h

/-- The loop of `ServerReplicateActors_ProcessPrioritizedActors` only appends to the log
of `ReplicateActor` calls. -/
theorem ServerReplicateActors_ProcessPrioritizedActors.loop_appends (env : Engine) (C : Nat)
    (V : List FNetViewer) :
    ∀ (L : List FActorPriority) (j U : Nat) (d : USpatialNetDriver),
      ∃ calls, (ServerReplicateActors_ProcessPrioritizedActors.loop env C V j L U
        d).state.ReplicateActorCalls = d.ReplicateActorCalls ++ calls := by
  intro L
  induction L with
  | nil => intro j U d; exact ⟨[], by simp [ServerReplicateActors_ProcessPrioritizedActors.loop]⟩
  | cons E rest ih =>
    intro j U d
    have hpost := ServerReplicateActors_ProcessPrioritizedActors.entry_post env C V j E U d
    unfold ServerReplicateActors_ProcessPrioritizedActors.loop
    cases hentry : ServerReplicateActors_ProcessPrioritizedActors.entry env C V j E U d with
    | fatal f s =>
      rw [hentry] at hpost
      exact ⟨[], by rw [hpost.1]; simp [Result.bind]⟩
    | ok Done dE =>
      rw [hentry] at hpost
      obtain ⟨⟨calls, hc1, _⟩, _, _⟩ := hpost
      rw [Result.bind_ok]
      split
      · exact ⟨calls, hc1⟩
      · obtain ⟨calls2, h2⟩ := ih (j + 1) Done.2 dE
        exact ⟨calls ++ calls2, by rw [h2, hc1, List.append_assoc]⟩

theorem List.nodup_filterMap_cons {α β : Type} (f : α → Option β) (a : α) (l : List α)
    (h : ((a :: l).filterMap f).Nodup) :
    (l.filterMap f).Nodup ∧ ∀ b, f a = some b → ∀ e ∈ l, f e ≠ some b := by
  cases hfa : f a with
  | none =>
    rw [List.filterMap_cons_none hfa] at h
    exact ⟨h, fun b hb => by cases hb⟩
  | some b0 =>
    rw [List.filterMap_cons_some hfa, List.nodup_cons] at h
    refine ⟨h.2, fun b hb e he hfe => ?_⟩
    injection hb with hb
    subst hb
    exact h.1 (List.mem_filterMap.2 ⟨e, he, hfe⟩)

/-- With every info in at most one entry, each `ReplicateActor` call of the loop that
returned true leaves the interval and the send time in the info of its entry, computed
from the state before the loop. -/
theorem ServerReplicateActors_ProcessPrioritizedActors.loop_sent (env : Engine) (C : Nat)
    (V : List FNetViewer) :
    ∀ (L : List FActorPriority) (j U : Nat) (d d1 : USpatialNetDriver) (r : Nat × Nat)
      (calls : List FReplicateActorCall),
      ServerReplicateActors_ProcessPrioritizedActors.loop env C V j L U d = ok r d1 →
      (L.filterMap (fun e => e.ActorInfo)).Nodup →
      d1.ReplicateActorCalls = d.ReplicateActorCalls ++ calls →
      ∀ c ∈ calls, c.bSent = true →
        (∃ e ∈ L, e.ActorInfo = some c.ActorInfo) ∧
        IsUpdatedAfterSend d c.ActorInfo (d1.NetworkObjectInfos c.ActorInfo) := by
  intro L
  induction L with
  | nil =>
    intro j U d d1 r calls h _ hcalls c hc _
    unfold ServerReplicateActors_ProcessPrioritizedActors.loop at h
    injection h with _ h2
    rw [← h2] at hcalls
    have : calls = [] := by
      have := congrArg List.length hcalls
      simp at this
      exact this
    rw [this] at hc
    cases hc
  | cons E rest ih =>
    intro j U d d1 r calls h hnd hcalls c hc hsent
    obtain ⟨hndRest, hnot⟩ := List.nodup_filterMap_cons _ E rest hnd
    unfold ServerReplicateActors_ProcessPrioritizedActors.loop at h
    obtain ⟨Done, dE, hentry, hrest⟩ := Result.bind_eq_ok.1 h
    have hpost := ServerReplicateActors_ProcessPrioritizedActors.entry_post env C V j E U d
    have honly := ServerReplicateActors_ProcessPrioritizedActors.entry_only env C V j E U d
    rw [hentry] at hpost honly
    simp only [Result.state_ok] at honly
    obtain ⟨⟨calls1, hc1, _, hc3, hc4⟩, _, _⟩ := hpost
    have hfirst : ∀ c ∈ calls1, c.bSent = true →
        E.ActorInfo = some c.ActorInfo ∧
        IsUpdatedAfterSend d c.ActorInfo (dE.NetworkObjectInfos c.ActorInfo) := by
      intro c hc hsent
      have hone : calls1 = [c] := by
        match calls1, hc3, hc with
        | [c0], _, hc => simp at hc; rw [hc]
        | _ :: _ :: _, h, _ => simp at h
      rw [hone] at hc1
      exact ServerReplicateActors_ProcessPrioritizedActors.entry_sent env C V j E U d dE Done c
        hentry hc1 hsent
    by_cases hdone : Done.1 = true
    · rw [if_pos hdone] at hrest
      injection hrest with _ h2
      subst h2
      have hcs : calls = calls1 := List.append_cancel_left (hcalls.symm.trans hc1)
      rw [hcs] at hc
      obtain ⟨k1, k2⟩ := hfirst c hc hsent
      exact ⟨⟨E, List.mem_cons_self _ _, k1⟩, k2⟩
    · rw [if_neg hdone] at hrest
      obtain ⟨calls2, hc2⟩ := ServerReplicateActors_ProcessPrioritizedActors.loop_appends env C
        V rest (j + 1) Done.2 dE
      have hrestOnly := ServerReplicateActors_ProcessPrioritizedActors.loop_only env C V rest
        (j + 1) Done.2 dE
      rw [hrest] at hc2 hrestOnly
      simp only [Result.state_ok] at hc2 hrestOnly
      have hboth : d.ReplicateActorCalls ++ calls =
          d.ReplicateActorCalls ++ (calls1 ++ calls2) := by
        rw [← hcalls, hc2, hc1, List.append_assoc]
      have hcs : calls = calls1 ++ calls2 := List.append_cancel_left hboth
      rw [hcs] at hc
      rcases List.mem_append.1 hc with hin | hin
      · obtain ⟨k1, k2⟩ := hfirst c hin hsent
        refine ⟨⟨E, List.mem_cons_self _ _, k1⟩, ?_⟩
        rw [hrestOnly.2.2 c.ActorInfo (hnot c.ActorInfo k1)]
        exact k2
      · obtain ⟨⟨e, he, hee⟩, k2⟩ := ih (j + 1) Done.2 dE d1 r calls2 hrest hndRest hc2 c hin hsent
        refine ⟨⟨e, List.mem_cons_of_mem _ he, hee⟩, ?_⟩
        have hne : E.ActorInfo ≠ some c.ActorInfo := fun hE => hnot c.ActorInfo hE e he hee
        exact k2.of_only (honly.2.2 c.ActorInfo hne) honly.1 honly.2.1

/-- In the exact arithmetic of this file, for non-zero frequencies: when a call of
`ServerReplicateActors_ProcessPrioritizedActors` on an array that holds every info in at
most one entry makes a `ReplicateActor` call that returns true,
the call is for the info of an entry of the array, and at the end of the call that info
stores `OptimalNetUpdateDelta = clamp(0.7 * (now - LastNetReplicateTime), MinOptimalDelta,
MaxOptimalDelta)`, with `now = World->TimeSeconds`, `LastNetReplicateTime` as it was
before the call, `MinOptimalDelta = 1 / NetUpdateFrequency` and
`MaxOptimalDelta = max(1 / MinNetUpdateFrequency, MinOptimalDelta)`; the interval lies
between the two bounds, and `LastNetReplicateTime` is `now`. The rounding of the `float`
operations of the code is not followed. -/
theorem ServerReplicateActors_ProcessPrioritizedActors_interval (env : Engine)
    (InConnection : Nat)
    (ConnectionViewers : List FNetViewer) (PriorityActors : List FActorPriority)
    (OutUpdated : Nat) (d d1 : USpatialNetDriver) (Returned : Nat × Nat)
    (calls : List FReplicateActorCall) (c : FReplicateActorCall)
    (h : ServerReplicateActors_ProcessPrioritizedActors env InConnection ConnectionViewers
      PriorityActors OutUpdated d = ok Returned d1)
    (hOnce : (PriorityActors.filterMap (fun Entry => Entry.ActorInfo)).Nodup)
    (hCalls : d1.ReplicateActorCalls = d.ReplicateActorCalls ++ calls)
    (hCall : c ∈ calls) (hSent : c.bSent = true)
    (_hFrequency :
      (d.Actors (d.NetworkObjectInfos c.ActorInfo).Actor).NetUpdateFrequency ≠ 0 ∧
      (d.Actors (d.NetworkObjectInfos c.ActorInfo).Actor).MinNetUpdateFrequency ≠ 0) :
    (∃ Entry ∈ PriorityActors, Entry.ActorInfo = some c.ActorInfo) ∧
    (d1.NetworkObjectInfos c.ActorInfo).OptimalNetUpdateDelta =
      FMath.Clamp
        ((d.WorldTimeSeconds - (d.NetworkObjectInfos c.ActorInfo).LastNetReplicateTime) *
          (7 / 10))
        (1 / (d.Actors (d.NetworkObjectInfos c.ActorInfo).Actor).NetUpdateFrequency)
        (FMath.Max
          (1 / (d.Actors (d.NetworkObjectInfos c.ActorInfo).Actor).MinNetUpdateFrequency)
          (1 / (d.Actors (d.NetworkObjectInfos c.ActorInfo).Actor).NetUpdateFrequency)) ∧
    1 / (d.Actors (d.NetworkObjectInfos c.ActorInfo).Actor).NetUpdateFrequency ≤
      (d1.NetworkObjectInfos c.ActorInfo).OptimalNetUpdateDelta ∧
    (d1.NetworkObjectInfos c.ActorInfo).OptimalNetUpdateDelta ≤
      FMath.Max
        (1 / (d.Actors (d.NetworkObjectInfos c.ActorInfo).Actor).MinNetUpdateFrequency)
        (1 / (d.Actors (d.NetworkObjectInfos c.ActorInfo).Actor).NetUpdateFrequency) ∧
    (d1.NetworkObjectInfos c.ActorInfo).LastNetReplicateTime = d.WorldTimeSeconds := by
  unfold ServerReplicateActors_ProcessPrioritizedActors at h
  split at h
  · injection h with _ h2
    rw [← h2] at hCalls
    have hnil : calls = [] := by
      have := congrArg List.length hCalls
      simp at this
      exact this
    rw [hnil] at hCall
    cases hCall
  · obtain ⟨hmem, h1, h2⟩ :=
      ServerReplicateActors_ProcessPrioritizedActors.loop_sent env InConnection
        ConnectionViewers PriorityActors 0 OutUpdated d d1 Returned calls h hOnce hCalls c
        hCall hSent
    refine ⟨hmem, h1, ?_, ?_, h2⟩
    · rw [h1]
      exact (FMath.Clamp_mem _ _ _ (FMath.le_Max_right _ _)).1
    · rw [h1]
      exact (FMath.Clamp_mem _ _ _ (FMath.le_Max_right _ _)).2

/-! ## Flags of the infos -/

theorem SameInfoFlags.same_flags (d : USpatialNetDriver) : SameInfoFlags d d :=
  fun _ => ⟨rfl, rfl, rfl⟩

theorem SameInfoFlags.of_infos_eq {d d1 : USpatialNetDriver}
    (h : d1.NetworkObjectInfos = d.NetworkObjectInfos) : SameInfoFlags d d1 := by
  intro p
  rw [h]
  exact ⟨rfl, rfl, rfl⟩

theorem SameInfoFlags.then_flags : ∀ a b c : USpatialNetDriver,
    SameInfoFlags a b → SameInfoFlags b c → SameInfoFlags a c := by
  intro a b c h1 h2 p
  obtain ⟨x1, x2, x3⟩ := h1 p
  obtain ⟨y1, y2, y3⟩ := h2 p
  exact ⟨y1.trans x1, y2.trans x2, y3.trans x3⟩

theorem SameInfoFlags.of_update {d d1 : USpatialNetDriver} {p : Nat}
    {Info : FNetworkObjectInfo}
    (h : d1.NetworkObjectInfos = Function.update d.NetworkObjectInfos p Info)
    (h1 : Info.bPendingNetUpdate = (d.NetworkObjectInfos p).bPendingNetUpdate)
    (h2 : Info.DormantConnections = (d.NetworkObjectInfos p).DormantConnections)
    (h3 : Info.Actor = (d.NetworkObjectInfos p).Actor) : SameInfoFlags d d1 := by
  intro q
  rw [h]
  by_cases hq : q = p
  · subst hq
    rw [Function.update_same]
    exact ⟨h1, h2, h3⟩
  · rw [Function.update_noteq hq]
    exact ⟨rfl, rfl, rfl⟩

theorem SameInfoFlags.flagsKept {d d1 : USpatialNetDriver} (h : SameInfoFlags d d1) :
    FlagsKept d d1 := by
  intro p hp
  rw [(h p).1]
  exact hp

theorem FlagsKept.then_kept {a b c : USpatialNetDriver} (h1 : FlagsKept a b)
    (h2 : FlagsKept b c) : FlagsKept a c :=
  fun p hp => h2 p (h1 p hp)

theorem ServerReplicateActors_ProcessPrioritizedActors.deletionEntry_flags (env : Engine)
    (C : Nat) (D : FActorDestructionInfo) (d : USpatialNetDriver) :
    SameInfoFlags d
      (ServerReplicateActors_ProcessPrioritizedActors.deletionEntry env C D d) := by
  refine SameInfoFlags.of_infos_eq ?_
  unfold ServerReplicateActors_ProcessPrioritizedActors.deletionEntry
  split
  · rfl
  · simp only []
    split <;> rfl

theorem ServerReplicateActors_ProcessPrioritizedActors.createChannel_flags (env : Engine)
    (C p a : Nat) (d : USpatialNetDriver) :
    SameInfoFlags d
      (ServerReplicateActors_ProcessPrioritizedActors.createChannel env C p a d).2 := by
  unfold ServerReplicateActors_ProcessPrioritizedActors.createChannel
  split
  · exact SameInfoFlags.of_infos_eq rfl
  · simp only []
    split
    · exact SameInfoFlags.of_infos_eq rfl
    · split
      · exact SameInfoFlags.of_update rfl rfl rfl rfl
      · exact SameInfoFlags.of_infos_eq rfl

theorem ServerReplicateActors_ProcessPrioritizedActors.findChannel_flags (env : Engine)
    (C p a : Nat) (ch : Option Nat) (d : USpatialNetDriver) :
    SameInfoFlags d
      (ServerReplicateActors_ProcessPrioritizedActors.findChannel env C p a ch d).2 := by
  unfold ServerReplicateActors_ProcessPrioritizedActors.findChannel
  split
  · exact ServerReplicateActors_ProcessPrioritizedActors.createChannel_flags env C p a d
  · exact SameInfoFlags.same_flags d

theorem ServerReplicateActors_ProcessPrioritizedActors.markRelevant_flags (env : Engine)
    (b : Bool) (ch : Nat) (d : USpatialNetDriver) :
    SameInfoFlags d (ServerReplicateActors_ProcessPrioritizedActors.markRelevant env b ch d) := by
  unfold ServerReplicateActors_ProcessPrioritizedActors.markRelevant
  split <;> exact SameInfoFlags.of_infos_eq rfl

theorem ServerReplicateActors_ProcessPrioritizedActors.replicate_flags (env : Engine)
    (C j p a ch U : Nat) (d : USpatialNetDriver) :
    SameInfoFlags d
      (ServerReplicateActors_ProcessPrioritizedActors.replicate env C j p a ch U d).2 := by
  unfold ServerReplicateActors_ProcessPrioritizedActors.replicate
  split
  · simp only []
    split
    · exact SameInfoFlags.of_update rfl rfl rfl rfl
    · exact SameInfoFlags.of_infos_eq rfl
  · exact SameInfoFlags.same_flags d

theorem ServerReplicateActors_ProcessPrioritizedActors.closeChannel_flags (env : Engine)
    (a : Nat) (b : Bool) (ch : Option Nat) (d : USpatialNetDriver) :
    SameInfoFlags d
      (ServerReplicateActors_ProcessPrioritizedActors.closeChannel env a b ch d) := by
  unfold ServerReplicateActors_ProcessPrioritizedActors.closeChannel
  split
  · split
    · exact SameInfoFlags.of_infos_eq rfl
    · exact SameInfoFlags.same_flags d
  · exact SameInfoFlags.same_flags d

theorem ServerReplicateActors_ProcessPrioritizedActors.withChannel_flags (env : Engine)
    (C j p a ch : Nat) (b1 b2 : Bool) (U : Nat) (d : USpatialNetDriver) :
    SameInfoFlags d
      (ServerReplicateActors_ProcessPrioritizedActors.withChannel env C j p a ch b1 b2 U
        d).state := by
  unfold ServerReplicateActors_ProcessPrioritizedActors.withChannel
  simp only []
  have h1 := SameInfoFlags.then_flags _ _ _
    (ServerReplicateActors_ProcessPrioritizedActors.markRelevant_flags env b1 ch d)
    (ServerReplicateActors_ProcessPrioritizedActors.replicate_flags env C j p a ch U _)
  split
  · exact h1
  · exact SameInfoFlags.then_flags _ _ _ h1
      (ServerReplicateActors_ProcessPrioritizedActors.closeChannel_flags env a b2 (some ch) _)

theorem ServerReplicateActors_ProcessPrioritizedActors.actorEntry_flags (env : Engine)
    (C : Nat) (V : List FNetViewer) (j p : Nat) (ch : Option Nat) (U : Nat)
    (d : USpatialNetDriver) :
    SameInfoFlags d
      (ServerReplicateActors_ProcessPrioritizedActors.actorEntry env C V j p ch U d).state := by
  unfold ServerReplicateActors_ProcessPrioritizedActors.actorEntry
  split
  · simp only []
    split
    · split
      · rename_i Ch dF hF
        have hf := ServerReplicateActors_ProcessPrioritizedActors.findChannel_flags env C p
          (d.NetworkObjectInfos p).Actor ch d
        rw [hF] at hf
        exact SameInfoFlags.then_flags _ _ _ hf
          (ServerReplicateActors_ProcessPrioritizedActors.withChannel_flags env C j p _ Ch _ _
            U dF)
      · rename_i dF hF
        have hf := ServerReplicateActors_ProcessPrioritizedActors.findChannel_flags env C p
          (d.NetworkObjectInfos p).Actor ch d
        rw [hF] at hf
        simp only [Result.state_ok]
        exact SameInfoFlags.then_flags _ _ _ hf
          (ServerReplicateActors_ProcessPrioritizedActors.closeChannel_flags env _ _ none dF)
    · simp only [Result.state_ok]
      exact ServerReplicateActors_ProcessPrioritizedActors.closeChannel_flags env _ _ ch d
  · exact SameInfoFlags.same_flags d

theorem ServerReplicateActors_ProcessPrioritizedActors.entry_flags (env : Engine) (C : Nat)
    (V : List FNetViewer) (j : Nat) (E : FActorPriority) (U : Nat) (d : USpatialNetDriver) :
    SameInfoFlags d
      (ServerReplicateActors_ProcessPrioritizedActors.entry env C V j E U d).state := by
  unfold ServerReplicateActors_ProcessPrioritizedActors.entry
  split
  · exact ServerReplicateActors_ProcessPrioritizedActors.deletionEntry_flags env C _ d
  · exact SameInfoFlags.same_flags d
  · exact ServerReplicateActors_ProcessPrioritizedActors.actorEntry_flags env C V j _ _ U d

theorem ServerReplicateActors_ProcessPrioritizedActors.loop_flags (env : Engine) (C : Nat)
    (V : List FNetViewer) :
    ∀ (L : List FActorPriority) (j U : Nat) (d : USpatialNetDriver),
      SameInfoFlags d
        (ServerReplicateActors_ProcessPrioritizedActors.loop env C V j L U d).state := by
  intro L
  induction L with
  | nil => intro j U d; exact SameInfoFlags.same_flags d
  | cons E rest ih =>
    intro j U d
    unfold ServerReplicateActors_ProcessPrioritizedActors.loop
    refine Result.bind_rel SameInfoFlags.then_flags
      (ServerReplicateActors_ProcessPrioritizedActors.entry_flags env C V j E U d)
      (fun Done d1 _ => ?_)
    split
    · exact SameInfoFlags.same_flags d1
    · exact ih _ _ _

theorem ServerReplicateActors_ProcessPrioritizedActors_flags (env : Engine) (C : Nat)
    (V : List FNetViewer) (L : List FActorPriority) (U : Nat) (d : USpatialNetDriver) :
    SameInfoFlags d (ServerReplicateActors_ProcessPrioritizedActors env C V L U d).state := by
  unfold ServerReplicateActors_ProcessPrioritizedActors
  split
  · exact SameInfoFlags.same_flags d
  · exact ServerReplicateActors_ProcessPrioritizedActors.loop_flags env C V L 0 U d
theorem ServerReplicateActors.flagUnprocessed_flagged (env : Engine) (V : List FNetViewer) :
    ∀ (L : List FActorPriority) (d : USpatialNetDriver),
      FlagsKept d (ServerReplicateActors.flagUnprocessed env V L d) ∧
      ∀ e ∈ L, ∀ p, e.ActorInfo = some p →
        ((ServerReplicateActors.flagUnprocessed env V L d).NetworkObjectInfos
          p).bPendingNetUpdate = true := by
  intro L
  induction L with
  | nil =>
    intro d
    exact ⟨fun _ h => h, by intro e he; cases he⟩
  | cons E rest ih =>
    intro d
    have step : ∀ (q : Nat) (d1 : USpatialNetDriver),
        d1.NetworkObjectInfos = Function.update d.NetworkObjectInfos q
          { d.NetworkObjectInfos q with bPendingNetUpdate := true } →
        E.ActorInfo = some q →
        FlagsKept d (ServerReplicateActors.flagUnprocessed env V rest d1) ∧
        ∀ e ∈ E :: rest, ∀ p, e.ActorInfo = some p →
          ((ServerReplicateActors.flagUnprocessed env V rest d1).NetworkObjectInfos
            p).bPendingNetUpdate = true := by
      intro q d1 hd1 hq
      obtain ⟨k1, k2⟩ := ih d1
      have hq1 : (d1.NetworkObjectInfos q).bPendingNetUpdate = true := by
        rw [hd1, Function.update_same]
      have hk : FlagsKept d d1 := by
        intro p hp
        rw [hd1]
        by_cases hpq : p = q
        · subst hpq
          rw [Function.update_same]
        · rw [Function.update_noteq hpq]
          exact hp
      refine ⟨hk.then_kept k1, ?_⟩
      intro e he p hp
      rcases List.mem_cons.1 he with h | h
      · subst h
        rw [hq] at hp
        injection hp with hp
        subst hp
        exact k1 _ hq1
      · exact k2 e h p hp
    unfold ServerReplicateActors.flagUnprocessed
    cases hE : E.ActorInfo with
    | none =>
      simp only []
      obtain ⟨k1, k2⟩ := ih d
      refine ⟨k1, ?_⟩
      intro e he p hp
      rcases List.mem_cons.1 he with h | h
      · subst h
        rw [hE] at hp
        cases hp
      · exact k2 e h p hp
    | some q =>
      simp only [IsActorRelevantToConnection, if_true]
      split
      · exact step q _ rfl hE
      · exact step q _ rfl hE

theorem ServerReplicateActors.flagConsidered_kept (C : Nat) :
    ∀ (CL : List Nat) (d : USpatialNetDriver),
      FlagsKept d (ServerReplicateActors.flagConsidered C CL d) := by
  intro CL
  induction CL with
  | nil => intro d p h; exact h
  | cons q rest ih =>
    intro d
    unfold ServerReplicateActors.flagConsidered
    simp only []
    split
    · split
      · split
        · refine FlagsKept.then_kept ?_ (ih _)
          intro p hp
          show ((Function.update d.NetworkObjectInfos q _) p).bPendingNetUpdate = true
          by_cases hpq : p = q
          · subst hpq
            rw [Function.update_same]
          · rw [Function.update_noteq hpq]
            exact hp
        · exact ih d
      · exact ih d
    · exact ih d

theorem ServerReplicateActors.setViewers_infos (C : Nat) (d : USpatialNetDriver) :
    (ServerReplicateActors.setViewers C d).NetworkObjectInfos = d.NetworkObjectInfos := by
  unfold ServerReplicateActors.setViewers
  split <;> rfl

/-- What a ticked connection leaves behind: the array it prioritized, the index
`LastProcessedActor` at which processing stopped, and every info of an entry from that
index on flagged `bPendingNetUpdate`; no flag that was set is cleared. -/
theorem ServerReplicateActors.tickConnection_flags {env : Engine} {C : Nat}
    {CL : List Nat} {U U1 : Nat} {d d1 : USpatialNetDriver}
    (h : ServerReplicateActors.tickConnection env C CL U d = ok U1 d1) :
    FlagsKept d d1 ∧
    ∃ PriorityActors d2 Processed d3,
      ServerReplicateActors_PrioritizeActors env C
        (ServerReplicateActors.setViewers C d).ReplicationViewers CL
        (ServerReplicateActors.setViewers C d) = ok PriorityActors d2 ∧
      ServerReplicateActors_ProcessPrioritizedActors env C d2.ReplicationViewers
        PriorityActors U d2 = ok Processed d3 ∧
      U1 = Processed.2 ∧
      ∀ Entry ∈ PriorityActors.drop Processed.1, ∀ p, Entry.ActorInfo = some p →
        (d1.NetworkObjectInfos p).bPendingNetUpdate = true := by
  unfold ServerReplicateActors.tickConnection at h
  obtain ⟨L, d2, hP, h⟩ := Result.bind_eq_ok.1 h
  obtain ⟨Processed, d3, hQ, h⟩ := Result.bind_eq_ok.1 h
  injection h with hU hd
  obtain ⟨_, _, _, _, _, hinfo⟩ := ServerReplicateActors_PrioritizeActors_entries hP
  have hproc := ServerReplicateActors_ProcessPrioritizedActors_flags env C d2.ReplicationViewers
    L U d2
  rw [hQ, Result.state_ok] at hproc
  obtain ⟨k1, k2⟩ := ServerReplicateActors.flagUnprocessed_flagged env d3.ReplicationViewers
    (L.drop Processed.1) d3
  have hd1 : d1.NetworkObjectInfos =
      (ServerReplicateActors.flagUnprocessed env d3.ReplicationViewers (L.drop Processed.1)
        d3).NetworkObjectInfos := by
    rw [← hd]
  have h02 : FlagsKept d d2 := by
    intro p hp
    rw [hinfo, ServerReplicateActors.setViewers_infos]
    exact hp
  refine ⟨?_, L, d2, Processed, d3, hP, hQ, hU.symm, ?_⟩
  · intro p hp
    rw [hd1]
    exact k1 p (hproc.flagsKept p (h02 p hp))
  · intro e he p hp
    rw [hd1]
    exact k2 e he p hp

theorem ServerReplicateActors.skipConnection_kept (C : Nat) (CL : List Nat)
    (d : USpatialNetDriver) : FlagsKept d (ServerReplicateActors.skipConnection C CL d) :=
  ServerReplicateActors.flagConsidered_kept C CL d

theorem ServerReplicateActors.connections_cons (env : Engine) (N : Nat) (CL : List Nat)
    (i C : Nat) (rest : List Nat) (U : Nat) (d : USpatialNetDriver) :
    ServerReplicateActors.connections env N CL i (C :: rest) U d =
      if i ≥ N then
        ServerReplicateActors.connections env N CL (i + 1) rest U
          (ServerReplicateActors.skipConnection C CL d)
      else if (d.Net.Connections C).bReliableSpatialConnection ||
          (d.Net.Connections C).ViewTarget.isSome then
        (ServerReplicateActors.tickConnection env C CL U d).bind fun U1 d1 =>
          ServerReplicateActors.connections env N CL (i + 1) rest U1 d1
      else ServerReplicateActors.connections env N CL (i + 1) rest U d := by
  rw [ServerReplicateActors.connections]

theorem ServerReplicateActors.connections_kept (env : Engine) (N : Nat) (CL : List Nat) :
    ∀ (Conns : List Nat) (i U : Nat) (d : USpatialNetDriver) (U1 : Nat)
      (d1 : USpatialNetDriver),
      ServerReplicateActors.connections env N CL i Conns U d = ok U1 d1 → FlagsKept d d1 := by
  intro Conns
  induction Conns with
  | nil =>
    intro i U d U1 d1 h
    unfold ServerReplicateActors.connections at h
    injection h with _ h2
    rw [← h2]
    exact fun _ hp => hp
  | cons C rest ih =>
    intro i U d U1 d1 h
    rw [ServerReplicateActors.connections_cons] at h
    split at h
    · exact (ServerReplicateActors.skipConnection_kept C CL d).then_kept (ih _ _ _ _ _ h)
    · split at h
      · obtain ⟨U2, d2, ht, h⟩ := Result.bind_eq_ok.1 h
        exact (ServerReplicateActors.tickConnection_flags ht).1.then_kept (ih _ _ _ _ _ h)
      · exact ih _ _ _ _ _ h

theorem ServerReplicateActors.connections_append (env : Engine) (N : Nat) (CL : List Nat) :
    ∀ (Before After : List Nat) (i U : Nat) (d : USpatialNetDriver),
      ServerReplicateActors.connections env N CL i (Before ++ After) U d =
        (ServerReplicateActors.connections env N CL i Before U d).bind fun U1 d1 =>
          ServerReplicateActors.connections env N CL (i + Before.length) After U1 d1 := by
  intro Before
  induction Before with
  | nil =>
    intro After i U d
    rfl
  | cons C rest ih =>
    intro After i U d
    have hidx : i + (C :: rest).length = i + 1 + rest.length := by
      simp only [List.length_cons]
      omega
    rw [hidx, List.cons_append, ServerReplicateActors.connections_cons,
      ServerReplicateActors.connections_cons]
    split
    · exact ih _ _ _ _
    · split
      · cases ht : ServerReplicateActors.tickConnection env C CL U d with
        | ok U2 d2 =>
          simp only [Result.bind_ok]
          exact ih _ _ _ _
        | fatal f s => rfl
      · exact ih _ _ _ _
theorem List.mem_drop_of_getElem? {α : Type} {L : List α} {k r : Nat} {e : α}
    (h : L[k]? = some e) (hr : r ≤ k) : e ∈ L.drop r := by
  have h2 : (L.drop r)[k - r]? = some e := by
    rw [List.getElem?_drop]
    have : r + (k - r) = k := by omega
    rw [this]
    exact h
  obtain ⟨hlt, heq⟩ := List.getElem?_eq_some.1 h2
  rw [← heq]
  exact List.getElem_mem _

/-- In the loop of `ServerReplicateActors` over the client connections, take a
connection `C` that is ticked. When the loop has ended, every entry with an info at an
index at or after the one returned by `ServerReplicateActors_ProcessPrioritizedActors`,
in the array prioritized for `C`, has `bPendingNetUpdate = true`. -/
theorem ServerReplicateActors.connections_flagged (env : Engine)
    (NumClientsToTick : Nat) (ConsiderList Before : List Nat) (C : Nat) (After : List Nat)
    (i Updated Updated1 : Nat) (d dEnd : USpatialNetDriver)
    (hIndex : i + Before.length < NumClientsToTick)
    (h : ServerReplicateActors.connections env NumClientsToTick ConsiderList i
      (Before ++ C :: After) Updated d = ok Updated1 dEnd) :
    ∃ Updated0 d0,
      ServerReplicateActors.connections env NumClientsToTick ConsiderList i Before Updated d =
        ok Updated0 d0 ∧
      (((d0.Net.Connections C).bReliableSpatialConnection ||
          (d0.Net.Connections C).ViewTarget.isSome) = true →
        ∃ PriorityActors d2 Processed d3,
          ServerReplicateActors_PrioritizeActors env C
            (ServerReplicateActors.setViewers C d0).ReplicationViewers ConsiderList
            (ServerReplicateActors.setViewers C d0) = ok PriorityActors d2 ∧
          ServerReplicateActors_ProcessPrioritizedActors env C d2.ReplicationViewers
            PriorityActors Updated0 d2 = ok Processed d3 ∧
          ∀ (k : Nat) (Entry : FActorPriority) (ActorInfo : Nat), Processed.1 ≤ k →
            PriorityActors[k]? = some Entry → Entry.ActorInfo = some ActorInfo →
            (dEnd.NetworkObjectInfos ActorInfo).bPendingNetUpdate = true) := by
  rw [ServerReplicateActors.connections_append] at h
  obtain ⟨U0, d0, hB, h⟩ := Result.bind_eq_ok.1 h
  refine ⟨U0, d0, hB, ?_⟩
  intro hTick
  rw [ServerReplicateActors.connections_cons, if_neg (by omega), if_pos hTick] at h
  obtain ⟨U2, d2, ht, h⟩ := Result.bind_eq_ok.1 h
  obtain ⟨_, L, dP, Processed, d3, hP, hQ, _, hflag⟩ :=
    ServerReplicateActors.tickConnection_flags ht
  refine ⟨L, dP, Processed, d3, hP, hQ, ?_⟩
  intro k Entry p hk hE hp
  exact ServerReplicateActors.connections_kept env _ _ _ _ _ _ _ _ h p
    (hflag Entry (List.mem_drop_of_getElem? hE hk) p hp)

/-! ## A dormant actor over many ticks -/

theorem QuietFor.nothing {C p : Nat} {d d1 : USpatialNetDriver} (hd : DormantFor C p d)
    (h1 : d1.NetworkObjectInfos = d.NetworkObjectInfos)
    (h2 : d1.ReplicateActorCalls = d.ReplicateActorCalls) : QuietFor C p d d1 := by
  refine ⟨?_, [], by rw [h2, List.append_nil], by intro c hc; cases hc⟩
  unfold DormantFor
  rw [h1]
  exact hd

theorem QuietFor.then_quiet {C p : Nat} {a b c : USpatialNetDriver} (h1 : QuietFor C p a b)
    (h2 : QuietFor C p b c) : QuietFor C p a c := by
  obtain ⟨_, l1, e1, n1⟩ := h1
  obtain ⟨hd, l2, e2, n2⟩ := h2
  refine ⟨hd, l1 ++ l2, by rw [e2, e1, List.append_assoc], ?_⟩
  intro x hx
  rcases List.mem_append.1 hx with h | h
  · exact n1 x h
  · exact n2 x h

theorem ServerReplicateActors_PrioritizeActors_calls {env : Engine} {C : Nat}
    {V : List FNetViewer} {CL : List Nat} {d d1 : USpatialNetDriver}
    {L : List FActorPriority}
    (h : ServerReplicateActors_PrioritizeActors env C V CL d = ok L d1) :
    d1.ReplicateActorCalls = d.ReplicateActorCalls := by
  unfold ServerReplicateActors_PrioritizeActors at h
  simp only [] at h
  split at h
  · obtain ⟨out, d2, hcol, hsort⟩ := Result.bind_eq_ok.1 h
    injection hsort with _ hs2
    unfold ServerReplicateActors_PrioritizeActors.collect at hcol
    obtain ⟨nl, d3, hcons, hdel⟩ := Result.bind_eq_ok.1 hcol
    obtain ⟨hsame, _⟩ :=
      ServerReplicateActors_PrioritizeActors.consider_entries env C V _ CL [] _ nl d3 hcons
    obtain ⟨hd, _⟩ :=
      ServerReplicateActors_PrioritizeActors.addDeleted_entries env C _ _ nl d3 out d2 hdel
    rw [← hs2, hd, hsame.2.2.2.2.1]
    rfl
  · injection h with _ h2
    rw [← h2]
    rfl

theorem ServerReplicateActors.flagUnprocessed_quiet (env : Engine) (V : List FNetViewer) :
    ∀ (L : List FActorPriority) (d : USpatialNetDriver),
      (ServerReplicateActors.flagUnprocessed env V L d).ReplicateActorCalls =
        d.ReplicateActorCalls ∧
      ∀ p, ((ServerReplicateActors.flagUnprocessed env V L d).NetworkObjectInfos
        p).DormantConnections = (d.NetworkObjectInfos p).DormantConnections := by
  intro L
  induction L with
  | nil => intro d; exact ⟨rfl, fun _ => rfl⟩
  | cons E rest ih =>
    intro d
    have step : ∀ (q : Nat) (d1 : USpatialNetDriver),
        d1.NetworkObjectInfos = Function.update d.NetworkObjectInfos q
          { d.NetworkObjectInfos q with bPendingNetUpdate := true } →
        d1.ReplicateActorCalls = d.ReplicateActorCalls →
        (ServerReplicateActors.flagUnprocessed env V rest d1).ReplicateActorCalls =
          d.ReplicateActorCalls ∧
        ∀ p, ((ServerReplicateActors.flagUnprocessed env V rest d1).NetworkObjectInfos
          p).DormantConnections = (d.NetworkObjectInfos p).DormantConnections := by
      intro q d1 hd1 hc1
      obtain ⟨k1, k2⟩ := ih d1
      refine ⟨k1.trans hc1, fun p => ?_⟩
      rw [k2 p, hd1]
      by_cases hpq : p = q
      · subst hpq
        rw [Function.update_same]
      · rw [Function.update_noteq hpq]
    unfold ServerReplicateActors.flagUnprocessed
    cases hE : E.ActorInfo with
    | none => exact ih d
    | some q =>
      simp only [IsActorRelevantToConnection, if_true]
      split
      · exact step q _ rfl rfl
      · exact step q _ rfl rfl

theorem ServerReplicateActors.flagConsidered_quiet (C : Nat) :
    ∀ (CL : List Nat) (d : USpatialNetDriver),
      (ServerReplicateActors.flagConsidered C CL d).ReplicateActorCalls =
        d.ReplicateActorCalls ∧
      ∀ p, ((ServerReplicateActors.flagConsidered C CL d).NetworkObjectInfos
        p).DormantConnections = (d.NetworkObjectInfos p).DormantConnections := by
  intro CL
  induction CL with
  | nil => intro d; exact ⟨rfl, fun _ => rfl⟩
  | cons q rest ih =>
    intro d
    unfold ServerReplicateActors.flagConsidered
    simp only []
    split
    · split
      · split
        · obtain ⟨k1, k2⟩ := ih
            { d with
              NetworkObjectInfos := Function.update d.NetworkObjectInfos q
                { d.NetworkObjectInfos q with bPendingNetUpdate := true } }
          refine ⟨k1, fun p => ?_⟩
          rw [k2 p]
          show ((Function.update d.NetworkObjectInfos q _) p).DormantConnections = _
          by_cases hpq : p = q
          · subst hpq
            rw [Function.update_same]
          · rw [Function.update_noteq hpq]
        · exact ih d
      · exact ih d
    · exact ih d

theorem ServerReplicateActors.tickConnection_quiet {env : Engine} {C0 p C : Nat}
    {CL : List Nat} {U U1 : Nat} {d d1 : USpatialNetDriver} (hd : DormantFor C0 p d)
    (h : ServerReplicateActors.tickConnection env C CL U d = ok U1 d1) :
    QuietFor C0 p d d1 := by
  unfold ServerReplicateActors.tickConnection at h
  obtain ⟨L, d2, hP, h⟩ := Result.bind_eq_ok.1 h
  obtain ⟨Processed, d3, hQ, h⟩ := Result.bind_eq_ok.1 h
  injection h with _ hd1
  obtain ⟨normal, deleted, hL, hn, hdl, hinfo⟩ :=
    ServerReplicateActors_PrioritizeActors_entries hP
  have hcallsP := ServerReplicateActors_PrioritizeActors_calls hP
  have hwf : ∀ e ∈ L, e.ActorInfo ≠ none ∨ e.DestructionInfo ≠ none := by
    intro e he
    rw [hL] at he
    rcases List.mem_append.1 ((Sort_FCompareFActorPriority_perm _).mem_iff.1 he) with h1 | h1
    · obtain ⟨_, q, _, hq, _⟩ := hn e h1
      exact Or.inl (by rw [hq]; exact Option.some_ne_none q)
    · obtain ⟨_, g, D, _, hD⟩ := hdl e h1
      exact Or.inr (by rw [hD]; exact Option.some_ne_none D)
  have hproc : ∃ calls, d3.ReplicateActorCalls = d2.ReplicateActorCalls ++ calls ∧
      ∀ c ∈ calls, c.Connection = C ∧
        (L[c.Index]?).bind (fun e => e.ActorInfo) = some c.ActorInfo := by
    unfold ServerReplicateActors_ProcessPrioritizedActors at hQ
    split at hQ
    · injection hQ with _ h2
      exact ⟨[], by rw [← h2, List.append_nil], by intro c hc; cases hc⟩
    · obtain ⟨r, U2, dL, calls, hl, hc1, _, hcs, _⟩ :=
        ServerReplicateActors_ProcessPrioritizedActors.loop_post env C d2.ReplicationViewers L 0
          U d2 hwf
      rw [hl] at hQ
      injection hQ with _ h2
      refine ⟨calls, by rw [← h2]; exact hc1, ?_⟩
      intro c hc
      obtain ⟨k1, _, _, _, k5⟩ := hcs c hc
      rw [Nat.sub_zero] at k5
      exact ⟨k1, k5⟩
  obtain ⟨calls, hc3, hcs⟩ := hproc
  have hflags := ServerReplicateActors_ProcessPrioritizedActors_flags env C
    d2.ReplicationViewers L U d2
  rw [hQ, Result.state_ok] at hflags
  obtain ⟨f1, f2⟩ := ServerReplicateActors.flagUnprocessed_quiet env d3.ReplicationViewers
    (L.drop Processed.1) d3
  have hd0 : DormantFor C0 p (ServerReplicateActors.setViewers C d) := by
    unfold DormantFor
    rw [ServerReplicateActors.setViewers_infos]
    exact hd
  have hcalls0 : (ServerReplicateActors.setViewers C d).ReplicateActorCalls =
      d.ReplicateActorCalls := by
    unfold ServerReplicateActors.setViewers
    split <;> rfl
  refine ⟨?_, calls, ?_, ?_⟩
  · unfold DormantFor
    rw [← hd1]
    show C0 ∈ ((ServerReplicateActors.flagUnprocessed env d3.ReplicationViewers
      (L.drop Processed.1) d3).NetworkObjectInfos p).DormantConnections
    rw [f2 p, (hflags p).2.1, hinfo]
    exact hd0
  · rw [← hd1]
    show (ServerReplicateActors.flagUnprocessed env d3.ReplicationViewers
      (L.drop Processed.1) d3).ReplicateActorCalls = _
    rw [f1, hc3, hcallsP, hcalls0]
  · rintro c hc ⟨hcC, hcp⟩
    obtain ⟨k1, k5⟩ := hcs c hc
    cases hLc : L[c.Index]? with
    | none => rw [hLc] at k5; cases k5
    | some e =>
      rw [hLc] at k5
      change e.ActorInfo = some c.ActorInfo at k5
      have he : e ∈ L := by
        obtain ⟨hlt, heq⟩ := List.getElem?_eq_some.1 hLc
        rw [← heq]
        exact List.getElem_mem _
      rw [hcp] at k5
      obtain ⟨_, q, _, hq, hdorm, _⟩ := ServerReplicateActors_PrioritizeActors_mem hP he k5
      rw [k5] at hq
      injection hq with hq
      subst hq
      rw [k1] at hcC
      subst hcC
      exact IsActorDormant_eq_false hdorm hd0
theorem ServerReplicateActors.skipConnection_quiet {C0 p : Nat} (C : Nat) (CL : List Nat)
    {d : USpatialNetDriver} (hd : DormantFor C0 p d) :
    QuietFor C0 p d (ServerReplicateActors.skipConnection C CL d) := by
  obtain ⟨k1, k2⟩ := ServerReplicateActors.flagConsidered_quiet C CL d
  refine ⟨?_, [], ?_, by intro c hc; cases hc⟩
  · unfold DormantFor
    show C0 ∈ ((ServerReplicateActors.flagConsidered C CL d).NetworkObjectInfos
      p).DormantConnections
    rw [k2 p]
    exact hd
  · rw [List.append_nil]
    exact k1

theorem ServerReplicateActors.connections_quiet (env : Engine) (N : Nat) (CL : List Nat)
    (C0 p : Nat) :
    ∀ (Conns : List Nat) (i U : Nat) (d : USpatialNetDriver) (U1 : Nat)
      (d1 : USpatialNetDriver), DormantFor C0 p d →
      ServerReplicateActors.connections env N CL i Conns U d = ok U1 d1 →
      QuietFor C0 p d d1 := by
  intro Conns
  induction Conns with
  | nil =>
    intro i U d U1 d1 hd h
    unfold ServerReplicateActors.connections at h
    injection h with _ h2
    rw [← h2]
    exact QuietFor.nothing hd rfl rfl
  | cons C rest ih =>
    intro i U d U1 d1 hd h
    rw [ServerReplicateActors.connections_cons] at h
    split at h
    · have hq := ServerReplicateActors.skipConnection_quiet C CL hd
      exact hq.then_quiet (ih _ _ _ _ _ hq.1 h)
    · split at h
      · obtain ⟨U2, d2, ht, h⟩ := Result.bind_eq_ok.1 h
        have hq := ServerReplicateActors.tickConnection_quiet hd ht
        exact hq.then_quiet (ih _ _ _ _ _ hq.1 h)
      · exact ih _ _ _ _ _ hd h

theorem ServerReplicateActors_PrepConnections.loop_frame :
    ∀ (Conns : List Nat) (b : Bool) (d : USpatialNetDriver) (b1 : Bool)
      (d1 : USpatialNetDriver),
      ServerReplicateActors_PrepConnections.loop Conns b d = ok b1 d1 →
      d1.NetworkObjectInfos = d.NetworkObjectInfos ∧
        d1.ReplicateActorCalls = d.ReplicateActorCalls ∧
        d1.ClientConnections = d.ClientConnections := by
  intro Conns
  induction Conns with
  | nil =>
    intro b d b1 d1 h
    unfold ServerReplicateActors_PrepConnections.loop at h
    injection h with _ h2
    rw [← h2]
    exact ⟨rfl, rfl, rfl⟩
  | cons C rest ih =>
    intro b d b1 d1 h
    unfold ServerReplicateActors_PrepConnections.loop at h
    simp only [] at h
    obtain ⟨u, d2, hchk, h⟩ := Result.bind_eq_ok.1 h
    obtain ⟨_, hd2⟩ := check_eq_ok.1 hchk
    subst hd2
    split at h
    · have := ih _ _ _ _ h
      exact this
    · have := ih _ _ _ _ h
      exact this

theorem ServerReplicateActors_PrepConnections_frame {d d1 : USpatialNetDriver} {N : Nat}
    (h : ServerReplicateActors_PrepConnections d = ok N d1) :
    d1.NetworkObjectInfos = d.NetworkObjectInfos ∧
      d1.ReplicateActorCalls = d.ReplicateActorCalls ∧
      d1.ClientConnections = d.ClientConnections := by
  unfold ServerReplicateActors_PrepConnections at h
  simp only [] at h
  obtain ⟨b, d2, hl, h⟩ := Result.bind_eq_ok.1 h
  injection h with _ h2
  rw [← h2]
  exact ServerReplicateActors_PrepConnections.loop_frame _ _ _ _ _ hl

theorem ServerReplicateActors_quiet {env : Engine} {C0 p : Nat} {DeltaSeconds : ℚ}
    {d d1 : USpatialNetDriver} {U : Nat} (henv : KeepsDormant env C0 p)
    (hd : DormantFor C0 p d) (h : ServerReplicateActors env DeltaSeconds d = ok U d1) :
    QuietFor C0 p d d1 := by
  unfold ServerReplicateActors at h
  split at h
  · injection h with _ h2
    rw [← h2]
    exact QuietFor.nothing hd rfl rfl
  · obtain ⟨N, dP, hprep, h⟩ := Result.bind_eq_ok.1 h
    obtain ⟨p1, p2, _⟩ := ServerReplicateActors_PrepConnections_frame hprep
    have hqP : QuietFor C0 p d dP := QuietFor.nothing hd p1 p2
    split at h
    · injection h with _ h2
      rw [← h2]
      exact hqP
    · simp only [] at h
      obtain ⟨U2, d2, hconn, h⟩ := Result.bind_eq_ok.1 h
      have hB : DormantFor C0 p
          { dP with NetworkObjectInfos := (env.BuildConsiderList dP.NetworkObjectInfos
            DeltaSeconds).2 } := henv _ _ hqP.1
      have hqB : QuietFor C0 p dP
          { dP with NetworkObjectInfos := (env.BuildConsiderList dP.NetworkObjectInfos
            DeltaSeconds).2 } :=
        ⟨hB, [], by simp, by intro c hc; cases hc⟩
      have hqC := ServerReplicateActors.connections_quiet env _ _ C0 p _ _ _ _ _ _ hB hconn
      have hq2 := hqP.then_quiet (hqB.then_quiet hqC)
      injection h with _ h2
      rw [← h2]
      split
      · exact ⟨hq2.1, hq2.2⟩
      · exact hq2

theorem ServerReplicateActorsTicks_quiet (C0 p : Nat) :
    ∀ (Ticks : List (Engine × ℚ × (USpatialNetDriver → USpatialNetDriver)))
      (d d1 : USpatialNetDriver),
      (∀ T ∈ Ticks, KeepsDormant T.1 C0 p ∧ ∀ s, DormantFor C0 p s → QuietFor C0 p s (T.2.2 s)) →
      DormantFor C0 p d → ServerReplicateActorsTicks Ticks d = ok () d1 →
      QuietFor C0 p d d1 := by
  intro Ticks
  induction Ticks with
  | nil =>
    intro d d1 _ hd h
    unfold ServerReplicateActorsTicks at h
    injection h with _ h2
    rw [← h2]
    exact QuietFor.nothing hd rfl rfl
  | cons T rest ih =>
    intro d d1 hT hd h
    obtain ⟨env, Delta, Between⟩ := T
    unfold ServerReplicateActorsTicks at h
    obtain ⟨U, d2, htick, h⟩ := Result.bind_eq_ok.1 h
    obtain ⟨henv, hbetween⟩ := hT (env, Delta, Between) (List.mem_cons_self _ _)
    have hq0 : QuietFor C0 p d (Between d) := hbetween d hd
    have hq1 := ServerReplicateActors_quiet henv hq0.1 htick
    have hq2 := ih d2 d1 (fun T hT2 => hT T (List.mem_cons_of_mem _ hT2)) hq1.1 h
    exact hq0.then_quiet (hq1.then_quiet hq2)
/-- C15: whatever the consider list and the connection, an entry of the array returned
by `ServerReplicateActors_PrioritizeActors` never refers to an info whose
`DormantConnections` contains the connection, and the call leaves the connection in
that set. Over any number of ticks of `ServerReplicateActors`, with anything happening
in between, as long as neither the engine's `BuildConsiderList` nor what happens between
the ticks takes the connection out of the set, the info stays dormant for the connection
and not a single `ReplicateActor` call is made for it on that connection. -/
theorem C15_dormant_actors_are_not_prioritized (env : Engine) (InConnection : Nat)
    (ConnectionViewers : List FNetViewer) (ConsiderList : List Nat)
    (d d1 : USpatialNetDriver) (PriorityActors : List FActorPriority) (ActorInfo : Nat)
    (hDormant : InConnection ∈ (d.NetworkObjectInfos ActorInfo).DormantConnections)
    (h : ServerReplicateActors_PrioritizeActors env InConnection ConnectionViewers
      ConsiderList d = ok PriorityActors d1) :
    (∀ Entry ∈ PriorityActors, Entry.ActorInfo ≠ some ActorInfo) ∧
      InConnection ∈ (d1.NetworkObjectInfos ActorInfo).DormantConnections ∧
      ∀ (Ticks : List (Engine × ℚ × (USpatialNetDriver → USpatialNetDriver)))
        (s sEnd : USpatialNetDriver),
        (∀ T ∈ Ticks, KeepsDormant T.1 InConnection ActorInfo ∧
          ∀ s1, DormantFor InConnection ActorInfo s1 →
            QuietFor InConnection ActorInfo s1 (T.2.2 s1)) →
        DormantFor InConnection ActorInfo s →
        ServerReplicateActorsTicks Ticks s = ok () sEnd →
        QuietFor InConnection ActorInfo s sEnd := by
  refine ⟨?_, ?_, fun Ticks s sEnd hT hs hrun =>
    ServerReplicateActorsTicks_quiet InConnection ActorInfo Ticks s sEnd hT hs hrun⟩
  · intro Entry hE hA
    obtain ⟨_, p, _, hp, hdorm, _⟩ := ServerReplicateActors_PrioritizeActors_mem h hE hA
    rw [hA] at hp
    injection hp with hp
    subst hp
    exact IsActorDormant_eq_false hdorm hDormant
  · obtain ⟨_, _, _, _, _, hinfo⟩ := ServerReplicateActors_PrioritizeActors_entries h
    rw [hinfo]
    exact hDormant

/-- C15 on `sampleDriver`: the info `3` is dormant for connection `1` and is the only
one of the four considered infos that is missing from the array; over the three ticks
of `sampleTicks` it stays dormant and is never replicated. -/
theorem C15_dormant_actors_are_not_prioritized_witness :
    (ServerReplicateActors_PrioritizeActors sampleEngine 1 [] [0, 1, 2, 3]
        sampleDriver).value? = some samplePriorityActors ∧
      (∀ Entry ∈ samplePriorityActors, Entry.ActorInfo ≠ some 3) ∧
      (ServerReplicateActorsTicks sampleTicks sampleDriver).value? = some () ∧
      QuietFor 1 3 sampleDriver (ServerReplicateActorsTicks sampleTicks sampleDriver).state :=
  have hv : (ServerReplicateActors_PrioritizeActors sampleEngine 1 [] [0, 1, 2, 3]
      sampleDriver).value? = some samplePriorityActors := by decide
  have hrun : (ServerReplicateActorsTicks sampleTicks sampleDriver).value? = some () := by
    decide!
  have h := C15_dormant_actors_are_not_prioritized sampleEngine 1 [] [0, 1, 2, 3] sampleDriver
    _ samplePriorityActors 3 (by decide) (Result.eq_ok_of_value hv)
  ⟨hv, h.1, hrun,
    h.2.2 sampleTicks sampleDriver _
      (fun T hT => by
        have hT2 : T = (sampleEngine, 1, fun d => d) := by
          simp only [sampleTicks, List.mem_cons, List.mem_singleton, List.mem_nil_iff,
            or_false, or_self] at hT
          exact hT
        subst hT2
        exact ⟨fun infos _ hd => hd, fun s1 hs1 => QuietFor.nothing hs1 rfl rfl⟩)
      (show 1 ∈ (sampleDriver.NetworkObjectInfos 3).DormantConnections by decide)
      (Result.eq_ok_of_value hrun)⟩

/-! ## Entries left unprocessed by `ServerReplicateActors` -/

theorem ServerReplicateActors_PrepConnections_value {d d1 : USpatialNetDriver} {N : Nat}
    (h : ServerReplicateActors_PrepConnections d = ok N d1) :
    N = 0 ∨ N = d.ClientConnections.length := by
  unfold ServerReplicateActors_PrepConnections at h
  simp only [] at h
  obtain ⟨b, d2, _, h⟩ := Result.bind_eq_ok.1 h
  injection h with h1 _
  rw [← h1]
  cases b
  · exact Or.inl rfl
  · exact Or.inr rfl

/-- C14: let `ServerReplicateActors` return, and let `C` be one of the client
connections. Unless no connection is ticked at all (`NumClientsToTick = 0`), the loop
reaches `C`, and if `C` is then ticked (it is the reliable connection or has a view
target), every entry with an info at an index at or after the one returned by
`ServerReplicateActors_ProcessPrioritizedActors`, in the array prioritized for `C`, has
`bPendingNetUpdate = true` when `ServerReplicateActors` returns. -/
theorem C14_unprocessed_entries_are_flagged_pending (env : Engine) (DeltaSeconds : ℚ)
    (d dEnd : USpatialNetDriver) (Updated : Nat) (Before : List Nat) (C : Nat)
    (After : List Nat)
    (h : ServerReplicateActors env DeltaSeconds d = ok Updated dEnd)
    (hConnections : d.ClientConnections = Before ++ C :: After) :
    ∃ NumClientsToTick dP,
      ServerReplicateActors_PrepConnections
        { d with ReplicationFrame := d.ReplicationFrame + 1 } = ok NumClientsToTick dP ∧
      (NumClientsToTick = 0 ∨
        ∃ Updated0 d0,
          ServerReplicateActors.connections env NumClientsToTick
            (env.BuildConsiderList dP.NetworkObjectInfos DeltaSeconds).1 0 Before 0
            { dP with
              NetworkObjectInfos :=
                (env.BuildConsiderList dP.NetworkObjectInfos DeltaSeconds).2 } =
            ok Updated0 d0 ∧
          (((d0.Net.Connections C).bReliableSpatialConnection ||
              (d0.Net.Connections C).ViewTarget.isSome) = true →
            ∃ PriorityActors d2 Processed d3,
              ServerReplicateActors_PrioritizeActors env C
                (ServerReplicateActors.setViewers C d0).ReplicationViewers
                (env.BuildConsiderList dP.NetworkObjectInfos DeltaSeconds).1
                (ServerReplicateActors.setViewers C d0) = ok PriorityActors d2 ∧
              ServerReplicateActors_ProcessPrioritizedActors env C d2.ReplicationViewers
                PriorityActors Updated0 d2 = ok Processed d3 ∧
              ∀ (k : Nat) (Entry : FActorPriority) (ActorInfo : Nat), Processed.1 ≤ k →
                PriorityActors[k]? = some Entry → Entry.ActorInfo = some ActorInfo →
                (dEnd.NetworkObjectInfos ActorInfo).bPendingNetUpdate = true)) := by
  unfold ServerReplicateActors at h
  have hlen : d.ClientConnections.length = Before.length + (After.length + 1) := by
    rw [hConnections, List.length_append, List.length_cons]
  rw [if_neg (by omega)] at h
  obtain ⟨N, dP, hprep, h⟩ := Result.bind_eq_ok.1 h
  refine ⟨N, dP, hprep, ?_⟩
  by_cases hN : N = 0
  · exact Or.inl hN
  · right
    rw [if_neg hN] at h
    simp only [] at h
    obtain ⟨U2, d2, hconn, h⟩ := Result.bind_eq_ok.1 h
    obtain ⟨_, _, hcc⟩ := ServerReplicateActors_PrepConnections_frame hprep
    have hNlen : N = d.ClientConnections.length := by
      rcases ServerReplicateActors_PrepConnections_value hprep with h0 | h0
      · exact absurd h0 hN
      · exact h0
    have hcc2 : dP.ClientConnections = Before ++ C :: After := by
      rw [hcc]
      exact hConnections
    have hconn2 : ServerReplicateActors.connections env N
        (env.BuildConsiderList dP.NetworkObjectInfos DeltaSeconds).1 0 (Before ++ C :: After) 0
        { dP with
          NetworkObjectInfos := (env.BuildConsiderList dP.NetworkObjectInfos DeltaSeconds).2 } =
        ok U2 d2 := by
      rw [← hcc2]
      exact hconn
    obtain ⟨U0, d0, hB, hrest⟩ := ServerReplicateActors.connections_flagged env N _ Before C
      After 0 0 U2 _ d2 (by omega) hconn2
    refine ⟨U0, d0, hB, fun hTick => ?_⟩
    obtain ⟨L, dQ, Processed, d3, hP, hQ, hflag⟩ := hrest hTick
    refine ⟨L, dQ, Processed, d3, hP, hQ, ?_⟩
    intro k Entry p hk hE hp
    have := hflag k Entry p hk hE hp
    injection h with _ h2
    rw [← h2]
    split
    · exact this
    · exact this

/-- C14 on the sample: the infos `0`, `1`, `2` have the priorities `10`, `5`, `8` and the
connection takes two sends. The infos `0` and `2` are sent, and afterwards the info `1`
of priority `5` is flagged, as is the info `2` at the returned index, while the info
`0` is not. -/
theorem C14_unprocessed_entries_are_flagged_pending_witness :
    (ServerReplicateActors sampleEngine 1 sampleDriver).value? = some 2 ∧
      sampleAfterTick.ReplicateActorCalls =
        [{ Connection := 1, Index := 0, ActorInfo := 0, Channel := 100, bSent := true },
         { Connection := 1, Index := 1, ActorInfo := 2, Channel := 101, bSent := true }] ∧
      [0, 1, 2].map (fun p => (sampleAfterTick.NetworkObjectInfos p).bPendingNetUpdate) =
        [false, true, true] ∧
      ∃ NumClientsToTick dP,
        ServerReplicateActors_PrepConnections
          { sampleDriver with ReplicationFrame := sampleDriver.ReplicationFrame + 1 } =
            ok NumClientsToTick dP ∧
        (NumClientsToTick = 0 ∨
          ∃ Updated0 d0,
            ServerReplicateActors.connections sampleEngine NumClientsToTick
              (sampleEngine.BuildConsiderList dP.NetworkObjectInfos 1).1 0 [] 0
              { dP with
                NetworkObjectInfos :=
                  (sampleEngine.BuildConsiderList dP.NetworkObjectInfos 1).2 } =
              ok Updated0 d0 ∧
            (((d0.Net.Connections 1).bReliableSpatialConnection ||
                (d0.Net.Connections 1).ViewTarget.isSome) = true →
              ∃ PriorityActors d2 Processed d3,
                ServerReplicateActors_PrioritizeActors sampleEngine 1
                  (ServerReplicateActors.setViewers 1 d0).ReplicationViewers
                  (sampleEngine.BuildConsiderList dP.NetworkObjectInfos 1).1
                  (ServerReplicateActors.setViewers 1 d0) = ok PriorityActors d2 ∧
                ServerReplicateActors_ProcessPrioritizedActors sampleEngine 1
                  d2.ReplicationViewers PriorityActors Updated0 d2 = ok Processed d3 ∧
                ∀ (k : Nat) (Entry : FActorPriority) (ActorInfo : Nat), Processed.1 ≤ k →
                  PriorityActors[k]? = some Entry → Entry.ActorInfo = some ActorInfo →
                  (sampleAfterTick.NetworkObjectInfos ActorInfo).bPendingNetUpdate = true)) :=
  have hv : (ServerReplicateActors sampleEngine 1 sampleDriver).value? = some 2 := by decide!
  ⟨hv, by decide!, by decide!,
    C14_unprocessed_entries_are_flagged_pending sampleEngine 1 sampleDriver sampleAfterTick 2
      [] 1 [] (Result.eq_ok_of_value hv) rfl⟩

/-! ## Equality and hash of `FUnrealObjectRef` -/

theorem FUnrealObjectRef.eq_fields : ∀ (a b : FUnrealObjectRef),
    FUnrealObjectRef.eq a b = true ↔
      a.Entity = b.Entity ∧ a.Offset = b.Offset ∧
      (a.Path = none ∧ b.Path = none ∨ ∃ p q, a.Path = some p ∧ b.Path = some q ∧ p = q) ∧
      (a.Outer = none ∧ b.Outer = none ∨
        ∃ u v, a.Outer = some u ∧ b.Outer = some v ∧ FUnrealObjectRef.eq u v = true)
  | FUnrealObjectRef.mk e1 o1 p1 u1, FUnrealObjectRef.mk e2 o2 p2 u2 => by
    cases p1 <;> cases p2 <;> cases u1 <;> cases u2 <;>
      simp [FUnrealObjectRef.eq, FUnrealObjectRef.Entity, FUnrealObjectRef.Offset,
        FUnrealObjectRef.Path, FUnrealObjectRef.Outer, and_assoc]

/-- C28: `FUnrealObjectRef::operator==` is reflexive, symmetric and transitive; it holds
exactly when the entities and the offsets are equal, the paths are both unset or both
set and equal, and the outers are both unset or both set and equal under `operator==`;
`operator!=` is its negation; and references that are equal under `operator==` have the
same `GetTypeHash`. -/
theorem C28_operator_eq_is_an_equivalence_respected_by_GetTypeHash (env : HashEnv)
    (a b c : FUnrealObjectRef) :
    FUnrealObjectRef.eq a a = true ∧
    FUnrealObjectRef.eq a b = FUnrealObjectRef.eq b a ∧
    (FUnrealObjectRef.eq a b = true → FUnrealObjectRef.eq b c = true →
      FUnrealObjectRef.eq a c = true) ∧
    (FUnrealObjectRef.eq a b = true ↔
      a.Entity = b.Entity ∧ a.Offset = b.Offset ∧
      (a.Path = none ∧ b.Path = none ∨ ∃ p q, a.Path = some p ∧ b.Path = some q ∧ p = q) ∧
      (a.Outer = none ∧ b.Outer = none ∨
        ∃ u v, a.Outer = some u ∧ b.Outer = some v ∧ FUnrealObjectRef.eq u v = true)) ∧
    FUnrealObjectRef.ne a b = !FUnrealObjectRef.eq a b ∧
    (FUnrealObjectRef.eq a b = true → GetTypeHash env a = GetTypeHash env b) := by
  refine ⟨(FUnrealObjectRef.eq_iff a a).2 rfl, ?_, ?_, FUnrealObjectRef.eq_fields a b, rfl, ?_⟩
  · rw [FUnrealObjectRef.eq_eq_decide, FUnrealObjectRef.eq_eq_decide]
    exact decide_eq_decide.2 eq_comm
  · intro h1 h2
    exact (FUnrealObjectRef.eq_iff a c).2
      (((FUnrealObjectRef.eq_iff a b).1 h1).trans ((FUnrealObjectRef.eq_iff b c).1 h2))
  · intro h
    rw [(FUnrealObjectRef.eq_iff a b).1 h]

/-! ## `FSpatialConditionMapFilter::IsRelevant` -/

/-- C22: for every actor channel, every authority flag and whatever the array held
before, the filter built by `FSpatialConditionMapFilter(ActorChannel, bAuthoritative)`
answers `IsRelevant(COND_OwnerOnly)` with `bAuthoritative` and `IsRelevant(COND_SkipOwner)`
with its negation; `COND_None`, `COND_Custom`, `COND_InitialOnly`, `COND_InitialOrOwner`
and `COND_SkipReplay` are relevant, `COND_ReplayOnly` is not, and `COND_AutonomousOnly`
is the negation of `COND_SimulatedOnly`, which tells whether the actor's role is
`ROLE_SimulatedProxy`. -/
theorem C22_IsRelevant_follows_the_authority_flag (Uninitialised : ELifetimeCondition → Bool)
    (ActorChannel : USpatialActorChannel) (bAuthoritative : Bool) :
    (FSpatialConditionMapFilter.construct Uninitialised ActorChannel bAuthoritative).IsRelevant
      ELifetimeCondition.COND_OwnerOnly = bAuthoritative ∧
    (FSpatialConditionMapFilter.construct Uninitialised ActorChannel bAuthoritative).IsRelevant
      ELifetimeCondition.COND_SkipOwner = !bAuthoritative ∧
    (FSpatialConditionMapFilter.construct Uninitialised ActorChannel bAuthoritative).IsRelevant
      ELifetimeCondition.COND_None = true ∧
    (FSpatialConditionMapFilter.construct Uninitialised ActorChannel bAuthoritative).IsRelevant
      ELifetimeCondition.COND_Custom = true ∧
    (FSpatialConditionMapFilter.construct Uninitialised ActorChannel bAuthoritative).IsRelevant
      ELifetimeCondition.COND_InitialOnly = true ∧
    (FSpatialConditionMapFilter.construct Uninitialised ActorChannel bAuthoritative).IsRelevant
      ELifetimeCondition.COND_InitialOrOwner = true ∧
    (FSpatialConditionMapFilter.construct Uninitialised ActorChannel bAuthoritative).IsRelevant
      ELifetimeCondition.COND_SkipReplay = true ∧
    (FSpatialConditionMapFilter.construct Uninitialised ActorChannel bAuthoritative).IsRelevant
      ELifetimeCondition.COND_ReplayOnly = false ∧
    (FSpatialConditionMapFilter.construct Uninitialised ActorChannel bAuthoritative).IsRelevant
      ELifetimeCondition.COND_SimulatedOnly =
        decide (ActorChannel.Actor_Role = ENetRole.ROLE_SimulatedProxy) ∧
    (FSpatialConditionMapFilter.construct Uninitialised ActorChannel bAuthoritative).IsRelevant
      ELifetimeCondition.COND_AutonomousOnly =
      !(FSpatialConditionMapFilter.construct Uninitialised ActorChannel
        bAuthoritative).IsRelevant ELifetimeCondition.COND_SimulatedOnly := by
  cases bAuthoritative <;>
    simp [FSpatialConditionMapFilter.construct, FSpatialConditionMapFilter.IsRelevant,
      Function.update]
/-- C28 on the sample: the reference of `Rock` inside `Level` equals itself built a second
time and differs from the reference of `Level`; the hash of the two equal references is
the same number. -/
theorem C28_operator_eq_is_an_equivalence_respected_by_GetTypeHash_witness :
    FUnrealObjectRef.eq
        (FUnrealObjectRef.ofPath 0 0 "Rock" (FUnrealObjectRef.ofPath 0 0 "Level"
          FUnrealObjectRef.empty))
        (FUnrealObjectRef.mk 0 0 (some "Rock")
          (some (FUnrealObjectRef.mk 0 0 (some "Level") (some FUnrealObjectRef.empty)))) = true ∧
      FUnrealObjectRef.ne
        (FUnrealObjectRef.ofPath 0 0 "Rock" (FUnrealObjectRef.ofPath 0 0 "Level"
          FUnrealObjectRef.empty))
        (FUnrealObjectRef.ofPath 0 0 "Level" FUnrealObjectRef.empty) = true ∧
      GetTypeHash sampleHashEnv
        (FUnrealObjectRef.ofPath 0 0 "Rock" (FUnrealObjectRef.ofPath 0 0 "Level"
          FUnrealObjectRef.empty)) =
      GetTypeHash sampleHashEnv
        (FUnrealObjectRef.mk 0 0 (some "Rock")
          (some (FUnrealObjectRef.mk 0 0 (some "Level") (some FUnrealObjectRef.empty)))) :=
  ⟨by decide!, by decide!,
    (C28_operator_eq_is_an_equivalence_respected_by_GetTypeHash sampleHashEnv
      (FUnrealObjectRef.ofPath 0 0 "Rock" (FUnrealObjectRef.ofPath 0 0 "Level"
        FUnrealObjectRef.empty))
      (FUnrealObjectRef.mk 0 0 (some "Rock")
        (some (FUnrealObjectRef.mk 0 0 (some "Level") (some FUnrealObjectRef.empty))))
      FUnrealObjectRef.empty).2.2.2.2.2 (by decide!)⟩

/-- C22 on the sample: for a simulated proxy on the authoritative side, owner-only
properties are relevant, skip-owner and autonomous-only ones are not. -/
theorem C22_IsRelevant_follows_the_authority_flag_witness :
    (FSpatialConditionMapFilter.construct (fun _ => false) sampleSimulatedChannel
        true).IsRelevant ELifetimeCondition.COND_OwnerOnly = true ∧
      (FSpatialConditionMapFilter.construct (fun _ => false) sampleSimulatedChannel
        true).IsRelevant ELifetimeCondition.COND_SkipOwner = false ∧
      (FSpatialConditionMapFilter.construct (fun _ => false) sampleSimulatedChannel
        true).IsRelevant ELifetimeCondition.COND_AutonomousOnly = false :=
  have h := C22_IsRelevant_follows_the_authority_flag (fun _ => false) sampleSimulatedChannel
    true
  ⟨h.1, h.2.1, by decide⟩
/-! ## `ResolveEntityActor` on an entity that has its root record -/

/-- The loop of `AssignNewEntityActorNetGUID` keeps the id recorded for a reference that
is not the reference of any pair of the list, in every build. -/
theorem AssignNewEntityActorNetGUID_loop_keeps_ref (env : Env) (e : Worker_EntityId)
    (r0 : FUnrealObjectRef) (g0 : FNetworkGUID) (l : List (UObjectPtr × Nat)) :
    ∀ (c c1 : FSpatialNetGUIDCache) (u : Unit),
      (∀ p ∈ l, FUnrealObjectRef.ofEntity e p.2 ≠ r0) →
      AssignNewEntityActorNetGUID.loop env e l c = ok u c1 →
      TMap.Find c.UnrealObjectRefToNetGUID r0 = some g0 →
      TMap.Find c1.UnrealObjectRefToNetGUID r0 = some g0 := by
  induction l with
  | nil =>
    intro c c1 u _ h k
    unfold AssignNewEntityActorNetGUID.loop at h
    injection h with _ h2; subst h2; exact k
  | cons q rest ih =>
    intro c c1 u hnr h k
    obtain ⟨so, off⟩ := q
    unfold AssignNewEntityActorNetGUID.loop at h
    obtain ⟨sg, s1, h1, h2⟩ := Result.bind_eq_ok.1 h
    obtain ⟨_, s2, h3, h4⟩ := Result.bind_eq_ok.1 h2
    obtain ⟨_, s3, h5, h6⟩ := Result.bind_eq_ok.1 h4
    have m1 := GetOrAssignNetGUID_SpatialGDK_sameRefMaps env so c
    rw [Result.state_of_eq_ok h1] at m1
    have o3 := RegisterObjectRef_other h3
    have x5 := ResolvePendingOperations_extends env s2 so (FUnrealObjectRef.ofEntity e off)
    rw [Result.state_of_eq_ok h5] at x5
    refine ih s3 c1 u (fun p hp => hnr p (List.mem_cons_of_mem _ hp)) h6 ?_
    apply x5.2.2.2
    rw [o3.2 r0 (fun hr => hnr (so, off) (List.mem_cons_self _ _) hr.symm), m1.2]
    exact k

/-- After a successful `AssignNewEntityActorNetGUID`, in a build with `DO_GUARD_SLOW` or
with no sub-object at offset `0`, the root reference of the actor's entity is mapped to
the returned id, which is valid when the actor is not null. -/
theorem AssignNewEntityActorNetGUID_root {env : Env} {Actor : UObjectPtr}
    {SubobjectToOffset : List (UObjectPtr × Nat)} {c c1 : FSpatialNetGUIDCache}
    {g : FNetworkGUID}
    (hS : env.DO_GUARD_SLOW = true ∨ ∀ p ∈ SubobjectToOffset, p.2 ≠ 0)
    (h : AssignNewEntityActorNetGUID env Actor SubobjectToOffset c = ok g c1) :
    TMap.Find c1.UnrealObjectRefToNetGUID
        (FUnrealObjectRef.ofEntity (env.GetEntityIdFromActor Actor) 0) = some g ∧
      (Actor ≠ UObjectPtr.nullptr → g.IsValid = true) := by
  unfold AssignNewEntityActorNetGUID at h
  simp only [] at h
  obtain ⟨_, s0, h0, h1⟩ := Result.bind_eq_ok.1 h
  obtain ⟨_, rfl⟩ := check_eq_ok.1 h0
  obtain ⟨g1, s1, h2, h3⟩ := Result.bind_eq_ok.1 h1
  obtain ⟨_, s2, h4, h5⟩ := Result.bind_eq_ok.1 h3
  obtain ⟨_, s3, h6, h7⟩ := Result.bind_eq_ok.1 h5
  obtain ⟨u4, s4, h8, h9⟩ := Result.bind_eq_ok.1 h7
  injection h9 with h10 h11
  subst h10; subst h11
  have e1 := RegisterObjectRef_ok h4
  have x2 := ResolvePendingOperations_extends env s2 Actor
    (FUnrealObjectRef.ofEntity (env.GetEntityIdFromActor Actor) 0)
  rw [Result.state_of_eq_ok h6] at x2
  refine ⟨?_, fun hA => (GetOrAssignNetGUID_SpatialGDK_ok env Actor s0 s1 g1 h2 hA).2.1⟩
  rcases hS with hSlow | hoff
  · have x3 := AssignNewEntityActorNetGUID_loop_extends env (env.GetEntityIdFromActor Actor)
      SubobjectToOffset s3
    rw [Result.state_of_eq_ok h8] at x3
    exact (x2.compose (x3.2 hSlow)).2.2.2 _ _ e1.2.1
  · exact AssignNewEntityActorNetGUID_loop_keeps_ref env _ _ g1 SubobjectToOffset s3 s4 u4
      (fun p hp he => hoff p hp (FUnrealObjectRef.ofEntity_inj he).2) h8
      (x2.2.2.2 _ _ e1.2.1)

/-- With a valid id recorded for the root of the entity, `ResolveEntityActor` returns it
and changes nothing. -/
theorem ResolveEntityActor_of_root (env : Env) (Actor : UObjectPtr)
    (EntityId : Worker_EntityId) (SubobjectToOffset : List (UObjectPtr × Nat))
    (c : FSpatialNetGUIDCache) (g : FNetworkGUID)
    (h : TMap.Find c.UnrealObjectRefToNetGUID (FUnrealObjectRef.ofEntity EntityId 0) = some g)
    (hv : g.IsValid = true) :
    ResolveEntityActor env Actor EntityId SubobjectToOffset c = ok g c := by
  unfold ResolveEntityActor GetNetGUIDFromEntityId
  simp [h, hv]

/-- C29: when the root reference `(e, 0)` of an entity is recorded with a valid id,
`ResolveEntityActor(actor, e, subs)` returns that id and leaves the cache (both maps
included) as it was, whatever actor and sub-object map are passed; a call of
`ResolveEntityActor` that returns for a non-null actor of entity `e`, in a build with
`DO_GUARD_SLOW` or with no sub-object at offset `0`, leaves such a record, so every later
call for `e` returns the same id and changes nothing; and `RemoveEntityActor(e)` on an
entity without a root record leaves the cache as it was. -/
theorem C29_ResolveEntityActor_is_idempotent_per_entity (env : Env) (Actor : UObjectPtr)
    (EntityId : Worker_EntityId) (SubobjectToOffset : List (UObjectPtr × Nat))
    (c : FSpatialNetGUIDCache) :
    (∀ g, TMap.Find c.UnrealObjectRefToNetGUID (FUnrealObjectRef.ofEntity EntityId 0) = some g →
      g.IsValid = true →
      ResolveEntityActor env Actor EntityId SubobjectToOffset c = ok g c) ∧
    (∀ g c1, Actor ≠ UObjectPtr.nullptr → env.GetEntityIdFromActor Actor = EntityId →
      (env.DO_GUARD_SLOW = true ∨ ∀ p ∈ SubobjectToOffset, p.2 ≠ 0) →
      ResolveEntityActor env Actor EntityId SubobjectToOffset c = ok g c1 →
      ∀ (env2 : Env) (Actor2 : UObjectPtr) (SubobjectToOffset2 : List (UObjectPtr × Nat)),
        ResolveEntityActor env2 Actor2 EntityId SubobjectToOffset2 c1 = ok g c1) ∧
    (TMap.Find c.UnrealObjectRefToNetGUID (FUnrealObjectRef.ofEntity EntityId 0) = none →
      RemoveEntityActor env EntityId c = ok () c) := by
  refine ⟨fun g h hv => ResolveEntityActor_of_root env Actor EntityId SubobjectToOffset c g h hv,
    ?_, ?_⟩
  · intro g c1 hA hE hS h env2 Actor2 Subs2
    unfold ResolveEntityActor at h
    simp only [] at h
    split at h
    · obtain ⟨k1, k2⟩ := AssignNewEntityActorNetGUID_root hS h
      rw [hE] at k1
      exact ResolveEntityActor_of_root env2 Actor2 EntityId Subs2 c1 g k1 (k2 hA)
    · rename_i hvalid
      injection h with h1 h2
      subst h2
      have hv : (GetNetGUIDFromEntityId c EntityId).IsValid = true := by simpa using hvalid
      have hf : TMap.Find c.UnrealObjectRefToNetGUID (FUnrealObjectRef.ofEntity EntityId 0) =
          some g := by
        rw [← h1]
        unfold GetNetGUIDFromEntityId at hv ⊢
        cases hfind : TMap.Find c.UnrealObjectRefToNetGUID (FUnrealObjectRef.ofEntity EntityId 0) with
        | none => rw [hfind] at hv; simp [FNetworkGUID.IsValid] at hv
        | some g0 => rfl
      rw [h1] at hv
      exact ResolveEntityActor_of_root env2 Actor2 EntityId Subs2 c g hf hv
  · intro h
    unfold RemoveEntityActor GetNetGUIDFromEntityId
    simp [h, FNetworkGUID.IsValid]

/-- C29 on the sample: entity `3` has the root id `2` after `sampleActor` was assigned, so
resolving another actor with another sub-object map for entity `3` returns `2` and leaves
the cache as it was, as does resolving `sampleActor` twice from the empty cache; and
removing entity `9`, which has no root record, changes nothing. -/
theorem C29_ResolveEntityActor_is_idempotent_per_entity_witness :
    ResolveEntityActor sampleClientEnv sampleStaticMesh 3 [(sampleLevel, 5)]
        sampleCacheAfterAssign = ok ⟨2⟩ sampleCacheAfterAssign ∧
      ResolveEntityActor sampleRegistryEnv sampleLevel 3 [] sampleCacheAfterAssign =
        ok ⟨2⟩ sampleCacheAfterAssign ∧
      RemoveEntityActor sampleRegistryEnv 9 sampleCacheAfterAssign =
        ok () sampleCacheAfterAssign :=
  ⟨(C29_ResolveEntityActor_is_idempotent_per_entity sampleClientEnv sampleStaticMesh 3
      [(sampleLevel, 5)] sampleCacheAfterAssign).1 ⟨2⟩ (by decide!) (by decide),
    (C29_ResolveEntityActor_is_idempotent_per_entity sampleClientEnv sampleActor 3
      [(sampleComponent, 1)] FSpatialNetGUIDCache.empty).2.1 ⟨2⟩ sampleCacheAfterAssign
      (by decide) (by decide) (Or.inr (by decide)) (by decide!) sampleRegistryEnv sampleLevel
      [],
    (C29_ResolveEntityActor_is_idempotent_per_entity sampleRegistryEnv sampleActor 9 []
      sampleCacheAfterAssign).2.2 (by decide!)⟩

/-! ## Associations replaced in a build without `DO_GUARD_SLOW` -/

/-- In a build without `DO_GUARD_SLOW` a sub-object at offset `0` takes the root
reference over: after `ResolveEntityActor(sampleActor, 3, {sampleComponent ↦ 0})` has
returned the actor's id `2`, a second call for entity `3` returns the component's id
`4`. -/
theorem ResolveEntityActor_root_taken_over_at_offset_zero :
    (ResolveEntityActor sampleClientEnv sampleActor 3 [(sampleComponent, 0)]
        FSpatialNetGUIDCache.empty).value? = some ⟨2⟩ ∧
      (ResolveEntityActor sampleClientEnv sampleActor 3 [(sampleComponent, 0)]
        (ResolveEntityActor sampleClientEnv sampleActor 3 [(sampleComponent, 0)]
          FSpatialNetGUIDCache.empty).state).value? = some ⟨4⟩ := by
  decide!

/-- In a build without `DO_GUARD_SLOW` an object listed again as its own sub-object has its
record replaced: after `AssignNewEntityActorNetGUID(sampleActor, {sampleActor ↦ 1})` the
calls for `(3, 0)` and `(3, 1)` are logged, but the id `2` recorded for `(3, 0)` is now
mapped to `(3, 1)`, so `(3, 0)` has no record in both maps. -/
theorem AssignNewEntityActorNetGUID_record_replaced_for_repeated_object :
    (AssignNewEntityActorNetGUID sampleClientEnv sampleActor [(sampleActor, 1)]
        FSpatialNetGUIDCache.empty).value? = some ⟨2⟩ ∧
      (AssignNewEntityActorNetGUID sampleClientEnv sampleActor [(sampleActor, 1)]
        FSpatialNetGUIDCache.empty).state.ResolveCalls =
        [(sampleActor, FUnrealObjectRef.ofEntity 3 0),
         (sampleActor, FUnrealObjectRef.ofEntity 3 1)] ∧
      ¬ HasRecord (AssignNewEntityActorNetGUID sampleClientEnv sampleActor [(sampleActor, 1)]
        FSpatialNetGUIDCache.empty).state (FUnrealObjectRef.ofEntity 3 0) := by
  refine ⟨by decide!, by decide!, ?_⟩
  rintro ⟨g, h1, h2⟩
  have h3 : TMap.Find (AssignNewEntityActorNetGUID sampleClientEnv sampleActor
      [(sampleActor, 1)] FSpatialNetGUIDCache.empty).state.UnrealObjectRefToNetGUID
      (FUnrealObjectRef.ofEntity 3 0) = some ⟨2⟩ := by decide!
  have h4 : TMap.Find (AssignNewEntityActorNetGUID sampleClientEnv sampleActor
      [(sampleActor, 1)] FSpatialNetGUIDCache.empty).state.NetGUIDToUnrealObjectRef ⟨2⟩ =
      some (FUnrealObjectRef.ofEntity 3 1) := by decide!
  rw [h3] at h2
  have e : g = ⟨2⟩ := (Option.some.inj h2).symm
  subst e
  rw [h4] at h1
  exact absurd (Option.some.inj h1) (by decide)

/-- In a build without `DO_GUARD_SLOW` an id recorded with the unresolved sentinel counts
as unresolved and has its record replaced: on the cache in which the id `3` of
`samplePackage` is recorded with the sentinel `(0, 1)`,
`AssignNewStablyNamedObjectNetGUID(samplePackage)` returns and records `{path "Pkg"}`. -/
theorem AssignNewStablyNamedObjectNetGUID_replaces_sentinel_record :
    RecordOf
        { (GetOrAssignNetGUID_SpatialGDK sampleClientEnv samplePackage
            FSpatialNetGUIDCache.empty).state with
          NetGUIDToUnrealObjectRef := [(⟨3⟩, FUnrealObjectRef.ofEntity 0 1)]
          UnrealObjectRefToNetGUID := [(FUnrealObjectRef.ofEntity 0 1, ⟨3⟩)] }
        samplePackage = some sampleClientEnv.UNRESOLVED_OBJECT_REF ∧
      (AssignNewStablyNamedObjectNetGUID sampleClientEnv samplePackage
        { (GetOrAssignNetGUID_SpatialGDK sampleClientEnv samplePackage
            FSpatialNetGUIDCache.empty).state with
          NetGUIDToUnrealObjectRef := [(⟨3⟩, FUnrealObjectRef.ofEntity 0 1)]
          UnrealObjectRefToNetGUID := [(FUnrealObjectRef.ofEntity 0 1, ⟨3⟩)] }).value? =
        some ⟨3⟩ ∧
      RecordOf
        (AssignNewStablyNamedObjectNetGUID sampleClientEnv samplePackage
          { (GetOrAssignNetGUID_SpatialGDK sampleClientEnv samplePackage
              FSpatialNetGUIDCache.empty).state with
            NetGUIDToUnrealObjectRef := [(⟨3⟩, FUnrealObjectRef.ofEntity 0 1)]
            UnrealObjectRefToNetGUID := [(FUnrealObjectRef.ofEntity 0 1, ⟨3⟩)] }).state
        samplePackage = some (FUnrealObjectRef.ofPath 0 0 "Pkg" FUnrealObjectRef.empty) := by
  decide!

/-! ## The travel URL of `SpatialProcessServerTravel` -/

theorem Char.toUpper_eq_of_other (t c : Char) (h1 : t.toNat < 65 ∨ 90 < t.toNat)
    (h2 : t.toNat < 97 ∨ 122 < t.toNat) : (c.toUpper = t) ↔ c = t := by
  constructor
  · intro h
    unfold Char.toUpper at h
    simp only [] at h
    split at h
    · rename_i hr
      obtain ⟨h3, h4⟩ := hr
      exfalso
      have h5 : c.toNat - 32 < 91 := by omega
      have h6 : 65 ≤ c.toNat - 32 := by omega
      generalize c.toNat - 32 = n at h h5 h6
      subst h
      revert h1
      interval_cases n <;> decide
    · exact h
  · intro h
    subst h
    unfold Char.toUpper
    simp only []
    rw [if_neg]
    omega

theorem FString.StartsWithIgnoreCase_single (t c : Char) (s : FString)
    (h1 : t.toNat < 65 ∨ 90 < t.toNat) (h2 : t.toNat < 97 ∨ 122 < t.toNat) :
    FString.StartsWithIgnoreCase (c :: s) [t] = decide (c = t) := by
  have ht : t.toUpper = t := (Char.toUpper_eq_of_other t t h1 h2).2 rfl
  unfold FString.StartsWithIgnoreCase FString.ToUpper
  simp only [List.map_cons, List.map_nil, List.isPrefixOf, ht]
  by_cases hc : c = t
  · subst hc
    simp [ht]
  · have : ¬ c.toUpper = t := fun h => hc ((Char.toUpper_eq_of_other t c h1 h2).1 h)
    have h3 : ¬ t = c.toUpper := fun h => this h.symm
    simp [hc, h3]

theorem FString.Find_single_none (t : Char) (h1 : t.toNat < 65 ∨ 90 < t.toNat)
    (h2 : t.toNat < 97 ∨ 122 < t.toNat) :
    ∀ s : FString, t ∉ s → FString.Find [t] s = none := by
  intro s
  induction s with
  | nil => intro _; rfl
  | cons c s ih =>
    intro h
    have hc : c ≠ t := fun hh => h (by rw [hh]; exact List.mem_cons_self _ _)
    have hs : t ∉ s := fun hh => h (List.mem_cons_of_mem _ hh)
    unfold FString.Find
    rw [FString.StartsWithIgnoreCase_single t c s h1 h2, ih hs]
    simp [hc]

theorem FString.Find_single_first (t : Char) (h1 : t.toNat < 65 ∨ 90 < t.toNat)
    (h2 : t.toNat < 97 ∨ 122 < t.toNat) :
    ∀ (N rest : FString), t ∉ N → FString.Find [t] (N ++ t :: rest) = some N.length := by
  intro N
  induction N with
  | nil =>
    intro rest _
    unfold FString.Find
    simp [FString.StartsWithIgnoreCase_single t t rest h1 h2]
  | cons c N ih =>
    intro rest h
    have hc : c ≠ t := fun hh => h (by rw [hh]; exact List.mem_cons_self _ _)
    have hs : t ∉ N := fun hh => h (List.mem_cons_of_mem _ hh)
    rw [List.cons_append]
    unfold FString.Find
    rw [FString.StartsWithIgnoreCase_single t c _ h1 h2, ih rest hs]
    simp [hc]

theorem FString.FindFromEnd_single_none (t : Char) (h1 : t.toNat < 65 ∨ 90 < t.toNat)
    (h2 : t.toNat < 97 ∨ 122 < t.toNat) :
    ∀ s : FString, t ∉ s → FString.FindFromEnd [t] s = none := by
  intro s
  induction s with
  | nil => intro _; rfl
  | cons c s ih =>
    intro h
    have hc : c ≠ t := fun hh => h (by rw [hh]; exact List.mem_cons_self _ _)
    have hs : t ∉ s := fun hh => h (List.mem_cons_of_mem _ hh)
    unfold FString.FindFromEnd
    rw [FString.StartsWithIgnoreCase_single t c s h1 h2, ih hs]
    simp [hc]

theorem FString.FindFromEnd_single_last (t : Char) (h1 : t.toNat < 65 ∨ 90 < t.toNat)
    (h2 : t.toNat < 97 ∨ 122 < t.toNat) :
    ∀ (P M : FString), t ∉ M → FString.FindFromEnd [t] (P ++ t :: M) = some P.length := by
  intro P
  induction P with
  | nil =>
    intro M hM
    rw [List.nil_append]
    unfold FString.FindFromEnd
    rw [FString.FindFromEnd_single_none t h1 h2 M hM,
      FString.StartsWithIgnoreCase_single t t M h1 h2]
    simp
  | cons c P ih =>
    intro M hM
    rw [List.cons_append]
    unfold FString.FindFromEnd
    rw [ih M hM]
    simp

/-- A URL that contains `snapshot=`, in whatever case, is passed on unchanged. -/
theorem SpatialProcessServerTravel_of_snapshot (env : TravelEnv) (URL : FString)
    (hAuth : env.bHasAuthority = true)
    (hSnapshot : FString.Contains URL "snapshot=".toList = true) :
    SpatialProcessServerTravel env URL = some URL := by
  unfold SpatialProcessServerTravel SpatialProcessServerTravel.NewURL
  simp only [hAuth, hSnapshot, Bool.not_true, Bool.false_eq_true, if_false]

/-- The local `NextMap` of a URL that is no restart request is the URL up to its first
`?`, or the whole URL when it has none. -/
theorem SpatialProcessServerTravel.NextMap_of_options (env : TravelEnv)
    (Map Options : FString)
    (hRestart : FString.Contains (FString.ToUpper (Map ++ Options)) "?RESTART".toList = false)
    (hMap : '?' ∉ Map) (hOptions : Options = [] ∨ ∃ rest, Options = '?' :: rest) :
    SpatialProcessServerTravel.NextMap env (Map ++ Options) = Map := by
  unfold SpatialProcessServerTravel.NextMap
  rw [hRestart]
  simp only [Bool.false_eq_true, if_false]
  have hq : "?".toList = ['?'] := rfl
  rw [hq]
  rcases hOptions with h | ⟨rest, h⟩
  · subst h
    rw [List.append_nil, FString.Find_single_none '?' (by decide) (by decide) Map hMap]
  · subst h
    rw [FString.Find_single_first '?' (by decide) (by decide) Map rest hMap]
    simp [FString.Left]

/-- For a URL that is no restart request and has no snapshot option, whose map name (the
URL up to its first `?`) has a leading path: the snapshot name is what follows the last
`/` of the map name. -/
theorem SpatialProcessServerTravel_of_path (env : TravelEnv) (Path MapName Options : FString)
    (hAuth : env.bHasAuthority = true)
    (hSnapshot :
      FString.Contains ((Path ++ '/' :: MapName) ++ Options) "snapshot=".toList = false)
    (hRestart :
      FString.Contains (FString.ToUpper ((Path ++ '/' :: MapName) ++ Options))
        "?RESTART".toList = false)
    (hPath : '?' ∉ Path) (hName : '?' ∉ MapName) (hLast : '/' ∉ MapName)
    (hOptions : Options = [] ∨ ∃ rest, Options = '?' :: rest) :
    SpatialProcessServerTravel env ((Path ++ '/' :: MapName) ++ Options) =
      some ((Path ++ '/' :: MapName) ++ Options ++ ("?snapshot=".toList ++ MapName)) := by
  have hMap : '?' ∉ Path ++ '/' :: MapName := by
    intro h
    rcases List.mem_append.1 h with h | h
    · exact hPath h
    · rcases List.mem_cons.1 h with h | h
      · exact absurd h (by decide)
      · exact hName h
  have hNext := SpatialProcessServerTravel.NextMap_of_options env (Path ++ '/' :: MapName)
    Options hRestart hMap hOptions
  unfold SpatialProcessServerTravel SpatialProcessServerTravel.NewURL
  simp only [hAuth, hSnapshot, hNext, Bool.not_true, Bool.not_false, Bool.false_eq_true,
    if_false, if_true]
  have hs : "/".toList = ['/'] := rfl
  unfold FString.Split
  rw [hs, FString.FindFromEnd_single_last '/' (by decide) (by decide) Path MapName hLast]
  simp [FString.Mid]

/-- For a URL that is no restart request and has no snapshot option, whose map name (the
URL up to its first `?`) contains no `/`: `Split` finds nothing and leaves `MapName`
empty, so the snapshot name is empty. -/
theorem SpatialProcessServerTravel_of_plain_name (env : TravelEnv) (MapName Options : FString)
    (hAuth : env.bHasAuthority = true)
    (hSnapshot : FString.Contains (MapName ++ Options) "snapshot=".toList = false)
    (hRestart :
      FString.Contains (FString.ToUpper (MapName ++ Options)) "?RESTART".toList = false)
    (hName : '?' ∉ MapName) (hPlain : '/' ∉ MapName)
    (hOptions : Options = [] ∨ ∃ rest, Options = '?' :: rest) :
    SpatialProcessServerTravel env (MapName ++ Options) =
      some (MapName ++ Options ++ "?snapshot=".toList) := by
  have hNext := SpatialProcessServerTravel.NextMap_of_options env MapName Options hRestart
    hName hOptions
  unfold SpatialProcessServerTravel SpatialProcessServerTravel.NewURL
  simp only [hAuth, hSnapshot, hNext, Bool.not_true, Bool.not_false, Bool.false_eq_true,
    if_false, if_true]
  have hs : "/".toList = ['/'] := rfl
  unfold FString.Split
  rw [hs, FString.FindFromEnd_single_none '/' (by decide) (by decide) MapName hPlain]
  simp
/-- On the sample: a URL with a leading path gets the part after the last `/` as snapshot
name, a URL with a snapshot option in another case is passed on unchanged, and a restart
request takes the snapshot name from the current map, not from the URL. -/
theorem SpatialProcessServerTravel_of_samples :
    SpatialProcessServerTravel sampleTravelEnv "/Game/Maps/MyMap?game=x".toList =
      some "/Game/Maps/MyMap?game=x?snapshot=MyMap".toList ∧
    SpatialProcessServerTravel sampleTravelEnv "/Game/Maps/MyMap?Snapshot=a".toList =
      some "/Game/Maps/MyMap?Snapshot=a".toList ∧
    SpatialProcessServerTravel sampleTravelEnv "?restart".toList =
      some "?restart?snapshot=Lobby".toList := by
  refine ⟨by decide!, by decide!, by decide!⟩

/-- C21: for the travel URL `MyMap`, which has no snapshot option and whose map name has no
`/`, `SpatialProcessServerTravel` travels to `MyMap?snapshot=` with an empty snapshot
name, not to `MyMap?snapshot=MyMap`: `Split` finds no `/` and leaves `MapName` empty. -/
theorem C21_plain_map_name_gives_an_empty_snapshot_name :
    FString.Contains "MyMap".toList "snapshot=".toList = false ∧
    SpatialProcessServerTravel.NextMap sampleTravelEnv "MyMap".toList = "MyMap".toList ∧
    SpatialProcessServerTravel sampleTravelEnv "MyMap".toList = some "MyMap?snapshot=".toList ∧
    SpatialProcessServerTravel sampleTravelEnv "MyMap".toList ≠
      some ("MyMap".toList ++ "?snapshot=".toList ++ "MyMap".toList) := by
  refine ⟨by decide!, by decide!, by decide!, by decide!⟩

/-! ## What `ServerReplicateActors_PrepConnections` returns -/

theorem SameReadiness.same_readiness (d : USpatialNetDriver) : SameReadiness d d :=
  ⟨rfl, fun _ => ⟨rfl, rfl, rfl, rfl⟩⟩

theorem SameReadiness.then_readiness {a b c : USpatialNetDriver} (h1 : SameReadiness a b)
    (h2 : SameReadiness b c) : SameReadiness a c :=
  ⟨h2.1.trans h1.1, fun C =>
    ⟨(h2.2 C).1.trans (h1.2 C).1, (h2.2 C).2.1.trans (h1.2 C).2.1,
      (h2.2 C).2.2.1.trans (h1.2 C).2.2.1, (h2.2 C).2.2.2.trans (h1.2 C).2.2.2⟩⟩

theorem SameReadiness.isReady {d d1 : USpatialNetDriver} (h : SameReadiness d d1) (C : Nat) :
    IsReadyConnection d1 C = IsReadyConnection d C := by
  unfold IsReadyConnection
  rw [h.1, (h.2 C).1, (h.2 C).2.1, (h.2 C).2.2.1, (h.2 C).2.2.2]

/-- The loop over the children of a connection changes view targets only. -/
theorem ServerReplicateActors_PrepConnections.children_readiness (bReady : Bool) :
    ∀ (Children : List Nat) (Connections : Nat → USpatialNetConnection) (C : Nat),
      (ServerReplicateActors_PrepConnections.children bReady Children Connections C).State =
        (Connections C).State ∧
      (ServerReplicateActors_PrepConnections.children bReady Children Connections
        C).bReliableSpatialConnection = (Connections C).bReliableSpatialConnection ∧
      (ServerReplicateActors_PrepConnections.children bReady Children Connections
        C).OwningActor = (Connections C).OwningActor ∧
      (ServerReplicateActors_PrepConnections.children bReady Children Connections
        C).LastReceiveTime = (Connections C).LastReceiveTime := by
  intro Children
  induction Children with
  | nil => intro Connections C; exact ⟨rfl, rfl, rfl, rfl⟩
  | cons Child rest ih =>
    intro Connections C
    unfold ServerReplicateActors_PrepConnections.children
    refine ⟨(ih _ C).1.trans ?_, (ih _ C).2.1.trans ?_, (ih _ C).2.2.1.trans ?_,
      (ih _ C).2.2.2.trans ?_⟩ <;>
    · by_cases hC : C = Child
      · subst hC
        simp only [Function.update_same]
      · simp only [Function.update_noteq hC]

/-- One pass of the loop of `ServerReplicateActors_PrepConnections` writes view targets
only. -/
theorem ServerReplicateActors_PrepConnections.step_readiness (bReady : Bool) (C : Nat)
    (ViewTarget : Option Nat) (d : USpatialNetDriver) :
    SameReadiness d
      { d with
        Net :=
          { d.Net with
            Connections :=
              ServerReplicateActors_PrepConnections.children bReady
                (d.Net.Connections C).Children
                (Function.update d.Net.Connections C
                  { d.Net.Connections C with ViewTarget := ViewTarget }) } } := by
  refine ⟨rfl, fun X => ?_⟩
  obtain ⟨k1, k2, k3, k4⟩ := ServerReplicateActors_PrepConnections.children_readiness bReady
    (d.Net.Connections C).Children
    (Function.update d.Net.Connections C { d.Net.Connections C with ViewTarget := ViewTarget }) X
  simp only []
  rw [k1, k2, k3, k4]
  by_cases hX : X = C
  · subst hX
    simp [Function.update_same]
  · simp [Function.update_noteq hX]

/-- The loop of `ServerReplicateActors_PrepConnections` over connections that are pending,
open or closed ends normally, and `bFoundReadyConnection` ends up set exactly when it was
set before or one of the connections passes the test. -/
theorem ServerReplicateActors_PrepConnections.loop_value (d0 : USpatialNetDriver) :
    ∀ (Conns : List Nat) (b : Bool) (d : USpatialNetDriver), SameReadiness d0 d →
      (∀ C ∈ Conns, (d0.Net.Connections C).State ≠ EConnectionState.USOCK_Invalid) →
      ∃ d1, ServerReplicateActors_PrepConnections.loop Conns b d =
          ok (b || Conns.any (IsReadyConnection d0)) d1 ∧
        SameReadiness d0 d1 ∧ d1.ClientConnections = d.ClientConnections := by
  intro Conns
  induction Conns with
  | nil =>
    intro b d hs _
    exact ⟨d, by simp [ServerReplicateActors_PrepConnections.loop], hs, rfl⟩
  | cons C rest ih =>
    intro b d hs hstate
    have hC := hstate C (List.mem_cons_self _ _)
    have hrest : ∀ X ∈ rest, (d0.Net.Connections X).State ≠ EConnectionState.USOCK_Invalid :=
      fun X hX => hstate X (List.mem_cons_of_mem _ hX)
    have hchk : decide ((d.Net.Connections C).State = EConnectionState.USOCK_Pending ∨
        (d.Net.Connections C).State = EConnectionState.USOCK_Open ∨
        (d.Net.Connections C).State = EConnectionState.USOCK_Closed) = true := by
      rw [(hs.2 C).1]
      cases hst : (d0.Net.Connections C).State <;> simp_all
    have hready : (((d.Net.Connections C).bReliableSpatialConnection ||
          (d.Net.Connections C).OwningActor.isSome) &&
        decide ((d.Net.Connections C).State = EConnectionState.USOCK_Open) &&
        decide (d.Time - (d.Net.Connections C).LastReceiveTime < 15 / 10)) =
        IsReadyConnection d0 C := by
      rw [← hs.isReady C]
      rfl
    unfold ServerReplicateActors_PrepConnections.loop
    simp only []
    rw [hchk, check_true, Result.bind_ok, hready]
    cases hr : IsReadyConnection d0 C with
    | true =>
      simp only [if_true]
      obtain ⟨d1, h1, h2, h3⟩ := ih true _
        (hs.then_readiness (ServerReplicateActors_PrepConnections.step_readiness true C _ d))
        hrest
      refine ⟨d1, ?_, h2, h3⟩
      rw [h1]
      simp [hr]
    | false =>
      simp only [Bool.false_eq_true, if_false]
      obtain ⟨d1, h1, h2, h3⟩ := ih b _
        (hs.then_readiness (ServerReplicateActors_PrepConnections.step_readiness false C none d))
        hrest
      refine ⟨d1, ?_, h2, h3⟩
      rw [h1]
      simp [hr]
/-! ## The client connections are neither skipped nor rotated -/

theorem ServerReplicateActors_PrioritizeActors_clients {env : Engine} {C : Nat}
    {V : List FNetViewer} {CL : List Nat} {d d1 : USpatialNetDriver}
    {L : List FActorPriority}
    (h : ServerReplicateActors_PrioritizeActors env C V CL d = ok L d1) :
    d1.ClientConnections = d.ClientConnections := by
  unfold ServerReplicateActors_PrioritizeActors at h
  simp only [] at h
  split at h
  · obtain ⟨out, d2, hcol, hsort⟩ := Result.bind_eq_ok.1 h
    injection hsort with _ hs2
    unfold ServerReplicateActors_PrioritizeActors.collect at hcol
    obtain ⟨nl, d3, hcons, hdel⟩ := Result.bind_eq_ok.1 hcol
    obtain ⟨hsame, _⟩ :=
      ServerReplicateActors_PrioritizeActors.consider_entries env C V _ CL [] _ nl d3 hcons
    obtain ⟨hd, _⟩ :=
      ServerReplicateActors_PrioritizeActors.addDeleted_entries env C _ _ nl d3 out d2 hdel
    rw [← hs2, hd, hsame.2.1]
    rfl
  · injection h with _ h2
    rw [← h2]
    rfl

theorem ServerReplicateActors_ProcessPrioritizedActors.deletionEntry_clients (env : Engine)
    (C : Nat) (D : FActorDestructionInfo) (d : USpatialNetDriver) :
    (ServerReplicateActors_ProcessPrioritizedActors.deletionEntry env C D d).ClientConnections =
      d.ClientConnections := by
  unfold ServerReplicateActors_ProcessPrioritizedActors.deletionEntry
  split
  · rfl
  · simp only []
    split <;> rfl

theorem ServerReplicateActors_ProcessPrioritizedActors.createChannel_clients (env : Engine)
    (C p a : Nat) (d : USpatialNetDriver) :
    (ServerReplicateActors_ProcessPrioritizedActors.createChannel env C p a
      d).2.ClientConnections = d.ClientConnections := by
  unfold ServerReplicateActors_ProcessPrioritizedActors.createChannel
  split
  · rfl
  · simp only []
    split
    · rfl
    · split <;> rfl

theorem ServerReplicateActors_ProcessPrioritizedActors.findChannel_clients (env : Engine)
    (C p a : Nat) (ch : Option Nat) (d : USpatialNetDriver) :
    (ServerReplicateActors_ProcessPrioritizedActors.findChannel env C p a ch
      d).2.ClientConnections = d.ClientConnections := by
  unfold ServerReplicateActors_ProcessPrioritizedActors.findChannel
  split
  · exact ServerReplicateActors_ProcessPrioritizedActors.createChannel_clients env C p a d
  · rfl

theorem ServerReplicateActors_ProcessPrioritizedActors.markRelevant_clients (env : Engine)
    (b : Bool) (ch : Nat) (d : USpatialNetDriver) :
    (ServerReplicateActors_ProcessPrioritizedActors.markRelevant env b ch
      d).ClientConnections = d.ClientConnections := by
  unfold ServerReplicateActors_ProcessPrioritizedActors.markRelevant
  split <;> rfl

theorem ServerReplicateActors_ProcessPrioritizedActors.replicate_clients (env : Engine)
    (C j p a ch U : Nat) (d : USpatialNetDriver) :
    (ServerReplicateActors_ProcessPrioritizedActors.replicate env C j p a ch U
      d).2.ClientConnections = d.ClientConnections := by
  unfold ServerReplicateActors_ProcessPrioritizedActors.replicate
  split
  · simp only []
    split <;> rfl
  · rfl

theorem ServerReplicateActors_ProcessPrioritizedActors.closeChannel_clients (env : Engine)
    (a : Nat) (b : Bool) (ch : Option Nat) (d : USpatialNetDriver) :
    (ServerReplicateActors_ProcessPrioritizedActors.closeChannel env a b ch
      d).ClientConnections = d.ClientConnections := by
  unfold ServerReplicateActors_ProcessPrioritizedActors.closeChannel
  split
  · split <;> rfl
  · rfl

theorem ServerReplicateActors_ProcessPrioritizedActors.withChannel_clients (env : Engine)
    (C j p a ch : Nat) (b1 b2 : Bool) (U : Nat) (d : USpatialNetDriver) :
    (ServerReplicateActors_ProcessPrioritizedActors.withChannel env C j p a ch b1 b2 U
      d).state.ClientConnections = d.ClientConnections := by
  unfold ServerReplicateActors_ProcessPrioritizedActors.withChannel
  simp only []
  split
  · rw [Result.state_ok, ServerReplicateActors_ProcessPrioritizedActors.replicate_clients,
      ServerReplicateActors_ProcessPrioritizedActors.markRelevant_clients]
  · rw [Result.state_ok, ServerReplicateActors_ProcessPrioritizedActors.closeChannel_clients,
      ServerReplicateActors_ProcessPrioritizedActors.replicate_clients,
      ServerReplicateActors_ProcessPrioritizedActors.markRelevant_clients]

theorem ServerReplicateActors_ProcessPrioritizedActors.actorEntry_clients (env : Engine)
    (C : Nat) (V : List FNetViewer) (j p : Nat) (ch : Option Nat) (U : Nat)
    (d : USpatialNetDriver) :
    (ServerReplicateActors_ProcessPrioritizedActors.actorEntry env C V j p ch U
      d).state.ClientConnections = d.ClientConnections := by
  unfold ServerReplicateActors_ProcessPrioritizedActors.actorEntry
  split
  · simp only []
    split
    · split
      · rename_i Ch dF hF
        have hf := ServerReplicateActors_ProcessPrioritizedActors.findChannel_clients env C p
          (d.NetworkObjectInfos p).Actor ch d
        rw [hF] at hf
        rw [ServerReplicateActors_ProcessPrioritizedActors.withChannel_clients]
        exact hf
      · rename_i dF hF
        have hf := ServerReplicateActors_ProcessPrioritizedActors.findChannel_clients env C p
          (d.NetworkObjectInfos p).Actor ch d
        rw [hF] at hf
        rw [Result.state_ok, ServerReplicateActors_ProcessPrioritizedActors.closeChannel_clients]
        exact hf
    · rw [Result.state_ok, ServerReplicateActors_ProcessPrioritizedActors.closeChannel_clients]
  · rfl

theorem ServerReplicateActors_ProcessPrioritizedActors.entry_clients (env : Engine) (C : Nat)
    (V : List FNetViewer) (j : Nat) (E : FActorPriority) (U : Nat) (d : USpatialNetDriver) :
    (ServerReplicateActors_ProcessPrioritizedActors.entry env C V j E U
      d).state.ClientConnections = d.ClientConnections := by
  unfold ServerReplicateActors_ProcessPrioritizedActors.entry
  split
  · rw [Result.state_ok, ServerReplicateActors_ProcessPrioritizedActors.deletionEntry_clients]
  · rfl
  · exact ServerReplicateActors_ProcessPrioritizedActors.actorEntry_clients env C V j _ _ U d

theorem ServerReplicateActors_ProcessPrioritizedActors.loop_clients (env : Engine) (C : Nat)
    (V : List FNetViewer) :
    ∀ (L : List FActorPriority) (j U : Nat) (d : USpatialNetDriver),
      (ServerReplicateActors_ProcessPrioritizedActors.loop env C V j L U
        d).state.ClientConnections = d.ClientConnections := by
  intro L
  induction L with
  | nil => intro j U d; rfl
  | cons E rest ih =>
    intro j U d
    have hE := ServerReplicateActors_ProcessPrioritizedActors.entry_clients env C V j E U d
    unfold ServerReplicateActors_ProcessPrioritizedActors.loop
    cases hentry : ServerReplicateActors_ProcessPrioritizedActors.entry env C V j E U d with
    | fatal f s =>
      rw [hentry] at hE
      exact hE
    | ok Done dE =>
      rw [hentry] at hE
      rw [Result.bind_ok]
      split
      · exact hE
      · rw [ih]
        exact hE

theorem ServerReplicateActors_ProcessPrioritizedActors_clients (env : Engine) (C : Nat)
    (V : List FNetViewer) (L : List FActorPriority) (U : Nat) (d : USpatialNetDriver) :
    (ServerReplicateActors_ProcessPrioritizedActors env C V L U d).state.ClientConnections =
      d.ClientConnections := by
  unfold ServerReplicateActors_ProcessPrioritizedActors
  split
  · rfl
  · exact ServerReplicateActors_ProcessPrioritizedActors.loop_clients env C V L 0 U d

theorem ServerReplicateActors.flagUnprocessed_clients (env : Engine) (V : List FNetViewer) :
    ∀ (L : List FActorPriority) (d : USpatialNetDriver),
      (ServerReplicateActors.flagUnprocessed env V L d).ClientConnections =
        d.ClientConnections := by
  intro L
  induction L with
  | nil => intro d; rfl
  | cons E rest ih =>
    intro d
    unfold ServerReplicateActors.flagUnprocessed
    split
    · exact ih d
    · simp only []
      split
      · rw [ih]
      · split
        · rw [ih]
        · exact ih d

theorem ServerReplicateActors.tickConnection_clients {env : Engine} {C : Nat}
    {CL : List Nat} {U U1 : Nat} {d d1 : USpatialNetDriver}
    (h : ServerReplicateActors.tickConnection env C CL U d = ok U1 d1) :
    d1.ClientConnections = d.ClientConnections := by
  unfold ServerReplicateActors.tickConnection at h
  obtain ⟨L, d2, hP, h⟩ := Result.bind_eq_ok.1 h
  obtain ⟨Processed, d3, hQ, h⟩ := Result.bind_eq_ok.1 h
  injection h with _ hd
  have h2 := ServerReplicateActors_PrioritizeActors_clients hP
  have h3 := ServerReplicateActors_ProcessPrioritizedActors_clients env C d2.ReplicationViewers L
    U d2
  rw [hQ, Result.state_ok] at h3
  have h0 : (ServerReplicateActors.setViewers C d).ClientConnections = d.ClientConnections := by
    unfold ServerReplicateActors.setViewers
    split <;> rfl
  rw [← hd]
  show (ServerReplicateActors.flagUnprocessed env d3.ReplicationViewers
    (L.drop Processed.1) d3).ClientConnections = d.ClientConnections
  rw [ServerReplicateActors.flagUnprocessed_clients, h3, h2, h0]

theorem ServerReplicateActors.tickedConnections_clients (env : Engine) (CL : List Nat) :
    ∀ (Conns : List Nat) (U : Nat) (d : USpatialNetDriver) (U1 : Nat) (d1 : USpatialNetDriver),
      ServerReplicateActors.tickedConnections env CL Conns U d = ok U1 d1 →
      d1.ClientConnections = d.ClientConnections := by
  intro Conns
  induction Conns with
  | nil =>
    intro U d U1 d1 h
    unfold ServerReplicateActors.tickedConnections at h
    injection h with _ h2
    rw [← h2]
  | cons C rest ih =>
    intro U d U1 d1 h
    unfold ServerReplicateActors.tickedConnections at h
    split at h
    · obtain ⟨U2, d2, ht, h⟩ := Result.bind_eq_ok.1 h
      rw [ih _ _ _ _ h, ServerReplicateActors.tickConnection_clients ht]
    · exact ih _ _ _ _ h

/-- While the index stays below `NumClientsToTick`, the loop of `ServerReplicateActors`
never takes the branch `i >= NumClientsToTick`. -/
theorem ServerReplicateActors.connections_eq_ticked (env : Engine) (N : Nat) (CL : List Nat) :
    ∀ (Conns : List Nat) (i U : Nat) (d : USpatialNetDriver), i + Conns.length ≤ N →
      ServerReplicateActors.connections env N CL i Conns U d =
        ServerReplicateActors.tickedConnections env CL Conns U d := by
  intro Conns
  induction Conns with
  | nil => intro i U d _; rfl
  | cons C rest ih =>
    intro i U d hi
    simp only [List.length_cons] at hi
    rw [ServerReplicateActors.connections_cons, if_neg (by omega)]
    unfold ServerReplicateActors.tickedConnections
    split
    · cases ht : ServerReplicateActors.tickConnection env C CL U d with
      | ok U2 d2 =>
        simp only [Result.bind_ok]
        exact ih _ _ _ (by omega)
      | fatal f s => rfl
    · exact ih _ _ _ (by omega)

/-- In `ServerReplicateActors` neither the branch `i >= NumClientsToTick` nor the rotation
of `ClientConnections` is ever taken: the function is the one without them. -/
theorem ServerReplicateActors_eq_withoutSkipAndRotation (env : Engine) (DeltaSeconds : ℚ)
    (d : USpatialNetDriver) :
    ServerReplicateActors env DeltaSeconds d =
      ServerReplicateActors.withoutSkipAndRotation env DeltaSeconds d := by
  unfold ServerReplicateActors ServerReplicateActors.withoutSkipAndRotation
  split
  · rfl
  · cases hprep : ServerReplicateActors_PrepConnections
        { d with ReplicationFrame := d.ReplicationFrame + 1 } with
    | fatal f s => rfl
    | ok N dP =>
      simp only [Result.bind_ok]
      split
      · rfl
      · rename_i hN
        obtain ⟨_, _, hcc⟩ := ServerReplicateActors_PrepConnections_frame hprep
        have hNlen : N = dP.ClientConnections.length := by
          rcases ServerReplicateActors_PrepConnections_value hprep with h0 | h0
          · exact absurd h0 hN
          · rw [hcc]
            exact h0
        rw [ServerReplicateActors.connections_eq_ticked env N _ dP.ClientConnections 0 0 _
          (by omega)]
        cases ht : ServerReplicateActors.tickedConnections env
            (env.BuildConsiderList dP.NetworkObjectInfos DeltaSeconds).1 dP.ClientConnections 0
            { dP with
              NetworkObjectInfos :=
                (env.BuildConsiderList dP.NetworkObjectInfos DeltaSeconds).2 } with
        | fatal f s => rfl
        | ok U2 d2 =>
          have h2 := ServerReplicateActors.tickedConnections_clients env _ _ _ _ _ _ ht
          simp only [Result.bind_ok]
          rw [if_neg]
          rw [h2]
          show ¬ N < dP.ClientConnections.length
          omega
/-- Only the part for a normal entry can end the loop body in `return j`. -/
theorem ServerReplicateActors_ProcessPrioritizedActors.entry_return {env : Engine} {C : Nat}
    {V : List FNetViewer} {j : Nat} {E : FActorPriority} {U U1 : Nat}
    {d d1 : USpatialNetDriver}
    (h : ServerReplicateActors_ProcessPrioritizedActors.entry env C V j E U d =
      ok (true, U1) d1) :
    ∃ p, E.ActorInfo = some p := by
  unfold ServerReplicateActors_ProcessPrioritizedActors.entry at h
  split at h
  · injection h with h1 _
    injection h1 with h1 _
    cases h1
  · cases h
  · rename_i p hp
    exact ⟨p, hp⟩

/-- When the loop of `ServerReplicateActors_ProcessPrioritizedActors` returns an index
below `FinalSortedCount`, that index is the one of the entry whose pass ended in
`return j`, and the state and `OutUpdated` at the end of the loop are those at the end
of that pass. -/
theorem ServerReplicateActors_ProcessPrioritizedActors.loop_return (env : Engine) (C : Nat)
    (V : List FNetViewer) :
    ∀ (L : List FActorPriority) (j U : Nat) (d d1 : USpatialNetDriver) (r U1 : Nat),
      ServerReplicateActors_ProcessPrioritizedActors.loop env C V j L U d = ok (r, U1) d1 →
      r < j + L.length →
      j ≤ r ∧ ∃ E Uj dj, L[r - j]? = some E ∧
        ServerReplicateActors_ProcessPrioritizedActors.entry env C V r E Uj dj =
          ok (true, U1) d1 := by
  intro L
  induction L with
  | nil =>
    intro j U d d1 r U1 h hr
    unfold ServerReplicateActors_ProcessPrioritizedActors.loop at h
    injection h with h1 _
    injection h1 with h1 _
    simp only [List.length_nil] at hr
    omega
  | cons E rest ih =>
    intro j U d d1 r U1 h hr
    unfold ServerReplicateActors_ProcessPrioritizedActors.loop at h
    obtain ⟨Done, dE, hentry, hrest⟩ := Result.bind_eq_ok.1 h
    by_cases hdone : Done.1 = true
    · rw [if_pos hdone] at hrest
      injection hrest with h1 h2
      injection h1 with h1 h3
      subst h1; subst h2; subst h3
      refine ⟨Nat.le_refl _, E, U, d, by simp, ?_⟩
      rw [hentry]
      obtain ⟨b, u⟩ := Done
      simp only at hdone
      rw [hdone]
    · rw [if_neg hdone] at hrest
      simp only [List.length_cons] at hr
      obtain ⟨k1, E2, Uj, dj, k2, k3⟩ := ih (j + 1) Done.2 dE d1 r U1 hrest (by omega)
      refine ⟨by omega, E2, Uj, dj, ?_, k3⟩
      have hidx : r - j = (r - (j + 1)) + 1 := by omega
      rw [hidx, List.getElem?_cons_succ]
      exact k2

/-- When `ServerReplicateActors_ProcessPrioritizedActors`, entered with the connection
ready, returns an index `j` below `FinalSortedCount`: the entry at index `j` is a normal
entry, the call ended in the `return j` of the pass for that entry, and the connection is
not ready at the end. -/
theorem ServerReplicateActors_ProcessPrioritizedActors_return {env : Engine} {C : Nat}
    {V : List FNetViewer} {L : List FActorPriority} {U : Nat} {d d1 : USpatialNetDriver}
    {Processed : Nat × Nat}
    (h : ServerReplicateActors_ProcessPrioritizedActors env C V L U d = ok Processed d1)
    (hReady : env.IsNetReady d.Net C = true) (hr : Processed.1 < L.length) :
    ∃ E p Uj dj, L[Processed.1]? = some E ∧ E.ActorInfo = some p ∧
      ServerReplicateActors_ProcessPrioritizedActors.entry env C V Processed.1 E Uj dj =
        ok (true, Processed.2) d1 ∧
      env.IsNetReady d1.Net C = false := by
  obtain ⟨r, U1⟩ := Processed
  unfold ServerReplicateActors_ProcessPrioritizedActors at h
  rw [hReady] at h
  simp only [Bool.not_true, Bool.false_eq_true, if_false] at h
  obtain ⟨_, E, Uj, dj, k2, k3⟩ :=
    ServerReplicateActors_ProcessPrioritizedActors.loop_return env C V L 0 U d d1 r U1 h
      (by simp only at hr; omega)
  obtain ⟨p, hp⟩ := ServerReplicateActors_ProcessPrioritizedActors.entry_return k3
  have hpost := ServerReplicateActors_ProcessPrioritizedActors.entry_post env C V r E Uj dj
  rw [k3] at hpost
  exact ⟨E, p, Uj, dj, by simpa using k2, hp, k3, hpost.2.1 rfl⟩

/-- The block for an entry with a channel ends in `return j` exactly when the connection
is not ready after the actor has been replicated. -/
theorem ServerReplicateActors_ProcessPrioritizedActors.withChannel_return (env : Engine)
    (C j p a ch : Nat) (b1 b2 : Bool) (U : Nat) (d : USpatialNetDriver) :
    ∃ Done d1,
      ServerReplicateActors_ProcessPrioritizedActors.withChannel env C j p a ch b1 b2 U d =
        ok Done d1 ∧
      (Done.1 = true ↔
        env.IsNetReady
          (ServerReplicateActors_ProcessPrioritizedActors.replicate env C j p a ch U
            (ServerReplicateActors_ProcessPrioritizedActors.markRelevant env b1 ch d)).2.Net
          C = false) := by
  unfold ServerReplicateActors_ProcessPrioritizedActors.withChannel
  simp only []
  split
  · rename_i h
    exact ⟨_, _, rfl, by simpa using h⟩
  · rename_i h
    exact ⟨_, _, rfl, by simpa using h⟩

/-- The statement of `ServerReplicateActors.connections_flagged` for a whole call of
`ServerReplicateActors`. -/
theorem ServerReplicateActors_flagged {env : Engine} {DeltaSeconds : ℚ}
    {d dEnd : USpatialNetDriver} {Updated : Nat} {Before : List Nat} {C : Nat}
    {After : List Nat}
    (h : ServerReplicateActors env DeltaSeconds d = ok Updated dEnd)
    (hConnections : d.ClientConnections = Before ++ C :: After) :
    ∃ NumClientsToTick dP,
      ServerReplicateActors_PrepConnections
        { d with ReplicationFrame := d.ReplicationFrame + 1 } = ok NumClientsToTick dP ∧
      (NumClientsToTick = 0 ∨
        ∃ Updated0 d0,
          ServerReplicateActors.connections env NumClientsToTick
            (env.BuildConsiderList dP.NetworkObjectInfos DeltaSeconds).1 0 Before 0
            { dP with
              NetworkObjectInfos :=
                (env.BuildConsiderList dP.NetworkObjectInfos DeltaSeconds).2 } =
            ok Updated0 d0 ∧
          (((d0.Net.Connections C).bReliableSpatialConnection ||
              (d0.Net.Connections C).ViewTarget.isSome) = true →
            ∃ PriorityActors d2 Processed d3,
              ServerReplicateActors_PrioritizeActors env C
                (ServerReplicateActors.setViewers C d0).ReplicationViewers
                (env.BuildConsiderList dP.NetworkObjectInfos DeltaSeconds).1
                (ServerReplicateActors.setViewers C d0) = ok PriorityActors d2 ∧
              ServerReplicateActors_ProcessPrioritizedActors env C d2.ReplicationViewers
                PriorityActors Updated0 d2 = ok Processed d3 ∧
              ∀ (k : Nat) (Entry : FActorPriority) (ActorInfo : Nat), Processed.1 ≤ k →
                PriorityActors[k]? = some Entry → Entry.ActorInfo = some ActorInfo →
                (dEnd.NetworkObjectInfos ActorInfo).bPendingNetUpdate = true)) := by
  unfold ServerReplicateActors at h
  have hlen : d.ClientConnections.length = Before.length + (After.length + 1) := by
    rw [hConnections, List.length_append, List.length_cons]
  rw [if_neg (by omega)] at h
  obtain ⟨N, dP, hprep, h⟩ := Result.bind_eq_ok.1 h
  refine ⟨N, dP, hprep, ?_⟩
  by_cases hN : N = 0
  · exact Or.inl hN
  · right
    rw [if_neg hN] at h
    simp only [] at h
    obtain ⟨U2, d2, hconn, h⟩ := Result.bind_eq_ok.1 h
    obtain ⟨_, _, hcc⟩ := ServerReplicateActors_PrepConnections_frame hprep
    have hNlen : N = d.ClientConnections.length := by
      rcases ServerReplicateActors_PrepConnections_value hprep with h0 | h0
      · exact absurd h0 hN
      · exact h0
    have hcc2 : dP.ClientConnections = Before ++ C :: After := by
      rw [hcc]
      exact hConnections
    have hconn2 : ServerReplicateActors.connections env N
        (env.BuildConsiderList dP.NetworkObjectInfos DeltaSeconds).1 0 (Before ++ C :: After) 0
        { dP with
          NetworkObjectInfos := (env.BuildConsiderList dP.NetworkObjectInfos DeltaSeconds).2 } =
        ok U2 d2 := by
      rw [← hcc2]
      exact hconn
    obtain ⟨U0, d0, hB, hrest⟩ := ServerReplicateActors.connections_flagged env N _ Before C
      After 0 0 U2 _ d2 (by omega) hconn2
    refine ⟨U0, d0, hB, fun hTick => ?_⟩
    obtain ⟨L, dQ, Processed, d3, hP, hQ, hflag⟩ := hrest hTick
    refine ⟨L, dQ, Processed, d3, hP, hQ, ?_⟩
    intro k Entry p hk hE hp
    have := hflag k Entry p hk hE hp
    injection h with _ h2
    rw [← h2]
    split
    · exact this
    · exact this

/-- C26: let `ServerReplicateActors` return, and let `C` be a client connection that is
ticked, with the array `PriorityActors` built for it. When the connection becomes
saturated right after the entry at index `j` has been processed, that is, the call of
`ServerReplicateActors_ProcessPrioritizedActors` for `C` is entered with the connection
ready, the entries before `j` are gone through without an early return and the pass for
the entry at index `j` finds the connection saturated at its second readiness check, then
the call returns `j`, not `j + 1`, with the state at the end of that pass, and when
`ServerReplicateActors` returns, the info of every entry at an index from `j` on is
flagged `bPendingNetUpdate`, the one at index `j` included, whether or not it was just
sent. Conversely an index below `FinalSortedCount` is returned only in this way. -/
theorem C26_saturation_returns_the_index_just_processed (env : Engine) (DeltaSeconds : ℚ)
    (d dEnd : USpatialNetDriver) (Updated : Nat) (Before : List Nat) (C : Nat)
    (After : List Nat)
    (h : ServerReplicateActors env DeltaSeconds d = ok Updated dEnd)
    (hConnections : d.ClientConnections = Before ++ C :: After) :
    ∃ NumClientsToTick dP,
      ServerReplicateActors_PrepConnections
        { d with ReplicationFrame := d.ReplicationFrame + 1 } = ok NumClientsToTick dP ∧
      (NumClientsToTick = 0 ∨
        ∃ Updated0 d0,
          ServerReplicateActors.connections env NumClientsToTick
            (env.BuildConsiderList dP.NetworkObjectInfos DeltaSeconds).1 0 Before 0
            { dP with
              NetworkObjectInfos :=
                (env.BuildConsiderList dP.NetworkObjectInfos DeltaSeconds).2 } =
            ok Updated0 d0 ∧
          (((d0.Net.Connections C).bReliableSpatialConnection ||
              (d0.Net.Connections C).ViewTarget.isSome) = true →
            ∃ PriorityActors d2 Processed d3,
              ServerReplicateActors_PrioritizeActors env C
                (ServerReplicateActors.setViewers C d0).ReplicationViewers
                (env.BuildConsiderList dP.NetworkObjectInfos DeltaSeconds).1
                (ServerReplicateActors.setViewers C d0) = ok PriorityActors d2 ∧
              ServerReplicateActors_ProcessPrioritizedActors env C d2.ReplicationViewers
                PriorityActors Updated0 d2 = ok Processed d3 ∧
              (∀ (Front : List FActorPriority) (Entry : FActorPriority)
                  (Rest : List FActorPriority) (k : Nat) (dB : USpatialNetDriver),
                PriorityActors = Front ++ Entry :: Rest →
                env.IsNetReady d2.Net C = true →
                ServerReplicateActors_ProcessPrioritizedActors env C d2.ReplicationViewers
                  Front Updated0 d2 = ok (Front.length, k) dB →
                SaturatesAt env C d2.ReplicationViewers Front.length Entry k dB →
                Processed.1 = Front.length ∧
                  ServerReplicateActors_ProcessPrioritizedActors.entry env C
                    d2.ReplicationViewers Front.length Entry k dB =
                    ok (true, Processed.2) d3 ∧
                  (∃ ActorInfo, Entry.ActorInfo = some ActorInfo ∧
                    (dEnd.NetworkObjectInfos ActorInfo).bPendingNetUpdate = true) ∧
                  ∀ (i : Nat) (Later : FActorPriority) (ActorInfo : Nat),
                    Front.length ≤ i → PriorityActors[i]? = some Later →
                    Later.ActorInfo = some ActorInfo →
                    (dEnd.NetworkObjectInfos ActorInfo).bPendingNetUpdate = true) ∧
              (env.IsNetReady d2.Net C = true → Processed.1 < PriorityActors.length →
                ∃ Entry ActorInfo Uj dj,
                  PriorityActors[Processed.1]? = some Entry ∧
                  Entry.ActorInfo = some ActorInfo ∧
                  ServerReplicateActors_ProcessPrioritizedActors.entry env C
                    d2.ReplicationViewers Processed.1 Entry Uj dj =
                    ok (true, Processed.2) d3 ∧
                  env.IsNetReady d3.Net C = false ∧
                  (dEnd.NetworkObjectInfos ActorInfo).bPendingNetUpdate = true) ∧
              ∀ (k : Nat) (Entry : FActorPriority) (ActorInfo : Nat), Processed.1 ≤ k →
                PriorityActors[k]? = some Entry → Entry.ActorInfo = some ActorInfo →
                (dEnd.NetworkObjectInfos ActorInfo).bPendingNetUpdate = true)) := by
  obtain ⟨N, dP, hprep, hrest⟩ := ServerReplicateActors_flagged h hConnections
  refine ⟨N, dP, hprep, ?_⟩
  rcases hrest with h0 | ⟨U0, d0, hB, hrest⟩
  · exact Or.inl h0
  · refine Or.inr ⟨U0, d0, hB, fun hTick => ?_⟩
    obtain ⟨L, d2, Processed, d3, hP, hQ, hflag⟩ := hrest hTick
    refine ⟨L, d2, Processed, d3, hP, hQ, ?_, ?_, hflag⟩
    · intro Front Entry Rest k dB hL hReady hFront hS
      obtain ⟨U1, dS, hE, hStop, _⟩ :=
        ServerReplicateActors_ProcessPrioritizedActors_stops Rest hReady hFront hS
      rw [← hL, hQ] at hStop
      injection hStop with e1 e2
      subst e1; subst e2
      obtain ⟨p, hp⟩ := ServerReplicateActors_ProcessPrioritizedActors.entry_return hE
      have hidx : L[Front.length]? = some Entry := by
        rw [hL, List.getElem?_append_right (Nat.le_refl _), Nat.sub_self,
          List.getElem?_cons_zero]
      exact ⟨rfl, hE, ⟨p, hp, hflag _ Entry p (Nat.le_refl _) hidx hp⟩,
        fun i Later q hi hLater hq => hflag i Later q hi hLater hq⟩
    · intro hReady hr
      obtain ⟨E, p, Uj, dj, k1, k2, k3, k4⟩ :=
        ServerReplicateActors_ProcessPrioritizedActors_return hQ hReady hr
      exact ⟨E, p, Uj, dj, k1, k2, k3, k4, hflag _ E p (Nat.le_refl _) k1 k2⟩

/-- C26 on the sample: the connection takes two sends, so the second send, of the info
`2` at index `1`, saturates it. `ServerReplicateActors_ProcessPrioritizedActors` returns
the index `1`, not `2`, and after the tick the info `2`, which was just sent with
success, is flagged like the info `1` behind it, while the info `0` is not. -/
theorem C26_saturation_returns_the_index_just_processed_witness :
    (ServerReplicateActors_ProcessPrioritizedActors sampleEngine 1 [] samplePriorityActors 0
        samplePrioritized).value? = some (1, 2) ∧
      SaturatesAt sampleEngine 1 [] 1
        { Priority := 8, ActorInfo := some 2, Channel := none, DestructionInfo := none } 1
        sampleAfterFirstEntry ∧
      sampleAfterTick.ReplicateActorCalls =
        [{ Connection := 1, Index := 0, ActorInfo := 0, Channel := 100, bSent := true },
         { Connection := 1, Index := 1, ActorInfo := 2, Channel := 101, bSent := true }] ∧
      [0, 2, 1].map (fun p => (sampleAfterTick.NetworkObjectInfos p).bPendingNetUpdate) =
        [false, true, true] ∧
      ∃ NumClientsToTick dP,
        ServerReplicateActors_PrepConnections
          { sampleDriver with ReplicationFrame := sampleDriver.ReplicationFrame + 1 } =
            ok NumClientsToTick dP ∧
        (NumClientsToTick = 0 ∨
          ∃ Updated0 d0,
            ServerReplicateActors.connections sampleEngine NumClientsToTick
              (sampleEngine.BuildConsiderList dP.NetworkObjectInfos 1).1 0 [] 0
              { dP with
                NetworkObjectInfos :=
                  (sampleEngine.BuildConsiderList dP.NetworkObjectInfos 1).2 } =
              ok Updated0 d0 ∧
            (((d0.Net.Connections 1).bReliableSpatialConnection ||
                (d0.Net.Connections 1).ViewTarget.isSome) = true →
              ∃ PriorityActors d2 Processed d3,
                ServerReplicateActors_PrioritizeActors sampleEngine 1
                  (ServerReplicateActors.setViewers 1 d0).ReplicationViewers
                  (sampleEngine.BuildConsiderList dP.NetworkObjectInfos 1).1
                  (ServerReplicateActors.setViewers 1 d0) = ok PriorityActors d2 ∧
                ServerReplicateActors_ProcessPrioritizedActors sampleEngine 1
                  d2.ReplicationViewers PriorityActors Updated0 d2 = ok Processed d3 ∧
                (∀ (Front : List FActorPriority) (Entry : FActorPriority)
                    (Rest : List FActorPriority) (k : Nat) (dB : USpatialNetDriver),
                  PriorityActors = Front ++ Entry :: Rest →
                  sampleEngine.IsNetReady d2.Net 1 = true →
                  ServerReplicateActors_ProcessPrioritizedActors sampleEngine 1
                    d2.ReplicationViewers Front Updated0 d2 = ok (Front.length, k) dB →
                  SaturatesAt sampleEngine 1 d2.ReplicationViewers Front.length Entry k dB →
                  Processed.1 = Front.length ∧
                    ServerReplicateActors_ProcessPrioritizedActors.entry sampleEngine 1
                      d2.ReplicationViewers Front.length Entry k dB =
                      ok (true, Processed.2) d3 ∧
                    (∃ ActorInfo, Entry.ActorInfo = some ActorInfo ∧
                      (sampleAfterTick.NetworkObjectInfos ActorInfo).bPendingNetUpdate =
                        true) ∧
                    ∀ (i : Nat) (Later : FActorPriority) (ActorInfo : Nat),
                      Front.length ≤ i → PriorityActors[i]? = some Later →
                      Later.ActorInfo = some ActorInfo →
                      (sampleAfterTick.NetworkObjectInfos ActorInfo).bPendingNetUpdate =
                        true) ∧
                (sampleEngine.IsNetReady d2.Net 1 = true →
                  Processed.1 < PriorityActors.length →
                  ∃ Entry ActorInfo Uj dj,
                    PriorityActors[Processed.1]? = some Entry ∧
                    Entry.ActorInfo = some ActorInfo ∧
                    ServerReplicateActors_ProcessPrioritizedActors.entry sampleEngine 1
                      d2.ReplicationViewers Processed.1 Entry Uj dj =
                      ok (true, Processed.2) d3 ∧
                    sampleEngine.IsNetReady d3.Net 1 = false ∧
                    (sampleAfterTick.NetworkObjectInfos ActorInfo).bPendingNetUpdate = true) ∧
                ∀ (k : Nat) (Entry : FActorPriority) (ActorInfo : Nat), Processed.1 ≤ k →
                  PriorityActors[k]? = some Entry → Entry.ActorInfo = some ActorInfo →
                  (sampleAfterTick.NetworkObjectInfos ActorInfo).bPendingNetUpdate = true)) :=
  have hv : (ServerReplicateActors sampleEngine 1 sampleDriver).value? = some 2 := by decide!
  ⟨by decide, ⟨2, 101, rfl, Or.inl rfl, by decide, by decide, by decide⟩, by decide!,
    by decide!,
    C26_saturation_returns_the_index_just_processed sampleEngine 1 sampleDriver
      sampleAfterTick 2 [] 1 [] (Result.eq_ok_of_value hv) rfl⟩

/-! ## `ServerReplicateActors_PrioritizeActors` stays inside its buffers -/

theorem EntryActors_append (infos : Nat → FNetworkObjectInfo) (L1 L2 : List FActorPriority) :
    EntryActors infos (L1 ++ L2) = EntryActors infos L1 ++ EntryActors infos L2 := by
  unfold EntryActors
  rw [List.filterMap_append]

theorem ServerReplicateActors_PrioritizeActors.startDormancy_frame (env : Engine) (C : Nat)
    (hEngine : KeepsDestroyedGUIDs env C) (Actor : Nat) (V : List FNetViewer)
    (Channel : Option Nat) (d : USpatialNetDriver) :
    (ServerReplicateActors_PrioritizeActors.startDormancy env Actor V Channel d).Actors =
        d.Actors ∧
      ((ServerReplicateActors_PrioritizeActors.startDormancy env Actor V Channel
        d).Net.Connections C).DestroyedStartupOrDormantActorGUIDs =
        (d.Net.Connections C).DestroyedStartupOrDormantActorGUIDs := by
  unfold ServerReplicateActors_PrioritizeActors.startDormancy
  split
  · split
    · exact ⟨rfl, hEngine _ _⟩
    · exact ⟨rfl, rfl⟩
  · exact ⟨rfl, rfl⟩

theorem ServerReplicateActors_PrioritizeActors.replicatesOn_returns (C Actor : Nat)
    (d : USpatialNetDriver) (h : d.ClientConnections ≠ []) :
    ∃ b, ServerReplicateActors_PrioritizeActors.replicatesOn C Actor d = ok b d := by
  unfold ServerReplicateActors_PrioritizeActors.replicatesOn
  simp only []
  split
  · split
    · cases hcc : d.ClientConnections with
      | nil => exact absurd hcc h
      | cons First more => exact ⟨_, rfl⟩
    · exact ⟨_, rfl⟩
  · exact ⟨_, rfl⟩

/-- The loop over the consider list returns without writing past the `MaxSortedActors`
allocated entries when there is room for one entry per considered info. It writes at
most that many entries, no two of them for the same actor, and leaves the destroyed
actors of the driver and of the connection as they are. -/
theorem ServerReplicateActors_PrioritizeActors.consider_returns (env : Engine) (C : Nat)
    (V : List FNetViewer) (M : Nat) (hEngine : KeepsDestroyedGUIDs env C)
    (infos : Nat → FNetworkObjectInfo) (T : Nat) :
    ∀ (CL : List Nat) (out : List FActorPriority) (d : USpatialNetDriver),
      d.NetworkObjectInfos = infos → d.NetTag = T → d.ClientConnections ≠ [] →
      out.length + CL.length ≤ M → (EntryActors infos out).Nodup →
      (∀ a ∈ EntryActors infos out, (d.Actors a).NetTag = T) →
      ∃ L d1, ServerReplicateActors_PrioritizeActors.consider env C V M CL out d = ok L d1 ∧
        L.length ≤ out.length + CL.length ∧ (EntryActors infos L).Nodup ∧
        (d1.Net.Connections C).DestroyedStartupOrDormantActorGUIDs =
          (d.Net.Connections C).DestroyedStartupOrDormantActorGUIDs ∧
        d1.DestroyedStartupOrDormantActors = d.DestroyedStartupOrDormantActors := by
  intro CL
  induction CL with
  | nil =>
    intro out d _ _ _ _ hnd _
    exact ⟨out, d, rfl, Nat.le_add_right _ _, hnd, rfl, rfl⟩
  | cons p rest ih =>
    intro out d hinfos htag hcc hlen hnd hinv
    simp only [List.length_cons] at hlen
    have skip : ∀ d2 : USpatialNetDriver, d2.NetworkObjectInfos = infos → d2.NetTag = T →
        d2.ClientConnections ≠ [] → d2.Actors = d.Actors →
        (d2.Net.Connections C).DestroyedStartupOrDormantActorGUIDs =
          (d.Net.Connections C).DestroyedStartupOrDormantActorGUIDs →
        d2.DestroyedStartupOrDormantActors = d.DestroyedStartupOrDormantActors →
        ∃ L d1, ServerReplicateActors_PrioritizeActors.consider env C V M rest out d2 =
            ok L d1 ∧
          L.length ≤ out.length + (rest.length + 1) ∧ (EntryActors infos L).Nodup ∧
          (d1.Net.Connections C).DestroyedStartupOrDormantActorGUIDs =
            (d.Net.Connections C).DestroyedStartupOrDormantActorGUIDs ∧
          d1.DestroyedStartupOrDormantActors = d.DestroyedStartupOrDormantActors := by
      intro d2 h1 h2 h3 h4 h5 h6
      obtain ⟨L, d1, k1, k2, k3, k4, k5⟩ := ih out d2 h1 h2 h3 (by omega) hnd
        (fun a ha => by rw [h4]; exact hinv a ha)
      exact ⟨L, d1, k1, by omega, k3, k4.trans h5, k5.trans h6⟩
    unfold ServerReplicateActors_PrioritizeActors.consider
    simp only []
    by_cases hdorm : IsActorDormant (d.NetworkObjectInfos p) C = true
    · rw [if_pos hdorm]
      exact skip d hinfos htag hcc rfl rfl rfl
    · rw [if_neg hdorm]
      have hsA := ServerReplicateActors_PrioritizeActors.startDormancy_sameActors env
        (d.NetworkObjectInfos p).Actor V
        (TMap.Find (d.Net.Connections C).ActorChannelMap (d.NetworkObjectInfos p).Actor) d
      obtain ⟨hfA, hfG⟩ := ServerReplicateActors_PrioritizeActors.startDormancy_frame env C
        hEngine (d.NetworkObjectInfos p).Actor V
        (TMap.Find (d.Net.Connections C).ActorChannelMap (d.NetworkObjectInfos p).Actor) d
      generalize ServerReplicateActors_PrioritizeActors.startDormancy env
        (d.NetworkObjectInfos p).Actor V
        (TMap.Find (d.Net.Connections C).ActorChannelMap (d.NetworkObjectInfos p).Actor) d = dS
        at hsA hfA hfG
      have hccS : dS.ClientConnections ≠ [] := by rw [hsA.2.1]; exact hcc
      obtain ⟨b, hb⟩ := ServerReplicateActors_PrioritizeActors.replicatesOn_returns C
        (d.NetworkObjectInfos p).Actor dS hccS
      rw [hb, Result.bind_ok]
      have hS := skip dS (hsA.1.trans hinfos) (hsA.2.2.1.trans htag) hccS hfA hfG hsA.2.2.2.1
      cases b with
      | false =>
        simp only [Bool.not_false, if_true]
        exact hS
      | true =>
        simp only [Bool.not_true, Bool.false_eq_true, if_false, IsActorRelevantToConnection]
        by_cases hnt : (dS.Actors (d.NetworkObjectInfos p).Actor).NetTag ≠ dS.NetTag
        · rw [if_pos hnt, if_pos (by omega)]
          have hnotin : (infos p).Actor ∉ EntryActors infos out := by
            intro hin
            have := hinv _ hin
            rw [← hinfos, ← hfA, ← htag, ← hsA.2.2.1] at this
            exact hnt this
          obtain ⟨L, d1, k1, k2, k3, k4, k5⟩ := ih
            (out ++
              [{ Priority := env.ActorPriority C
                  (TMap.Find (d.Net.Connections C).ActorChannelMap
                    (d.NetworkObjectInfos p).Actor) p
                 ActorInfo := some p
                 Channel := TMap.Find (d.Net.Connections C).ActorChannelMap
                  (d.NetworkObjectInfos p).Actor
                 DestructionInfo := none }])
            { dS with
              Actors := Function.update dS.Actors (d.NetworkObjectInfos p).Actor
                { dS.Actors (d.NetworkObjectInfos p).Actor with NetTag := dS.NetTag } }
            (hsA.1.trans hinfos) (hsA.2.2.1.trans htag) hccS
            (by simp only [List.length_append, List.length_singleton]; omega)
            (by
              rw [EntryActors_append]
              simp only [EntryActors, List.filterMap_cons, List.filterMap_nil, Option.map_some']
              rw [List.nodup_append]
              refine ⟨hnd, List.nodup_singleton _, ?_⟩
              intro a ha hb2
              rw [List.mem_singleton] at hb2
              subst hb2
              exact hnotin ha)
            (by
              intro a ha
              rw [EntryActors_append] at ha
              simp only [EntryActors, List.filterMap_cons, List.filterMap_nil, Option.map_some',
                List.mem_append, List.mem_singleton] at ha
              show ((Function.update dS.Actors (d.NetworkObjectInfos p).Actor _) a).NetTag = T
              by_cases hap : a = (d.NetworkObjectInfos p).Actor
              · subst hap
                rw [Function.update_same]
                exact hsA.2.2.1.trans htag
              · rw [Function.update_noteq hap, hfA]
                rcases ha with ha | ha
                · exact hinv a ha
                · rw [hinfos] at hap
                  exact absurd ha hap)
          refine ⟨L, d1, k1, ?_, k3, k4.trans hfG, k5.trans hsA.2.2.2.1⟩
          simp only [List.length_append, List.length_singleton] at k2
          simp only [List.length_cons]
          omega
        · rw [if_neg hnt]
          exact hS

/-- The loop over the destroyed actors of the connection returns when every GUID is a key
of `DestroyedStartupOrDormantActors` and there is room for one entry per GUID; it adds
one deletion entry per GUID. -/
theorem ServerReplicateActors_PrioritizeActors.addDeleted_returns (env : Engine) (C M : Nat)
    (infos : Nat → FNetworkObjectInfo) :
    ∀ (GUIDs : List FNetworkGUID) (out : List FActorPriority) (d : USpatialNetDriver),
      (∀ GUID ∈ GUIDs, TMap.Contains d.DestroyedStartupOrDormantActors GUID = true) →
      out.length + GUIDs.length ≤ M →
      ∃ L, ServerReplicateActors_PrioritizeActors.addDeleted env C M GUIDs out d = ok L d ∧
        L.length = out.length + GUIDs.length ∧ EntryActors infos L = EntryActors infos out := by
  intro GUIDs
  induction GUIDs with
  | nil =>
    intro out d _ _
    exact ⟨out, rfl, rfl, rfl⟩
  | cons g rest ih =>
    intro out d hkeys hlen
    simp only [List.length_cons] at hlen
    have hg := hkeys g (List.mem_cons_self _ _)
    unfold TMap.Contains at hg
    obtain ⟨DInfo, hD⟩ := Option.isSome_iff_exists.1 hg
    unfold ServerReplicateActors_PrioritizeActors.addDeleted
    rw [hD]
    simp only []
    rw [if_pos (by omega)]
    obtain ⟨L, k1, k2, k3⟩ := ih
      (out ++
        [{ Priority := env.DestructionPriority C DInfo
           ActorInfo := none
           Channel := none
           DestructionInfo := some DInfo }]) d
      (fun x hx => hkeys x (List.mem_cons_of_mem _ hx))
      (by simp only [List.length_append, List.length_singleton]; omega)
    refine ⟨L, k1, ?_, ?_⟩
    · have h1 := k2
      simp only [List.length_append, List.length_singleton] at h1
      simp only [List.length_cons]
      omega
    · rw [k3, EntryActors_append]
      simp [EntryActors]

/-- A set of GUIDs that are all keys of a map has at most as many elements as the map
has pairs. -/
theorem TMap.length_keys_le {V : Type} (m : TMap FNetworkGUID V) (GUIDs : List FNetworkGUID)
    (hSet : GUIDs.Nodup) (hKeys : ∀ GUID ∈ GUIDs, TMap.Contains m GUID = true) :
    GUIDs.length ≤ m.length := by
  have hsub : GUIDs ⊆ m.map Prod.fst := by
    intro g hg
    have := hKeys g hg
    unfold TMap.Contains at this
    obtain ⟨v, hv⟩ := Option.isSome_iff_exists.1 this
    exact List.mem_map.2 ⟨(g, v), TMap.mem_of_Find m hv, rfl⟩
  have := (List.subperm_of_subset hSet hsub).length_le
  rw [List.length_map] at this
  exact this
theorem ServerReplicateActors_PrioritizeActors.begin_GUIDs (C : Nat) (d : USpatialNetDriver) :
    ((ServerReplicateActors_PrioritizeActors.begin C d).Net.Connections
      C).DestroyedStartupOrDormantActorGUIDs =
      (d.Net.Connections C).DestroyedStartupOrDormantActorGUIDs := by
  simp [ServerReplicateActors_PrioritizeActors.begin]

/-- C27: let the connection's set of destroyed-actor GUIDs hold only keys of
`DestroyedStartupOrDormantActors`, each once, let `ClientConnections` not be empty and let
the engine's `StartBecomingDormant` leave that set alone. Then
`ServerReplicateActors_PrioritizeActors` returns, which it does not do after a write at
an index that is not below `MaxSortedActors`; the returned `FinalSortedCount` is at most
`MaxSortedActors = ConsiderList.Num() + DestroyedStartupOrDormantActors.Num()`, and no
two normal entries of the array are for the same actor. -/
theorem C27_PrioritizeActors_stays_inside_its_buffers (env : Engine) (InConnection : Nat)
    (ConnectionViewers : List FNetViewer) (ConsiderList : List Nat) (d : USpatialNetDriver)
    (hClients : d.ClientConnections ≠ [])
    (hSet : (d.Net.Connections InConnection).DestroyedStartupOrDormantActorGUIDs.Nodup)
    (hKeys : ∀ GUID ∈ (d.Net.Connections InConnection).DestroyedStartupOrDormantActorGUIDs,
      TMap.Contains d.DestroyedStartupOrDormantActors GUID = true)
    (hEngine : KeepsDestroyedGUIDs env InConnection) :
    ∃ PriorityActors d1,
      ServerReplicateActors_PrioritizeActors env InConnection ConnectionViewers ConsiderList d =
        ok PriorityActors d1 ∧
      PriorityActors.length ≤ ConsiderList.length + d.DestroyedStartupOrDormantActors.length ∧
      (EntryActors d.NetworkObjectInfos PriorityActors).Nodup := by
  have hpigeon := TMap.length_keys_le d.DestroyedStartupOrDormantActors _ hSet hKeys
  unfold ServerReplicateActors_PrioritizeActors
  simp only []
  have hD : (ServerReplicateActors_PrioritizeActors.begin InConnection
      d).DestroyedStartupOrDormantActors = d.DestroyedStartupOrDormantActors := rfl
  rw [hD]
  split
  · obtain ⟨L1, dC, h1, hlen1, hnd1, hG, hDC⟩ :=
      ServerReplicateActors_PrioritizeActors.consider_returns env InConnection
        ConnectionViewers
        (ConsiderList.length + d.DestroyedStartupOrDormantActors.length) hEngine
        d.NetworkObjectInfos (d.NetTag + 1) ConsiderList []
        (ServerReplicateActors_PrioritizeActors.begin InConnection d) rfl rfl hClients
        (by simp only [List.length_nil]; omega) (by simp [EntryActors])
        (by intro a ha; simp [EntryActors] at ha)
    rw [ServerReplicateActors_PrioritizeActors.begin_GUIDs] at hG
    rw [hD] at hDC
    simp only [List.length_nil, Nat.zero_add] at hlen1
    obtain ⟨L2, k1, k2, k3⟩ :=
      ServerReplicateActors_PrioritizeActors.addDeleted_returns env InConnection
        (ConsiderList.length + d.DestroyedStartupOrDormantActors.length) d.NetworkObjectInfos
        (dC.Net.Connections InConnection).DestroyedStartupOrDormantActorGUIDs L1 dC
        (by rw [hG, hDC]; exact hKeys) (by rw [hG]; omega)
    unfold ServerReplicateActors_PrioritizeActors.collect
    rw [h1, Result.bind_ok, k1, Result.bind_ok]
    refine ⟨_, _, rfl, ?_, ?_⟩
    · rw [(Sort_FCompareFActorPriority_perm L2).length_eq, k2, hG]
      omega
    · unfold EntryActors
      rw [((Sort_FCompareFActorPriority_perm L2).filterMap _).nodup_iff]
      have := k3
      unfold EntryActors at this
      rw [this]
      exact hnd1
  · exact ⟨_, _, rfl, Nat.zero_le _, by simp [EntryActors]⟩

/-- C27 on `sampleDriverWithDeletion`: three considered infos that are not dormant and one
destroyed actor give four entries, with room for `4 + 1`; the actors of the normal
entries are `10`, `12` and `11`. -/
theorem C27_PrioritizeActors_stays_inside_its_buffers_witness :
    ((ServerReplicateActors_PrioritizeActors sampleEngine 1 [] [0, 1, 2, 3]
        sampleDriverWithDeletion).value?.map fun PriorityActors =>
          (PriorityActors.length,
            EntryActors sampleDriverWithDeletion.NetworkObjectInfos PriorityActors)) =
        some (4, [10, 12, 11]) ∧
      ∃ PriorityActors d1,
        ServerReplicateActors_PrioritizeActors sampleEngine 1 [] [0, 1, 2, 3]
          sampleDriverWithDeletion = ok PriorityActors d1 ∧
        PriorityActors.length ≤
          [0, 1, 2, 3].length +
            sampleDriverWithDeletion.DestroyedStartupOrDormantActors.length ∧
        (EntryActors sampleDriverWithDeletion.NetworkObjectInfos PriorityActors).Nodup :=
  ⟨by decide,
    C27_PrioritizeActors_stays_inside_its_buffers sampleEngine 1 [] [0, 1, 2, 3]
      sampleDriverWithDeletion (by decide) (by decide) (by decide)
      (fun _ _ => rfl)⟩

/-! ## The RPC tables built by `CreateTypebindings` -/

theorem CreateTypebindings.addRPC_RPCs (Info : FClassInfo) (F : UFunction)
    (T T2 : ESchemaComponentType) :
    TMap.Find (CreateTypebindings.addRPC Info F T).RPCs T2 =
      if T2 = T then some ((TMap.Find Info.RPCs T).getD [] ++ [F]) else TMap.Find Info.RPCs T2 := by
  unfold CreateTypebindings.addRPC
  exact TMap.Find_Emplace _ _ _ _

theorem CreateTypebindings.addRPC_RPCInfoMap (Info : FClassInfo) (F F2 : UFunction)
    (T : ESchemaComponentType) :
    TMap.Find (CreateTypebindings.addRPC Info F T).RPCInfoMap F2 =
      if F2 = F then some { Type_ := T, Index := ((TMap.Find Info.RPCs T).getD []).length }
      else TMap.Find Info.RPCInfoMap F2 := by
  unfold CreateTypebindings.addRPC
  exact TMap.Find_Emplace _ _ _ _

theorem CreateTypebindings.addRPC_rest (Info : FClassInfo) (F : UFunction)
    (T : ESchemaComponentType) :
    (CreateTypebindings.addRPC Info F T).Class = Info.Class ∧
    (CreateTypebindings.addRPC Info F T).HandoverProperties = Info.HandoverProperties ∧
    (CreateTypebindings.addRPC Info F T).SchemaComponents = Info.SchemaComponents ∧
    (CreateTypebindings.addRPC Info F T).SubobjectName = Info.SubobjectName ∧
    (CreateTypebindings.addRPC Info F T).SubobjectInfo = Info.SubobjectInfo :=
  ⟨rfl, rfl, rfl, rfl, rfl⟩

/-- The functions of one RPC group, in the order of enumeration. -/
theorem CreateTypebindings.rpcs_RPCs (env : TypebindingEnv) (Fs : List UFunction) :
    ∀ (Info0 Info : FClassInfo), CreateTypebindings.rpcs env Fs Info0 = some Info →
      ∀ T : ESchemaComponentType,
        TMap.Find Info.RPCs T =
          if Fs.filter (fun G => CreateTypebindings.RPCType env G = some T) = [] then
            TMap.Find Info0.RPCs T
          else
            some ((TMap.Find Info0.RPCs T).getD [] ++
              Fs.filter (fun G => CreateTypebindings.RPCType env G = some T)) := by
  induction Fs with
  | nil =>
    intro Info0 Info h T
    simp only [CreateTypebindings.rpcs, Option.some.injEq] at h
    subst h
    simp
  | cons F rest ih =>
    intro Info0 Info h T
    unfold CreateTypebindings.rpcs at h
    cases hT : CreateTypebindings.RPCType env F with
    | none => rw [hT] at h; simp at h
    | some T0 =>
      rw [hT] at h
      simp only at h
      rw [ih _ _ h T, CreateTypebindings.addRPC_RPCs]
      by_cases hEq : T = T0
      · subst hEq
        simp only [List.filter_cons, hT, decide_True, if_true, Option.getD_some]
        by_cases hNil : rest.filter (fun G => CreateTypebindings.RPCType env G = some T) = []
        · simp [hNil]
        · simp [hNil]
      · have hne : ¬ (some T0 = some T) := fun hc => hEq (Option.some.inj hc).symm
        simp only [List.filter_cons, hT, hne, decide_False, if_false, hEq, Bool.false_eq_true]

/-- A function that is not enumerated keeps its record. -/
theorem CreateTypebindings.rpcs_RPCInfoMap_other (env : TypebindingEnv) (Fs : List UFunction) :
    ∀ (Info0 Info : FClassInfo), CreateTypebindings.rpcs env Fs Info0 = some Info →
      ∀ F, F ∉ Fs → TMap.Find Info.RPCInfoMap F = TMap.Find Info0.RPCInfoMap F := by
  induction Fs with
  | nil =>
    intro Info0 Info h F _
    simp only [CreateTypebindings.rpcs, Option.some.injEq] at h
    subst h
    rfl
  | cons F0 rest ih =>
    intro Info0 Info h F hF
    unfold CreateTypebindings.rpcs at h
    cases hT : CreateTypebindings.RPCType env F0 with
    | none => rw [hT] at h; simp at h
    | some T0 =>
      rw [hT] at h
      simp only at h
      have h1 : F ≠ F0 := fun hc => hF (hc ▸ List.mem_cons_self _ _)
      have h2 : F ∉ rest := fun hc => hF (List.mem_cons_of_mem _ hc)
      rw [ih _ _ h F h2, CreateTypebindings.addRPC_RPCInfoMap, if_neg h1]

/-- The record of an enumerated function: its group, and its position among the
functions of that group. -/
theorem CreateTypebindings.rpcs_RPCInfoMap (env : TypebindingEnv) (Fs : List UFunction) :
    ∀ (Info0 Info : FClassInfo), CreateTypebindings.rpcs env Fs Info0 = some Info →
      Fs.Nodup → ∀ F ∈ Fs, ∃ T, CreateTypebindings.RPCType env F = some T ∧
        TMap.Find Info.RPCInfoMap F =
          some { Type_ := T
                 Index := ((TMap.Find Info0.RPCs T).getD []).length +
                   List.indexOf F
                     (Fs.filter (fun G => CreateTypebindings.RPCType env G = some T)) } := by
  induction Fs with
  | nil => intro _ _ _ _ F hF; simp at hF
  | cons F0 rest ih =>
    intro Info0 Info h hNodup F hF
    have hrest := (List.nodup_cons.mp hNodup)
    have h0 := h
    unfold CreateTypebindings.rpcs at h
    cases hT : CreateTypebindings.RPCType env F0 with
    | none => rw [hT] at h; simp at h
    | some T0 =>
      rw [hT] at h
      simp only at h
      by_cases hEq : F = F0
      · subst hEq
        refine ⟨T0, hT, ?_⟩
        rw [CreateTypebindings.rpcs_RPCInfoMap_other env rest _ _ h F hrest.1,
          CreateTypebindings.addRPC_RPCInfoMap, if_pos rfl]
        simp [List.filter_cons, hT]
      · have hmem : F ∈ rest := by
          rcases List.mem_cons.mp hF with hc | hc
          · exact absurd hc hEq
          · exact hc
        obtain ⟨T, hFT, hFind⟩ := ih _ _ h hrest.2 F hmem
        refine ⟨T, hFT, ?_⟩
        rw [hFind, CreateTypebindings.addRPC_RPCs]
        by_cases hTT : T = T0
        · subst hTT
          have hne : (F0 == F) = false := by
            simp only [beq_eq_false_iff_ne, ne_eq]
            exact fun hc => hEq hc.symm
          simp only [if_true, Option.getD_some, List.length_append, List.length_singleton,
            List.filter_cons, hT, decide_True, List.indexOf_cons, hne, cond_false]
          congr 1
          congr 1
          omega
        · have hne : ¬ (some T0 = some T) := fun hc => hTT (Option.some.inj hc).symm
          simp only [hTT, if_false, List.filter_cons, hT, hne, decide_False,
            Bool.false_eq_true]
/-! ## The first loop of `CreateTypebindings` -/

theorem CreateTypebindings.rpcs_returns (env : TypebindingEnv) (Fs : List UFunction) :
    ∀ Info0 : FClassInfo, (∀ F ∈ Fs, CreateTypebindings.RPCType env F ≠ none) →
      ∃ Info, CreateTypebindings.rpcs env Fs Info0 = some Info := by
  induction Fs with
  | nil => intro Info0 _; exact ⟨Info0, rfl⟩
  | cons F rest ih =>
    intro Info0 h
    unfold CreateTypebindings.rpcs
    cases hT : CreateTypebindings.RPCType env F with
    | none => exact absurd hT (h F (List.mem_cons_self _ _))
    | some T => exact ih _ fun G hG => h G (List.mem_cons_of_mem _ hG)

theorem CreateTypebindings.handoverProperty_tables (Property : UProperty) (Idx : List Nat) :
    ∀ Info : FClassInfo,
      (CreateTypebindings.handoverProperty Property Idx Info).RPCs = Info.RPCs ∧
      (CreateTypebindings.handoverProperty Property Idx Info).RPCInfoMap = Info.RPCInfoMap := by
  induction Idx with
  | nil => intro Info; exact ⟨rfl, rfl⟩
  | cons i rest ih =>
    intro Info
    unfold CreateTypebindings.handoverProperty
    exact ih _

theorem CreateTypebindings.handover_tables (env : TypebindingEnv) (Ps : List UProperty) :
    ∀ Info : FClassInfo,
      (CreateTypebindings.handover env Ps Info).RPCs = Info.RPCs ∧
      (CreateTypebindings.handover env Ps Info).RPCInfoMap = Info.RPCInfoMap := by
  induction Ps with
  | nil => intro Info; exact ⟨rfl, rfl⟩
  | cons P rest ih =>
    intro Info
    unfold CreateTypebindings.handover
    split
    · have h1 := ih (CreateTypebindings.handoverProperty P (List.range P.ArrayDim) Info)
      have h2 := CreateTypebindings.handoverProperty_tables P (List.range P.ArrayDim) Info
      exact ⟨h1.1.trans h2.1, h1.2.trans h2.2⟩
    · exact ih _

theorem CreateTypebindings.registerComponent_offset (m : USpatialTypebindingManager)
    (ComponentId Id : Worker_ComponentId) (Class : UClass) (Offset : Nat)
    (T : ESchemaComponentType) :
    TMap.Find (CreateTypebindings.registerComponent m ComponentId Class Offset T).ComponentToOffsetMap
        Id =
      if Id = ComponentId then some Offset else TMap.Find m.ComponentToOffsetMap Id := by
  unfold CreateTypebindings.registerComponent
  exact TMap.Find_Emplace _ _ _ _

/-- The first callback: it returns when the class has schema data, leaves the class
infos and the RPC tables alone, and registers offset `0` for each id it meets. -/
theorem CreateTypebindings.classComponents_spec (env : TypebindingEnv) (Class : UClass)
    (Types : List ESchemaComponentType) :
    ∀ (Info : FClassInfo) (m : USpatialTypebindingManager),
      (TMap.Contains env.SchemaDatabase.ClassPathToSchema Class.PathName = true →
        ∃ Info1 m1, CreateTypebindings.classComponents env Class Types Info m =
          Result.ok Info1 m1) ∧
      ∀ Info1 m1, CreateTypebindings.classComponents env Class Types Info m = Result.ok Info1 m1 →
        Info1.RPCs = Info.RPCs ∧ Info1.RPCInfoMap = Info.RPCInfoMap ∧
        m1.SupportedClasses = m.SupportedClasses ∧ m1.ClassInfoMap = m.ClassInfoMap ∧
        ∀ Id : Worker_ComponentId,
          (TMap.Find m.ComponentToOffsetMap Id = some 0 ∨
            (Id ≠ 0 ∧ ∃ SchemaData,
              TMap.Find env.SchemaDatabase.ClassPathToSchema Class.PathName = some SchemaData ∧
              ∃ T ∈ Types, SchemaData.SchemaComponents T = Id)) →
          TMap.Find m1.ComponentToOffsetMap Id = some 0 := by
  induction Types with
  | nil =>
    intro Info m
    refine ⟨fun _ => ⟨Info, m, rfl⟩, ?_⟩
    intro Info1 m1 h
    simp only [CreateTypebindings.classComponents, Result.ok.injEq] at h
    obtain ⟨h1, h2⟩ := h
    subst h1; subst h2
    refine ⟨rfl, rfl, rfl, rfl, ?_⟩
    intro Id hId
    rcases hId with hId | ⟨_, _, _, T, hT, _⟩
    · exact hId
    · simp at hT
  | cons T rest ih =>
    intro Info m
    unfold CreateTypebindings.classComponents
    cases hData : TMap.Find env.SchemaDatabase.ClassPathToSchema Class.PathName with
    | none =>
      refine ⟨fun hc => ?_, fun _ _ h => ?_⟩
      · simp [TMap.Contains, hData] at hc
      · simp at h
    | some SchemaData =>
      simp only
      by_cases hId0 : SchemaData.SchemaComponents T = 0
      · simp only [hId0, ne_eq, not_true_eq_false, if_false]
        refine ⟨(ih Info m).1, ?_⟩
        intro Info1 m1 h
        obtain ⟨h1, h2, h3, h4, h5⟩ := (ih Info m).2 Info1 m1 h
        refine ⟨h1, h2, h3, h4, ?_⟩
        intro Id hId
        apply h5
        rcases hId with hId | ⟨hne, D, hD, T2, hT2, hEq⟩
        · exact Or.inl hId
        · have hD2 : SchemaData = D := Option.some.inj hD
          subst hD2
          rcases List.mem_cons.mp hT2 with hc | hc
          · subst hc; exact absurd (hEq.symm.trans hId0) hne
          · exact Or.inr ⟨hne, SchemaData, hData, T2, hc, hEq⟩
      · simp only [ne_eq, hId0, not_false_eq_true, if_true]
        refine ⟨(ih _ _).1, ?_⟩
        intro Info1 m1 h
        obtain ⟨h1, h2, h3, h4, h5⟩ := (ih _ _).2 Info1 m1 h
        refine ⟨h1, h2, h3, h4, ?_⟩
        intro Id hId
        apply h5
        rw [CreateTypebindings.registerComponent_offset]
        by_cases hEq : Id = SchemaData.SchemaComponents T
        · left; rw [if_pos hEq]
        · rw [if_neg hEq]
          rcases hId with hId | ⟨hne, D, hD, T2, hT2, hEq2⟩
          · exact Or.inl hId
          · have hD2 : SchemaData = D := Option.some.inj hD
            subst hD2
            rcases List.mem_cons.mp hT2 with hc | hc
            · subst hc; exact absurd hEq2.symm hEq
            · exact Or.inr ⟨hne, SchemaData, hData, T2, hc, hEq2⟩
theorem CreateTypebindings.classInfo_returns (env : TypebindingEnv) (Class : UClass)
    (m : USpatialTypebindingManager)
    (hSchema : TMap.Contains env.SchemaDatabase.ClassPathToSchema Class.PathName = true)
    (hFlags : ∀ F ∈ env.GetClassRPCFunctions Class, CreateTypebindings.RPCType env F ≠ none) :
    ∃ m1, CreateTypebindings.classInfo env Class m = Result.ok () m1 := by
  obtain ⟨Built, hBuilt⟩ :=
    CreateTypebindings.rpcs_returns env (env.GetClassRPCFunctions Class) FClassInfo.default hFlags
  unfold CreateTypebindings.classInfo
  rw [hBuilt]
  obtain ⟨Info1, m1, h1⟩ := (CreateTypebindings.classComponents_spec env Class
    env.ForAllSchemaComponentTypes (CreateTypebindings.handover env Class.Properties Built) m).1
    hSchema
  simp only [h1, Result.bind]
  exact ⟨_, rfl⟩

/-- The body of the first loop: the class gets an info with its RPC tables, the other
classes keep theirs, and the ids of the class are registered with offset `0`. -/
theorem CreateTypebindings.classInfo_spec (env : TypebindingEnv) (Class : UClass)
    (m m1 : USpatialTypebindingManager)
    (h : CreateTypebindings.classInfo env Class m = Result.ok () m1) :
    m1.SupportedClasses = m.SupportedClasses ∧
    (∃ Info, HasRPCTablesOf env Class Info ∧
      ∀ C, FindClassInfoByClass m1 C =
        if C = Class then some Info else FindClassInfoByClass m C) ∧
    ∀ Id : Worker_ComponentId,
      (TMap.Find m.ComponentToOffsetMap Id = some 0 ∨ IsActorComponentId env Class Id) →
      TMap.Find m1.ComponentToOffsetMap Id = some 0 := by
  unfold CreateTypebindings.classInfo at h
  cases hBuilt : CreateTypebindings.rpcs env (env.GetClassRPCFunctions Class)
      FClassInfo.default with
  | none => rw [hBuilt] at h; simp at h
  | some Built =>
    rw [hBuilt] at h
    simp only at h
    obtain ⟨Info1, m2, h2, h3⟩ := Result.bind_eq_ok.mp h
    simp only [Result.ok.injEq, true_and] at h3
    subst h3
    obtain ⟨k1, k2, k3, k4, k5⟩ := (CreateTypebindings.classComponents_spec env Class
      env.ForAllSchemaComponentTypes (CreateTypebindings.handover env Class.Properties Built)
      m).2 Info1 m2 h2
    have k6 := CreateTypebindings.handover_tables env Class.Properties Built
    refine ⟨k3, ⟨{ Info1 with Class := some Class }, ⟨rfl, Built, hBuilt, ?_, ?_⟩, ?_⟩, ?_⟩
    · exact k1.trans k6.1
    · exact k2.trans k6.2
    · intro C
      show TMap.Find (TMap.Emplace m2.ClassInfoMap Class _) C = _
      rw [TMap.Find_Emplace, k4]
      rfl
    · intro Id hId
      apply k5
      rcases hId with hId | ⟨hne, D, hD, T, hT, hEq⟩
      · exact Or.inl hId
      · exact Or.inr ⟨hne, D, hD, T, hT, hEq⟩

theorem CreateTypebindings.classInfos_returns (env : TypebindingEnv) (Classes : List UClass) :
    ∀ m : USpatialTypebindingManager, CanBindClasses env Classes →
      ∃ m1, CreateTypebindings.classInfos env Classes m = Result.ok () m1 := by
  induction Classes with
  | nil => intro m _; exact ⟨m, rfl⟩
  | cons Class rest ih =>
    intro m hCan
    obtain ⟨m1, h1⟩ := CreateTypebindings.classInfo_returns env Class m
      (hCan Class (List.mem_cons_self _ _)).1 (hCan Class (List.mem_cons_self _ _)).2
    obtain ⟨m2, h2⟩ := ih m1 fun C hC => hCan C (List.mem_cons_of_mem _ hC)
    refine ⟨m2, ?_⟩
    unfold CreateTypebindings.classInfos
    rw [h1]
    exact h2

/-- The first loop: every class of the list ends with an info carrying its RPC tables,
the other classes keep theirs, and every id of a class of the list has offset `0`. -/
theorem CreateTypebindings.classInfos_spec (env : TypebindingEnv) (Classes : List UClass) :
    ∀ (m m1 : USpatialTypebindingManager),
      CreateTypebindings.classInfos env Classes m = Result.ok () m1 →
      m1.SupportedClasses = m.SupportedClasses ∧
      (∀ C, C ∉ Classes → FindClassInfoByClass m1 C = FindClassInfoByClass m C) ∧
      (∀ C, (C ∈ Classes ∨ ∃ Info, FindClassInfoByClass m C = some Info ∧
            HasRPCTablesOf env C Info) →
          ∃ Info, FindClassInfoByClass m1 C = some Info ∧ HasRPCTablesOf env C Info) ∧
      ∀ Id : Worker_ComponentId,
        (TMap.Find m.ComponentToOffsetMap Id = some 0 ∨
          ∃ C ∈ Classes, IsActorComponentId env C Id) →
        TMap.Find m1.ComponentToOffsetMap Id = some 0 := by
  induction Classes with
  | nil =>
    intro m m1 h
    simp only [CreateTypebindings.classInfos, Result.ok.injEq, true_and] at h
    subst h
    refine ⟨rfl, fun _ _ => rfl, ?_, ?_⟩
    · intro C hC
      rcases hC with hC | hC
      · simp at hC
      · exact hC
    · intro Id hId
      rcases hId with hId | ⟨C, hC, _⟩
      · exact hId
      · simp at hC
  | cons Class rest ih =>
    intro m m1 h
    unfold CreateTypebindings.classInfos at h
    obtain ⟨_, m2, h2, h3⟩ := Result.bind_eq_ok.mp h
    obtain ⟨a1, ⟨Info, a2, a3⟩, a4⟩ := CreateTypebindings.classInfo_spec env Class m m2 h2
    obtain ⟨b1, b2, b3, b4⟩ := ih m2 m1 h3
    refine ⟨b1.trans a1, ?_, ?_, ?_⟩
    · intro C hC
      have hC1 : C ≠ Class := fun hc => hC (hc ▸ List.mem_cons_self _ _)
      have hC2 : C ∉ rest := fun hc => hC (List.mem_cons_of_mem _ hc)
      rw [b2 C hC2, a3 C, if_neg hC1]
    · intro C hC
      apply b3
      by_cases hEq : C = Class
      · right
        refine ⟨Info, ?_, hEq ▸ a2⟩
        rw [a3 C, if_pos hEq]
      · rcases hC with hC | ⟨I, hI, hI2⟩
        · rcases List.mem_cons.mp hC with hc | hc
          · exact absurd hc hEq
          · exact Or.inl hc
        · right
          refine ⟨I, ?_, hI2⟩
          rw [a3 C, if_neg hEq]
          exact hI
    · intro Id hId
      apply b4
      rcases hId with hId | ⟨C, hC, hC2⟩
      · exact Or.inl (a4 Id (Or.inl hId))
      · rcases List.mem_cons.mp hC with hc | hc
        · subst hc
          exact Or.inl (a4 Id (Or.inr hC2))
        · exact Or.inr ⟨C, hc, hC2⟩
/-! ## The second loop of `CreateTypebindings` -/

theorem SameClassTables.same_tables (m : USpatialTypebindingManager) : SameClassTables m m :=
  fun _ => rfl

theorem SameClassTables.then_tables {m m1 m2 : USpatialTypebindingManager}
    (h1 : SameClassTables m m1) (h2 : SameClassTables m1 m2) : SameClassTables m m2 :=
  fun C => (h2 C).trans (h1 C)

theorem SameClassTables.isSome_eq {m m1 : USpatialTypebindingManager}
    (h : SameClassTables m m1) (C : UClass) :
    (FindClassInfoByClass m1 C).isSome = (FindClassInfoByClass m C).isSome := by
  have h1 := congrArg Option.isSome (h C)
  simpa using h1

theorem RegistersComponentId.registers_later {env : TypebindingEnv}
    {m m1 : USpatialTypebindingManager} (h : SameClassTables m m1)
    {p : Nat × FSubobjectSchemaData} {Id : Worker_ComponentId}
    (hp : RegistersComponentId env m p Id) : RegistersComponentId env m1 p Id := by
  obtain ⟨h1, ⟨SC, h2, h3⟩, h4⟩ := hp
  exact ⟨h1, ⟨SC, h2, (h.isSome_eq SC).trans h3⟩, h4⟩

theorem IsSubobjectComponentId.listed_later {env : TypebindingEnv}
    {m m1 : USpatialTypebindingManager} (h : SameClassTables m m1)
    {C : UClass} {Offset : Nat} {Id : Worker_ComponentId}
    (hp : IsSubobjectComponentId env m C Offset Id) :
    IsSubobjectComponentId env m1 C Offset Id := by
  obtain ⟨D, hD, p, hp1, hp2, hp3⟩ := hp
  exact ⟨D, hD, p, hp1, hp2, hp3.registers_later h⟩

/-- The second callback: it leaves the class infos and the RPC tables alone and registers
the offset of the sub-object for each id it meets. -/
theorem CreateTypebindings.subobjectComponents_spec (SubobjectSchemaData : FSubobjectSchemaData)
    (SubobjectClass : UClass) (Offset : Nat) (Types : List ESchemaComponentType) :
    ∀ (Info : FClassInfo) (m : USpatialTypebindingManager),
      (CreateTypebindings.subobjectComponents SubobjectSchemaData SubobjectClass Offset Types
        Info m).1.Class = Info.Class ∧
      (CreateTypebindings.subobjectComponents SubobjectSchemaData SubobjectClass Offset Types
        Info m).1.RPCs = Info.RPCs ∧
      (CreateTypebindings.subobjectComponents SubobjectSchemaData SubobjectClass Offset Types
        Info m).1.RPCInfoMap = Info.RPCInfoMap ∧
      (CreateTypebindings.subobjectComponents SubobjectSchemaData SubobjectClass Offset Types
        Info m).2.SupportedClasses = m.SupportedClasses ∧
      (CreateTypebindings.subobjectComponents SubobjectSchemaData SubobjectClass Offset Types
        Info m).2.ClassInfoMap = m.ClassInfoMap ∧
      ∀ (Id : Worker_ComponentId) (O : Nat),
        (∀ T ∈ Types, SubobjectSchemaData.SchemaComponents T = Id → Offset = O) →
        (TMap.Find m.ComponentToOffsetMap Id = some O ∨
          (Id ≠ 0 ∧ ∃ T ∈ Types, SubobjectSchemaData.SchemaComponents T = Id)) →
        TMap.Find (CreateTypebindings.subobjectComponents SubobjectSchemaData SubobjectClass
          Offset Types Info m).2.ComponentToOffsetMap Id = some O := by
  induction Types with
  | nil =>
    intro Info m
    refine ⟨rfl, rfl, rfl, rfl, rfl, ?_⟩
    intro Id O _ hId
    rcases hId with hId | ⟨_, T, hT, _⟩
    · exact hId
    · simp at hT
  | cons T rest ih =>
    intro Info m
    unfold CreateTypebindings.subobjectComponents
    by_cases hId0 : SubobjectSchemaData.SchemaComponents T = 0
    · simp only [hId0, ne_eq, not_true_eq_false, if_false]
      obtain ⟨h1, h2, h3, h4, h5, h6⟩ := ih Info m
      refine ⟨h1, h2, h3, h4, h5, ?_⟩
      intro Id O hAgree hId
      apply h6 Id O (fun T2 hT2 => hAgree T2 (List.mem_cons_of_mem _ hT2))
      rcases hId with hId | ⟨hne, T2, hT2, hEq⟩
      · exact Or.inl hId
      · rcases List.mem_cons.mp hT2 with hc | hc
        · subst hc; exact absurd (hEq.symm.trans hId0) hne
        · exact Or.inr ⟨hne, T2, hc, hEq⟩
    · simp only [ne_eq, hId0, not_false_eq_true, if_true]
      obtain ⟨h1, h2, h3, h4, h5, h6⟩ := ih
        { Info with
          SchemaComponents :=
            Function.update Info.SchemaComponents T (SubobjectSchemaData.SchemaComponents T) }
        (CreateTypebindings.registerComponent m (SubobjectSchemaData.SchemaComponents T)
          SubobjectClass Offset T)
      refine ⟨h1, h2, h3, h4, h5, ?_⟩
      intro Id O hAgree hId
      apply h6 Id O (fun T2 hT2 => hAgree T2 (List.mem_cons_of_mem _ hT2))
      rw [CreateTypebindings.registerComponent_offset]
      by_cases hEq : Id = SubobjectSchemaData.SchemaComponents T
      · left
        rw [if_pos hEq, hAgree T (List.mem_cons_self _ _) hEq.symm]
      · rw [if_neg hEq]
        rcases hId with hId | ⟨hne, T2, hT2, hEq2⟩
        · exact Or.inl hId
        · rcases List.mem_cons.mp hT2 with hc | hc
          · subst hc; exact absurd hEq2.symm hEq
          · exact Or.inr ⟨hne, T2, hc, hEq2⟩

theorem CreateTypebindings.subobject_returns (env : TypebindingEnv) (Class : UClass)
    (p : Nat × FSubobjectSchemaData) (m : USpatialTypebindingManager)
    (hInfo : (FindClassInfoByClass m Class).isSome = true) :
    ∃ m1, CreateTypebindings.subobject env Class p m = Result.ok () m1 := by
  unfold CreateTypebindings.subobject
  obtain ⟨A, hA⟩ := Option.isSome_iff_exists.mp hInfo
  simp only [hA]
  split
  · exact ⟨_, rfl⟩
  · split
    · exact ⟨_, rfl⟩
    · exact ⟨_, rfl⟩

/-- The body of the loop over `SubobjectData`. -/
theorem CreateTypebindings.subobject_spec (env : TypebindingEnv) (Class : UClass)
    (p : Nat × FSubobjectSchemaData) (m m1 : USpatialTypebindingManager)
    (h : CreateTypebindings.subobject env Class p m = Result.ok () m1) :
    m1.SupportedClasses = m.SupportedClasses ∧ SameClassTables m m1 ∧
    ∀ (Id : Worker_ComponentId) (O : Nat),
      (∀ T ∈ env.ForAllSchemaComponentTypes, p.2.SchemaComponents T = Id → p.1 = O) →
      (TMap.Find m.ComponentToOffsetMap Id = some O ∨ RegistersComponentId env m p Id) →
      TMap.Find m1.ComponentToOffsetMap Id = some O := by
  unfold CreateTypebindings.subobject at h
  dsimp only at h
  cases hLoad : env.TryLoadClass p.2.ClassPath with
  | none =>
    rw [hLoad] at h
    simp only [Result.ok.injEq, true_and] at h
    subst h
    refine ⟨rfl, SameClassTables.same_tables _, ?_⟩
    intro Id O _ hId
    rcases hId with hId | ⟨_, ⟨SC, hSC, _⟩, _⟩
    · exact hId
    · rw [hLoad] at hSC; simp at hSC
  | some SubobjectClass =>
    rw [hLoad] at h
    simp only at h
    cases hSub : FindClassInfoByClass m SubobjectClass with
    | none =>
      rw [hSub] at h
      simp only [Result.ok.injEq, true_and] at h
      subst h
      refine ⟨rfl, SameClassTables.same_tables _, ?_⟩
      intro Id O _ hId
      rcases hId with hId | ⟨_, ⟨SC, hSC, hSC2⟩, _⟩
      · exact hId
      · rw [hLoad] at hSC
        have hSC3 : SubobjectClass = SC := Option.some.inj hSC
        subst hSC3
        rw [hSub] at hSC2
        simp at hSC2
    | some SubobjectInfoPtr =>
      rw [hSub] at h
      simp only at h
      obtain ⟨k1, k2, k3, k4, k5, k6⟩ := CreateTypebindings.subobjectComponents_spec p.2
        SubobjectClass p.1 env.ForAllSchemaComponentTypes
        { SubobjectInfoPtr with SubobjectName := p.2.Name } m
      cases hActor : FindClassInfoByClass m Class with
      | none => rw [hActor] at h; simp at h
      | some ActorInfo =>
        rw [hActor] at h
        simp only [Result.ok.injEq, true_and] at h
        subst h
        refine ⟨k4, ?_, ?_⟩
        · intro C
          show (TMap.Find (TMap.Emplace _ Class _) C).map _ = _
          rw [TMap.Find_Emplace, k5]
          by_cases hC : C = Class
          · subst hC
            rw [if_pos rfl, hActor]
            rfl
          · rw [if_neg hC]
            rfl
        · intro Id O hAgree hId
          show TMap.Find (CreateTypebindings.subobjectComponents p.2 SubobjectClass p.1
            env.ForAllSchemaComponentTypes
            { SubobjectInfoPtr with SubobjectName := p.2.Name } m).2.ComponentToOffsetMap Id = _
          apply k6 Id O hAgree
          rcases hId with hId | ⟨hne, _, hT⟩
          · exact Or.inl hId
          · exact Or.inr ⟨hne, hT⟩
theorem CreateTypebindings.subobjects_returns (env : TypebindingEnv) (Class : UClass)
    (Pairs : List (Nat × FSubobjectSchemaData)) :
    ∀ m : USpatialTypebindingManager, (FindClassInfoByClass m Class).isSome = true →
      ∃ m1, CreateTypebindings.subobjects env Class Pairs m = Result.ok () m1 := by
  induction Pairs with
  | nil => intro m _; exact ⟨m, rfl⟩
  | cons p rest ih =>
    intro m hInfo
    obtain ⟨m1, h1⟩ := CreateTypebindings.subobject_returns env Class p m hInfo
    have hSame := (CreateTypebindings.subobject_spec env Class p m m1 h1).2.1
    obtain ⟨m2, h2⟩ := ih m1 ((hSame.isSome_eq Class).trans hInfo)
    refine ⟨m2, ?_⟩
    unfold CreateTypebindings.subobjects
    rw [h1]
    exact h2

/-- The loop over the `SubobjectData` of one class. -/
theorem CreateTypebindings.subobjects_spec (env : TypebindingEnv) (Class : UClass)
    (Pairs : List (Nat × FSubobjectSchemaData)) :
    ∀ (m m1 : USpatialTypebindingManager),
      CreateTypebindings.subobjects env Class Pairs m = Result.ok () m1 →
      m1.SupportedClasses = m.SupportedClasses ∧ SameClassTables m m1 ∧
      ∀ (Id : Worker_ComponentId) (O : Nat),
        (∀ p ∈ Pairs, ∀ T ∈ env.ForAllSchemaComponentTypes,
          p.2.SchemaComponents T = Id → p.1 = O) →
        (TMap.Find m.ComponentToOffsetMap Id = some O ∨
          ∃ p ∈ Pairs, RegistersComponentId env m p Id) →
        TMap.Find m1.ComponentToOffsetMap Id = some O := by
  induction Pairs with
  | nil =>
    intro m m1 h
    simp only [CreateTypebindings.subobjects, Result.ok.injEq, true_and] at h
    subst h
    refine ⟨rfl, SameClassTables.same_tables _, ?_⟩
    intro Id O _ hId
    rcases hId with hId | ⟨p, hp, _⟩
    · exact hId
    · simp at hp
  | cons p rest ih =>
    intro m m1 h
    unfold CreateTypebindings.subobjects at h
    obtain ⟨_, m2, h2, h3⟩ := Result.bind_eq_ok.mp h
    obtain ⟨a1, a2, a3⟩ := CreateTypebindings.subobject_spec env Class p m m2 h2
    obtain ⟨b1, b2, b3⟩ := ih m2 m1 h3
    refine ⟨b1.trans a1, a2.then_tables b2, ?_⟩
    intro Id O hAgree hId
    apply b3 Id O (fun q hq => hAgree q (List.mem_cons_of_mem _ hq))
    rcases hId with hId | ⟨q, hq, hq2⟩
    · exact Or.inl (a3 Id O (hAgree p (List.mem_cons_self _ _)) (Or.inl hId))
    · rcases List.mem_cons.mp hq with hc | hc
      · subst hc
        exact Or.inl (a3 Id O (hAgree q (List.mem_cons_self _ _)) (Or.inr hq2))
      · exact Or.inr ⟨q, hc, hq2.registers_later a2⟩

theorem CreateTypebindings.classSubobjects_returns (env : TypebindingEnv) (Class : UClass)
    (m : USpatialTypebindingManager)
    (hSchema : TMap.Contains env.SchemaDatabase.ClassPathToSchema Class.PathName = true)
    (hInfo : (FindClassInfoByClass m Class).isSome = true) :
    ∃ m1, CreateTypebindings.classSubobjects env Class m = Result.ok () m1 := by
  unfold CreateTypebindings.classSubobjects
  obtain ⟨D, hD⟩ := Option.isSome_iff_exists.mp hSchema
  rw [hD]
  exact CreateTypebindings.subobjects_returns env Class D.SubobjectData m hInfo

/-- The body of the second loop. -/
theorem CreateTypebindings.classSubobjects_spec (env : TypebindingEnv) (Class : UClass)
    (m m1 : USpatialTypebindingManager)
    (h : CreateTypebindings.classSubobjects env Class m = Result.ok () m1) :
    m1.SupportedClasses = m.SupportedClasses ∧ SameClassTables m m1 ∧
    ∀ (Id : Worker_ComponentId) (O : Nat),
      SubobjectOffsetsAgree env [Class] Id O →
      (TMap.Find m.ComponentToOffsetMap Id = some O ∨
        ∃ Offset, IsSubobjectComponentId env m Class Offset Id) →
      TMap.Find m1.ComponentToOffsetMap Id = some O := by
  unfold CreateTypebindings.classSubobjects at h
  cases hD : TMap.Find env.SchemaDatabase.ClassPathToSchema Class.PathName with
  | none => rw [hD] at h; simp at h
  | some D =>
    rw [hD] at h
    simp only at h
    obtain ⟨a1, a2, a3⟩ := CreateTypebindings.subobjects_spec env Class D.SubobjectData m m1 h
    refine ⟨a1, a2, ?_⟩
    intro Id O hAgree hId
    apply a3 Id O (fun p hp T hT hEq => hAgree Class (List.mem_singleton_self _) D hD p hp T hT hEq)
    rcases hId with hId | ⟨Offset, D2, hD2, p, hp, _, hp2⟩
    · exact Or.inl hId
    · rw [hD] at hD2
      have hD3 : D = D2 := Option.some.inj hD2
      subst hD3
      exact Or.inr ⟨p, hp, hp2⟩

theorem CreateTypebindings.allSubobjects_returns (env : TypebindingEnv)
    (Classes : List UClass) :
    ∀ m : USpatialTypebindingManager,
      (∀ C ∈ Classes, TMap.Contains env.SchemaDatabase.ClassPathToSchema C.PathName = true ∧
        (FindClassInfoByClass m C).isSome = true) →
      ∃ m1, CreateTypebindings.allSubobjects env Classes m = Result.ok () m1 := by
  induction Classes with
  | nil => intro m _; exact ⟨m, rfl⟩
  | cons Class rest ih =>
    intro m hAll
    obtain ⟨hS, hI⟩ := hAll Class (List.mem_cons_self _ _)
    obtain ⟨m1, h1⟩ := CreateTypebindings.classSubobjects_returns env Class m hS hI
    have hSame := (CreateTypebindings.classSubobjects_spec env Class m m1 h1).2.1
    obtain ⟨m2, h2⟩ := ih m1 fun C hC =>
      ⟨(hAll C (List.mem_cons_of_mem _ hC)).1,
        (hSame.isSome_eq C).trans (hAll C (List.mem_cons_of_mem _ hC)).2⟩
    refine ⟨m2, ?_⟩
    unfold CreateTypebindings.allSubobjects
    rw [h1]
    exact h2

/-- The second loop: the class infos keep their classes and RPC tables, and an id listed
for a sub-object that is not skipped ends with the offset of that sub-object, provided
no other sub-object lists the id at another offset. -/
theorem CreateTypebindings.allSubobjects_spec (env : TypebindingEnv) (Classes : List UClass) :
    ∀ (m m1 : USpatialTypebindingManager),
      CreateTypebindings.allSubobjects env Classes m = Result.ok () m1 →
      m1.SupportedClasses = m.SupportedClasses ∧ SameClassTables m m1 ∧
      ∀ (Id : Worker_ComponentId) (O : Nat),
        SubobjectOffsetsAgree env Classes Id O →
        (TMap.Find m.ComponentToOffsetMap Id = some O ∨
          ∃ C ∈ Classes, ∃ Offset, IsSubobjectComponentId env m C Offset Id) →
        TMap.Find m1.ComponentToOffsetMap Id = some O := by
  induction Classes with
  | nil =>
    intro m m1 h
    simp only [CreateTypebindings.allSubobjects, Result.ok.injEq, true_and] at h
    subst h
    refine ⟨rfl, SameClassTables.same_tables _, ?_⟩
    intro Id O _ hId
    rcases hId with hId | ⟨C, hC, _⟩
    · exact hId
    · simp at hC
  | cons Class rest ih =>
    intro m m1 h
    unfold CreateTypebindings.allSubobjects at h
    obtain ⟨_, m2, h2, h3⟩ := Result.bind_eq_ok.mp h
    obtain ⟨a1, a2, a3⟩ := CreateTypebindings.classSubobjects_spec env Class m m2 h2
    obtain ⟨b1, b2, b3⟩ := ih m2 m1 h3
    refine ⟨b1.trans a1, a2.then_tables b2, ?_⟩
    intro Id O hAgree hId
    have hHead : SubobjectOffsetsAgree env [Class] Id O := fun C hC =>
      hAgree C (List.mem_cons.mpr (Or.inl (List.mem_singleton.mp hC)))
    have hTail : SubobjectOffsetsAgree env rest Id O := fun C hC =>
      hAgree C (List.mem_cons_of_mem _ hC)
    apply b3 Id O hTail
    rcases hId with hId | ⟨C, hC, Offset, hC2⟩
    · exact Or.inl (a3 Id O hHead (Or.inl hId))
    · rcases List.mem_cons.mp hC with hc | hc
      · subst hc
        exact Or.inl (a3 Id O hHead (Or.inr ⟨Offset, hC2⟩))
      · exact Or.inr ⟨C, hc, Offset, hC2.listed_later a2⟩
/-! ## `CreateTypebindings` as a whole -/

theorem HasRPCTablesOf.tables_later {env : TypebindingEnv}
    {m m1 : USpatialTypebindingManager} (h : SameClassTables m m1) {C : UClass}
    (hC : ∃ Info, FindClassInfoByClass m C = some Info ∧ HasRPCTablesOf env C Info) :
    ∃ Info, FindClassInfoByClass m1 C = some Info ∧ HasRPCTablesOf env C Info := by
  obtain ⟨Info, hInfo, hClass, Built, hBuilt, hR, hM⟩ := hC
  have h1 := h C
  rw [hInfo] at h1
  cases hInfo1 : FindClassInfoByClass m1 C with
  | none => rw [hInfo1] at h1; simp at h1
  | some Info1 =>
    rw [hInfo1] at h1
    simp only [Option.map_some', Option.some.injEq, Prod.mk.injEq] at h1
    exact ⟨Info1, rfl, h1.1.trans hClass, Built, hBuilt, h1.2.1.trans hR, h1.2.2.trans hM⟩

theorem IsSubobjectComponentId.back_same_tables {env : TypebindingEnv}
    {m m1 : USpatialTypebindingManager} (h : SameClassTables m m1)
    {C : UClass} {Offset : Nat} {Id : Worker_ComponentId}
    (hp : IsSubobjectComponentId env m1 C Offset Id) :
    IsSubobjectComponentId env m C Offset Id := by
  obtain ⟨D, hD, p, hp1, hp2, hne, ⟨SC, hSC, hSome⟩, hT⟩ := hp
  exact ⟨D, hD, p, hp1, hp2, hne, ⟨SC, hSC, (h.isSome_eq SC).symm.trans hSome⟩, hT⟩

/-- What `CreateTypebindings` leaves behind, for classes it can bind. -/
theorem CreateTypebindings_spec (env : TypebindingEnv) (m : USpatialTypebindingManager)
    (hCan : CanBindClasses env m.SupportedClasses) :
    ∃ m1, CreateTypebindings env m = Result.ok () m1 ∧
      m1.SupportedClasses = m.SupportedClasses ∧
      (∀ C ∈ m.SupportedClasses,
        ∃ Info, FindClassInfoByClass m1 C = some Info ∧ HasRPCTablesOf env C Info) ∧
      (∀ C, C ∉ m.SupportedClasses →
        (FindClassInfoByClass m1 C).isSome = (FindClassInfoByClass m C).isSome) ∧
      (∀ Id : Worker_ComponentId, (∃ C ∈ m.SupportedClasses, IsActorComponentId env C Id) →
        SubobjectOffsetsAgree env m.SupportedClasses Id 0 →
        TMap.Find m1.ComponentToOffsetMap Id = some 0) ∧
      ∀ (Id : Worker_ComponentId) (Offset : Nat),
        (∃ C ∈ m.SupportedClasses, IsSubobjectComponentId env m1 C Offset Id) →
        SubobjectOffsetsAgree env m.SupportedClasses Id Offset →
        TMap.Find m1.ComponentToOffsetMap Id = some Offset := by
  obtain ⟨m2, h2⟩ := CreateTypebindings.classInfos_returns env m.SupportedClasses m hCan
  obtain ⟨a1, a2, a3, a4⟩ := CreateTypebindings.classInfos_spec env m.SupportedClasses m m2 h2
  obtain ⟨m1, h1⟩ := CreateTypebindings.allSubobjects_returns env m2.SupportedClasses m2
    (by
      intro C hC
      rw [a1] at hC
      obtain ⟨Info, hInfo, _⟩ := a3 C (Or.inl hC)
      exact ⟨(hCan C hC).1, by rw [hInfo]; rfl⟩)
  obtain ⟨b1, b2, b3⟩ := CreateTypebindings.allSubobjects_spec env m2.SupportedClasses m2 m1 h1
  refine ⟨m1, ?_, b1.trans a1, ?_, ?_, ?_, ?_⟩
  · unfold CreateTypebindings
    rw [h2]
    exact h1
  · intro C hC
    exact HasRPCTablesOf.tables_later b2 (a3 C (Or.inl hC))
  · intro C hC
    rw [b2.isSome_eq C, a2 C hC]
  · intro Id hId hAgree
    rw [a1] at b3
    exact b3 Id 0 hAgree (Or.inl (a4 Id (Or.inr hId)))
  · intro Id Offset hId hAgree
    rw [a1] at b3
    obtain ⟨C, hC, hC2⟩ := hId
    exact b3 Id Offset hAgree (Or.inr ⟨C, hC, Offset, hC2.back_same_tables b2⟩)

/-- The tables of an info that carries the RPC tables of its class: each function has a
record, the record names the group of the function, and the array of that group holds
the functions of the group in the order of enumeration. -/
theorem HasRPCTablesOf.tables {env : TypebindingEnv} {Class : UClass} {Info : FClassInfo}
    (h : HasRPCTablesOf env Class Info) (hNodup : (env.GetClassRPCFunctions Class).Nodup) :
    (∀ T : ESchemaComponentType,
      (TMap.Find Info.RPCs T).getD [] =
        (env.GetClassRPCFunctions Class).filter
          (fun G => CreateTypebindings.RPCType env G = some T)) ∧
    ∀ F ∈ env.GetClassRPCFunctions Class, ∃ T, CreateTypebindings.RPCType env F = some T ∧
      TMap.Find Info.RPCs T = some ((env.GetClassRPCFunctions Class).filter
        (fun G => CreateTypebindings.RPCType env G = some T)) ∧
      TMap.Find Info.RPCInfoMap F = some
        { Type_ := T
          Index := List.indexOf F ((env.GetClassRPCFunctions Class).filter
            (fun G => CreateTypebindings.RPCType env G = some T)) } := by
  obtain ⟨_, Built, hBuilt, hR, hM⟩ := h
  have hRPCs := CreateTypebindings.rpcs_RPCs env _ _ _ hBuilt
  have hDef : ∀ T, TMap.Find FClassInfo.default.RPCs T = none := fun _ => rfl
  constructor
  · intro T
    rw [hR, hRPCs T, hDef]
    by_cases hNil : (env.GetClassRPCFunctions Class).filter
        (fun G => CreateTypebindings.RPCType env G = some T) = []
    · simp [hNil]
    · simp [hNil]
  · intro F hF
    obtain ⟨T, hT, hFind⟩ :=
      CreateTypebindings.rpcs_RPCInfoMap env _ _ _ hBuilt hNodup F hF
    refine ⟨T, hT, ?_, ?_⟩
    · rw [hR, hRPCs T, hDef]
      have hmem : F ∈ (env.GetClassRPCFunctions Class).filter
          (fun G => CreateTypebindings.RPCType env G = some T) := by
        simp [List.mem_filter, hF, hT]
      have hNil : (env.GetClassRPCFunctions Class).filter
          (fun G => CreateTypebindings.RPCType env G = some T) ≠ [] :=
        List.ne_nil_of_mem hmem
      simp [hNil]
    · rw [hM, hFind, hDef]
      simp

/-! ## The RPC records index the functions back -/

theorem sampleTypebinding_canBind :
    CanBindClasses sampleTypebindingEnv sampleTypebindingManager.SupportedClasses := by
  unfold CanBindClasses
  decide!

/-- C24: after `CreateTypebindings`, for every supported class whose RPC functions are
pairwise distinct there is an `FClassInfo` in which every RPC function `F` of the class
has a record in `RPCInfoMap`, the record names the RPC group of `F`, and the array of
that group holds `F` at the recorded index; the `i`-th enumerated function of a group
has the record with index `i`, so within one group the indices are `0, 1, 2, …` in the
order of enumeration. -/
theorem C24_RPCInfoMap_indexes_each_function_back (env : TypebindingEnv)
    (m : USpatialTypebindingManager) (hCan : CanBindClasses env m.SupportedClasses) :
    ∃ m1, CreateTypebindings env m = Result.ok () m1 ∧
      ∀ Class ∈ m.SupportedClasses, (env.GetClassRPCFunctions Class).Nodup →
        ∃ Info, FindClassInfoByClass m1 Class = some Info ∧
          (∀ F ∈ env.GetClassRPCFunctions Class,
            ∃ RPCInfo RPCArray, TMap.Find Info.RPCInfoMap F = some RPCInfo ∧
              CreateTypebindings.RPCType env F = some RPCInfo.Type_ ∧
              TMap.Find Info.RPCs RPCInfo.Type_ = some RPCArray ∧
              RPCArray[RPCInfo.Index]? = some F) ∧
          ∀ (T : ESchemaComponentType) (i : Nat) (F : UFunction),
            ((env.GetClassRPCFunctions Class).filter
              (fun G => CreateTypebindings.RPCType env G = some T))[i]? = some F →
            TMap.Find Info.RPCInfoMap F = some { Type_ := T, Index := i } ∧
            (TMap.Find Info.RPCs T).getD [] = (env.GetClassRPCFunctions Class).filter
              (fun G => CreateTypebindings.RPCType env G = some T) := by
  obtain ⟨m1, h1, _, hInfos, _⟩ := CreateTypebindings_spec env m hCan
  refine ⟨m1, h1, ?_⟩
  intro Class hClass hNodup
  obtain ⟨Info, hInfo, hTables⟩ := hInfos Class hClass
  obtain ⟨hArrays, hRecords⟩ := hTables.tables hNodup
  refine ⟨Info, hInfo, ?_, ?_⟩
  · intro F hF
    obtain ⟨T, hT, hArray, hRecord⟩ := hRecords F hF
    refine ⟨_, _, hRecord, hT, hArray, ?_⟩
    apply List.getElem?_indexOf
    simp [List.mem_filter, hF, hT]
  · intro T i F hi
    refine ⟨?_, hArrays T⟩
    obtain ⟨hlt, hget⟩ := List.getElem?_eq_some.mp hi
    have hmem : F ∈ (env.GetClassRPCFunctions Class).filter
        (fun G => CreateTypebindings.RPCType env G = some T) := by
      rw [← hget]; exact List.getElem_mem _
    have hF := List.mem_filter.mp hmem
    obtain ⟨T2, hT2, _, hRecord⟩ := hRecords F hF.1
    have hTT : T2 = T := by
      have h3 : CreateTypebindings.RPCType env F = some T := by simpa using hF.2
      rw [h3] at hT2
      exact (Option.some.inj hT2).symm
    subst hTT
    rw [hRecord]
    have hidx : List.indexOf F ((env.GetClassRPCFunctions Class).filter
        (fun G => CreateTypebindings.RPCType env G = some T2)) = i := by
      rw [← hget]
      exact List.indexOf_getElem (hNodup.filter _) i hlt
    rw [hidx]

theorem C24_RPCInfoMap_indexes_each_function_back_witness :
    CanBindClasses sampleTypebindingEnv sampleTypebindingManager.SupportedClasses ∧
    ∃ m1 Info, CreateTypebindings sampleTypebindingEnv sampleTypebindingManager =
        Result.ok () m1 ∧
      FindClassInfoByClass m1 sampleActorClass = some Info ∧
      TMap.Find Info.RPCInfoMap sampleClientRPC =
        some { Type_ := ESchemaComponentType.SCHEMA_ClientRPC, Index := 0 } ∧
      TMap.Find Info.RPCInfoMap sampleServerRPC =
        some { Type_ := ESchemaComponentType.SCHEMA_ServerRPC, Index := 0 } ∧
      TMap.Find Info.RPCInfoMap sampleSecondClientRPC =
        some { Type_ := ESchemaComponentType.SCHEMA_ClientRPC, Index := 1 } ∧
      (TMap.Find Info.RPCs ESchemaComponentType.SCHEMA_ClientRPC).getD [] =
        [sampleClientRPC, sampleSecondClientRPC] := by
  have hCan := sampleTypebinding_canBind
  obtain ⟨m1, h1, hAll⟩ :=
    C24_RPCInfoMap_indexes_each_function_back sampleTypebindingEnv sampleTypebindingManager hCan
  obtain ⟨Info, hInfo, _, hIdx⟩ := hAll sampleActorClass (by decide!) (by decide!)
  refine ⟨hCan, m1, Info, h1, hInfo, ?_, ?_, ?_, ?_⟩
  · exact (hIdx ESchemaComponentType.SCHEMA_ClientRPC 0 sampleClientRPC (by decide!)).1
  · exact (hIdx ESchemaComponentType.SCHEMA_ServerRPC 0 sampleServerRPC (by decide!)).1
  · exact (hIdx ESchemaComponentType.SCHEMA_ClientRPC 1 sampleSecondClientRPC (by decide!)).1
  · exact (hIdx ESchemaComponentType.SCHEMA_ClientRPC 0 sampleClientRPC (by decide!)).2.trans
      (by decide!)
/-! ## Lookups by class and offset, and by component id -/

theorem FindClassInfoByActorClassAndOffset_root (m : USpatialTypebindingManager)
    (Class : UClass) {Info : FClassInfo} (h : FindClassInfoByClass m Class = some Info) :
    FindClassInfoByActorClassAndOffset m Class 0 = some Info := by
  unfold FindClassInfoByActorClassAndOffset
  rw [h]
  rfl

theorem FindClassInfoByActorClassAndOffset_subobject (m : USpatialTypebindingManager)
    (Class : UClass) {Offset : Nat} {Info : FClassInfo}
    (h : FindClassInfoByClass m Class = some Info) (hOffset : Offset ≠ 0) :
    FindClassInfoByActorClassAndOffset m Class Offset = TMap.Find Info.SubobjectInfo Offset := by
  unfold FindClassInfoByActorClassAndOffset
  rw [h]
  simp only [hOffset, if_false]
  cases TMap.Find Info.SubobjectInfo Offset <;> rfl

theorem FindClassInfoByActorClassAndOffset_unknown (m : USpatialTypebindingManager)
    (Class : UClass) (Offset : Nat) (h : FindClassInfoByClass m Class = none) :
    FindClassInfoByActorClassAndOffset m Class Offset = none := by
  unfold FindClassInfoByActorClassAndOffset
  rw [h]

theorem FindOffsetByComponentId_of_Find (m : USpatialTypebindingManager)
    (ComponentId : Worker_ComponentId) (OutOffset : Nat) {Offset : Nat}
    (h : TMap.Find m.ComponentToOffsetMap ComponentId = some Offset) :
    FindOffsetByComponentId m ComponentId OutOffset = (true, Offset) := by
  unfold FindOffsetByComponentId
  rw [h]

/-- C23: `FindClassInfoByActorClassAndOffset(Class, Offset)` returns the `FClassInfo` of
the class when `Offset` is 0, the `FClassInfo` stored under `Offset` in its
`SubobjectInfo` when `Offset` is a key there, and null when the offset is unknown or the
class has no `FClassInfo`; and after `CreateTypebindings` every supported class has an
`FClassInfo`, a class that is not supported and had none has none,
`FindOffsetByComponentId` yields 0 for every component id the schema database lists for
a supported class, and the offset of the sub-object for every component id it lists for
a sub-object that the second loop does not skip, provided the schema database lists the
id for no sub-object at another offset. -/
theorem C23_lookup_by_offset_and_offset_by_component_id (env : TypebindingEnv)
    (m : USpatialTypebindingManager) (hCan : CanBindClasses env m.SupportedClasses) :
    (∀ (m0 : USpatialTypebindingManager) (Class : UClass) (Offset : Nat),
      (∀ Info, FindClassInfoByClass m0 Class = some Info →
        FindClassInfoByActorClassAndOffset m0 Class 0 = some Info ∧
        (∀ SubobjectInfo, Offset ≠ 0 →
          TMap.Find Info.SubobjectInfo Offset = some SubobjectInfo →
          FindClassInfoByActorClassAndOffset m0 Class Offset = some SubobjectInfo) ∧
        (Offset ≠ 0 → TMap.Find Info.SubobjectInfo Offset = none →
          FindClassInfoByActorClassAndOffset m0 Class Offset = none)) ∧
      (FindClassInfoByClass m0 Class = none →
        FindClassInfoByActorClassAndOffset m0 Class Offset = none)) ∧
    ∃ m1, CreateTypebindings env m = Result.ok () m1 ∧
      (∀ Class ∈ m.SupportedClasses,
        ∃ Info, FindClassInfoByActorClassAndOffset m1 Class 0 = some Info ∧
          Info.Class = some Class) ∧
      (∀ (Class : UClass) (Offset : Nat), Class ∉ m.SupportedClasses →
        FindClassInfoByClass m Class = none →
        FindClassInfoByActorClassAndOffset m1 Class Offset = none) ∧
      (∀ Class ∈ m.SupportedClasses, ∀ ComponentId : Worker_ComponentId,
        IsActorComponentId env Class ComponentId →
        SubobjectOffsetsAgree env m.SupportedClasses ComponentId 0 →
        ∀ OutOffset, FindOffsetByComponentId m1 ComponentId OutOffset = (true, 0)) ∧
      ∀ Class ∈ m.SupportedClasses, ∀ (Offset : Nat) (ComponentId : Worker_ComponentId),
        IsSubobjectComponentId env m1 Class Offset ComponentId →
        SubobjectOffsetsAgree env m.SupportedClasses ComponentId Offset →
        ∀ OutOffset, FindOffsetByComponentId m1 ComponentId OutOffset = (true, Offset) := by
  constructor
  · intro m0 Class Offset
    refine ⟨fun Info hInfo => ⟨FindClassInfoByActorClassAndOffset_root m0 Class hInfo, ?_, ?_⟩,
      FindClassInfoByActorClassAndOffset_unknown m0 Class Offset⟩
    · intro Sub hOffset hSub
      rw [FindClassInfoByActorClassAndOffset_subobject m0 Class hInfo hOffset, hSub]
    · intro hOffset hSub
      rw [FindClassInfoByActorClassAndOffset_subobject m0 Class hInfo hOffset, hSub]
  · obtain ⟨m1, h1, _, hInfos, hOthers, hActor, hSub⟩ := CreateTypebindings_spec env m hCan
    refine ⟨m1, h1, ?_, ?_, ?_, ?_⟩
    · intro Class hClass
      obtain ⟨Info, hInfo, hTables⟩ := hInfos Class hClass
      exact ⟨Info, FindClassInfoByActorClassAndOffset_root m1 Class hInfo, hTables.1⟩
    · intro Class Offset hClass hNone
      apply FindClassInfoByActorClassAndOffset_unknown
      have h2 := hOthers Class hClass
      rw [hNone] at h2
      cases h3 : FindClassInfoByClass m1 Class with
      | none => rfl
      | some I => rw [h3] at h2; simp at h2
    · intro Class hClass Id hId hAgree Out
      exact FindOffsetByComponentId_of_Find m1 Id Out (hActor Id ⟨Class, hClass, hId⟩ hAgree)
    · intro Class hClass Offset Id hId hAgree Out
      exact FindOffsetByComponentId_of_Find m1 Id Out
        (hSub Id Offset ⟨Class, hClass, hId⟩ hAgree)
theorem sampleTypebinding_schema_actor :
    TMap.Find sampleTypebindingEnv.SchemaDatabase.ClassPathToSchema sampleActorClass.PathName =
      some sampleActorSchemaData := by
  rfl

theorem sampleTypebinding_schema_component :
    TMap.Find sampleTypebindingEnv.SchemaDatabase.ClassPathToSchema
        sampleComponentClass.PathName =
      some { SchemaComponents := fun _ => 0, SubobjectData := [] } := by
  rfl

/-- In the sample database no sub-object lists the component id `101`, and the only
sub-object that lists `201` sits at offset `1`. -/
theorem sampleTypebinding_offsets_agree :
    SubobjectOffsetsAgree sampleTypebindingEnv sampleTypebindingManager.SupportedClasses 101 0 ∧
    SubobjectOffsetsAgree sampleTypebindingEnv sampleTypebindingManager.SupportedClasses 201 1 := by
  constructor
  · intro Class hClass D hD p hp T hT hEq
    simp only [sampleTypebindingManager, List.mem_cons, List.mem_singleton, List.not_mem_nil,
      or_false] at hClass
    rcases hClass with hc | hc
    · subst hc
      rw [sampleTypebinding_schema_actor] at hD
      have hD2 := Option.some.inj hD
      subst hD2
      simp only [sampleActorSchemaData, List.mem_singleton] at hp
      subst hp
      cases T <;> simp [sampleSubobjectSchemaData] at hEq
    · subst hc
      rw [sampleTypebinding_schema_component] at hD
      have hD2 := Option.some.inj hD
      subst hD2
      simp at hp
  · intro Class hClass D hD p hp T hT hEq
    simp only [sampleTypebindingManager, List.mem_cons, List.mem_singleton, List.not_mem_nil,
      or_false] at hClass
    rcases hClass with hc | hc
    · subst hc
      rw [sampleTypebinding_schema_actor] at hD
      have hD2 := Option.some.inj hD
      subst hD2
      simp only [sampleActorSchemaData, List.mem_singleton] at hp
      subst hp
      rfl
    · subst hc
      rw [sampleTypebinding_schema_component] at hD
      have hD2 := Option.some.inj hD
      subst hD2
      simp at hp

theorem C23_lookup_by_offset_and_offset_by_component_id_witness :
    CanBindClasses sampleTypebindingEnv sampleTypebindingManager.SupportedClasses ∧
    ∃ m1, CreateTypebindings sampleTypebindingEnv sampleTypebindingManager = Result.ok () m1 ∧
      (∃ Info, FindClassInfoByActorClassAndOffset m1 sampleActorClass 0 = some Info ∧
        Info.Class = some sampleActorClass) ∧
      FindOffsetByComponentId m1 101 7 = (true, 0) ∧
      FindOffsetByComponentId m1 201 7 = (true, 1) := by
  have hCan := sampleTypebinding_canBind
  obtain ⟨m1, h1, hRoot, _, hActor, hSub⟩ :=
    (C23_lookup_by_offset_and_offset_by_component_id sampleTypebindingEnv
      sampleTypebindingManager hCan).2
  have hm : (CreateTypebindings sampleTypebindingEnv sampleTypebindingManager).state = m1 :=
    Result.state_of_eq_ok h1
  refine ⟨hCan, m1, h1, hRoot sampleActorClass (by decide!), ?_, ?_⟩
  · exact hActor sampleActorClass (by decide!) 101
      ⟨by decide, sampleActorSchemaData, sampleTypebinding_schema_actor,
        ESchemaComponentType.SCHEMA_ClientRPC, by decide, rfl⟩
      sampleTypebinding_offsets_agree.1 7
  · refine hSub sampleActorClass (by decide!) 1 201
      ⟨sampleActorSchemaData, sampleTypebinding_schema_actor, (1, sampleSubobjectSchemaData),
        List.mem_singleton_self _, rfl, by decide, ⟨sampleComponentClass, rfl, ?_⟩,
        ESchemaComponentType.SCHEMA_ClientRPC, by decide, rfl⟩
      sampleTypebinding_offsets_agree.2 7
    rw [← hm]
    decide!
/-- The tables `CreateTypebindings` builds on the sample database. -/
theorem sampleTypebinding_tables :
    (CreateTypebindings sampleTypebindingEnv sampleTypebindingManager).state.ComponentToOffsetMap =
      [(100, 0), (101, 0), (102, 0), (200, 1), (201, 1)] ∧
    (FindClassInfoByActorClassAndOffset
      (CreateTypebindings sampleTypebindingEnv sampleTypebindingManager).state
      sampleActorClass 1).map (fun Info => Info.SubobjectName) = some "Inventory" ∧
    (FindClassInfoByActorClassAndOffset
      (CreateTypebindings sampleTypebindingEnv sampleTypebindingManager).state
      sampleActorClass 2).isSome = false ∧
    FindOffsetByComponentId
      (CreateTypebindings sampleTypebindingEnv sampleTypebindingManager).state 999 7 =
        (false, 7) := by
  decide!

end SpatialGDK
